import Mathlib

/-!
# gvfs AFP backend and daemon channel: a shallow embedding

Definitions translated from `daemon/gvfsbackendafp.c` and `daemon/gvfschannel.c`.

Conventions of the embedding:

* machine integers are `Nat` (unsigned) and `Int` (signed); every conversion the C
  code performs is written with an explicit `to_g…` function (two's complement,
  LP64: `gsize` is 64 bits wide);
* C strings and buffers are lists of bytes (`List Nat`);
* a function whose C original reads a local variable that a failed reply read left
  uninitialised returns `none` (the behaviour of the C code is undefined there);
* asynchronous exchanges are explicit: a command queued on the connection is
  recorded together with the callback registered for it, and a driver hands the
  transport's answers to the callbacks in order.
-/

namespace Gvfs

/-! ## Machine integers -/

/-- Conversion to `guint16`. -/
def to_guint16 (x : Int) : Nat := (x % 65536).toNat

/-- Conversion to `guint32`. -/
def to_guint32 (x : Int) : Nat := (x % 4294967296).toNat

/-- Conversion to `guint64`. -/
def to_guint64 (x : Int) : Nat := (x % 18446744073709551616).toNat

/-- Conversion to `gsize` (`unsigned long`, 64 bits on LP64). -/
def to_gsize (x : Int) : Nat := to_guint64 x

/-- Conversion to `gint16` (two's complement). -/
def to_gint16 (x : Int) : Int := (x + 32768) % 65536 - 32768

/-- Conversion to `gint32` / `gint` (two's complement). -/
def to_gint32 (x : Int) : Int := (x + 2147483648) % 4294967296 - 2147483648

/-- Conversion to `gint64` / `goffset` (two's complement). -/
def to_gint64 (x : Int) : Int :=
  (x + 9223372036854775808) % 18446744073709551616 - 9223372036854775808

def G_MAXINT16 : Int := 32767
def G_MAXINT32 : Int := 2147483647
def G_MAXUINT32 : Nat := 4294967295

/-! ## Wire codec (`gvfsafpconnection.c`, not part of the sources) -/

/-- Modelled from the spec: the wire codec's `put_uint16/uint32/int64 …` emit a
typed scalar of a fixed width; `be_bytes k n` is the `k`-byte big-endian (network
byte order) image of `n`. The codec itself (`gvfsafpconnection.c`) is missing. -/
def be_bytes : Nat → Nat → List Nat
  | 0, _ => []
  | k + 1, n => (n / 256 ^ k) % 256 :: be_bytes k n

/-- Modelled from the spec: the value of a big-endian byte string, the inverse of
`be_bytes` used by the typed scalar reads of the missing wire codec. -/
def be_value (bs : List Nat) : Nat := bs.foldl (fun acc b => acc * 256 + b) 0

/-- Modelled from the spec: `GVfsAfpReply` of the missing `gvfsafpconnection.c`, a
received reply buffer with its result code and a read position (ReplyCursor). -/
structure GVfsAfpReply where
  result_code : Int
  data : List Nat
  pos : Nat
  deriving DecidableEq, Repr

inductive GSeekType
  | G_SEEK_CUR
  | G_SEEK_SET
  | G_SEEK_END
  deriving DecidableEq, Repr

def g_vfs_afp_reply_get_result_code (reply : GVfsAfpReply) : Int := reply.result_code

def g_vfs_afp_reply_get_pos (reply : GVfsAfpReply) : Nat := reply.pos

/-- Modelled from the spec: `g_vfs_afp_reply_get_size`, the number of bytes of the
reply buffer (missing `gvfsafpconnection.c`). -/
def g_vfs_afp_reply_get_size (reply : GVfsAfpReply) : Nat := reply.data.length

/-- Modelled from the spec: `g_vfs_afp_reply_get_data` (`slice(length)`), a view of
the next `size` bytes; it advances the cursor and fails when fewer bytes remain. -/
def g_vfs_afp_reply_get_data (reply : GVfsAfpReply) (size : Nat) :
    Option (List Nat × GVfsAfpReply) :=
  if reply.pos + size ≤ reply.data.length then
    some ((reply.data.drop reply.pos).take size, { reply with pos := reply.pos + size })
  else none

/-- Modelled from the spec: `g_vfs_afp_reply_read_byte` advances the cursor by one
byte and fails if no byte remains (missing `gvfsafpconnection.c`). -/
def g_vfs_afp_reply_read_byte (reply : GVfsAfpReply) : Option (Nat × GVfsAfpReply) :=
  (g_vfs_afp_reply_get_data reply 1).map (fun r => (be_value r.1, r.2))

/-- Modelled from the spec: `g_vfs_afp_reply_read_uint16` advances the cursor by two
bytes and fails if fewer remain (missing `gvfsafpconnection.c`). -/
def g_vfs_afp_reply_read_uint16 (reply : GVfsAfpReply) : Option (Nat × GVfsAfpReply) :=
  (g_vfs_afp_reply_get_data reply 2).map (fun r => (be_value r.1, r.2))

/-- Modelled from the spec: `g_vfs_afp_reply_read_int16`, as `read_uint16` with the
value read as a signed 16-bit integer. -/
def g_vfs_afp_reply_read_int16 (reply : GVfsAfpReply) : Option (Int × GVfsAfpReply) :=
  (g_vfs_afp_reply_get_data reply 2).map (fun r => (to_gint16 (be_value r.1), r.2))

/-- Modelled from the spec: `g_vfs_afp_reply_read_uint32` advances the cursor by
four bytes and fails if fewer remain. -/
def g_vfs_afp_reply_read_uint32 (reply : GVfsAfpReply) : Option (Nat × GVfsAfpReply) :=
  (g_vfs_afp_reply_get_data reply 4).map (fun r => (be_value r.1, r.2))

/-- Modelled from the spec: `g_vfs_afp_reply_read_int32`, as `read_uint32` with the
value read as a signed 32-bit integer. -/
def g_vfs_afp_reply_read_int32 (reply : GVfsAfpReply) : Option (Int × GVfsAfpReply) :=
  (g_vfs_afp_reply_get_data reply 4).map (fun r => (to_gint32 (be_value r.1), r.2))

/-- Modelled from the spec: `g_vfs_afp_reply_read_uint64` advances the cursor by
eight bytes and fails if fewer remain. -/
def g_vfs_afp_reply_read_uint64 (reply : GVfsAfpReply) : Option (Nat × GVfsAfpReply) :=
  (g_vfs_afp_reply_get_data reply 8).map (fun r => (be_value r.1, r.2))

/-- Modelled from the spec: `g_vfs_afp_reply_read_int64`, as `read_uint64` with the
value read as a signed 64-bit integer. -/
def g_vfs_afp_reply_read_int64 (reply : GVfsAfpReply) : Option (Int × GVfsAfpReply) :=
  (g_vfs_afp_reply_get_data reply 8).map (fun r => (to_gint64 (be_value r.1), r.2))

/-- Modelled from the spec: `g_vfs_afp_reply_seek` (`seek(absolute_offset)`)
repositions the cursor; the only bound checked is the buffer length, a target
beyond it fails (`SeekOutOfRange`) and leaves the cursor where it was. The source
only seeks with `G_SEEK_SET`; the other origins are relative to the cursor and to
the end of the buffer. -/
def g_vfs_afp_reply_seek (reply : GVfsAfpReply) (offset : Int) (type : GSeekType) :
    Option GVfsAfpReply :=
  let absolute : Int :=
    match type with
    | .G_SEEK_CUR => reply.pos + offset
    | .G_SEEK_SET => offset
    | .G_SEEK_END => reply.data.length + offset
  if 0 ≤ absolute ∧ absolute ≤ reply.data.length then
    some { reply with pos := absolute.toNat }
  else none

/-- Modelled from the spec: `GVfsAfpName`, a length-prefixed UTF-8 "AFP name" with
its text-encoding hint (missing `gvfsafpconnection.c`). -/
structure GVfsAfpName where
  text_encoding : Nat
  str : List Nat
  deriving DecidableEq, Repr

def g_vfs_afp_name_new (text_encoding : Nat) (str : List Nat) : GVfsAfpName :=
  { text_encoding := text_encoding, str := str }

/-- Modelled from the spec: `g_vfs_afp_reply_read_afp_name` decodes a
length-prefixed name; the flag selects the two-stage form in which a 32-bit text
encoding precedes the 16-bit length. A failed read leaves the cursor in place. -/
def g_vfs_afp_reply_read_afp_name (reply : GVfsAfpReply) (read_text_encoding : Bool) :
    Option (GVfsAfpName × GVfsAfpReply) :=
  (if read_text_encoding then g_vfs_afp_reply_read_uint32 reply else some (0, reply)).bind
    fun e =>
  (g_vfs_afp_reply_read_uint16 e.2).bind fun l =>
  (g_vfs_afp_reply_get_data l.2 l.1).bind fun d =>
  some (g_vfs_afp_name_new e.1 d.1, d.2)

/-- Modelled from the spec: `g_vfs_afp_name_get_string`, the UTF-8 string held by a
name (missing `gvfsafpconnection.c`). -/
def g_vfs_afp_name_get_string (afp_name : GVfsAfpName) : List Nat := afp_name.str

/-! ## Constants of `gvfsafpconnection.h` (not part of the sources) -/

/-- Modelled from the spec: the flags of a MetadataBitmap. The header that declares
them is missing; the values are those of the AFP protocol. No theorem below depends
on the values. -/
def AFP_FILEDIR_BITMAP_ATTRIBUTE_BIT : Nat := 0x1
def AFP_FILEDIR_BITMAP_CREATE_DATE_BIT : Nat := 0x4
def AFP_FILEDIR_BITMAP_MOD_DATE_BIT : Nat := 0x8
def AFP_DIR_BITMAP_OFFSPRING_COUNT_BIT : Nat := 0x200
def AFP_FILE_BITMAP_EXT_DATA_FORK_LEN_BIT : Nat := 0x800
def AFP_FILEDIR_BITMAP_UTF8_NAME_BIT : Nat := 0x2000
def AFP_FILEDIR_ATTRIBUTES_BITMAP_INVISIBLE_BIT : Nat := 0x1

/-- The C test `bitmap & BIT` used as a condition. -/
def has_bit (bitmap bit : Nat) : Bool := bitmap &&& bit != 0

/-! ## `GFileInfo` (GIO, external) -/

inductive GFileType
  | G_FILE_TYPE_REGULAR
  | G_FILE_TYPE_DIRECTORY
  deriving DecidableEq, Repr

/-- A content type: the literal `"inode/directory"`, or what the external
`g_content_type_guess` returns for a name. -/
inductive ContentType
  | inode_directory
  | guess (utf8_name : List Nat)
  deriving DecidableEq, Repr

/-- An icon: `g_themed_icon_new ("folder")`, `g_content_type_get_icon`, or the
themed icon of a backend (`g_vfs_backend_set_icon_name`). -/
inductive GIcon
  | themed_folder
  | content_type_icon (content_type : ContentType)
  | themed (icon_name : String)
  deriving DecidableEq, Repr

/-- The attributes of a `GFileInfo` that the backend sets; `none` is "not set". -/
structure GFileInfo where
  file_type : Option GFileType := none
  content_type : Option ContentType := none
  fast_content_type : Option ContentType := none
  icon : Option GIcon := none
  is_hidden : Option Bool := none
  time_created : Option Nat := none
  time_modified : Option Nat := none
  children_count : Option Nat := none
  size : Option Nat := none
  name : Option (List Nat) := none
  display_name : Option (List Nat) := none
  deriving DecidableEq, Repr

def g_file_info_new : GFileInfo := {}

/-- GIO's `g_file_info_get_size`: the `standard::size` attribute (a `guint64`)
returned as a `goffset`, 0 when the attribute is not set. -/
def g_file_info_get_size (info : GFileInfo) : Int := to_gint64 (info.size.getD 0)

/-! ## The backend (`gvfsbackendafp.c`) -/

/-- `GVfsAfpServer`, as far as the backend reads it. -/
structure GVfsAfpServer where
  version : Nat
  server_name : List Nat := []
  utf8_server_name : Option (List Nat) := none
  deriving DecidableEq, Repr

/-- GIO's `GNetworkAddress`. -/
structure GNetworkAddress where
  hostname : List Nat
  port : Nat
  deriving DecidableEq, Repr

/-- A `GMountSpec`: its type and the items the backend sets. -/
structure GMountSpec where
  type : String
  host : Option (List Nat) := none
  volume : Option (List Nat) := none
  user : Option (List Nat) := none
  deriving DecidableEq, Repr

/-- `GVfsBackend` (`gvfsbackend.c`, not part of the sources), the parent instance:
what the backend sets on it when it mounts and reads back in query-info. -/
structure GVfsBackend where
  mount_spec : Option GMountSpec := none
  display_name : Option (List Nat) := none
  icon_name : Option String := none
  user_visible : Bool := false
  deriving DecidableEq, Repr

def g_vfs_backend_get_display_name (backend : GVfsBackend) : Option (List Nat) :=
  backend.display_name

/-- `g_vfs_backend_get_icon`: the themed icon of the icon name, `NULL` without one. -/
def g_vfs_backend_get_icon (backend : GVfsBackend) : Option GIcon :=
  backend.icon_name.map GIcon.themed

structure GVfsBackendAfp where
  volume : List Nat
  user : Option (List Nat)
  server : GVfsAfpServer
  time_diff : Int
  volume_id : Nat
  parent_instance : GVfsBackend := {}
  addr : Option GNetworkAddress := none
  deriving DecidableEq, Repr

inductive AfpHandleType
  | AFP_HANDLE_TYPE_READ_FILE
  | AFP_HANDLE_TYPE_CREATE_FILE
  | AFP_HANDLE_TYPE_REPLACE_FILE
  | AFP_HANDLE_TYPE_APPEND_TO_FILE
  deriving DecidableEq, Repr

structure AfpHandle where
  type : AfpHandleType
  fork_refnum : Int
  offset : Int
  filename : Option (List Nat)
  tmp_filename : Option (List Nat)
  deriving DecidableEq, Repr

/-- `afp_handle_new`: `g_slice_new0` zeroes the structure. -/
def afp_handle_new (fork_refnum : Int) : AfpHandle :=
  { type := .AFP_HANDLE_TYPE_READ_FILE, fork_refnum := fork_refnum, offset := 0,
    filename := none, tmp_filename := none }

/-- The byte `'.'`. -/
def DOT : Nat := 46

/-- The byte `'/'`. -/
def SLASH : Nat := 47

/-! ### `fill_info`

The C function is a sequence of independent blocks, one per field, each guarded by
its flag of `bitmap`. Every block is a definition of its own here, in the order of
the source, and `fill_info` chains them. The C code ignores the result of every
reply read: when a read fails the local it was to fill is uninitialised and the
result is `none`; a failed seek only leaves the cursor where it was. -/

/-- `fill_info`, the file-type block: directories also get their content type and
icon. -/
def fill_info_type (info : GFileInfo) (directory : Bool) : GFileInfo :=
  if directory then
    { info with file_type := some .G_FILE_TYPE_DIRECTORY,
                content_type := some .inode_directory,
                icon := some .themed_folder }
  else { info with file_type := some .G_FILE_TYPE_REGULAR }

/-- `fill_info`, the block `if (bitmap & AFP_FILEDIR_BITMAP_ATTRIBUTE_BIT)`. -/
def fill_info_attributes (bitmap : Nat) (s : GFileInfo × GVfsAfpReply) :
    Option (GFileInfo × GVfsAfpReply) :=
  if has_bit bitmap AFP_FILEDIR_BITMAP_ATTRIBUTE_BIT then
    (g_vfs_afp_reply_read_uint16 s.2).bind fun r =>
      some (if has_bit r.1 AFP_FILEDIR_ATTRIBUTES_BITMAP_INVISIBLE_BIT then
              { s.1 with is_hidden := some true }
            else s.1, r.2)
  else some s

/-- `fill_info`, the block `if (bitmap & AFP_FILEDIR_BITMAP_CREATE_DATE_BIT)`: the
sum of two `gint32` is stored as a `guint64` attribute. -/
def fill_info_create_date (time_diff : Int) (bitmap : Nat) (s : GFileInfo × GVfsAfpReply) :
    Option (GFileInfo × GVfsAfpReply) :=
  if has_bit bitmap AFP_FILEDIR_BITMAP_CREATE_DATE_BIT then
    (g_vfs_afp_reply_read_int32 s.2).bind fun r =>
      some ({ s.1 with time_created := some (to_guint64 (to_gint32 (r.1 + time_diff))) }, r.2)
  else some s

/-- `fill_info`, the block `if (bitmap & AFP_FILEDIR_BITMAP_MOD_DATE_BIT)`. -/
def fill_info_mod_date (time_diff : Int) (bitmap : Nat) (s : GFileInfo × GVfsAfpReply) :
    Option (GFileInfo × GVfsAfpReply) :=
  if has_bit bitmap AFP_FILEDIR_BITMAP_MOD_DATE_BIT then
    (g_vfs_afp_reply_read_int32 s.2).bind fun r =>
      some ({ s.1 with time_modified := some (to_guint64 (to_gint32 (r.1 + time_diff))) }, r.2)
  else some s

/-- `fill_info`, the directory specific and file specific attributes. -/
def fill_info_specific (directory : Bool) (bitmap : Nat) (s : GFileInfo × GVfsAfpReply) :
    Option (GFileInfo × GVfsAfpReply) :=
  if directory then
    if has_bit bitmap AFP_DIR_BITMAP_OFFSPRING_COUNT_BIT then
      (g_vfs_afp_reply_read_uint32 s.2).bind fun r =>
        some ({ s.1 with children_count := some r.1 }, r.2)
    else some s
  else
    if has_bit bitmap AFP_FILE_BITMAP_EXT_DATA_FORK_LEN_BIT then
      (g_vfs_afp_reply_read_uint64 s.2).bind fun r =>
        some ({ s.1 with size := some r.1 }, r.2)
    else some s

/-- `fill_info`, what the name block sets on the info once `utf8_name` is known:
name and display name, hidden for a leading dot, and for a file the guessed content
type and its icon. -/
def fill_info_set_name (directory : Bool) (info : GFileInfo) (utf8_name : List Nat) :
    GFileInfo :=
  let info := { info with name := some utf8_name, display_name := some utf8_name }
  let info := if utf8_name.head? = some DOT then { info with is_hidden := some true } else info
  if !directory then
    { info with content_type := some (ContentType.guess utf8_name),
                fast_content_type := some (ContentType.guess utf8_name),
                icon := some (.content_type_icon (ContentType.guess utf8_name)) }
  else info

/-- `fill_info`, the block `if (bitmap & AFP_FILEDIR_BITMAP_UTF8_NAME_BIT)`: read
the offset, remember `old_pos`, seek to `start_pos + UTF8Name_offset`, read the
name, seek back to `old_pos`. -/
def fill_info_name (directory : Bool) (start_pos : Nat) (bitmap : Nat)
    (s : GFileInfo × GVfsAfpReply) : Option (GFileInfo × GVfsAfpReply) :=
  if has_bit bitmap AFP_FILEDIR_BITMAP_UTF8_NAME_BIT then
    (g_vfs_afp_reply_read_uint16 s.2).bind fun r =>
      let old_pos := g_vfs_afp_reply_get_pos r.2
      let reply := (g_vfs_afp_reply_seek r.2 (start_pos + r.1) .G_SEEK_SET).getD r.2
      (g_vfs_afp_reply_read_afp_name reply true).bind fun n =>
        let utf8_name := g_vfs_afp_name_get_string n.1
        some (fill_info_set_name directory s.1 utf8_name,
              (g_vfs_afp_reply_seek n.2 old_pos .G_SEEK_SET).getD n.2)
  else some s

/-- `fill_info`: the blocks above in the order of the source; `start_pos` is the
cursor on entry. -/
def fill_info (afp_backend : GVfsBackendAfp) (info : GFileInfo) (reply : GVfsAfpReply)
    (directory : Bool) (bitmap : Nat) : Option (GFileInfo × GVfsAfpReply) :=
  let start_pos := g_vfs_afp_reply_get_pos reply
  (fill_info_attributes bitmap (fill_info_type info directory, reply)).bind fun s1 =>
  (fill_info_create_date afp_backend.time_diff bitmap s1).bind fun s2 =>
  (fill_info_mod_date afp_backend.time_diff bitmap s2).bind fun s3 =>
  (fill_info_specific directory bitmap s3).bind fun s4 =>
  fill_info_name directory start_pos bitmap s4

/-! ## Jobs and errors (GLib and the job framework, external) -/

/-- A `GError`: domain (a quark), code and message. -/
structure GError where
  domain : Nat
  code : Int
  message : String
  deriving DecidableEq, Repr

/-- The quark of the `G_IO_ERROR` domain (its numeric value is immaterial). -/
def G_IO_ERROR : Nat := 1

/-! The codes of `GIOErrorEnum` (GIO) that the backend uses. -/

def G_IO_ERROR_FAILED : Int := 0
def G_IO_ERROR_NOT_FOUND : Int := 1
def G_IO_ERROR_EXISTS : Int := 2
def G_IO_ERROR_NOT_EMPTY : Int := 5
def G_IO_ERROR_NOT_REGULAR_FILE : Int := 6
def G_IO_ERROR_INVALID_FILENAME : Int := 10
def G_IO_ERROR_NO_SPACE : Int := 12
def G_IO_ERROR_INVALID_ARGUMENT : Int := 13
def G_IO_ERROR_PERMISSION_DENIED : Int := 14
def G_IO_ERROR_NOT_SUPPORTED : Int := 15
def G_IO_ERROR_CANT_CREATE_BACKUP : Int := 22
def G_IO_ERROR_TOO_MANY_OPEN_FILES : Int := 31

/-- The classes of job the two files handle (`gvfsjob*.h`). -/
inductive GVfsJobType
  | G_VFS_TYPE_JOB_MOUNT
  | G_VFS_TYPE_JOB_ENUMERATE
  | G_VFS_TYPE_JOB_QUERY_INFO
  | G_VFS_TYPE_JOB_OPEN_FOR_READ
  | G_VFS_TYPE_JOB_CLOSE_READ
  | G_VFS_TYPE_JOB_READ
  | G_VFS_TYPE_JOB_SEEK_READ
  | G_VFS_TYPE_JOB_SEEK_WRITE
  | G_VFS_TYPE_JOB_OPEN_FOR_WRITE
  | G_VFS_TYPE_JOB_WRITE
  | G_VFS_TYPE_JOB_CLOSE_WRITE
  | G_VFS_TYPE_JOB_DELETE
  | G_VFS_TYPE_JOB_MAKE_DIRECTORY
  | G_VFS_TYPE_JOB_SET_DISPLAY_NAME
  deriving DecidableEq, Repr

/-- The outcome reported for a job. -/
inductive JobStatus
  | running
  | succeeded
  | failed (error : GError)
  deriving DecidableEq, Repr

/-- A `GVfsJob` as the two files see it: its class and the outcome reported through
`g_vfs_job_succeeded` / `g_vfs_job_failed…` (the job framework is external). -/
structure GVfsJob where
  type : GVfsJobType
  status : JobStatus := .running
  deriving DecidableEq, Repr

def g_vfs_job_succeeded (job : GVfsJob) : GVfsJob := { job with status := .succeeded }

def g_vfs_job_failed_from_error (job : GVfsJob) (error : GError) : GVfsJob :=
  { job with status := .failed error }

def g_vfs_job_failed_literal (job : GVfsJob) (domain : Nat) (code : Int) (message : String) :
    GVfsJob :=
  { job with status := .failed { domain := domain, code := code, message := message } }

/-- `g_vfs_job_failed` with its `printf` format already expanded. -/
def g_vfs_job_failed (job : GVfsJob) (domain : Nat) (code : Int) (message : String) : GVfsJob :=
  { job with status := .failed { domain := domain, code := code, message := message } }

/-- The message `_("Got error code: %d from server")`. -/
def got_error_code_message (res_code : Int) : String :=
  "Got error code: " ++ toString res_code ++ " from server"

/-! The values of `AfpResultCode` (`gvfsafpconnection.h`, not part of the sources)
that the backend names; the numbers are those of the AFP protocol. -/

def AFP_RESULT_NO_ERROR : Int := 0
def AFP_RESULT_ACCESS_DENIED : Int := -5000
def AFP_RESULT_DIR_NOT_EMPTY : Int := -5007
def AFP_RESULT_DISK_FULL : Int := -5008
def AFP_RESULT_EOF_ERR : Int := -5009
def AFP_RESULT_LOCK_ERR : Int := -5013
def AFP_RESULT_OBJECT_EXISTS : Int := -5017
def AFP_RESULT_OBJECT_NOT_FOUND : Int := -5018
def AFP_RESULT_OBJECT_TYPE_ERR : Int := -5025
def AFP_RESULT_TOO_MANY_FILES_OPEN : Int := -5026
def AFP_RESULT_VOL_LOCKED : Int := -5031
def AFP_RESULT_OBJECT_LOCKED : Int := -5032
def AFP_RESULT_FILE_BUSY : Int := -5010
def AFP_RESULT_FLAT_VOL : Int := -5011
def AFP_RESULT_CANT_RENAME : Int := -5028

/-- What the transport hands to a reply callback: a reply, or `reply == NULL`
together with an error. -/
abbrev TransportResult := Except GError GVfsAfpReply

/-! ### Fork parameters -/

/-- `get_fork_parms_cb`: the result stored in the `GSimpleAsyncResult`, an error
or the info decoded by `fill_info` with the bitmap the reply starts with. -/
def get_fork_parms_cb (afp_backend : GVfsBackendAfp) (reply : TransportResult) :
    Option (Except GError GFileInfo) :=
  match reply with
  | .error error => some (.error error)
  | .ok reply =>
    let res_code := g_vfs_afp_reply_get_result_code reply
    if res_code ≠ AFP_RESULT_NO_ERROR then
      some (.error { domain := G_IO_ERROR, code := G_IO_ERROR_FAILED,
                     message := got_error_code_message res_code })
    else
      (g_vfs_afp_reply_read_uint16 reply).bind fun b =>
      (fill_info afp_backend g_file_info_new b.2 false b.1).bind fun r =>
      some (.ok r.1)

/-- `get_fork_parms_finish`: the error or the info of the async result. -/
def get_fork_parms_finish (res : Except GError GFileInfo) : Except GError GFileInfo := res

/-! ### Write -/

structure GVfsJobWrite where
  base : GVfsJob
  data_size : Nat
  written_size : Nat := 0
  deriving DecidableEq, Repr

def g_vfs_job_write_set_written_size (job : GVfsJobWrite) (written_size : Nat) :
    GVfsJobWrite :=
  { job with written_size := written_size }

/-- `write_ext_cb`. `written_size` is a `gsize`: the difference of the two `gint64`
is converted to it. -/
def write_ext_cb (reply : TransportResult) (job : GVfsJobWrite) (afp_handle : AfpHandle) :
    Option (GVfsJobWrite × AfpHandle) :=
  match reply with
  | .error error => some ({ job with base := g_vfs_job_failed_from_error job.base error },
                          afp_handle)
  | .ok reply =>
    let res_code := g_vfs_afp_reply_get_result_code reply
    if ¬ (res_code = AFP_RESULT_NO_ERROR ∨ res_code = AFP_RESULT_LOCK_ERR) then
      let base :=
        if res_code = AFP_RESULT_ACCESS_DENIED then
          g_vfs_job_failed_literal job.base G_IO_ERROR G_IO_ERROR_FAILED
            "File is not open for write access"
        else if res_code = AFP_RESULT_DISK_FULL then
          g_vfs_job_failed_literal job.base G_IO_ERROR G_IO_ERROR_NO_SPACE
            "Not enough space on volume"
        else
          g_vfs_job_failed job.base G_IO_ERROR G_IO_ERROR_FAILED
            (got_error_code_message res_code)
      some ({ job with base := base }, afp_handle)
    else
      (g_vfs_afp_reply_read_int64 reply).bind fun r =>
        let last_written := r.1
        let written_size := to_gsize (to_gint64 (last_written - afp_handle.offset))
        let afp_handle := { afp_handle with offset := last_written }
        let job := g_vfs_job_write_set_written_size job written_size
        some ({ job with base := g_vfs_job_succeeded job.base }, afp_handle)

/-! ### Seek -/

structure GVfsJobSeekWrite where
  base : GVfsJob
  seek_type : GSeekType
  requested_offset : Int
  final_offset : Int := 0
  deriving DecidableEq, Repr

structure GVfsJobSeekRead where
  base : GVfsJob
  seek_type : GSeekType
  requested_offset : Int
  final_offset : Int := 0
  deriving DecidableEq, Repr

def g_vfs_job_seek_write_set_offset (job : GVfsJobSeekWrite) (offset : Int) :
    GVfsJobSeekWrite :=
  { job with final_offset := offset }

def g_vfs_job_seek_read_set_offset (job : GVfsJobSeekRead) (offset : Int) : GVfsJobSeekRead :=
  { job with final_offset := offset }

/-- The arithmetic shared by `seek_on_write_cb` and `seek_on_read_cb`, with the
conversions of C: `size` is a `gsize`, the offsets are `gint64`; `size +
requested_offset` is computed unsigned, and `offset > size` compares unsigned. -/
def seek_new_offset (seek_type : GSeekType) (offset : Int) (requested_offset : Int)
    (size : Nat) : Int :=
  let offset : Int :=
    match seek_type with
    | .G_SEEK_CUR => to_gint64 (offset + requested_offset)
    | .G_SEEK_SET => requested_offset
    | .G_SEEK_END => to_gint64 (to_gsize (size + requested_offset))
  if offset < 0 then 0
  else if to_gsize offset > size then to_gint64 size
  else offset

/-- `seek_on_write_cb`. -/
def seek_on_write_cb (res : Except GError GFileInfo) (job : GVfsJobSeekWrite)
    (afp_handle : AfpHandle) : GVfsJobSeekWrite × AfpHandle :=
  match get_fork_parms_finish res with
  | .error err => ({ job with base := g_vfs_job_failed_from_error job.base err }, afp_handle)
  | .ok info =>
    let size : Nat := to_gsize (g_file_info_get_size info)
    let afp_handle :=
      let offset := seek_new_offset job.seek_type afp_handle.offset job.requested_offset size
      { afp_handle with offset := offset }
    let job := g_vfs_job_seek_write_set_offset job afp_handle.offset
    ({ job with base := g_vfs_job_succeeded job.base }, afp_handle)

/-- `seek_on_read_cb`. -/
def seek_on_read_cb (res : Except GError GFileInfo) (job : GVfsJobSeekRead)
    (afp_handle : AfpHandle) : GVfsJobSeekRead × AfpHandle :=
  match get_fork_parms_finish res with
  | .error err => ({ job with base := g_vfs_job_failed_from_error job.base err }, afp_handle)
  | .ok info =>
    let size : Nat := to_gsize (g_file_info_get_size info)
    let afp_handle :=
      let offset := seek_new_offset job.seek_type afp_handle.offset job.requested_offset size
      { afp_handle with offset := offset }
    let job := g_vfs_job_seek_read_set_offset job afp_handle.offset
    ({ job with base := g_vfs_job_succeeded job.base }, afp_handle)

/-! ### Commands and the connection (`gvfsafpconnection.c`, not part of the sources) -/

/-- The opcodes of `gvfsafpconnection.h` that the backend uses. -/
inductive AfpCommandType
  | AFP_COMMAND_CLOSE_FORK
  | AFP_COMMAND_CREATE_FILE
  | AFP_COMMAND_CREATE_DIR
  | AFP_COMMAND_DELETE
  | AFP_COMMAND_ENUMERATE_EXT2
  | AFP_COMMAND_EXCHANGE_FILES
  | AFP_COMMAND_GET_FORK_PARMS
  | AFP_COMMAND_GET_FILE_DIR_PARMS
  | AFP_COMMAND_GET_SRVR_PARMS
  | AFP_COMMAND_GET_VOL_PARMS
  | AFP_COMMAND_OPEN_FORK
  | AFP_COMMAND_OPEN_VOL
  | AFP_COMMAND_READ_EXT
  | AFP_COMMAND_RENAME
  | AFP_COMMAND_WRITE_EXT
  deriving DecidableEq, Repr

/-- One typed field appended to a command by a `g_vfs_afp_command_put_…` call. -/
inductive AfpCommandField
  | byte (v : Nat)
  | int16 (v : Int)
  | uint16 (v : Nat)
  | int32 (v : Int)
  | uint32 (v : Nat)
  | int64 (v : Int)
  | afp_name (name : GVfsAfpName)
  | data (bytes : List Nat)
  | pascal (str : List Nat)
  deriving DecidableEq, Repr

/-- Modelled from the spec: a `GVfsAfpCommand` of the missing
`gvfsafpconnection.c`, an opcode followed by the typed fields put into it, in the
order of the calls. -/
structure GVfsAfpCommand where
  type : AfpCommandType
  fields : List AfpCommandField
  deriving DecidableEq, Repr

def g_vfs_afp_command_new (type : AfpCommandType) : GVfsAfpCommand :=
  { type := type, fields := [] }

def g_vfs_afp_command_put (comm : GVfsAfpCommand) (field : AfpCommandField) : GVfsAfpCommand :=
  { comm with fields := comm.fields ++ [field] }

def g_vfs_afp_command_put_byte (comm : GVfsAfpCommand) (v : Nat) : GVfsAfpCommand :=
  g_vfs_afp_command_put comm (.byte v)

def g_vfs_afp_command_put_int16 (comm : GVfsAfpCommand) (v : Int) : GVfsAfpCommand :=
  g_vfs_afp_command_put comm (.int16 v)

def g_vfs_afp_command_put_uint16 (comm : GVfsAfpCommand) (v : Nat) : GVfsAfpCommand :=
  g_vfs_afp_command_put comm (.uint16 v)

def g_vfs_afp_command_put_int32 (comm : GVfsAfpCommand) (v : Int) : GVfsAfpCommand :=
  g_vfs_afp_command_put comm (.int32 v)

def g_vfs_afp_command_put_uint32 (comm : GVfsAfpCommand) (v : Nat) : GVfsAfpCommand :=
  g_vfs_afp_command_put comm (.uint32 v)

def g_vfs_afp_command_put_int64 (comm : GVfsAfpCommand) (v : Int) : GVfsAfpCommand :=
  g_vfs_afp_command_put comm (.int64 v)

def g_vfs_afp_command_put_afp_name (comm : GVfsAfpCommand) (name : GVfsAfpName) :
    GVfsAfpCommand :=
  g_vfs_afp_command_put comm (.afp_name name)

def g_vfs_afp_command_put_pascal (comm : GVfsAfpCommand) (str : List Nat) : GVfsAfpCommand :=
  g_vfs_afp_command_put comm (.pascal str)

/-- The path-type tag of a UTF-8 name (`gvfsafpconnection.h`; the AFP value). -/
def AFP_PATH_TYPE_UTF8_NAME : Nat := 3

/-- `filename_to_afp_pathname`: skip the leading slashes, then every `'/'` becomes
a NUL byte. -/
def filename_to_afp_pathname (filename : List Nat) : GVfsAfpName :=
  let filename := filename.dropWhile (fun c => c == SLASH)
  let str := filename.map (fun c => if c = SLASH then 0 else c)
  g_vfs_afp_name_new 0x08000103 str

/-- `put_pathname`. -/
def put_pathname (comm : GVfsAfpCommand) (filename : List Nat) : GVfsAfpCommand :=
  let comm := g_vfs_afp_command_put_byte comm AFP_PATH_TYPE_UTF8_NAME
  let pathname := filename_to_afp_pathname filename
  g_vfs_afp_command_put_afp_name comm pathname

/-- The completion callbacks the backend hands to `close_fork`. -/
inductive CloseForkCallback
  | close_replace_close_fork_cb
  | close_write_close_fork_cb
  | close_read_close_fork_cb
  deriving DecidableEq, Repr

/-- The functions the backend hands to `open_fork` as its `OpenForkCallback`. -/
inductive OpenForkCallback
  | replace_open_fork_cb
  | create_open_fork_cb
  | read_open_fork_cb
  deriving DecidableEq, Repr

/-- The completion callbacks the backend hands to `create_file`. -/
inductive CreateFileCallback
  | replace_cb
  | create_cb
  deriving DecidableEq, Repr

/-- The completion callbacks the backend hands to `get_fork_parms`. -/
inductive GetForkParmsCallback
  | seek_on_write_cb
  | seek_on_read_cb
  deriving DecidableEq, Repr

/-- The reply callback registered with a queued command (its user data is the job
or handle of the operation in progress). `open_fork` stores its `OpenForkCallback`
as object data of the job, `close_fork`, `create_file` and `get_fork_parms` keep
their completion callback in a `GSimpleAsyncResult`: here it travels with the reply
callback. -/
inductive AfpReplyCallback
  | NULL
  | enumerate_ext2_cb
  | close_replace_exchange_files_cb
  | close_fork_cb (callback : CloseForkCallback)
  | open_fork_cb (cb : OpenForkCallback)
  | create_file_cb (callback : CreateFileCallback)
  | get_fork_parms_cb (callback : GetForkParmsCallback)
  | rename_cb
  | make_directory_cb
  | delete_cb
  | write_ext_cb
  | read_ext_cb
  | get_filedir_parms_cb
  | get_vol_parms_cb
  deriving DecidableEq, Repr

/-- Modelled from the spec: the transport, "an opaque command/reply exchange
service" (`GVfsAfpConnection`, missing): the commands queued so far, oldest first,
and the callbacks of those that have not been answered yet. -/
structure GVfsAfpConnection where
  sent : List GVfsAfpCommand := []
  pending : List AfpReplyCallback := []
  deriving DecidableEq, Repr

def g_vfs_afp_connection_queue_command (conn : GVfsAfpConnection) (comm : GVfsAfpCommand)
    (reply_cb : AfpReplyCallback) : GVfsAfpConnection :=
  { sent := conn.sent ++ [comm], pending := conn.pending ++ [reply_cb] }

/-! ### Closing a fork -/

/-- `close_fork`. -/
def close_fork (conn : GVfsAfpConnection) (afp_handle : AfpHandle)
    (callback : CloseForkCallback) : GVfsAfpConnection :=
  let comm := g_vfs_afp_command_new .AFP_COMMAND_CLOSE_FORK
  let comm := g_vfs_afp_command_put_byte comm 0
  let comm := g_vfs_afp_command_put_int16 comm afp_handle.fork_refnum
  g_vfs_afp_connection_queue_command conn comm (.close_fork_cb callback)

/-- `close_fork_cb`: what the `GSimpleAsyncResult` holds when it completes. -/
def close_fork_cb (reply : TransportResult) : Except GError Unit :=
  match reply with
  | .error error => .error error
  | .ok reply =>
    let res_code := g_vfs_afp_reply_get_result_code reply
    if res_code ≠ AFP_RESULT_NO_ERROR then
      .error { domain := G_IO_ERROR, code := G_IO_ERROR_FAILED,
               message := got_error_code_message res_code }
    else .ok ()

/-- `close_fork_finish`. -/
def close_fork_finish (res : Except GError Unit) : Except GError Unit := res

structure GVfsJobCloseWrite where
  base : GVfsJob
  deriving DecidableEq, Repr

/-- The state a close-write operation works on: the connection, the job, and the
handle (`none` once `afp_handle_free` has run). -/
structure CloseWriteState where
  conn : GVfsAfpConnection
  job : GVfsJobCloseWrite
  handle : Option AfpHandle
  deriving DecidableEq, Repr

/-- `close_replace_close_fork_cb`: delete the temporary file, with no callback, and
free the handle. A handle without a temporary name would make `put_pathname` read
through a null pointer (`none`). -/
def close_replace_close_fork_cb (afp_backend : GVfsBackendAfp) (s : CloseWriteState)
    (afp_handle : AfpHandle) : Option CloseWriteState :=
  afp_handle.tmp_filename.bind fun tmp_filename =>
    let comm := g_vfs_afp_command_new .AFP_COMMAND_DELETE
    let comm := g_vfs_afp_command_put_byte comm 0
    let comm := g_vfs_afp_command_put_uint16 comm afp_backend.volume_id
    let comm := g_vfs_afp_command_put_uint32 comm 2
    let comm := put_pathname comm tmp_filename
    let conn := g_vfs_afp_connection_queue_command s.conn comm .NULL
    some { s with conn := conn, handle := none }

/-- `close_replace_exchange_files_cb`. -/
def close_replace_exchange_files_cb (s : CloseWriteState) (afp_handle : AfpHandle)
    (reply : TransportResult) : CloseWriteState :=
  match reply with
  | .error error =>
    { s with job := { s.job with base := g_vfs_job_failed_from_error s.job.base error } }
  | .ok reply =>
    let conn := close_fork s.conn afp_handle .close_replace_close_fork_cb
    let res_code := g_vfs_afp_reply_get_result_code reply
    let base :=
      if res_code ≠ AFP_RESULT_NO_ERROR then
        if res_code = AFP_RESULT_ACCESS_DENIED then
          g_vfs_job_failed_literal s.job.base G_IO_ERROR G_IO_ERROR_FAILED "Access denied"
        else
          g_vfs_job_failed s.job.base G_IO_ERROR G_IO_ERROR_FAILED
            (got_error_code_message res_code)
      else g_vfs_job_succeeded s.job.base
    { s with conn := conn, job := { s.job with base := base } }

/-- `close_write_close_fork_cb`. -/
def close_write_close_fork_cb (s : CloseWriteState) (res : Except GError Unit) :
    CloseWriteState :=
  match close_fork_finish res with
  | .error err =>
    { s with job := { s.job with base := g_vfs_job_failed_from_error s.job.base err } }
  | .ok _ => { s with job := { s.job with base := g_vfs_job_succeeded s.job.base } }

/-- `try_close_write`. For a handle of type replace the two names are read from the
handle (a null name would be dereferenced: `none`). -/
def try_close_write (afp_backend : GVfsBackendAfp) (conn : GVfsAfpConnection)
    (job : GVfsJobCloseWrite) (afp_handle : AfpHandle) : Option CloseWriteState :=
  if afp_handle.type = .AFP_HANDLE_TYPE_REPLACE_FILE then
    afp_handle.filename.bind fun filename =>
    afp_handle.tmp_filename.bind fun tmp_filename =>
      let comm := g_vfs_afp_command_new .AFP_COMMAND_EXCHANGE_FILES
      let comm := g_vfs_afp_command_put_byte comm 0
      let comm := g_vfs_afp_command_put_uint16 comm afp_backend.volume_id
      let comm := g_vfs_afp_command_put_uint32 comm 2
      let comm := g_vfs_afp_command_put_uint32 comm 2
      let comm := put_pathname comm filename
      let comm := put_pathname comm tmp_filename
      let conn := g_vfs_afp_connection_queue_command conn comm .close_replace_exchange_files_cb
      some { conn := conn, job := job, handle := some afp_handle }
  else
    let conn := close_fork conn afp_handle .close_write_close_fork_cb
    some { conn := conn, job := job, handle := none }

/-- The transport answers the oldest unanswered command: its callback runs with the
reply (or the error). With nothing pending there is no callback to run. The handle
a callback works on is the one the operation holds; a callback that would use a
freed handle is `none`. -/
def close_write_deliver (afp_backend : GVfsBackendAfp) (s : CloseWriteState)
    (reply : TransportResult) : Option CloseWriteState :=
  match s.conn.pending with
  | [] => some s
  | cb :: pending =>
    let s := { s with conn := { s.conn with pending := pending } }
    match cb with
    | .close_replace_exchange_files_cb =>
      s.handle.bind fun afp_handle => some (close_replace_exchange_files_cb s afp_handle reply)
    | .close_fork_cb .close_replace_close_fork_cb =>
      s.handle.bind fun afp_handle => close_replace_close_fork_cb afp_backend s afp_handle
    | .close_fork_cb .close_write_close_fork_cb =>
      some (close_write_close_fork_cb s (close_fork_cb reply))
    | _ => some s

/-- A close-write operation from `try_close_write` on a fresh connection through
the answers of the transport, in order. -/
def close_write_session (afp_backend : GVfsBackendAfp) (job : GVfsJobCloseWrite)
    (afp_handle : AfpHandle) (replies : List TransportResult) : Option CloseWriteState :=
  (try_close_write afp_backend {} job afp_handle).bind fun s =>
    replies.foldlM (close_write_deliver afp_backend) s

/-! ### Enumerate -/

/-! The values of `AfpVersion` (`gvfsafpserver.h`, not part of the sources), in the
order of the protocol versions. -/

def AFP_VERSION_INVALID : Nat := 0
def AFP_VERSION_3_0 : Nat := 1
def AFP_VERSION_3_1 : Nat := 2
def AFP_VERSION_3_2 : Nat := 3
def AFP_VERSION_3_3 : Nat := 4

def ENUMERATE_REQ_COUNT : Int := G_MAXINT16
def ENUMERATE_MAX_REPLY_SIZE : Int := G_MAXINT32

/-- GIO's `GFileAttributeMatcher`, as the list of the attributes it matches. -/
abbrev GFileAttributeMatcher := List String

def g_file_attribute_matcher_matches (matcher : GFileAttributeMatcher) (name : String) :
    Bool :=
  matcher.contains name

def G_FILE_ATTRIBUTE_TIME_CREATED : String := "time::created"
def G_FILE_ATTRIBUTE_TIME_MODIFIED : String := "time::modified"
def G_FILE_ATTRIBUTE_STANDARD_SIZE : String := "standard::size"

/-- `create_filedir_bitmap`. -/
def create_filedir_bitmap (matcher : GFileAttributeMatcher) : Nat :=
  let bitmap := AFP_FILEDIR_BITMAP_ATTRIBUTE_BIT ||| AFP_FILEDIR_BITMAP_UTF8_NAME_BIT
  let bitmap :=
    if g_file_attribute_matcher_matches matcher G_FILE_ATTRIBUTE_TIME_CREATED then
      bitmap ||| AFP_FILEDIR_BITMAP_CREATE_DATE_BIT
    else bitmap
  let bitmap :=
    if g_file_attribute_matcher_matches matcher G_FILE_ATTRIBUTE_TIME_MODIFIED then
      bitmap ||| AFP_FILEDIR_BITMAP_MOD_DATE_BIT
    else bitmap
  bitmap

/-- `create_file_bitmap`. -/
def create_file_bitmap (matcher : GFileAttributeMatcher) : Nat :=
  let file_bitmap := create_filedir_bitmap matcher
  if g_file_attribute_matcher_matches matcher G_FILE_ATTRIBUTE_STANDARD_SIZE then
    file_bitmap ||| AFP_FILE_BITMAP_EXT_DATA_FORK_LEN_BIT
  else file_bitmap

/-- `create_dir_bitmap`. -/
def create_dir_bitmap (matcher : GFileAttributeMatcher) : Nat :=
  let dir_bitmap := create_filedir_bitmap matcher
  if g_file_attribute_matcher_matches matcher "afp::children-count" then
    dir_bitmap ||| AFP_DIR_BITMAP_OFFSPRING_COUNT_BIT
  else dir_bitmap

/-- A `GVfsJobEnumerate`: `start_index` is the object data `"start-index"` (0 while
unset), `infos` the entries handed to `g_vfs_job_enumerate_add_info`, `done` whether
`g_vfs_job_enumerate_done` has been called. -/
structure GVfsJobEnumerate where
  base : GVfsJob
  filename : List Nat
  attribute_matcher : GFileAttributeMatcher
  start_index : Int := 0
  infos : List GFileInfo := []
  done : Bool := false
  deriving DecidableEq, Repr

structure EnumerateState where
  conn : GVfsAfpConnection
  job : GVfsJobEnumerate
  deriving DecidableEq, Repr

/-- `enumerate_ext2`: build the command for one page and queue it. -/
def enumerate_ext2 (afp_backend : GVfsBackendAfp) (conn : GVfsAfpConnection)
    (job : GVfsJobEnumerate) (start_index : Int) : GVfsAfpConnection :=
  let filename := job.filename
  let matcher := job.attribute_matcher
  let comm := g_vfs_afp_command_new .AFP_COMMAND_ENUMERATE_EXT2
  let comm := g_vfs_afp_command_put_byte comm 0
  let comm := g_vfs_afp_command_put_uint16 comm afp_backend.volume_id
  let comm := g_vfs_afp_command_put_uint32 comm 2
  let file_bitmap := create_file_bitmap matcher
  let comm := g_vfs_afp_command_put_uint16 comm file_bitmap
  let dir_bitmap := create_dir_bitmap matcher
  let comm := g_vfs_afp_command_put_uint16 comm dir_bitmap
  let comm := g_vfs_afp_command_put_int16 comm ENUMERATE_REQ_COUNT
  let comm := g_vfs_afp_command_put_int32 comm start_index
  let comm := g_vfs_afp_command_put_int32 comm ENUMERATE_MAX_REPLY_SIZE
  let comm := put_pathname comm filename
  g_vfs_afp_connection_queue_command conn comm .enumerate_ext2_cb

/-- `enumerate_ext2_cb`, the body of the `for` loop run `n` times: the infos handed
to `g_vfs_job_enumerate_add_info`, in order, and the reply cursor after the last
record. The pad byte is read into no variable, so its read may fail harmlessly. -/
def enumerate_ext2_cb_records (afp_backend : GVfsBackendAfp) (file_bitmap dir_bitmap : Nat) :
    Nat → GVfsAfpReply → Option (List GFileInfo × GVfsAfpReply)
  | 0, reply => some ([], reply)
  | n + 1, reply =>
    let start_pos := g_vfs_afp_reply_get_pos reply
    (g_vfs_afp_reply_read_uint16 reply).bind fun sl =>
    (g_vfs_afp_reply_read_byte sl.2).bind fun fd =>
      let struct_length := sl.1
      let FileDir := fd.1
      let reply := ((g_vfs_afp_reply_read_byte fd.2).map (fun p => p.2)).getD fd.2
      let directory : Bool := FileDir &&& 0x80 != 0
      let bitmap := if directory then dir_bitmap else file_bitmap
      (fill_info afp_backend g_file_info_new reply directory bitmap).bind fun r =>
        let info := r.1
        let reply :=
          (g_vfs_afp_reply_seek r.2 (start_pos + struct_length) .G_SEEK_SET).getD r.2
        (enumerate_ext2_cb_records afp_backend file_bitmap dir_bitmap n reply).map
          fun rest => (info :: rest.1, rest.2)

/-- `enumerate_ext2_cb`, from the read of the two bitmaps to the end of the loop:
the `gint16` count of the page and the infos of its records. The loop
`for (i = 0; i < count; i++)` runs `count` times, not at all for `count ≤ 0`. -/
def enumerate_ext2_cb_page (afp_backend : GVfsBackendAfp) (reply : GVfsAfpReply) :
    Option (Int × List GFileInfo) :=
  (g_vfs_afp_reply_read_uint16 reply).bind fun fb =>
  (g_vfs_afp_reply_read_uint16 fb.2).bind fun db =>
  (g_vfs_afp_reply_read_int16 db.2).bind fun c =>
  (enumerate_ext2_cb_records afp_backend fb.1 db.1 c.1.toNat c.2).map fun r => (c.1, r.1)

/-- `enumerate_ext2_cb`. `start_index` is a `gint`; adding `count` to it wraps as a
32-bit two's complement integer. -/
def enumerate_ext2_cb (afp_backend : GVfsBackendAfp) (s : EnumerateState)
    (reply : TransportResult) : Option EnumerateState :=
  match reply with
  | .error error =>
    some { s with job := { s.job with base := g_vfs_job_failed_from_error s.job.base error } }
  | .ok reply =>
    let res_code := g_vfs_afp_reply_get_result_code reply
    if res_code = AFP_RESULT_OBJECT_NOT_FOUND then
      some { s with job := { s.job with base := g_vfs_job_succeeded s.job.base, done := true } }
    else if res_code ≠ AFP_RESULT_NO_ERROR then
      let base := g_vfs_job_failed_literal s.job.base G_IO_ERROR G_IO_ERROR_FAILED
        "Enumeration of files failed"
      some { s with job := { s.job with base := base } }
    else
      (enumerate_ext2_cb_page afp_backend reply).bind fun page =>
        let count := page.1
        let job := { s.job with infos := s.job.infos ++ page.2 }
        let start_index := job.start_index
        let start_index := to_gint32 (start_index + count)
        let job := { job with start_index := start_index }
        some { conn := enumerate_ext2 afp_backend s.conn job start_index, job := job }

/-- `try_enumerate`. -/
def try_enumerate (afp_backend : GVfsBackendAfp) (conn : GVfsAfpConnection)
    (job : GVfsJobEnumerate) : EnumerateState :=
  if afp_backend.server.version ≥ AFP_VERSION_3_1 then
    let job := { job with start_index := 1 }
    { conn := enumerate_ext2 afp_backend conn job 1, job := job }
  else
    let base := g_vfs_job_failed_literal job.base G_IO_ERROR G_IO_ERROR_FAILED
      "Enumeration not supported for AFP_VERSION_3_0 yet"
    { conn := conn, job := { job with base := base } }

/-- The transport answers the oldest unanswered command of an enumeration. -/
def enumerate_deliver (afp_backend : GVfsBackendAfp) (s : EnumerateState)
    (reply : TransportResult) : Option EnumerateState :=
  match s.conn.pending with
  | [] => some s
  | cb :: pending =>
    let s := { s with conn := { s.conn with pending := pending } }
    match cb with
    | .enumerate_ext2_cb => enumerate_ext2_cb afp_backend s reply
    | _ => some s

/-- An enumeration from `try_enumerate` on a fresh connection through the answers
of the transport, in order. -/
def enumerate_session (afp_backend : GVfsBackendAfp) (job : GVfsJobEnumerate)
    (replies : List TransportResult) : Option EnumerateState :=
  replies.foldlM (enumerate_deliver afp_backend) (try_enumerate afp_backend {} job)

/-! ### Opening a fork -/

/-- `is_root`: skip the leading slashes; the path denotes the root when the string
ends there. -/
def is_root (filename : List Nat) : Bool :=
  (filename.dropWhile (fun c => c == SLASH)).isEmpty

/-! The access-mode bits of `gvfsafpconnection.h` (not part of the sources); the
values are those of the AFP protocol. -/

def AFP_ACCESS_MODE_READ_BIT : Nat := 0x1
def AFP_ACCESS_MODE_WRITE_BIT : Nat := 0x2

/-- What `open_fork_cb` does with the job: it fails it, or it calls the stored
`OpenForkCallback` with a new handle. -/
inductive OpenForkResult
  | failed (job : GVfsJob)
  | opened (afp_handle : AfpHandle)
  deriving DecidableEq, Repr

/-- `open_fork_cb` up to the call `cb (job, afp_handle)`. The bitmap is read into a
variable that is never used; the fork reference is needed (`none` when its read
fails). -/
def open_fork_cb (job : GVfsJob) (reply : TransportResult) : Option OpenForkResult :=
  match reply with
  | .error error => some (.failed (g_vfs_job_failed_from_error job error))
  | .ok reply =>
    let res_code := g_vfs_afp_reply_get_result_code reply
    if res_code ≠ AFP_RESULT_NO_ERROR then
      if res_code = AFP_RESULT_ACCESS_DENIED then
        some (.failed (g_vfs_job_failed_literal job G_IO_ERROR G_IO_ERROR_PERMISSION_DENIED
          "Access denied"))
      else if res_code = AFP_RESULT_OBJECT_NOT_FOUND then
        some (.failed (g_vfs_job_failed_literal job G_IO_ERROR G_IO_ERROR_NOT_FOUND
          "File doesn't exist"))
      else if res_code = AFP_RESULT_OBJECT_TYPE_ERR then
        some (.failed (g_vfs_job_failed_literal job G_IO_ERROR G_IO_ERROR_NOT_REGULAR_FILE
          "File is a directory"))
      else if res_code = AFP_RESULT_TOO_MANY_FILES_OPEN then
        some (.failed (g_vfs_job_failed_literal job G_IO_ERROR G_IO_ERROR_TOO_MANY_OPEN_FILES
          "Too many files open"))
      else
        some (.failed (g_vfs_job_failed job G_IO_ERROR G_IO_ERROR_FAILED
          (got_error_code_message res_code)))
    else
      let reply := ((g_vfs_afp_reply_read_uint16 reply).map (fun r => r.2)).getD reply
      (g_vfs_afp_reply_read_int16 reply).bind fun r =>
        let fork_refnum := r.1
        some (.opened (afp_handle_new fork_refnum))

/-- `open_fork`: the job (failed at once for the root) and the connection (with the
open-fork command queued otherwise). -/
def open_fork (afp_backend : GVfsBackendAfp) (conn : GVfsAfpConnection) (job : GVfsJob)
    (filename : List Nat) (access_mode : Nat) (cb : OpenForkCallback) :
    GVfsJob × GVfsAfpConnection :=
  if is_root filename then
    (g_vfs_job_failed_literal job G_IO_ERROR G_IO_ERROR_NOT_REGULAR_FILE "File is a directory",
     conn)
  else
    let comm := g_vfs_afp_command_new .AFP_COMMAND_OPEN_FORK
    let comm := g_vfs_afp_command_put_byte comm 0
    let comm := g_vfs_afp_command_put_uint16 comm afp_backend.volume_id
    let comm := g_vfs_afp_command_put_uint32 comm 2
    let comm := g_vfs_afp_command_put_uint16 comm 0
    let comm := g_vfs_afp_command_put_uint16 comm access_mode
    let comm := put_pathname comm filename
    (job, g_vfs_afp_connection_queue_command conn comm (.open_fork_cb cb))

/-! ### Creating a file -/

/-- `create_file_cb`: what the `GSimpleAsyncResult` holds when it completes. -/
def create_file_cb (reply : TransportResult) : Except GError Unit :=
  match reply with
  | .error error => .error error
  | .ok reply =>
    let res_code := g_vfs_afp_reply_get_result_code reply
    if res_code ≠ AFP_RESULT_NO_ERROR then
      if res_code = AFP_RESULT_ACCESS_DENIED then
        .error { domain := G_IO_ERROR, code := G_IO_ERROR_PERMISSION_DENIED,
                 message := "Access denied" }
      else if res_code = AFP_RESULT_DISK_FULL then
        .error { domain := G_IO_ERROR, code := G_IO_ERROR_NO_SPACE,
                 message := "Not enough space on volume" }
      else if res_code = AFP_RESULT_FILE_BUSY then
        .error { domain := G_IO_ERROR, code := G_IO_ERROR_EXISTS,
                 message := "Target file is open" }
      else if res_code = AFP_RESULT_OBJECT_EXISTS then
        .error { domain := G_IO_ERROR, code := G_IO_ERROR_EXISTS,
                 message := "Target file already exists" }
      else if res_code = AFP_RESULT_OBJECT_NOT_FOUND then
        .error { domain := G_IO_ERROR, code := G_IO_ERROR_NOT_FOUND,
                 message := "Ancestor directory doesn't exist" }
      else if res_code = AFP_RESULT_VOL_LOCKED then
        .error { domain := G_IO_ERROR, code := G_IO_ERROR_PERMISSION_DENIED,
                 message := "Volume is read-only" }
      else
        .error { domain := G_IO_ERROR, code := G_IO_ERROR_FAILED,
                 message := got_error_code_message res_code }
    else .ok ()

/-- `create_file`. -/
def create_file (afp_backend : GVfsBackendAfp) (conn : GVfsAfpConnection)
    (filename : List Nat) (hard_create : Bool) (callback : CreateFileCallback) :
    GVfsAfpConnection :=
  let comm := g_vfs_afp_command_new .AFP_COMMAND_CREATE_FILE
  let comm := g_vfs_afp_command_put_byte comm (if hard_create then 0x80 else 0x00)
  let comm := g_vfs_afp_command_put_uint16 comm afp_backend.volume_id
  let comm := g_vfs_afp_command_put_uint32 comm 2
  let comm := put_pathname comm filename
  g_vfs_afp_connection_queue_command conn comm (.create_file_cb callback)

/-- `create_file_finish`. -/
def create_file_finish (res : Except GError Unit) : Except GError Unit := res

/-! ### Replace and create -/

/-- A `GVfsJobOpenForWrite`: `filename` is the path of the request, `TempFilename`
the object data of that name (`none` while unset). -/
structure GVfsJobOpenForWrite where
  base : GVfsJob
  filename : List Nat
  handle : Option AfpHandle := none
  can_seek : Bool := false
  initial_offset : Int := 0
  TempFilename : Option (List Nat) := none
  deriving DecidableEq, Repr

structure OpenForWriteState where
  conn : GVfsAfpConnection
  job : GVfsJobOpenForWrite
  deriving DecidableEq, Repr

/-- The string `".tmp"`. -/
def DOT_TMP : List Nat := [46, 116, 109, 112]

/-- `replace_open_fork_cb`. -/
def replace_open_fork_cb (job : GVfsJobOpenForWrite) (afp_handle : AfpHandle) :
    GVfsJobOpenForWrite :=
  let afp_handle := { afp_handle with type := .AFP_HANDLE_TYPE_REPLACE_FILE }
  let afp_handle := { afp_handle with filename := some job.filename }
  let afp_handle := { afp_handle with tmp_filename := job.TempFilename }
  let job := { job with handle := some afp_handle }
  let job := { job with can_seek := true }
  let job := { job with initial_offset := 0 }
  { job with base := g_vfs_job_succeeded job.base }

/-- `replace_cb`. The temporary name is the object data `"TempFilename"` of the job
(`none`: `open_fork` would read through a null pointer). -/
def replace_cb (afp_backend : GVfsBackendAfp) (s : OpenForWriteState)
    (res : Except GError Unit) : Option OpenForWriteState :=
  match create_file_finish res with
  | .error err =>
    let base := g_vfs_job_failed s.job.base err.domain err.code
      ("Couldn't create temporary file (" ++ err.message ++ ")")
    some { s with job := { s.job with base := base } }
  | .ok _ =>
    let access_mode := AFP_ACCESS_MODE_WRITE_BIT
    s.job.TempFilename.bind fun tmp_filename =>
      let r := open_fork afp_backend s.conn s.job.base tmp_filename access_mode
        .replace_open_fork_cb
      some { conn := r.2, job := { s.job with base := r.1 } }

/-- `try_replace`. -/
def try_replace (afp_backend : GVfsBackendAfp) (conn : GVfsAfpConnection)
    (job : GVfsJobOpenForWrite) (filename : List Nat) (_etag : Option (List Nat))
    (make_backup : Bool) (_flags : Nat) : OpenForWriteState :=
  if make_backup then
    let base := g_vfs_job_failed_literal job.base G_IO_ERROR G_IO_ERROR_CANT_CREATE_BACKUP
      "backups not supported yet"
    { conn := conn, job := { job with base := base } }
  else
    let tmp_filename := filename ++ DOT_TMP
    let job := { job with TempFilename := some tmp_filename }
    { conn := create_file afp_backend conn tmp_filename true .replace_cb, job := job }

/-- `create_open_fork_cb`. -/
def create_open_fork_cb (job : GVfsJobOpenForWrite) (afp_handle : AfpHandle) :
    GVfsJobOpenForWrite :=
  let afp_handle := { afp_handle with type := .AFP_HANDLE_TYPE_CREATE_FILE }
  let job := { job with handle := some afp_handle }
  let job := { job with can_seek := true }
  let job := { job with initial_offset := 0 }
  { job with base := g_vfs_job_succeeded job.base }

/-- `create_cb`. -/
def create_cb (afp_backend : GVfsBackendAfp) (s : OpenForWriteState)
    (res : Except GError Unit) : OpenForWriteState :=
  match create_file_finish res with
  | .error err =>
    { s with job := { s.job with base := g_vfs_job_failed_from_error s.job.base err } }
  | .ok _ =>
    let access_mode := AFP_ACCESS_MODE_WRITE_BIT
    let r := open_fork afp_backend s.conn s.job.base s.job.filename access_mode
      .create_open_fork_cb
    { conn := r.2, job := { s.job with base := r.1 } }

/-- `try_create`. -/
def try_create (afp_backend : GVfsBackendAfp) (conn : GVfsAfpConnection)
    (job : GVfsJobOpenForWrite) (filename : List Nat) (_flags : Nat) : OpenForWriteState :=
  { conn := create_file afp_backend conn filename false .create_cb, job := job }

/-- The transport answers the oldest unanswered command of a create or replace. An
`OpenForkCallback` of another class of job would fail its cast (`none`). -/
def open_for_write_deliver (afp_backend : GVfsBackendAfp) (s : OpenForWriteState)
    (reply : TransportResult) : Option OpenForWriteState :=
  match s.conn.pending with
  | [] => some s
  | cb :: pending =>
    let s := { s with conn := { s.conn with pending := pending } }
    match cb with
    | .create_file_cb .replace_cb => replace_cb afp_backend s (create_file_cb reply)
    | .create_file_cb .create_cb => some (create_cb afp_backend s (create_file_cb reply))
    | .open_fork_cb cb =>
      (open_fork_cb s.job.base reply).bind fun r =>
        match r with
        | .failed base => some { s with job := { s.job with base := base } }
        | .opened afp_handle =>
          match cb with
          | .replace_open_fork_cb => some { s with job := replace_open_fork_cb s.job afp_handle }
          | .create_open_fork_cb => some { s with job := create_open_fork_cb s.job afp_handle }
          | .read_open_fork_cb => none
    | _ => some s

/-- A replace from `try_replace` on a fresh connection through the answers of the
transport, in order. -/
def replace_session (afp_backend : GVfsBackendAfp) (job : GVfsJobOpenForWrite)
    (filename : List Nat) (etag : Option (List Nat)) (make_backup : Bool) (flags : Nat)
    (replies : List TransportResult) : Option OpenForWriteState :=
  replies.foldlM (open_for_write_deliver afp_backend)
    (try_replace afp_backend {} job filename etag make_backup flags)

/-- A create from `try_create` on a fresh connection through the answers of the
transport, in order. -/
def create_session (afp_backend : GVfsBackendAfp) (job : GVfsJobOpenForWrite)
    (filename : List Nat) (flags : Nat) (replies : List TransportResult) :
    Option OpenForWriteState :=
  replies.foldlM (open_for_write_deliver afp_backend)
    (try_create afp_backend {} job filename flags)

/-! ### Open for read -/

structure GVfsJobOpenForRead where
  base : GVfsJob
  handle : Option AfpHandle := none
  can_seek : Bool := false
  deriving DecidableEq, Repr

structure OpenForReadState where
  conn : GVfsAfpConnection
  job : GVfsJobOpenForRead
  deriving DecidableEq, Repr

/-- `read_open_fork_cb`. -/
def read_open_fork_cb (job : GVfsJobOpenForRead) (afp_handle : AfpHandle) :
    GVfsJobOpenForRead :=
  let afp_handle := { afp_handle with type := .AFP_HANDLE_TYPE_READ_FILE }
  let job := { job with handle := some afp_handle }
  let job := { job with can_seek := true }
  { job with base := g_vfs_job_succeeded job.base }

/-- `try_open_for_read`. -/
def try_open_for_read (afp_backend : GVfsBackendAfp) (conn : GVfsAfpConnection)
    (job : GVfsJobOpenForRead) (filename : List Nat) : OpenForReadState :=
  let access_mode := AFP_ACCESS_MODE_READ_BIT
  let r := open_fork afp_backend conn job.base filename access_mode .read_open_fork_cb
  { conn := r.2, job := { job with base := r.1 } }

/-- The transport answers the oldest unanswered command of an open for read. -/
def open_for_read_deliver (s : OpenForReadState) (reply : TransportResult) :
    Option OpenForReadState :=
  match s.conn.pending with
  | [] => some s
  | cb :: pending =>
    let s := { s with conn := { s.conn with pending := pending } }
    match cb with
    | .open_fork_cb cb =>
      (open_fork_cb s.job.base reply).bind fun r =>
        match r with
        | .failed base => some { s with job := { s.job with base := base } }
        | .opened afp_handle =>
          match cb with
          | .read_open_fork_cb => some { s with job := read_open_fork_cb s.job afp_handle }
          | _ => none
    | _ => some s

/-! ### Rename -/

/-- GLib's `g_path_get_dirname` and `g_build_filename` (external; the latter with
the two elements the backend passes). The backend only composes them, so they are
parameters of the embedding. -/
structure GLibPath where
  g_path_get_dirname : List Nat → List Nat
  g_build_filename : List Nat → List Nat → List Nat

structure GVfsJobSetDisplayName where
  base : GVfsJob
  filename : List Nat
  display_name : List Nat
  new_path : Option (List Nat) := none
  deriving DecidableEq, Repr

structure SetDisplayNameState where
  conn : GVfsAfpConnection
  job : GVfsJobSetDisplayName
  deriving DecidableEq, Repr

def g_vfs_job_set_display_name_set_new_path (job : GVfsJobSetDisplayName)
    (new_path : List Nat) : GVfsJobSetDisplayName :=
  { job with new_path := some new_path }

/-- `rename_cb`. -/
def rename_cb (glib : GLibPath) (job : GVfsJobSetDisplayName) (reply : TransportResult) :
    GVfsJobSetDisplayName :=
  match reply with
  | .error error => { job with base := g_vfs_job_failed_from_error job.base error }
  | .ok reply =>
    let res_code := g_vfs_afp_reply_get_result_code reply
    if res_code ≠ AFP_RESULT_NO_ERROR then
      let base :=
        if res_code = AFP_RESULT_ACCESS_DENIED then
          g_vfs_job_failed_literal job.base G_IO_ERROR G_IO_ERROR_PERMISSION_DENIED
            "Access denied"
        else if res_code = AFP_RESULT_CANT_RENAME then
          g_vfs_job_failed_literal job.base G_IO_ERROR G_IO_ERROR_INVALID_FILENAME
            "Can't rename volume"
        else if res_code = AFP_RESULT_OBJECT_EXISTS then
          g_vfs_job_failed_literal job.base G_IO_ERROR G_IO_ERROR_EXISTS
            "Object with that name already exists"
        else if res_code = AFP_RESULT_OBJECT_LOCKED then
          g_vfs_job_failed_literal job.base G_IO_ERROR G_IO_ERROR_FAILED
            "Target object is marked as RenameInhibit"
        else if res_code = AFP_RESULT_OBJECT_NOT_FOUND then
          g_vfs_job_failed_literal job.base G_IO_ERROR G_IO_ERROR_NOT_FOUND
            "Target object doesn't exist"
        else if res_code = AFP_RESULT_VOL_LOCKED then
          g_vfs_job_failed_literal job.base G_IO_ERROR G_IO_ERROR_PERMISSION_DENIED
            "Volume is read-only"
        else
          g_vfs_job_failed job.base G_IO_ERROR G_IO_ERROR_FAILED
            (got_error_code_message res_code)
      { job with base := base }
    else
      let dirname := glib.g_path_get_dirname job.filename
      let newpath := glib.g_build_filename dirname job.display_name
      let job := g_vfs_job_set_display_name_set_new_path job newpath
      { job with base := g_vfs_job_succeeded job.base }

/-- `try_set_display_name`. -/
def try_set_display_name (glib : GLibPath) (afp_backend : GVfsBackendAfp)
    (conn : GVfsAfpConnection) (job : GVfsJobSetDisplayName) (filename : List Nat)
    (display_name : List Nat) : SetDisplayNameState :=
  if is_root filename then
    let base := g_vfs_job_failed_literal job.base G_IO_ERROR G_IO_ERROR_INVALID_FILENAME
      "Can't rename volume"
    { conn := conn, job := { job with base := base } }
  else
    let comm := g_vfs_afp_command_new .AFP_COMMAND_RENAME
    let comm := g_vfs_afp_command_put_byte comm 0
    let comm := g_vfs_afp_command_put_uint16 comm afp_backend.volume_id
    let comm := g_vfs_afp_command_put_uint32 comm 2
    let comm := put_pathname comm filename
    let dirname := glib.g_path_get_dirname filename
    let newname := glib.g_build_filename dirname display_name
    let comm := put_pathname comm newname
    { conn := g_vfs_afp_connection_queue_command conn comm .rename_cb, job := job }

/-- The transport answers the oldest unanswered command of a rename. -/
def set_display_name_deliver (glib : GLibPath) (s : SetDisplayNameState)
    (reply : TransportResult) : SetDisplayNameState :=
  match s.conn.pending with
  | [] => s
  | cb :: pending =>
    let s := { s with conn := { s.conn with pending := pending } }
    match cb with
    | .rename_cb => { s with job := rename_cb glib s.job reply }
    | _ => s

/-- A rename from `try_set_display_name` on a fresh connection through the answers
of the transport, in order. -/
def set_display_name_session (glib : GLibPath) (afp_backend : GVfsBackendAfp)
    (job : GVfsJobSetDisplayName) (filename : List Nat) (display_name : List Nat)
    (replies : List TransportResult) : SetDisplayNameState :=
  replies.foldl (set_display_name_deliver glib)
    (try_set_display_name glib afp_backend {} job filename display_name)

/-! ### Make directory and delete -/

structure GVfsJobMakeDirectory where
  base : GVfsJob
  deriving DecidableEq, Repr

/-- `make_directory_cb`. -/
def make_directory_cb (job : GVfsJobMakeDirectory) (reply : TransportResult) :
    GVfsJobMakeDirectory :=
  match reply with
  | .error error => { job with base := g_vfs_job_failed_from_error job.base error }
  | .ok reply =>
    let res_code := g_vfs_afp_reply_get_result_code reply
    if res_code ≠ AFP_RESULT_NO_ERROR then
      let base :=
        if res_code = AFP_RESULT_ACCESS_DENIED then
          g_vfs_job_failed_literal job.base G_IO_ERROR G_IO_ERROR_PERMISSION_DENIED
            "Access denied"
        else if res_code = AFP_RESULT_DISK_FULL then
          g_vfs_job_failed_literal job.base G_IO_ERROR G_IO_ERROR_NO_SPACE
            "Not enough space on volume"
        else if res_code = AFP_RESULT_FLAT_VOL then
          g_vfs_job_failed_literal job.base G_IO_ERROR G_IO_ERROR_NOT_SUPPORTED
            "Volume is flat and doesn't support directories"
        else if res_code = AFP_RESULT_OBJECT_NOT_FOUND then
          g_vfs_job_failed_literal job.base G_IO_ERROR G_IO_ERROR_NOT_FOUND
            "Ancestor directory doesn't exist"
        else if res_code = AFP_RESULT_OBJECT_EXISTS then
          g_vfs_job_failed_literal job.base G_IO_ERROR G_IO_ERROR_EXISTS
            "Target directory already exists"
        else if res_code = AFP_RESULT_VOL_LOCKED then
          g_vfs_job_failed_literal job.base G_IO_ERROR G_IO_ERROR_PERMISSION_DENIED
            "Volume is read-only"
        else
          g_vfs_job_failed job.base G_IO_ERROR G_IO_ERROR_FAILED
            (got_error_code_message res_code)
      { job with base := base }
    else { job with base := g_vfs_job_succeeded job.base }

/-- `try_make_directory`. -/
def try_make_directory (afp_backend : GVfsBackendAfp) (conn : GVfsAfpConnection)
    (filename : List Nat) : GVfsAfpConnection :=
  let comm := g_vfs_afp_command_new .AFP_COMMAND_CREATE_DIR
  let comm := g_vfs_afp_command_put_byte comm 0
  let comm := g_vfs_afp_command_put_uint16 comm afp_backend.volume_id
  let comm := g_vfs_afp_command_put_uint32 comm 2
  let comm := put_pathname comm filename
  g_vfs_afp_connection_queue_command conn comm .make_directory_cb

structure GVfsJobDelete where
  base : GVfsJob
  deriving DecidableEq, Repr

/-- `delete_cb`. -/
def delete_cb (job : GVfsJobDelete) (reply : TransportResult) : GVfsJobDelete :=
  match reply with
  | .error error => { job with base := g_vfs_job_failed_from_error job.base error }
  | .ok reply =>
    let res_code := g_vfs_afp_reply_get_result_code reply
    if res_code ≠ AFP_RESULT_NO_ERROR then
      let base :=
        if res_code = AFP_RESULT_ACCESS_DENIED then
          g_vfs_job_failed_literal job.base G_IO_ERROR G_IO_ERROR_PERMISSION_DENIED
            "Access denied"
        else if res_code = AFP_RESULT_DIR_NOT_EMPTY then
          g_vfs_job_failed_literal job.base G_IO_ERROR G_IO_ERROR_NOT_EMPTY
            "Directory not empty"
        else if res_code = AFP_RESULT_OBJECT_LOCKED then
          g_vfs_job_failed_literal job.base G_IO_ERROR G_IO_ERROR_FAILED
            "Target object is marked as DeleteInhibit"
        else if res_code = AFP_RESULT_OBJECT_NOT_FOUND then
          g_vfs_job_failed_literal job.base G_IO_ERROR G_IO_ERROR_NOT_FOUND
            "Target object doesn't exist"
        else if res_code = AFP_RESULT_VOL_LOCKED then
          g_vfs_job_failed_literal job.base G_IO_ERROR G_IO_ERROR_PERMISSION_DENIED
            "Volume is read-only"
        else
          g_vfs_job_failed job.base G_IO_ERROR G_IO_ERROR_FAILED
            (got_error_code_message res_code)
      { job with base := base }
    else { job with base := g_vfs_job_succeeded job.base }

/-- `try_delete`. -/
def try_delete (afp_backend : GVfsBackendAfp) (conn : GVfsAfpConnection)
    (filename : List Nat) : GVfsAfpConnection :=
  let comm := g_vfs_afp_command_new .AFP_COMMAND_DELETE
  let comm := g_vfs_afp_command_put_byte comm 0
  let comm := g_vfs_afp_command_put_uint16 comm afp_backend.volume_id
  let comm := g_vfs_afp_command_put_uint32 comm 2
  let comm := put_pathname comm filename
  g_vfs_afp_connection_queue_command conn comm .delete_cb

/-! ### Read -/

/-- A `GVfsJobRead`: the caller's buffer, the number of bytes asked for and the size
reported through `g_vfs_job_read_set_size`. -/
structure GVfsJobRead where
  base : GVfsJob
  buffer : List Nat
  bytes_requested : Nat
  data_count : Nat := 0
  deriving DecidableEq, Repr

def g_vfs_job_read_set_size (job : GVfsJobRead) (data_size : Nat) : GVfsJobRead :=
  { job with data_count := data_size }

/-- `memcpy (dest, src, n)`: the first `n` bytes of `src` replace the first `n`
bytes of `dest`. When `dest` is shorter than `n`, the bytes of the result beyond the
length of `dest` are those written past its end. -/
def memcpy (dest src : List Nat) (n : Nat) : List Nat := src.take n ++ dest.drop n

/-- `read_ext_cb`. `size` is a `gsize` and the offset a `gint64`: the sum is computed
unsigned and converted back. -/
def read_ext_cb (reply : TransportResult) (job : GVfsJobRead) (afp_handle : AfpHandle) :
    Option (GVfsJobRead × AfpHandle) :=
  match reply with
  | .error error => some ({ job with base := g_vfs_job_failed_from_error job.base error },
                          afp_handle)
  | .ok reply =>
    let res_code := g_vfs_afp_reply_get_result_code reply
    if ¬ (res_code = AFP_RESULT_NO_ERROR ∨ res_code = AFP_RESULT_EOF_ERR
          ∨ res_code = AFP_RESULT_LOCK_ERR) then
      let base :=
        if res_code = AFP_RESULT_ACCESS_DENIED then
          g_vfs_job_failed_literal job.base G_IO_ERROR G_IO_ERROR_FAILED
            "File is not open for read access"
        else
          g_vfs_job_failed job.base G_IO_ERROR G_IO_ERROR_FAILED
            (got_error_code_message res_code)
      some ({ job with base := base }, afp_handle)
    else
      let size := g_vfs_afp_reply_get_size reply
      (g_vfs_afp_reply_get_data reply size).bind fun r =>
        let data := r.1
        let job := { job with buffer := memcpy job.buffer data size }
        let offset := to_gint64 (to_gsize (afp_handle.offset + size))
        let afp_handle := { afp_handle with offset := offset }
        let job := g_vfs_job_read_set_size job size
        some ({ job with base := g_vfs_job_succeeded job.base }, afp_handle)

/-- `try_read`. `req_count` is a `guint32`. -/
def try_read (conn : GVfsAfpConnection) (afp_handle : AfpHandle) (bytes_requested : Nat) :
    GVfsAfpConnection :=
  let comm := g_vfs_afp_command_new .AFP_COMMAND_READ_EXT
  let comm := g_vfs_afp_command_put_byte comm 0
  let comm := g_vfs_afp_command_put_int16 comm afp_handle.fork_refnum
  let comm := g_vfs_afp_command_put_int64 comm afp_handle.offset
  let req_count := min bytes_requested G_MAXUINT32
  let comm := g_vfs_afp_command_put_int64 comm req_count
  g_vfs_afp_connection_queue_command conn comm .read_ext_cb

/-- `try_write`. `req_count` is a `guint32`; the first `req_count` bytes of the
buffer are appended to the command. -/
def try_write (conn : GVfsAfpConnection) (afp_handle : AfpHandle) (buffer : List Nat)
    (buffer_size : Nat) : GVfsAfpConnection :=
  let comm := g_vfs_afp_command_new .AFP_COMMAND_WRITE_EXT
  let comm := g_vfs_afp_command_put_byte comm 0
  let comm := g_vfs_afp_command_put_int16 comm afp_handle.fork_refnum
  let comm := g_vfs_afp_command_put_int64 comm afp_handle.offset
  let req_count := min buffer_size G_MAXUINT32
  let comm := g_vfs_afp_command_put_int64 comm req_count
  let comm := g_vfs_afp_command_put comm (.data (buffer.take req_count))
  g_vfs_afp_connection_queue_command conn comm .write_ext_cb

/-! ### Close (read) -/

structure GVfsJobCloseRead where
  base : GVfsJob
  deriving DecidableEq, Repr

/-- `close_read_close_fork_cb`. -/
def close_read_close_fork_cb (job : GVfsJobCloseRead) (res : Except GError Unit) :
    GVfsJobCloseRead :=
  match close_fork_finish res with
  | .error err => { job with base := g_vfs_job_failed_from_error job.base err }
  | .ok _ => { job with base := g_vfs_job_succeeded job.base }

/-- `try_close_read`. -/
def try_close_read (conn : GVfsAfpConnection) (afp_handle : AfpHandle) : GVfsAfpConnection :=
  close_fork conn afp_handle .close_read_close_fork_cb

/-! ### Query info -/

/-! The volume-bitmap bits of `gvfsafpconnection.h` (not part of the sources); the
values are those of the AFP protocol. -/

def AFP_VOLUME_BITMAP_CREATE_DATE_BIT : Nat := 0x4
def AFP_VOLUME_BITMAP_MOD_DATE_BIT : Nat := 0x8
def AFP_VOLUME_BITMAP_VOL_ID_BIT : Nat := 0x20

structure GVfsJobQueryInfo where
  base : GVfsJob
  file_info : GFileInfo
  deriving DecidableEq, Repr

/-- `get_filedir_parms_cb`. The pad byte is read into no variable. -/
def get_filedir_parms_cb (afp_backend : GVfsBackendAfp) (job : GVfsJobQueryInfo)
    (reply : TransportResult) : Option GVfsJobQueryInfo :=
  match reply with
  | .error error => some { job with base := g_vfs_job_failed_from_error job.base error }
  | .ok reply =>
    let res_code := g_vfs_afp_reply_get_result_code reply
    if res_code = AFP_RESULT_OBJECT_NOT_FOUND then
      some { job with base := g_vfs_job_failed_literal job.base G_IO_ERROR
                                G_IO_ERROR_NOT_FOUND "File doesn't exist" }
    else if res_code ≠ AFP_RESULT_NO_ERROR then
      some { job with base := g_vfs_job_failed_literal job.base G_IO_ERROR
                                G_IO_ERROR_FAILED
                                "Retrieval of file/directory parameters failed" }
    else
      (g_vfs_afp_reply_read_uint16 reply).bind fun fb =>
      (g_vfs_afp_reply_read_uint16 fb.2).bind fun db =>
      (g_vfs_afp_reply_read_byte db.2).bind fun fd =>
        let file_bitmap := fb.1
        let dir_bitmap := db.1
        let FileDir := fd.1
        let reply := ((g_vfs_afp_reply_read_byte fd.2).map (fun p => p.2)).getD fd.2
        let directory : Bool := FileDir &&& 0x80 != 0
        let bitmap := if directory then dir_bitmap else file_bitmap
        (fill_info afp_backend job.file_info reply directory bitmap).bind fun r =>
          some { job with file_info := r.1, base := g_vfs_job_succeeded job.base }

/-- `get_vol_parms_cb`, the block of one date: the sum of two `gint32` is stored as
a `guint64`; both blocks of the source store it under
`G_FILE_ATTRIBUTE_TIME_CREATED`. -/
def get_vol_parms_date (time_diff : Int) (vol_bitmap bit : Nat)
    (s : GFileInfo × GVfsAfpReply) : Option (GFileInfo × GVfsAfpReply) :=
  if has_bit vol_bitmap bit then
    (g_vfs_afp_reply_read_int32 s.2).bind fun r =>
      some ({ s.1 with time_created := some (to_guint64 (to_gint32 (r.1 + time_diff))) }, r.2)
  else some s

/-- `get_vol_parms_cb`. -/
def get_vol_parms_cb (afp_backend : GVfsBackendAfp) (job : GVfsJobQueryInfo)
    (reply : TransportResult) : Option GVfsJobQueryInfo :=
  match reply with
  | .error error => some { job with base := g_vfs_job_failed_from_error job.base error }
  | .ok reply =>
    let res_code := g_vfs_afp_reply_get_result_code reply
    if res_code ≠ AFP_RESULT_NO_ERROR then
      some { job with base := g_vfs_job_failed_literal job.base G_IO_ERROR
                                G_IO_ERROR_FAILED "Retrieval of volume parameters failed" }
    else
      let info := job.file_info
      (g_vfs_afp_reply_read_uint16 reply).bind fun vb =>
        let vol_bitmap := vb.1
        (get_vol_parms_date afp_backend.time_diff vol_bitmap
          AFP_VOLUME_BITMAP_CREATE_DATE_BIT (info, vb.2)).bind fun s1 =>
        (get_vol_parms_date afp_backend.time_diff vol_bitmap
          AFP_VOLUME_BITMAP_MOD_DATE_BIT s1).bind fun s2 =>
          some { job with file_info := s2.1, base := g_vfs_job_succeeded job.base }

/-! ### Query info on the root and on a path -/

structure QueryInfoState where
  conn : GVfsAfpConnection
  job : GVfsJobQueryInfo
  deriving DecidableEq, Repr

/-- `try_query_info`. The `info` argument is the `file_info` of the job.
`g_file_info_set_display_name` leaves the info alone for a null display name. -/
def try_query_info (afp_backend : GVfsBackendAfp) (conn : GVfsAfpConnection)
    (job : GVfsJobQueryInfo) (filename : List Nat) (_flags : Nat)
    (matcher : GFileAttributeMatcher) : QueryInfoState :=
  if is_root filename then
    let info := job.file_info
    let vol_bitmap := 0
    let info := { info with file_type := some .G_FILE_TYPE_DIRECTORY }
    let info := { info with name := some [SLASH] }
    let info :=
      match g_vfs_backend_get_display_name afp_backend.parent_instance with
      | some display_name => { info with display_name := some display_name }
      | none => info
    let info := { info with content_type := some .inode_directory }
    let info :=
      match g_vfs_backend_get_icon afp_backend.parent_instance with
      | some icon => { info with icon := some icon }
      | none => info
    let vol_bitmap :=
      if g_file_attribute_matcher_matches matcher G_FILE_ATTRIBUTE_TIME_CREATED then
        vol_bitmap ||| AFP_VOLUME_BITMAP_CREATE_DATE_BIT
      else vol_bitmap
    let vol_bitmap :=
      if g_file_attribute_matcher_matches matcher G_FILE_ATTRIBUTE_TIME_MODIFIED then
        vol_bitmap ||| AFP_VOLUME_BITMAP_MOD_DATE_BIT
      else vol_bitmap
    let job := { job with file_info := info }
    if vol_bitmap ≠ 0 then
      let comm := g_vfs_afp_command_new .AFP_COMMAND_GET_VOL_PARMS
      let comm := g_vfs_afp_command_put_byte comm 0
      let comm := g_vfs_afp_command_put_uint16 comm afp_backend.volume_id
      let comm := g_vfs_afp_command_put_uint16 comm vol_bitmap
      { conn := g_vfs_afp_connection_queue_command conn comm .get_vol_parms_cb, job := job }
    else { conn := conn, job := { job with base := g_vfs_job_succeeded job.base } }
  else
    let comm := g_vfs_afp_command_new .AFP_COMMAND_GET_FILE_DIR_PARMS
    let comm := g_vfs_afp_command_put_byte comm 0
    let comm := g_vfs_afp_command_put_uint16 comm afp_backend.volume_id
    let comm := g_vfs_afp_command_put_uint32 comm 2
    let file_bitmap := create_file_bitmap matcher
    let comm := g_vfs_afp_command_put_uint16 comm file_bitmap
    let dir_bitmap := create_dir_bitmap matcher
    let comm := g_vfs_afp_command_put_uint16 comm dir_bitmap
    let comm := put_pathname comm filename
    { conn := g_vfs_afp_connection_queue_command conn comm .get_filedir_parms_cb, job := job }

/-- The transport answers the oldest unanswered command of a query-info. -/
def query_info_deliver (afp_backend : GVfsBackendAfp) (s : QueryInfoState)
    (reply : TransportResult) : Option QueryInfoState :=
  match s.conn.pending with
  | [] => some s
  | cb :: pending =>
    let s := { s with conn := { s.conn with pending := pending } }
    match cb with
    | .get_vol_parms_cb =>
      (get_vol_parms_cb afp_backend s.job reply).map fun job => { s with job := job }
    | .get_filedir_parms_cb =>
      (get_filedir_parms_cb afp_backend s.job reply).map fun job => { s with job := job }
    | _ => some s

/-- A query-info from `try_query_info` on a fresh connection through the answers of
the transport, in order. -/
def query_info_session (afp_backend : GVfsBackendAfp) (job : GVfsJobQueryInfo)
    (filename : List Nat) (flags : Nat) (matcher : GFileAttributeMatcher)
    (replies : List TransportResult) : Option QueryInfoState :=
  replies.foldlM (query_info_deliver afp_backend)
    (try_query_info afp_backend {} job filename flags matcher)

/-! ### Mount -/

/-- The bytes of a string literal of the source. -/
def literal (s : String) : List Nat := s.toList.map Char.toNat

/-- A byte string as the text that `%s` prints. -/
def text (bytes : List Nat) : String := String.mk (bytes.map Char.ofNat)

def G_USEC_PER_SEC : Int := 1000000

/-- What the world answers to the blocking calls of `do_mount`, in the order of the
calls: the server object that `g_vfs_afp_server_new` and the login yield, the result
of the login, of sending and of reading for the get-server-parameters exchange, the
value of `g_get_real_time ()` (microseconds), and the result of sending and of
reading for the open-volume exchange. -/
structure MountEnvironment where
  server : GVfsAfpServer
  server_login : Except GError Unit
  send_srvr_parms : Except GError Unit
  read_srvr_parms : Except GError GVfsAfpReply
  real_time : Int
  send_open_vol : Except GError Unit
  read_open_vol : Except GError GVfsAfpReply
  deriving Repr

/-- The blocking calls `do_mount` makes. -/
inductive MountStep
  | g_vfs_afp_server_login
  | g_vfs_afp_connection_send_command_sync (comm : GVfsAfpCommand)
  | g_vfs_afp_connection_read_reply_sync
  deriving DecidableEq, Repr

/-- How `do_mount` leaves the job: `g_vfs_job_succeeded`, the label `error`
(`g_vfs_job_failed_from_error (job, err)`, where `err` is still `NULL` when no call
has set it), or the label `generic_error` (`g_vfs_job_failed` with its message). -/
inductive MountOutcome
  | succeeded
  | failed_from_error (err : Option GError)
  | failed (error : GError)
  deriving DecidableEq, Repr

structure MountResult where
  afp_backend : GVfsBackendAfp
  outcome : MountOutcome
  steps : List MountStep
  deriving DecidableEq, Repr

/-- `do_mount`, the open-volume exchange and what follows it. -/
def do_mount_open_vol (env : MountEnvironment) (afp_backend : GVfsBackendAfp)
    (steps : List MountStep) : Option MountResult :=
  let comm := g_vfs_afp_command_new .AFP_COMMAND_OPEN_VOL
  let comm := g_vfs_afp_command_put_byte comm 0
  let vol_bitmap := AFP_VOLUME_BITMAP_VOL_ID_BIT
  let comm := g_vfs_afp_command_put_uint16 comm vol_bitmap
  let comm := g_vfs_afp_command_put_pascal comm afp_backend.volume
  let steps := steps ++ [.g_vfs_afp_connection_send_command_sync comm]
  match env.send_open_vol with
  | .error err =>
    some { afp_backend := afp_backend, outcome := .failed_from_error (some err), steps := steps }
  | .ok _ =>
    let steps := steps ++ [.g_vfs_afp_connection_read_reply_sync]
    match env.read_open_vol with
    | .error err =>
      some { afp_backend := afp_backend, outcome := .failed_from_error (some err),
             steps := steps }
    | .ok reply =>
      let res_code := g_vfs_afp_reply_get_result_code reply
      if res_code ≠ AFP_RESULT_NO_ERROR then
        let error : GError :=
          { domain := G_IO_ERROR, code := G_IO_ERROR_FAILED,
            message := "Couldn't mount AFP volume " ++ text afp_backend.volume ++ " on " ++
              text afp_backend.server.server_name }
        some { afp_backend := afp_backend, outcome := .failed error, steps := steps }
      else
        let reply := ((g_vfs_afp_reply_read_uint16 reply).map (fun r => r.2)).getD reply
        (g_vfs_afp_reply_read_uint16 reply).bind fun v =>
          let afp_backend := { afp_backend with volume_id := v.1 }
          let afp_mount_spec : GMountSpec :=
            { type := "afp-volume",
              host := afp_backend.addr.map (fun a => a.hostname),
              volume := some afp_backend.volume,
              user := afp_backend.user }
          let server_name :=
            match afp_backend.server.utf8_server_name with
            | some utf8_server_name => utf8_server_name
            | none => afp_backend.server.server_name
          let display_name :=
            match afp_backend.user with
            | some user =>
              literal "AFP volume " ++ afp_backend.volume ++ literal " for " ++ user ++
                literal " on " ++ server_name
            | none => literal "AFP volume " ++ afp_backend.volume ++ literal " on " ++ server_name
          let backend : GVfsBackend :=
            { mount_spec := some afp_mount_spec, display_name := some display_name,
              icon_name := some "folder-remote-afp", user_visible := true }
          let afp_backend := { afp_backend with parent_instance := backend }
          some { afp_backend := afp_backend, outcome := .succeeded, steps := steps }

/-- `do_mount`. `time_diff` is a `gint32`: the difference of the `gint64` seconds and
the server time is converted to it. The server time is read without a check
(`none` when the reply is too short to hold it). -/
def do_mount (env : MountEnvironment) (afp_backend : GVfsBackendAfp) : Option MountResult :=
  let afp_backend := { afp_backend with server := env.server }
  let steps := [MountStep.g_vfs_afp_server_login]
  match env.server_login with
  | .error err =>
    some { afp_backend := afp_backend, outcome := .failed_from_error (some err), steps := steps }
  | .ok _ =>
    let comm := g_vfs_afp_command_new .AFP_COMMAND_GET_SRVR_PARMS
    let comm := g_vfs_afp_command_put_byte comm 0
    let steps := steps ++ [.g_vfs_afp_connection_send_command_sync comm]
    match env.send_srvr_parms with
    | .error err =>
      some { afp_backend := afp_backend, outcome := .failed_from_error (some err),
             steps := steps }
    | .ok _ =>
      let steps := steps ++ [.g_vfs_afp_connection_read_reply_sync]
      match env.read_srvr_parms with
      | .error err =>
        some { afp_backend := afp_backend, outcome := .failed_from_error (some err),
               steps := steps }
      | .ok reply =>
        let res_code := g_vfs_afp_reply_get_result_code reply
        if res_code ≠ AFP_RESULT_NO_ERROR then
          some { afp_backend := afp_backend, outcome := .failed_from_error none,
                 steps := steps }
        else
          (g_vfs_afp_reply_read_int32 reply).bind fun r =>
            let server_time := r.1
            let time_diff := to_gint32 (Int.tdiv env.real_time G_USEC_PER_SEC - server_time)
            let afp_backend := { afp_backend with time_diff := time_diff }
            do_mount_open_vol env afp_backend steps

/-! ## The channel (`gvfschannel.c`) -/

/-! Constants of `gvfsdaemonprotocol.h` (not part of the sources); the numbers are
those of the daemon socket protocol, and no theorem depends on them. -/

def G_VFS_DAEMON_SOCKET_PROTOCOL_REQUEST_SIZE : Nat := 20
def G_VFS_DAEMON_SOCKET_PROTOCOL_REPLY_SIZE : Nat := 16
def G_VFS_DAEMON_SOCKET_PROTOCOL_REQUEST_CANCEL : Nat := 3

/-- Modelled from the spec: a request header, "a sequence number, a command code,
two generic arguments, and a payload length", each field holding the value that
`g_ntohl` yields (`gvfsdaemonprotocol.h` is missing). -/
structure GVfsDaemonSocketProtocolRequest where
  command : Nat
  seq_nr : Nat
  arg1 : Nat
  arg2 : Nat
  data_len : Nat
  deriving DecidableEq, Repr

/-- A `GVfsBackendHandle` (an opaque pointer), `none` for `NULL`. -/
abbrev GVfsBackendHandle := Option Nat

/-- GIO's output stream on the socket, as far as the channel uses it: the buffer
offered by the outstanding `g_output_stream_write_async`, and the bytes the stream
has accepted so far. -/
structure GOutputStream where
  pending : Option (List Nat) := none
  written : List Nat := []
  deriving DecidableEq, Repr

/-- The calls the channel makes to its collaborators, in order. -/
inductive ChannelEffect
  | warning (message : String)
  | job_cancel (job : GVfsJob)
  | handle_request (command seq_nr arg1 arg2 : Nat) (data : List Nat)
  | job_source_new_job (job : GVfsJob)
  | job_emit_finished (job : Option GVfsJob)
  | job_source_closed
  | print (message : String)
  deriving DecidableEq, Repr

/-- `GVfsChannelPrivate`, without the request reader; `trace` records the calls made
to the job framework and to the class methods. -/
structure GVfsChannel where
  connection_closed : Bool := false
  reply_stream : GOutputStream := {}
  backend_handle : GVfsBackendHandle := none
  current_job : Option GVfsJob := none
  current_job_seq_nr : Nat := 0
  reply_buffer : List Nat := []
  reply_buffer_pos : Int := 0
  output_data : Option (List Nat) := none
  output_data_size : Nat := 0
  output_data_pos : Nat := 0
  trace : List ChannelEffect := []
  deriving DecidableEq, Repr

/-- The virtual methods of `GVfsChannelClass`, implemented by the read and write
channels (not part of the sources), and `g_error_to_daemon_reply` of
`gvfsdaemonutils.c`: parameters of the model. -/
structure GVfsChannelClass where
  close : GVfsChannel → GVfsJob
  handle_request :
    GVfsChannel → Nat → Nat → Nat → Nat → List Nat → Except GError GVfsJob
  g_error_to_daemon_reply : GError → Nat → List Nat

def channel_log (channel : GVfsChannel) (effect : ChannelEffect) : GVfsChannel :=
  { channel with trace := channel.trace ++ [effect] }

/-- `g_output_stream_write_async (channel->priv->reply_stream, buffer, count, …)`:
`buffer` is the `count` bytes offered. -/
def g_output_stream_write_async (channel : GVfsChannel) (buffer : List Nat) : GVfsChannel :=
  { channel with reply_stream := { channel.reply_stream with pending := some buffer } }

/-- `g_vfs_channel_connection_closed`. -/
def g_vfs_channel_connection_closed (cls : GVfsChannelClass) (channel : GVfsChannel) :
    GVfsChannel :=
  if channel.connection_closed then channel
  else
    let channel := { channel with connection_closed := true }
    if channel.current_job = none ∧ channel.backend_handle ≠ none then
      let job := cls.close channel
      let channel := { channel with current_job := some job }
      let channel := { channel with current_job_seq_nr := 0 }
      channel_log channel (.job_source_new_job job)
    else channel

/-- `g_vfs_channel_send_reply`: `reply` is the fixed-size header (`NULL` when the
data already holds a whole reply), `data` the payload of `data_len` bytes. -/
def g_vfs_channel_send_reply (channel : GVfsChannel) (reply : Option (List Nat))
    (data : Option (List Nat)) (data_len : Nat) : GVfsChannel :=
  let channel := { channel with output_data := data }
  let channel := { channel with output_data_size := data_len }
  let channel := { channel with output_data_pos := 0 }
  match reply with
  | some reply =>
    let channel := { channel with reply_buffer := reply }
    let channel := { channel with reply_buffer_pos := 0 }
    g_output_stream_write_async channel
      (channel.reply_buffer.take G_VFS_DAEMON_SOCKET_PROTOCOL_REPLY_SIZE)
  | none =>
    let channel :=
      { channel with reply_buffer_pos := (G_VFS_DAEMON_SOCKET_PROTOCOL_REPLY_SIZE : Int) }
    g_output_stream_write_async channel
      ((channel.output_data.getD []).take channel.output_data_size)

/-- `g_vfs_channel_send_error`. -/
def g_vfs_channel_send_error (cls : GVfsChannelClass) (channel : GVfsChannel)
    (error : GError) : GVfsChannel :=
  let data := cls.g_error_to_daemon_reply error channel.current_job_seq_nr
  g_vfs_channel_send_reply channel none (some data) data.length

/-- `got_request`. -/
def got_request (cls : GVfsChannelClass) (channel : GVfsChannel)
    (request : GVfsDaemonSocketProtocolRequest) (data : List Nat) : GVfsChannel :=
  let command := request.command
  let arg1 := request.arg1
  let arg2 := request.arg2
  let seq_nr := request.seq_nr
  match channel.current_job with
  | some current_job =>
    if command ≠ G_VFS_DAEMON_SOCKET_PROTOCOL_REQUEST_CANCEL then
      channel_log channel (.warning "Ignored non-cancel request with outstanding request")
    else if arg1 = channel.current_job_seq_nr then
      channel_log channel (.job_cancel current_job)
    else channel
  | none =>
    if command ≠ G_VFS_DAEMON_SOCKET_PROTOCOL_REQUEST_CANCEL then
      let channel := channel_log channel (.handle_request command seq_nr arg1 arg2 data)
      match cls.handle_request channel command seq_nr arg1 arg2 data with
      | .ok job =>
        let channel := { channel with current_job := some job }
        let channel := { channel with current_job_seq_nr := seq_nr }
        channel_log channel (.job_source_new_job job)
      | .error error => g_vfs_channel_send_error cls channel error
    else channel

/-- `G_IS_VFS_JOB_CLOSE_READ (job) || G_IS_VFS_JOB_CLOSE_WRITE (job)`; the type
check of a null pointer is false. -/
def is_close_job (job : Option GVfsJob) : Bool :=
  match job with
  | some job =>
    job.type = .G_VFS_TYPE_JOB_CLOSE_READ || job.type = .G_VFS_TYPE_JOB_CLOSE_WRITE
  | none => false

/-- `send_reply_cb` from the label `error_out` on. -/
def send_reply_cb_error_out (cls : GVfsChannelClass) (channel : GVfsChannel) : GVfsChannel :=
  let channel := { channel with output_data := none }
  let job := channel.current_job
  let channel := { channel with current_job := none }
  let channel := channel_log channel (.job_emit_finished job)
  let channel :=
    if is_close_job job then
      let channel := channel_log channel .job_source_closed
      { channel with backend_handle := none }
    else if channel.connection_closed then
      let close_job := cls.close channel
      let channel := { channel with current_job := some close_job }
      let channel := { channel with current_job_seq_nr := 0 }
      channel_log channel (.job_source_new_job close_job)
    else channel
  channel_log channel (.print "Sent reply\n")

/-- `send_reply_cb` from `channel->priv->output_data_pos += bytes_written` on:
write more of the payload, or fall through to `error_out`. -/
def send_reply_cb_output_data (cls : GVfsChannelClass) (channel : GVfsChannel)
    (bytes_written : Int) : GVfsChannel :=
  let channel :=
    { channel with output_data_pos := to_gsize (channel.output_data_pos + bytes_written) }
  if channel.output_data ≠ none ∧ channel.output_data_pos < channel.output_data_size then
    g_output_stream_write_async channel
      (((channel.output_data.getD []).drop channel.output_data_pos).take
        (channel.output_data_size - channel.output_data_pos))
  else send_reply_cb_error_out cls channel

/-- `send_reply_cb`. -/
def send_reply_cb (cls : GVfsChannelClass) (channel : GVfsChannel) (bytes_written : Int) :
    GVfsChannel :=
  if bytes_written ≤ 0 then
    let channel := g_vfs_channel_connection_closed cls channel
    send_reply_cb_error_out cls channel
  else if channel.reply_buffer_pos < (G_VFS_DAEMON_SOCKET_PROTOCOL_REPLY_SIZE : Int) then
    let channel :=
      { channel with reply_buffer_pos := channel.reply_buffer_pos + bytes_written }
    if channel.reply_buffer_pos < (G_VFS_DAEMON_SOCKET_PROTOCOL_REPLY_SIZE : Int) then
      g_output_stream_write_async channel
        ((channel.reply_buffer.drop channel.reply_buffer_pos.toNat).take
          (G_VFS_DAEMON_SOCKET_PROTOCOL_REPLY_SIZE - channel.reply_buffer_pos.toNat))
    else send_reply_cb_output_data cls channel 0
  else send_reply_cb_output_data cls channel bytes_written

/-- The reply stream completes the outstanding write: it has accepted the first
`bytes_written` bytes of the buffer offered (none when it reports an error or a
closed socket) and calls `send_reply_cb`. -/
def reply_stream_complete (cls : GVfsChannelClass) (channel : GVfsChannel)
    (bytes_written : Int) : GVfsChannel :=
  let accepted := (channel.reply_stream.pending.getD []).take bytes_written.toNat
  let reply_stream : GOutputStream :=
    { pending := none, written := channel.reply_stream.written ++ accepted }
  send_reply_cb cls { channel with reply_stream := reply_stream } bytes_written

/-- `g_vfs_channel_set_backend_handle`. -/
def g_vfs_channel_set_backend_handle (channel : GVfsChannel)
    (backend_handle : GVfsBackendHandle) : GVfsChannel :=
  { channel with backend_handle := backend_handle }

/-- `g_vfs_channel_get_backend_handle`. -/
def g_vfs_channel_get_backend_handle (channel : GVfsChannel) : GVfsBackendHandle :=
  channel.backend_handle

/-- `g_vfs_channel_get_current_seq_nr`. -/
def g_vfs_channel_get_current_seq_nr (channel : GVfsChannel) : Nat :=
  channel.current_job_seq_nr

/-- `g_vfs_channel_init`: the private data starts zeroed. -/
def g_vfs_channel_init : GVfsChannel := {}

/-- What can happen to a channel: a complete request arrives, the connection is
found closed, a job sends its reply or an error, the reply stream completes a
write, the backend handle is set. -/
inductive ChannelInput
  | request (request : GVfsDaemonSocketProtocolRequest) (data : List Nat)
  | connection_closed
  | send_reply (reply : Option (List Nat)) (data : Option (List Nat)) (data_len : Nat)
  | send_error (error : GError)
  | write_complete (bytes_written : Int)
  | set_backend_handle (backend_handle : GVfsBackendHandle)
  deriving DecidableEq, Repr

/-- One transition of the channel. -/
def channel_step (cls : GVfsChannelClass) (channel : GVfsChannel) :
    ChannelInput → GVfsChannel
  | .request request data => got_request cls channel request data
  | .connection_closed => g_vfs_channel_connection_closed cls channel
  | .send_reply reply data data_len => g_vfs_channel_send_reply channel reply data data_len
  | .send_error error => g_vfs_channel_send_error cls channel error
  | .write_complete bytes_written => reply_stream_complete cls channel bytes_written
  | .set_backend_handle backend_handle =>
    g_vfs_channel_set_backend_handle channel backend_handle

/-- The channel after a sequence of transitions from its initial state. -/
def channel_run (cls : GVfsChannelClass) (inputs : List ChannelInput) : GVfsChannel :=
  inputs.foldl (channel_step cls) g_vfs_channel_init

/-! ### The request reader -/

/-- What the request reader takes from outside the sources: the layout of
`GVfsDaemonSocketProtocolRequest` (`gvfsdaemonprotocol.h`), as the function from the
bytes of a header to its fields read through `g_ntohl`, and the content of the
memory that `g_malloc` returns. -/
structure RequestReaderEnvironment where
  request : List Nat → GVfsDaemonSocketProtocolRequest
  g_malloc : Nat → List Nat

/-- The two callbacks the reader passes to `g_input_stream_read_async`. -/
inductive ReadCallback
  | command_read_cb
  | data_read_cb
  deriving DecidableEq, Repr

/-- A call of `g_input_stream_read_async` on the command stream: the callback, the
offset of the destination within the memory it points into (`reader->buffer` for
`command_read_cb`, `reader->data` for `data_read_cb`) and the count asked for. -/
structure ReadAsync where
  callback : ReadCallback
  offset : Nat
  count : Nat
  deriving DecidableEq, Repr

/-- The calls the reader makes, in order. -/
inductive ReaderEffect
  | read_async (read : ReadAsync)
  | got_request (request : GVfsDaemonSocketProtocolRequest) (data : List Nat)
  deriving DecidableEq, Repr

/-- `RequestReader`, without its two pointers; `g_new0` zeroes it. -/
structure RequestReader where
  buffer : List Nat := List.replicate G_VFS_DAEMON_SOCKET_PROTOCOL_REQUEST_SIZE 0
  buffer_size : Int := 0
  data : Option (List Nat) := none
  data_len : Nat := 0
  data_pos : Nat := 0
  deriving DecidableEq, Repr

/-- The read side of a channel: `channel` is `reader->channel` (`none` once the
channel has been finalized), `request_reader` the reader (`none` once
`request_reader_free` has run), `pending` the read outstanding on the command
stream, `trace` the calls made so far. -/
structure ReadSide where
  channel : Option GVfsChannel
  request_reader : Option RequestReader
  pending : Option ReadAsync := none
  trace : List ReaderEffect := []
  deriving DecidableEq, Repr

/-- `g_input_stream_read_async (reader->command_stream, …)`. -/
def g_input_stream_read_async (s : ReadSide) (callback : ReadCallback) (offset count : Nat) :
    ReadSide :=
  let read : ReadAsync := { callback := callback, offset := offset, count := count }
  { s with pending := some read, trace := s.trace ++ [ReaderEffect.read_async read] }

/-- `request_reader_free`. -/
def request_reader_free (s : ReadSide) : ReadSide := { s with request_reader := none }

/-- `finish_request`; the caller has checked `reader->channel`. The count of the
read is an `int` difference converted to `gsize`. -/
def finish_request (cls : GVfsChannelClass) (env : RequestReaderEnvironment) (s : ReadSide)
    (channel : GVfsChannel) (reader : RequestReader) : ReadSide :=
  let request := env.request (reader.buffer.take G_VFS_DAEMON_SOCKET_PROTOCOL_REQUEST_SIZE)
  let data := (reader.data.getD []).take reader.data_len
  let s := { s with trace := s.trace ++ [ReaderEffect.got_request request data] }
  let channel := got_request cls channel request data
  let reader := { reader with data := none }
  let reader := { reader with buffer_size := 0 }
  let reader := { reader with data_len := 0 }
  let s := { s with channel := some channel, request_reader := some reader }
  g_input_stream_read_async s .command_read_cb reader.buffer_size.toNat
    (to_gsize ((G_VFS_DAEMON_SOCKET_PROTOCOL_REQUEST_SIZE : Int) - reader.buffer_size))

/-- `data_read_cb`; `data_pos` is a `gsize`. -/
def data_read_cb (cls : GVfsChannelClass) (env : RequestReaderEnvironment) (s : ReadSide)
    (reader : RequestReader) (count_read : Int) : ReadSide :=
  match s.channel with
  | none => request_reader_free s
  | some channel =>
    if count_read ≤ 0 then
      let s := { s with channel := some (g_vfs_channel_connection_closed cls channel) }
      request_reader_free s
    else
      let reader := { reader with data_pos := to_gsize (reader.data_pos + count_read) }
      if reader.data_pos < reader.data_len then
        g_input_stream_read_async { s with request_reader := some reader } .data_read_cb
          reader.data_pos (reader.data_len - reader.data_pos)
      else finish_request cls env s channel reader

/-- `command_read_cb`; `buffer_size` is an `int`, `data_len` a `guint32`. -/
def command_read_cb (cls : GVfsChannelClass) (env : RequestReaderEnvironment) (s : ReadSide)
    (reader : RequestReader) (count_read : Int) : ReadSide :=
  match s.channel with
  | none => request_reader_free s
  | some channel =>
    if count_read ≤ 0 then
      let s := { s with channel := some (g_vfs_channel_connection_closed cls channel) }
      request_reader_free s
    else
      let reader := { reader with buffer_size := to_gint32 (reader.buffer_size + count_read) }
      if reader.buffer_size < (G_VFS_DAEMON_SOCKET_PROTOCOL_REQUEST_SIZE : Int) then
        g_input_stream_read_async { s with request_reader := some reader } .command_read_cb
          reader.buffer_size.toNat
          (to_gsize ((G_VFS_DAEMON_SOCKET_PROTOCOL_REQUEST_SIZE : Int) - reader.buffer_size))
      else
        let request := env.request (reader.buffer.take G_VFS_DAEMON_SOCKET_PROTOCOL_REQUEST_SIZE)
        let data_len := request.data_len
        if data_len > 0 then
          let reader := { reader with data := some (env.g_malloc data_len) }
          let reader := { reader with data_len := data_len }
          let reader := { reader with data_pos := 0 }
          g_input_stream_read_async { s with request_reader := some reader } .data_read_cb
            reader.data_pos (reader.data_len - reader.data_pos)
        else finish_request cls env s channel reader

/-- `start_request_reader`. -/
def start_request_reader (channel : GVfsChannel) : ReadSide :=
  let reader : RequestReader := {}
  let s : ReadSide := { channel := some channel, request_reader := some reader }
  g_input_stream_read_async s .command_read_cb reader.buffer_size.toNat
    (to_gsize ((G_VFS_DAEMON_SOCKET_PROTOCOL_REQUEST_SIZE : Int) - reader.buffer_size))

/-- The memory `buffer` after `bytes` have been stored at `offset`. -/
def store (buffer : List Nat) (offset : Nat) (bytes : List Nat) : List Nat :=
  buffer.take offset ++ bytes ++ buffer.drop (offset + bytes.length)

/-- The command stream completes the outstanding read: it has stored the first
`count_read` bytes of `bytes` at the destination of the read (nothing when it
reports the end of the stream or an error, `count_read ≤ 0`) and calls the callback
with the reader. -/
def command_stream_complete (cls : GVfsChannelClass) (env : RequestReaderEnvironment)
    (s : ReadSide) (bytes : List Nat) (count_read : Int) : ReadSide :=
  match s.pending, s.request_reader with
  | some read, some reader =>
    let stored := bytes.take count_read.toNat
    let s := { s with pending := none }
    match read.callback with
    | .command_read_cb =>
      let reader := { reader with buffer := store reader.buffer read.offset stored }
      command_read_cb cls env s reader count_read
    | .data_read_cb =>
      let reader :=
        { reader with data := reader.data.map (fun data => store data read.offset stored) }
      data_read_cb cls env s reader count_read
  | _, _ => s

/-! ## Definitions used to state the properties -/

/-- Width in bytes of the fixed fields that `bitmap` selects. -/
def fields_width (directory : Bool) (bitmap : Nat) : Nat :=
  (if has_bit bitmap AFP_FILEDIR_BITMAP_ATTRIBUTE_BIT then 2 else 0) +
  (if has_bit bitmap AFP_FILEDIR_BITMAP_CREATE_DATE_BIT then 4 else 0) +
  (if has_bit bitmap AFP_FILEDIR_BITMAP_MOD_DATE_BIT then 4 else 0) +
  (if directory then (if has_bit bitmap AFP_DIR_BITMAP_OFFSPRING_COUNT_BIT then 4 else 0)
   else (if has_bit bitmap AFP_FILE_BITMAP_EXT_DATA_FORK_LEN_BIT then 8 else 0)) +
  (if has_bit bitmap AFP_FILEDIR_BITMAP_UTF8_NAME_BIT then 2 else 0)

/-- The bytes of a reply from position `p` on, `w` of them. -/
def bytes_at (reply : GVfsAfpReply) (p w : Nat) : List Nat := (reply.data.drop p).take w

/-- What the attributes block does to the info, given the attributes read. -/
def set_attributes (attributes : Nat) (info : GFileInfo) : GFileInfo :=
  if has_bit attributes AFP_FILEDIR_ATTRIBUTES_BITMAP_INVISIBLE_BIT then
    { info with is_hidden := some true }
  else info

/-- What a date block stores: the sum of two `gint32`, as a `guint64`. -/
def date_attribute (date time_diff : Int) : Nat := to_guint64 (to_gint32 (date + time_diff))

def set_time_created (time_diff : Int) (date : Int) (info : GFileInfo) : GFileInfo :=
  { info with time_created := some (date_attribute date time_diff) }

def set_time_modified (time_diff : Int) (date : Int) (info : GFileInfo) : GFileInfo :=
  { info with time_modified := some (date_attribute date time_diff) }

def set_children_count (n : Nat) (info : GFileInfo) : GFileInfo :=
  { info with children_count := some n }

def set_size (n : Nat) (info : GFileInfo) : GFileInfo := { info with size := some n }

def int32_value (bs : List Nat) : Int := to_gint32 (be_value bs)

def width_attributes (bitmap : Nat) : Nat :=
  if has_bit bitmap AFP_FILEDIR_BITMAP_ATTRIBUTE_BIT = true then 2 else 0

def width_create_date (bitmap : Nat) : Nat :=
  if has_bit bitmap AFP_FILEDIR_BITMAP_CREATE_DATE_BIT = true then 4 else 0

def width_mod_date (bitmap : Nat) : Nat :=
  if has_bit bitmap AFP_FILEDIR_BITMAP_MOD_DATE_BIT = true then 4 else 0

def width_specific (directory : Bool) (bitmap : Nat) : Nat :=
  if directory = true then
    (if has_bit bitmap AFP_DIR_BITMAP_OFFSPRING_COUNT_BIT = true then 4 else 0)
  else (if has_bit bitmap AFP_FILE_BITMAP_EXT_DATA_FORK_LEN_BIT = true then 8 else 0)

def width_name (bitmap : Nat) : Nat :=
  if has_bit bitmap AFP_FILEDIR_BITMAP_UTF8_NAME_BIT = true then 2 else 0

/-- Width of the fixed fields that precede the name offset. -/
def fixed_width (directory : Bool) (bitmap : Nat) : Nat :=
  width_attributes bitmap + width_create_date bitmap + width_mod_date bitmap +
    width_specific directory bitmap

/-- The cursor at which the name block reads the name: the target of the seek when
it is within the buffer, else the position after the offset field. -/
def name_block_cursor (r : GVfsAfpReply) (start_pos : Nat) : GVfsAfpReply :=
  (g_vfs_afp_reply_seek { r with pos := r.pos + 2 }
      (start_pos + be_value (bytes_at r r.pos 2)) .G_SEEK_SET).getD { r with pos := r.pos + 2 }

def attributes_result (bitmap : Nat) (s : GFileInfo × GVfsAfpReply) : GFileInfo × GVfsAfpReply :=
  (if has_bit bitmap AFP_FILEDIR_BITMAP_ATTRIBUTE_BIT = true then
      set_attributes (be_value (bytes_at s.2 s.2.pos 2)) s.1 else s.1,
   { s.2 with pos := s.2.pos + width_attributes bitmap })

def create_date_result (time_diff : Int) (bitmap : Nat) (s : GFileInfo × GVfsAfpReply) :
    GFileInfo × GVfsAfpReply :=
  (if has_bit bitmap AFP_FILEDIR_BITMAP_CREATE_DATE_BIT = true then
      set_time_created time_diff (int32_value (bytes_at s.2 s.2.pos 4)) s.1 else s.1,
   { s.2 with pos := s.2.pos + width_create_date bitmap })

def mod_date_result (time_diff : Int) (bitmap : Nat) (s : GFileInfo × GVfsAfpReply) :
    GFileInfo × GVfsAfpReply :=
  (if has_bit bitmap AFP_FILEDIR_BITMAP_MOD_DATE_BIT = true then
      set_time_modified time_diff (int32_value (bytes_at s.2 s.2.pos 4)) s.1 else s.1,
   { s.2 with pos := s.2.pos + width_mod_date bitmap })

def specific_result (directory : Bool) (bitmap : Nat) (s : GFileInfo × GVfsAfpReply) :
    GFileInfo × GVfsAfpReply :=
  (if directory = true then
      (if has_bit bitmap AFP_DIR_BITMAP_OFFSPRING_COUNT_BIT = true then
        set_children_count (be_value (bytes_at s.2 s.2.pos 4)) s.1 else s.1)
    else
      (if has_bit bitmap AFP_FILE_BITMAP_EXT_DATA_FORK_LEN_BIT = true then
        set_size (be_value (bytes_at s.2 s.2.pos 8)) s.1 else s.1),
   { s.2 with pos := s.2.pos + width_specific directory bitmap })

/-- The state of `fill_info` when it reaches the name block. -/
def fixed_fields_result (afp_backend : GVfsBackendAfp) (info : GFileInfo) (reply : GVfsAfpReply)
    (directory : Bool) (bitmap : Nat) : GFileInfo × GVfsAfpReply :=
  specific_result directory bitmap
    (mod_date_result afp_backend.time_diff bitmap
      (create_date_result afp_backend.time_diff bitmap
        (attributes_result bitmap (fill_info_type info directory, reply))))

/-- The info `fill_info` builds from the bytes of the reply: each fixed field is
decoded at the cursor the blocks before it leave, then the name is recorded. -/
def decoded_info (afp_backend : GVfsBackendAfp) (info : GFileInfo) (reply : GVfsAfpReply)
    (directory : Bool) (bitmap : Nat) (utf8_name : List Nat) : GFileInfo :=
  if has_bit bitmap AFP_FILEDIR_BITMAP_UTF8_NAME_BIT = true then
    fill_info_set_name directory (fixed_fields_result afp_backend info reply directory bitmap).1
      utf8_name
  else (fixed_fields_result afp_backend info reply directory bitmap).1

/-- The cursor at which `fill_info` reads the name of a record that starts at the
cursor of `reply`: the offset field follows the other fixed fields, and the offset
it holds is relative to the start of the record. -/
def name_cursor (reply : GVfsAfpReply) (directory : Bool) (bitmap : Nat) : GVfsAfpReply :=
  name_block_cursor { reply with pos := reply.pos + fixed_width directory bitmap } reply.pos

/-- The values a record may carry, one per field. -/
structure RecordFields where
  attributes : Nat
  create_date : Int
  mod_date : Int
  offspring_count : Nat
  fork_len : Nat
  name_offset : Nat
  deriving DecidableEq, Repr

/-- The fields of a record fit their wire types. -/
def RecordFields.in_range (v : RecordFields) : Prop :=
  v.attributes < 65536 ∧
  (-2147483648 ≤ v.create_date ∧ v.create_date ≤ 2147483647) ∧
  (-2147483648 ≤ v.mod_date ∧ v.mod_date ≤ 2147483647) ∧
  v.offspring_count < 4294967296 ∧
  v.fork_len < 18446744073709551616 ∧
  v.name_offset < 65536

/-- A record as the spec describes it: the fields `bitmap` selects, and only those,
in the canonical order attributes (uint16), create-date (int32), mod-date (int32),
offspring-count (uint32, directory) or extended fork length (uint64, file),
name-offset (uint16). -/
def encode_record (directory : Bool) (bitmap : Nat) (v : RecordFields) : List Nat :=
  (if has_bit bitmap AFP_FILEDIR_BITMAP_ATTRIBUTE_BIT = true then be_bytes 2 v.attributes
    else []) ++
  (if has_bit bitmap AFP_FILEDIR_BITMAP_CREATE_DATE_BIT = true then
    be_bytes 4 (to_guint32 v.create_date) else []) ++
  (if has_bit bitmap AFP_FILEDIR_BITMAP_MOD_DATE_BIT = true then
    be_bytes 4 (to_guint32 v.mod_date) else []) ++
  (if directory = true then
    (if has_bit bitmap AFP_DIR_BITMAP_OFFSPRING_COUNT_BIT = true then
      be_bytes 4 v.offspring_count else [])
   else
    (if has_bit bitmap AFP_FILE_BITMAP_EXT_DATA_FORK_LEN_BIT = true then
      be_bytes 8 v.fork_len else [])) ++
  (if has_bit bitmap AFP_FILEDIR_BITMAP_UTF8_NAME_BIT = true then be_bytes 2 v.name_offset
    else [])

/-- An AFP name on the wire: text encoding (uint32), length (uint16), bytes. -/
def encode_afp_name (afp_name : GVfsAfpName) : List Nat :=
  be_bytes 4 afp_name.text_encoding ++ be_bytes 2 afp_name.str.length ++ afp_name.str

def example_backend : GVfsBackendAfp :=
  { volume := [118], user := none, server := { version := 2 }, time_diff := 5, volume_id := 1 }

/-- The bitmap attributes, create-date, mod-date, extended fork length, name. -/
def example_bitmap : Nat := 0x280D

/-- A file record: attributes 1 (invisible), create-date 10, mod-date 20, fork
length 42, name offset 20, and at offset 20 the name "a.b". -/
def example_reply : GVfsAfpReply :=
  { result_code := 0,
    data := [0, 1, 0, 0, 0, 10, 0, 0, 0, 20, 0, 0, 0, 0, 0, 0, 0, 42, 0, 20,
             8, 0, 1, 3, 0, 3, 97, 46, 98],
    pos := 0 }

def example_info : GFileInfo :=
  { file_type := some .G_FILE_TYPE_REGULAR,
    content_type := some (.guess [97, 46, 98]),
    fast_content_type := some (.guess [97, 46, 98]),
    icon := some (.content_type_icon (.guess [97, 46, 98])),
    is_hidden := some true,
    time_created := some 15,
    time_modified := some 25,
    size := some 42,
    name := some [97, 46, 98],
    display_name := some [97, 46, 98] }

/-- The values encoded in `example_reply`. -/
def example_fields : RecordFields :=
  { attributes := 1, create_date := 10, mod_date := 20, offspring_count := 0,
    fork_len := 42, name_offset := 20 }

/-- The value `clamp(t, lo, hi)` of the spec. -/
def clamp (t lo hi : Int) : Int := if t < lo then lo else if hi < t then hi else t

/-- The target `t` of a seek, as the spec writes it: `o + d` for SeekCurrent, `d`
for SeekSet and `L + d` for SeekEnd. -/
def seek_target (seek_type : GSeekType) (o d : Int) (L : Nat) : Int :=
  match seek_type with
  | .G_SEEK_CUR => o + d
  | .G_SEEK_SET => d
  | .G_SEEK_END => L + d

def example_handle : AfpHandle :=
  { type := .AFP_HANDLE_TYPE_REPLACE_FILE, fork_refnum := 7, offset := 10,
    filename := some [97], tmp_filename := some [97, 46, 116, 109, 112] }

/-- The exchange-files command for the original and the temporary path. -/
def exchange_files_command (afp_backend : GVfsBackendAfp) (filename tmp_filename : List Nat) :
    GVfsAfpCommand :=
  { type := .AFP_COMMAND_EXCHANGE_FILES,
    fields := [.byte 0, .uint16 afp_backend.volume_id, .uint32 2, .uint32 2,
      .byte AFP_PATH_TYPE_UTF8_NAME, .afp_name (filename_to_afp_pathname filename),
      .byte AFP_PATH_TYPE_UTF8_NAME, .afp_name (filename_to_afp_pathname tmp_filename)] }

/-- The close-fork command for a fork reference. -/
def close_fork_command (fork_refnum : Int) : GVfsAfpCommand :=
  { type := .AFP_COMMAND_CLOSE_FORK, fields := [.byte 0, .int16 fork_refnum] }

/-- The delete command for a path. -/
def delete_command (afp_backend : GVfsBackendAfp) (filename : List Nat) : GVfsAfpCommand :=
  { type := .AFP_COMMAND_DELETE,
    fields := [.byte 0, .uint16 afp_backend.volume_id, .uint32 2,
      .byte AFP_PATH_TYPE_UTF8_NAME, .afp_name (filename_to_afp_pathname filename)] }

def example_error : GError := { domain := G_IO_ERROR, code := 44, message := "Connection closed" }

def example_close_job : GVfsJobCloseWrite := { base := { type := .G_VFS_TYPE_JOB_CLOSE_WRITE } }

/-- The command for one enumeration page with the given start index. -/
def enumerate_ext2_command (afp_backend : GVfsBackendAfp) (filename : List Nat)
    (matcher : GFileAttributeMatcher) (start_index : Int) : GVfsAfpCommand :=
  { type := .AFP_COMMAND_ENUMERATE_EXT2,
    fields := [.byte 0, .uint16 afp_backend.volume_id, .uint32 2,
      .uint16 (create_file_bitmap matcher), .uint16 (create_dir_bitmap matcher),
      .int16 ENUMERATE_REQ_COUNT, .int32 start_index, .int32 ENUMERATE_MAX_REPLY_SIZE,
      .byte AFP_PATH_TYPE_UTF8_NAME, .afp_name (filename_to_afp_pathname filename)] }

/-- The number of entries of a success page: the count field of a reply with result
code NoError whose records all decode. -/
def page_entry_count (afp_backend : GVfsBackendAfp) (reply : GVfsAfpReply) : Option Int :=
  if reply.result_code = AFP_RESULT_NO_ERROR then
    (enumerate_ext2_cb_page afp_backend reply).map (fun page => page.1)
  else none

def example_enumerate_job : GVfsJobEnumerate :=
  { base := { type := .G_VFS_TYPE_JOB_ENUMERATE }, filename := [SLASH, 100],
    attribute_matcher := [] }

/-- A page of two records (a file and a directory) decoded with empty bitmaps. -/
def example_page_two : GVfsAfpReply :=
  { result_code := AFP_RESULT_NO_ERROR,
    data := [0, 0, 0, 0, 0, 2, 0, 4, 0, 0, 0, 4, 128, 0], pos := 0 }

/-- A page of one record. -/
def example_page_one : GVfsAfpReply :=
  { result_code := AFP_RESULT_NO_ERROR, data := [0, 0, 0, 0, 0, 1, 0, 4, 0, 0], pos := 0 }

def example_not_found : GVfsAfpReply :=
  { result_code := AFP_RESULT_OBJECT_NOT_FOUND, data := [], pos := 0 }

/-- What `got_request` does while a job is outstanding: at most one call, a warning
or the cancellation of the outstanding job. -/
def outstanding_job_effects (channel : GVfsChannel) (job : GVfsJob)
    (request : GVfsDaemonSocketProtocolRequest) : List ChannelEffect :=
  if request.command ≠ G_VFS_DAEMON_SOCKET_PROTOCOL_REQUEST_CANCEL then
    [.warning "Ignored non-cancel request with outstanding request"]
  else if request.arg1 = channel.current_job_seq_nr then [.job_cancel job]
  else []

/-- Class methods for the examples: close jobs are close-read jobs, the handler
accepts even commands with a read job and rejects odd ones. -/
def example_class : GVfsChannelClass :=
  { close := fun _ => { type := .G_VFS_TYPE_JOB_CLOSE_READ },
    handle_request := fun _ command _ _ _ _ =>
      if command % 2 = 0 then .ok { type := .G_VFS_TYPE_JOB_READ }
      else .error { domain := G_IO_ERROR, code := G_IO_ERROR_INVALID_ARGUMENT,
                    message := "Unknown stream command" },
    g_error_to_daemon_reply := fun error seq_nr => [1, seq_nr, error.code.toNat] }

/-- A channel with a read job outstanding under sequence number 7. -/
def example_channel : GVfsChannel :=
  { backend_handle := some 1, current_job := some { type := .G_VFS_TYPE_JOB_READ },
    current_job_seq_nr := 7 }

/-- The number of jobs outstanding after a trace, scanning it from the left: a job
announced with `g_vfs_job_source_new_job` is outstanding until
`g_vfs_job_emit_finished` is called on a job. The scan fails (`none`) if a job is
announced while another one is outstanding, or if a job is finished while none is
outstanding. -/
def outstanding_scan (count : Option Nat) (effect : ChannelEffect) : Option Nat :=
  match count, effect with
  | none, _ => none
  | some n, .job_source_new_job _ => if n = 0 then some 1 else none
  | some n, .job_emit_finished (some _) => if n = 0 then none else some (n - 1)
  | some n, _ => some n

def jobs_outstanding (trace : List ChannelEffect) : Option Nat :=
  trace.foldl outstanding_scan (some 0)

/-- The number of jobs the channel holds as `current_job`. -/
def current_job_count (channel : GVfsChannel) : Nat :=
  if channel.current_job.isSome then 1 else 0

/-- The invariant of the channel: the scan of the trace succeeds and counts exactly
the job held as `current_job`. -/
def single_flight (channel : GVfsChannel) : Prop :=
  jobs_outstanding channel.trace = some (current_job_count channel)

/-- The reply stream completes the outstanding writes one after the other with the
given byte counts. -/
def complete_writes (cls : GVfsChannelClass) (channel : GVfsChannel) (counts : List Nat) :
    GVfsChannel :=
  counts.foldl (fun ch (w : Nat) => reply_stream_complete cls ch (w : Int)) channel

/-- A sequence of positive partial write counts: each completion reports at least
one byte and at most the number of bytes offered by the write it completes. -/
def valid_writes (cls : GVfsChannelClass) : GVfsChannel → List Nat → Bool
  | _, [] => true
  | channel, w :: counts =>
    decide (0 < w) &&
    (match channel.reply_stream.pending with
      | some buffer => decide (w ≤ buffer.length)
      | none => false) &&
    valid_writes cls (reply_stream_complete cls channel (w : Int)) counts

/-- A reply write: `g_vfs_channel_send_reply` with the header `H` and the payload
`data`, then the completions reported by the stream. -/
def reply_write (cls : GVfsChannelClass) (channel : GVfsChannel) (H : List Nat)
    (data : Option (List Nat)) (counts : List Nat) : GVfsChannel :=
  complete_writes cls (g_vfs_channel_send_reply channel (some H) data (data.getD []).length)
    counts

/-- The state of a reply write after `n` bytes of the header `H` and the payload
have been accepted by the stream. -/
structure WriteProgress (channel0 : GVfsChannel) (H : List Nat) (data : Option (List Nat))
    (n : Nat) (channel : GVfsChannel) : Prop where
  reply_buffer : channel.reply_buffer = H
  output_data_size : channel.output_data_size = (data.getD []).length
  current_job : n < H.length + (data.getD []).length →
    channel.current_job = channel0.current_job
  written : channel.reply_stream.written =
    channel0.reply_stream.written ++ (H ++ data.getD []).take n
  le : n ≤ H.length + (data.getD []).length
  header : n < H.length →
    channel.reply_buffer_pos = n ∧ channel.output_data = data ∧ channel.output_data_pos = 0 ∧
    channel.reply_stream.pending = some (H.drop n) ∧ channel.trace = channel0.trace
  payload : H.length ≤ n → n < H.length + (data.getD []).length →
    channel.reply_buffer_pos = H.length ∧ channel.output_data = data ∧
    channel.output_data_pos = n - H.length ∧
    channel.reply_stream.pending = some ((data.getD []).drop (n - H.length)) ∧
    channel.trace = channel0.trace
  finished : n = H.length + (data.getD []).length →
    channel.reply_stream.pending = none ∧
    ∃ rest, channel.trace =
      channel0.trace ++ ChannelEffect.job_emit_finished channel0.current_job :: rest

/-- A reply as the transport hands it to a callback: result code, data, and the
cursor at the start of the data. -/
def delivered_reply (result_code : Int) (data : List Nat) : GVfsAfpReply :=
  { result_code := result_code, data := data, pos := 0 }

/-- A read job with a buffer of eight zero bytes. -/
def example_read_job : GVfsJobRead :=
  { base := { type := .G_VFS_TYPE_JOB_READ }, buffer := [0, 0, 0, 0, 0, 0, 0, 0],
    bytes_requested := 8 }

/-- A success page with no entry. -/
def example_empty_page : GVfsAfpReply := delivered_reply AFP_RESULT_NO_ERROR [0, 0, 0, 0, 0, 0]

/-- An enumeration whose first page command has been answered. -/
def example_enumerate_state : EnumerateState :=
  { conn := { sent := [], pending := [] },
    job := { base := { type := .G_VFS_TYPE_JOB_ENUMERATE }, filename := [47, 97],
             attribute_matcher := [], start_index := 1 } }

/-- The generic protocol error: `G_IO_ERROR_FAILED` with the message that carries
the numeric result code. -/
def generic_protocol_error (c : Int) : GError :=
  { domain := G_IO_ERROR, code := G_IO_ERROR_FAILED, message := got_error_code_message c }

/-- The result codes that the table of `open_fork_cb` names. -/
def open_fork_named : List Int :=
  [AFP_RESULT_NO_ERROR, AFP_RESULT_ACCESS_DENIED, AFP_RESULT_OBJECT_NOT_FOUND,
   AFP_RESULT_OBJECT_TYPE_ERR, AFP_RESULT_TOO_MANY_FILES_OPEN]

/-- The result codes that the table of `create_file_cb` names. -/
def create_file_named : List Int :=
  [AFP_RESULT_NO_ERROR, AFP_RESULT_ACCESS_DENIED, AFP_RESULT_DISK_FULL, AFP_RESULT_FILE_BUSY,
   AFP_RESULT_OBJECT_EXISTS, AFP_RESULT_OBJECT_NOT_FOUND, AFP_RESULT_VOL_LOCKED]

/-- The result codes that the table of `rename_cb` names. -/
def rename_named : List Int :=
  [AFP_RESULT_NO_ERROR, AFP_RESULT_ACCESS_DENIED, AFP_RESULT_CANT_RENAME,
   AFP_RESULT_OBJECT_EXISTS, AFP_RESULT_OBJECT_LOCKED, AFP_RESULT_OBJECT_NOT_FOUND,
   AFP_RESULT_VOL_LOCKED]

/-- The result codes that the table of `make_directory_cb` names. -/
def make_directory_named : List Int :=
  [AFP_RESULT_NO_ERROR, AFP_RESULT_ACCESS_DENIED, AFP_RESULT_DISK_FULL, AFP_RESULT_FLAT_VOL,
   AFP_RESULT_OBJECT_NOT_FOUND, AFP_RESULT_OBJECT_EXISTS, AFP_RESULT_VOL_LOCKED]

/-- The result codes that the table of `delete_cb` names. -/
def delete_named : List Int :=
  [AFP_RESULT_NO_ERROR, AFP_RESULT_ACCESS_DENIED, AFP_RESULT_DIR_NOT_EMPTY,
   AFP_RESULT_OBJECT_LOCKED, AFP_RESULT_OBJECT_NOT_FOUND, AFP_RESULT_VOL_LOCKED]

/-- The result codes that `write_ext_cb` names: the two it accepts and its table. -/
def write_named : List Int :=
  [AFP_RESULT_NO_ERROR, AFP_RESULT_LOCK_ERR, AFP_RESULT_ACCESS_DENIED, AFP_RESULT_DISK_FULL]

/-- The result codes that `read_ext_cb` names: the three it accepts and its table. -/
def read_named : List Int :=
  [AFP_RESULT_NO_ERROR, AFP_RESULT_EOF_ERR, AFP_RESULT_LOCK_ERR, AFP_RESULT_ACCESS_DENIED]

/-- The result codes that the table of `close_replace_exchange_files_cb` names. -/
def exchange_named : List Int := [AFP_RESULT_NO_ERROR, AFP_RESULT_ACCESS_DENIED]

/-- The result codes that `enumerate_ext2_cb` and `get_filedir_parms_cb` name. -/
def not_found_named : List Int := [AFP_RESULT_NO_ERROR, AFP_RESULT_OBJECT_NOT_FOUND]

/-- The error of `enumerate_ext2_cb` for a result code it does not name. -/
def enumerate_failed_error : GError :=
  { domain := G_IO_ERROR, code := G_IO_ERROR_FAILED, message := "Enumeration of files failed" }

/-- The error of `get_filedir_parms_cb` for a result code it does not name. -/
def filedir_parms_failed_error : GError :=
  { domain := G_IO_ERROR, code := G_IO_ERROR_FAILED,
    message := "Retrieval of file/directory parameters failed" }

/-- The error of `get_vol_parms_cb` for a result code other than NoError. -/
def vol_parms_failed_error : GError :=
  { domain := G_IO_ERROR, code := G_IO_ERROR_FAILED,
    message := "Retrieval of volume parameters failed" }

/-- The status a job has once it failed with `error`. -/
def failed_with (job : GVfsJob) (error : GError) : GVfsJob := { job with status := .failed error }

/-- GLib's `g_path_get_dirname` on a path with `'/'` separators, for the examples:
`"."` without a separator, otherwise what precedes the last separator, without
trailing separators but never empty. -/
def example_path_get_dirname (file_name : List Nat) : List Nat :=
  if file_name.contains SLASH then
    let head := (file_name.reverse.dropWhile (fun c => c != SLASH)).reverse
    let stripped := (head.reverse.dropWhile (fun c => c == SLASH)).reverse
    if stripped.isEmpty then [SLASH] else stripped
  else [DOT]

/-- GLib's `g_build_filename` for a directory and a name without separators, for
the examples: the two joined by exactly one separator. -/
def example_build_filename (dirname name : List Nat) : List Nat :=
  (dirname.reverse.dropWhile (fun c => c == SLASH)).reverse ++ [SLASH] ++ name

/-- The path functions used in the examples. -/
def example_glib : GLibPath :=
  { g_path_get_dirname := example_path_get_dirname,
    g_build_filename := example_build_filename }

/-- The error `replace_cb` reports when creating the temporary file failed with
`err`: the domain and code of `err`, and its message wrapped. -/
def temporary_file_error (err : GError) : GError :=
  { domain := err.domain, code := err.code,
    message := "Couldn't create temporary file (" ++ err.message ++ ")" }

/-- An open-for-write job for the path `/a`. -/
def example_open_for_write_job : GVfsJobOpenForWrite :=
  { base := { type := .G_VFS_TYPE_JOB_OPEN_FOR_WRITE }, filename := [47, 97] }

/-- A query-info job. -/
def example_query_info_job : GVfsJobQueryInfo :=
  { base := { type := .G_VFS_TYPE_JOB_QUERY_INFO }, file_info := {} }

/-- The create-file command for a path, soft or hard. -/
def create_file_command (afp_backend : GVfsBackendAfp) (filename : List Nat)
    (hard_create : Bool) : GVfsAfpCommand :=
  { type := .AFP_COMMAND_CREATE_FILE,
    fields := [.byte (if hard_create then 0x80 else 0x00), .uint16 afp_backend.volume_id,
      .uint32 2, .byte AFP_PATH_TYPE_UTF8_NAME,
      .afp_name (filename_to_afp_pathname filename)] }

/-- The open-fork command for the data fork of a path with an access mode. -/
def open_fork_command (afp_backend : GVfsBackendAfp) (filename : List Nat)
    (access_mode : Nat) : GVfsAfpCommand :=
  { type := .AFP_COMMAND_OPEN_FORK,
    fields := [.byte 0, .uint16 afp_backend.volume_id, .uint32 2, .uint16 0,
      .uint16 access_mode, .byte AFP_PATH_TYPE_UTF8_NAME,
      .afp_name (filename_to_afp_pathname filename)] }

/-- The not-a-regular-file error of `open_fork`. -/
def not_regular_file_error : GError :=
  { domain := G_IO_ERROR, code := G_IO_ERROR_NOT_REGULAR_FILE, message := "File is a directory" }

/-- The cannot-create-backup error of `try_replace`. -/
def cant_create_backup_error : GError :=
  { domain := G_IO_ERROR, code := G_IO_ERROR_CANT_CREATE_BACKUP,
    message := "backups not supported yet" }

/-- A success reply to an open-fork command: the bitmap, the fork reference, and
whatever follows. -/
def open_fork_reply (bitmap : Nat) (fork_refnum : Int) (rest : List Nat) : GVfsAfpReply :=
  delivered_reply AFP_RESULT_NO_ERROR
    (be_bytes 2 bitmap ++ (be_bytes 2 (to_guint16 fork_refnum) ++ rest))

/-- An open-for-read job. -/
def example_open_for_read_job : GVfsJobOpenForRead :=
  { base := { type := .G_VFS_TYPE_JOB_OPEN_FOR_READ } }

/-- The rename command for a path and a display name: the path, then the new name
built from the directory of the path and the display name. -/
def rename_command (glib : GLibPath) (afp_backend : GVfsBackendAfp) (f n : List Nat) :
    GVfsAfpCommand :=
  { type := .AFP_COMMAND_RENAME,
    fields := [.byte 0, .uint16 afp_backend.volume_id, .uint32 2,
      .byte AFP_PATH_TYPE_UTF8_NAME, .afp_name (filename_to_afp_pathname f),
      .byte AFP_PATH_TYPE_UTF8_NAME,
      .afp_name (filename_to_afp_pathname
        (glib.g_build_filename (glib.g_path_get_dirname f) n))] }

/-- The invalid-filename error of `try_set_display_name`. -/
def invalid_filename_error : GError :=
  { domain := G_IO_ERROR, code := G_IO_ERROR_INVALID_FILENAME, message := "Can't rename volume" }

/-- A rename job for the path `/a/b` and the display name `c`. -/
def example_rename_job : GVfsJobSetDisplayName :=
  { base := { type := .G_VFS_TYPE_JOB_SET_DISPLAY_NAME }, filename := [47, 97, 47, 98],
    display_name := [99] }

/-- The hidden condition of a record: the attributes field is present with the
INVISIBLE bit set, or the name is present and its first character is `'.'`. -/
def hidden_condition (bitmap : Nat) (v : RecordFields) (afp_name : GVfsAfpName) : Prop :=
  (has_bit bitmap AFP_FILEDIR_BITMAP_ATTRIBUTE_BIT = true ∧
    has_bit v.attributes AFP_FILEDIR_ATTRIBUTES_BITMAP_INVISIBLE_BIT = true) ∨
  (has_bit bitmap AFP_FILEDIR_BITMAP_UTF8_NAME_BIT = true ∧ afp_name.str.head? = some DOT)

/-- A mount against a server whose time is 1000 while the local time is 1005
seconds; the volume is opened with the volume id 9. -/
def example_mount_environment : MountEnvironment :=
  { server := { version := AFP_VERSION_3_1, server_name := [115] },
    server_login := .ok (),
    send_srvr_parms := .ok (),
    read_srvr_parms := .ok (delivered_reply AFP_RESULT_NO_ERROR [0, 0, 3, 232]),
    real_time := 1005000000,
    send_open_vol := .ok (),
    read_open_vol := .ok (delivered_reply AFP_RESULT_NO_ERROR [0, 32, 0, 9]) }

instance (bitmap : Nat) (v : RecordFields) (afp_name : GVfsAfpName) :
    Decidable (hidden_condition bitmap v afp_name) := by
  unfold hidden_condition
  infer_instance

/-- The get-volume-parameters command for a volume bitmap. -/
def get_vol_parms_command (afp_backend : GVfsBackendAfp) (vol_bitmap : Nat) : GVfsAfpCommand :=
  { type := .AFP_COMMAND_GET_VOL_PARMS,
    fields := [.byte 0, .uint16 afp_backend.volume_id, .uint16 vol_bitmap] }

/-- Whether the matcher asks for the creation time. -/
def wants_created (matcher : GFileAttributeMatcher) : Bool :=
  g_file_attribute_matcher_matches matcher G_FILE_ATTRIBUTE_TIME_CREATED

/-- Whether the matcher asks for the modification time. -/
def wants_modified (matcher : GFileAttributeMatcher) : Bool :=
  g_file_attribute_matcher_matches matcher G_FILE_ATTRIBUTE_TIME_MODIFIED

/-- The volume bitmap with the create-date bit iff the creation time is asked for,
the mod-date bit iff the modification time is asked for, and no other bit. -/
def requested_vol_bitmap (matcher : GFileAttributeMatcher) : Nat :=
  (if wants_created matcher then AFP_VOLUME_BITMAP_CREATE_DATE_BIT else 0) +
  (if wants_modified matcher then AFP_VOLUME_BITMAP_MOD_DATE_BIT else 0)

/-- The info of the root that `try_query_info` builds locally. -/
def root_info (afp_backend : GVfsBackendAfp) (info : GFileInfo) : GFileInfo :=
  { info with
    file_type := some .G_FILE_TYPE_DIRECTORY,
    name := some [SLASH],
    display_name :=
      match afp_backend.parent_instance.display_name with
      | some display_name => some display_name
      | none => info.display_name,
    content_type := some .inode_directory,
    icon :=
      match afp_backend.parent_instance.icon_name with
      | some icon_name => some (.themed icon_name)
      | none => info.icon }

/-- A get-volume-parameters reply with both dates: create date 100, mod date 200. -/
def example_vol_parms_reply : GVfsAfpReply :=
  delivered_reply AFP_RESULT_NO_ERROR [0, 12, 0, 0, 0, 100, 0, 0, 0, 200]

/-- The error of `try_enumerate` for a protocol version older than AFP 3.1. -/
def enumeration_unsupported_error : GError :=
  { domain := G_IO_ERROR, code := G_IO_ERROR_FAILED,
    message := "Enumeration not supported for AFP_VERSION_3_0 yet" }

/-- An enumerate job for the path `/a`. -/
def example_enumerate_request : GVfsJobEnumerate :=
  { base := { type := .G_VFS_TYPE_JOB_ENUMERATE }, filename := [47, 97],
    attribute_matcher := [] }

/-- The get-server-parameters command of the mount sequence. -/
def get_srvr_parms_command : GVfsAfpCommand :=
  { type := .AFP_COMMAND_GET_SRVR_PARMS, fields := [.byte 0] }

/-- The open-volume command of the mount sequence. -/
def open_vol_command (volume : List Nat) : GVfsAfpCommand :=
  { type := .AFP_COMMAND_OPEN_VOL,
    fields := [.byte 0, .uint16 AFP_VOLUME_BITMAP_VOL_ID_BIT, .pascal volume] }

/-- The call of the operation handler that `got_request` makes for a request. -/
def handler_call (request : GVfsDaemonSocketProtocolRequest) (data : List Nat) :
    ChannelEffect :=
  .handle_request request.command request.seq_nr request.arg1 request.arg2 data

/-- What the operation handler answers to a request on a channel without an
outstanding job. -/
def handler_answer (cls : GVfsChannelClass) (channel : GVfsChannel)
    (request : GVfsDaemonSocketProtocolRequest) (data : List Nat) : Except GError GVfsJob :=
  cls.handle_request (channel_log channel (handler_call request data)) request.command
    request.seq_nr request.arg1 request.arg2 data

/-- A request with a command that the handler of `example_class` rejects. -/
def example_rejected_request : GVfsDaemonSocketProtocolRequest :=
  { command := 1, seq_nr := 5, arg1 := 0, arg2 := 0, data_len := 0 }

/-- A request with a command that the handler of `example_class` accepts. -/
def example_accepted_request : GVfsDaemonSocketProtocolRequest :=
  { command := 2, seq_nr := 4, arg1 := 0, arg2 := 0, data_len := 0 }

/-- A reply header of sixteen zero bytes. -/
def example_reply_header : List Nat := List.replicate 16 0

/-- A filename without its leading `'/'` characters. -/
def without_leading_slashes : List Nat → List Nat
  | [] => []
  | c :: rest => if c = SLASH then without_leading_slashes rest else c :: rest

/-- The struct length a record announces: the 16-bit integer at its start. -/
def record_struct_length (reply : GVfsAfpReply) (start : Nat) : Nat :=
  be_value (bytes_at reply start 2)

/-- The file/directory byte of a record, after its struct length. -/
def record_FileDir (reply : GVfsAfpReply) (start : Nat) : Nat :=
  be_value (bytes_at reply (start + 2) 1)

/-- The infos of `n` records as C34 describes them: the record that starts at
`start` is decoded after its four header bytes, with the directory bitmap when the
high bit of its file/directory byte is set and with the file bitmap otherwise, and
the next record starts at `start` plus the struct length of this one. -/
def records_by_struct_length (afp_backend : GVfsBackendAfp) (file_bitmap dir_bitmap : Nat)
    (reply : GVfsAfpReply) : Nat → Nat → Option (List GFileInfo)
  | 0, _ => some []
  | n + 1, start =>
    let directory : Bool := record_FileDir reply start &&& 0x80 != 0
    let bitmap := if directory then dir_bitmap else file_bitmap
    (fill_info afp_backend g_file_info_new { reply with pos := start + 4 } directory
      bitmap).bind fun r =>
    (records_by_struct_length afp_backend file_bitmap dir_bitmap reply n
      (start + record_struct_length reply start)).map fun rest => r.1 :: rest

/-- The `n` records from `start` on lie within the reply: the four header bytes of
each, and the position its struct length leads to. -/
def records_within (reply : GVfsAfpReply) : Nat → Nat → Bool
  | 0, _ => true
  | n + 1, start =>
    decide (start + 4 ≤ reply.data.length) &&
    decide (start + record_struct_length reply start ≤ reply.data.length) &&
    records_within reply n (start + record_struct_length reply start)

/-- A page of two records under file bitmap 0 and directory bitmap 0: a file record
of struct length 6, of which the decoding consumes only the four header bytes, and
a directory record. -/
def example_page : GVfsAfpReply :=
  { result_code := AFP_RESULT_NO_ERROR,
    data := [0, 0, 0, 0, 0, 2, 0, 6, 0, 0, 9, 9, 0, 4, 128, 0], pos := 0 }

/-- A success page whose count is -1 (bitmaps 0, count bytes `FF FF`). -/
def example_negative_page : GVfsAfpReply :=
  delivered_reply AFP_RESULT_NO_ERROR [0, 0, 0, 0, 255, 255]

/-- A read job that asks for two bytes into a buffer of two bytes. -/
def example_short_read_job : GVfsJobRead :=
  { base := { type := .G_VFS_TYPE_JOB_READ }, buffer := [0, 0], bytes_requested := 2 }

/-- A write job for a buffer of four bytes. -/
def example_write_job : GVfsJobWrite :=
  { base := { type := .G_VFS_TYPE_JOB_WRITE }, data_size := 4 }

/-- The job has been failed. -/
def job_failed (job : GVfsJob) : Bool :=
  match job.status with
  | .failed _ => true
  | _ => false

/-- What makes `read_ext_cb` fail its job: no reply, or a result code other than
NoError, EofErr and LockErr. -/
def read_fails (reply : TransportResult) : Bool :=
  match reply with
  | .error _ => true
  | .ok reply =>
    !(decide (reply.result_code = AFP_RESULT_NO_ERROR) ||
      decide (reply.result_code = AFP_RESULT_EOF_ERR) ||
      decide (reply.result_code = AFP_RESULT_LOCK_ERR))

/-- What makes `write_ext_cb` fail its job: no reply, or a result code other than
NoError and LockErr. -/
def write_fails (reply : TransportResult) : Bool :=
  match reply with
  | .error _ => true
  | .ok reply =>
    !(decide (reply.result_code = AFP_RESULT_NO_ERROR) ||
      decide (reply.result_code = AFP_RESULT_LOCK_ERR))

/-- A channel whose backend handle has been set and that has no job outstanding
receives a request the handler of `example_class` rejects; the write of the
immediate error reply then fails (the stream reports 0 bytes written). -/
def example_failed_error_reply : List ChannelInput :=
  [.set_backend_handle (some 1),
   .request example_rejected_request [],
   .write_complete 0]

/-- The command stream completes the outstanding reads one after the other: each
completion stores the next `count` bytes of `incoming`, the bytes on their way. -/
def complete_reads (cls : GVfsChannelClass) (env : RequestReaderEnvironment) :
    ReadSide → List Nat → List Nat → ReadSide
  | s, _, [] => s
  | s, incoming, c :: counts =>
    complete_reads cls env (command_stream_complete cls env s (incoming.take c) (c : Int))
      (incoming.drop c) counts

/-- A split of the incoming bytes into positive-size reads: each completion returns
at least one byte, no more bytes than are on their way and no more than the read it
completes asked for. -/
def valid_reads (cls : GVfsChannelClass) (env : RequestReaderEnvironment) :
    ReadSide → List Nat → List Nat → Bool
  | _, _, [] => true
  | s, incoming, c :: counts =>
    decide (0 < c) && decide (c ≤ incoming.length) &&
    (match s.pending with
      | some read => decide (c ≤ read.count)
      | none => false) &&
    valid_reads cls env (command_stream_complete cls env s (incoming.take c) (c : Int))
      (incoming.drop c) counts

/-- The requests handed to `got_request`, in order. -/
def dispatched (trace : List ReaderEffect) :
    List (GVfsDaemonSocketProtocolRequest × List Nat) :=
  trace.filterMap fun effect =>
    match effect with
    | .got_request request data => some (request, data)
    | .read_async _ => none

/-- A channel reads the bytes `incoming` from the start of its request reader, in
reads of the given sizes. -/
def request_read (cls : GVfsChannelClass) (env : RequestReaderEnvironment)
    (channel : GVfsChannel) (incoming : List Nat) (counts : List Nat) : ReadSide :=
  complete_reads cls env (start_request_reader channel) incoming counts

/-- The reads when each read returns all it asked for: the header, then the payload
if there is one. -/
def whole_reads (payload : List Nat) : List Nat :=
  if payload.length = 0 then [G_VFS_DAEMON_SOCKET_PROTOCOL_REQUEST_SIZE]
  else [G_VFS_DAEMON_SOCKET_PROTOCOL_REQUEST_SIZE, payload.length]

/-- The read side after `k < 20` bytes of the header have been stored. -/
def ReadingHeader (channel : GVfsChannel) (header : List Nat) (k : Nat) (s : ReadSide) :
    Prop :=
  s.channel = some channel ∧
  s.pending = some { callback := .command_read_cb, offset := k, count := 20 - k } ∧
  dispatched s.trace = [] ∧
  ∃ reader, s.request_reader = some reader ∧ reader.buffer_size = k ∧
    reader.buffer.length = 20 ∧ reader.buffer.take k = header.take k ∧ reader.data = none

/-- The read side after the header and `j` bytes of the payload have been stored,
not yet all of them. -/
def ReadingPayload (channel : GVfsChannel) (header payload : List Nat) (j : Nat)
    (s : ReadSide) : Prop :=
  s.channel = some channel ∧
  s.pending = some { callback := .data_read_cb, offset := j, count := payload.length - j } ∧
  dispatched s.trace = [] ∧
  ∃ reader data, s.request_reader = some reader ∧ reader.buffer.take 20 = header ∧
    reader.data = some data ∧ data.length = payload.length ∧
    data.take j = payload.take j ∧ reader.data_len = payload.length ∧ reader.data_pos = j

/-- The read side after the whole request has been stored: the request has been
handed to `got_request` once, and the reader waits for the next header. -/
def RequestDispatched (cls : GVfsChannelClass) (env : RequestReaderEnvironment)
    (channel : GVfsChannel) (header payload : List Nat) (s : ReadSide) : Prop :=
  s.channel = some (got_request cls channel (env.request header) payload) ∧
  s.pending = some { callback := .command_read_cb, offset := 0, count := 20 } ∧
  dispatched s.trace = [(env.request header, payload)]

/-- The read side after `k` bytes of the request `header ++ payload` have been
stored. -/
def ReadProgress (cls : GVfsChannelClass) (env : RequestReaderEnvironment)
    (channel : GVfsChannel) (header payload : List Nat) (k : Nat) (s : ReadSide) : Prop :=
  (k < 20 ∧ ReadingHeader channel header k s) ∨
  (20 ≤ k ∧ k < 20 + payload.length ∧ ReadingPayload channel header payload (k - 20) s) ∨
  (k = 20 + payload.length ∧ RequestDispatched cls env channel header payload s)

/-- A header layout for the examples: five 32-bit fields in network byte order,
command, sequence number, two arguments and payload length. -/
def example_environment : RequestReaderEnvironment :=
  { request := fun bytes =>
      { command := be_value (bytes.take 4), seq_nr := be_value ((bytes.drop 4).take 4),
        arg1 := be_value ((bytes.drop 8).take 4), arg2 := be_value ((bytes.drop 12).take 4),
        data_len := be_value ((bytes.drop 16).take 4) },
    g_malloc := fun n => List.replicate n 170 }

/-- The header of a request with command 2, sequence number 9 and a payload of three
bytes. -/
def example_request_header : List Nat :=
  [0, 0, 0, 2, 0, 0, 0, 9, 0, 0, 0, 0, 0, 0, 0, 0, 0, 0, 0, 3]

/-- Class methods of a channel whose handler answers every request with an
open-for-read job; the error reply is the list of 1, the sequence number and the
error code. -/
def example_open_class : GVfsChannelClass :=
  { close := fun _ => { type := .G_VFS_TYPE_JOB_CLOSE_READ },
    handle_request := fun _ _ _ _ _ _ => .ok { type := .G_VFS_TYPE_JOB_OPEN_FOR_READ },
    g_error_to_daemon_reply := fun error seq_nr => [1, seq_nr, error.code.toNat] }

/-- A new channel on which an open is outstanding when the connection is found
closed; the open then fails, and its error reply of three bytes is written. -/
def example_failed_open : List ChannelInput :=
  [.request example_accepted_request [],
   .connection_closed,
   .send_error example_error,
   .write_complete 3]

/-! ## Lemmas and theorems -/

theorem be_bytes_length (k n : Nat) : (be_bytes k n).length = k := by
  induction k with
  | zero => rfl
  | succ k ih => simp [be_bytes, ih]

theorem foldl_be (bs : List Nat) (a : Nat) :
    bs.foldl (fun acc b => acc * 256 + b) a = a * 256 ^ bs.length + be_value bs := by
  induction bs generalizing a with
  | nil => simp [be_value]
  | cons b bs ih =>
    simp only [List.foldl_cons, List.length_cons, be_value]
    rw [ih, ih (0 * 256 + b)]
    ring

theorem be_value_cons (b : Nat) (bs : List Nat) :
    be_value (b :: bs) = b * 256 ^ bs.length + be_value bs := by
  simp only [be_value, List.foldl_cons]
  rw [foldl_be]
  simp [be_value]

theorem be_value_be_bytes (k n : Nat) : be_value (be_bytes k n) = n % 256 ^ k := by
  induction k with
  | zero => simp [be_bytes, be_value, Nat.mod_one]
  | succ k ih =>
    rw [be_bytes, be_value_cons, ih, be_bytes_length]
    rw [pow_succ, Nat.mod_mul, Nat.add_comm, Nat.mul_comm]

theorem get_data_some {reply : GVfsAfpReply} {size : Nat} {v : List Nat} {r : GVfsAfpReply}
    (h : g_vfs_afp_reply_get_data reply size = some (v, r)) :
    reply.pos + size ≤ reply.data.length ∧ v = bytes_at reply reply.pos size ∧
      r = { reply with pos := reply.pos + size } := by
  unfold g_vfs_afp_reply_get_data at h
  split at h
  · simp only [Option.some.injEq, Prod.mk.injEq] at h
    exact ⟨by assumption, h.1.symm, h.2.symm⟩
  · exact absurd h (by simp)

theorem get_data_of_le (reply : GVfsAfpReply) (size : Nat)
    (h : reply.pos + size ≤ reply.data.length) :
    g_vfs_afp_reply_get_data reply size =
      some (bytes_at reply reply.pos size, { reply with pos := reply.pos + size }) := by
  unfold g_vfs_afp_reply_get_data
  rw [if_pos h]; rfl

theorem read_map_some {α : Type} (f : List Nat → α) {reply r : GVfsAfpReply} {w : Nat} {v : α}
    (h : (g_vfs_afp_reply_get_data reply w).map (fun d => (f d.1, d.2)) = some (v, r)) :
    reply.pos + w ≤ reply.data.length ∧ v = f (bytes_at reply reply.pos w) ∧
      r = { reply with pos := reply.pos + w } := by
  rcases hd : g_vfs_afp_reply_get_data reply w with _ | ⟨bs, r0⟩
  · rw [hd] at h; exact absurd h (by simp)
  · rw [hd] at h
    simp only [Option.map_some', Option.some.injEq, Prod.mk.injEq] at h
    obtain ⟨h1, h2, h3⟩ := get_data_some hd
    exact ⟨h1, by rw [← h.1, h2], by rw [← h.2, h3]⟩

theorem read_map_of_le {α : Type} (f : List Nat → α) (reply : GVfsAfpReply) (w : Nat)
    (h : reply.pos + w ≤ reply.data.length) :
    (g_vfs_afp_reply_get_data reply w).map (fun d => (f d.1, d.2)) =
      some (f (bytes_at reply reply.pos w), { reply with pos := reply.pos + w }) := by
  rw [get_data_of_le reply w h]; rfl

/-- The shape shared by the blocks of the fixed fields: when the flag is set, read
`w` bytes, decode them with `f` and record the value with `u`. -/
theorem field_block_some {α : Type} {bit : Bool} {w : Nat} {f : List Nat → α}
    {u : α → GFileInfo → GFileInfo} {s s' : GFileInfo × GVfsAfpReply}
    (h : (if bit = true then
            ((g_vfs_afp_reply_get_data s.2 w).map (fun d => (f d.1, d.2))).bind
              fun r => some (u r.1 s.1, r.2)
          else some s) = some s') :
    s'.2 = { s.2 with pos := s.2.pos + (if bit = true then w else 0) } ∧
    (bit = true → s.2.pos + w ≤ s.2.data.length) ∧
    s'.1 = (if bit = true then u (f (bytes_at s.2 s.2.pos w)) s.1 else s.1) := by
  by_cases hb : bit = true
  · rw [if_pos hb] at h
    rcases hr : (g_vfs_afp_reply_get_data s.2 w).map (fun d => (f d.1, d.2)) with _ | ⟨v, r⟩
    · rw [hr] at h; exact absurd h (by simp)
    · rw [hr] at h
      obtain ⟨h1, h2, h3⟩ := read_map_some f hr
      simp only [Option.some_bind, Option.some.injEq] at h
      subst h2 h3 h
      simp [hb, h1]
  · rw [if_neg hb] at h
    simp only [Option.some.injEq] at h
    subst h
    simp [hb]

theorem field_block_of_le {α : Type} (bit : Bool) (w : Nat) (f : List Nat → α)
    (u : α → GFileInfo → GFileInfo) (s : GFileInfo × GVfsAfpReply)
    (h : bit = true → s.2.pos + w ≤ s.2.data.length) :
    (if bit = true then
        ((g_vfs_afp_reply_get_data s.2 w).map (fun d => (f d.1, d.2))).bind
          fun r => some (u r.1 s.1, r.2)
      else some s) =
    some (if bit = true then u (f (bytes_at s.2 s.2.pos w)) s.1 else s.1,
          { s.2 with pos := s.2.pos + (if bit = true then w else 0) }) := by
  by_cases hb : bit = true
  · rw [if_pos hb, read_map_of_le f s.2 w (h hb)]
    simp [hb]
  · simp [hb]

theorem seek_set_getD_data (reply : GVfsAfpReply) (offset : Int) :
    ((g_vfs_afp_reply_seek reply offset .G_SEEK_SET).getD reply).data = reply.data := by
  unfold g_vfs_afp_reply_seek
  simp only
  split <;> rfl

theorem seek_set_of_le (reply : GVfsAfpReply) (p : Nat) (h : p ≤ reply.data.length) :
    g_vfs_afp_reply_seek reply (p : Int) .G_SEEK_SET = some { reply with pos := p } := by
  unfold g_vfs_afp_reply_seek
  simp only
  rw [if_pos ⟨Int.ofNat_nonneg p, Int.ofNat_le.mpr h⟩]
  simp

theorem read_afp_name_some {reply r : GVfsAfpReply} {n : GVfsAfpName}
    (h : g_vfs_afp_reply_read_afp_name reply true = some (n, r)) :
    r.data = reply.data ∧ r.result_code = reply.result_code ∧ r.pos ≤ r.data.length := by
  unfold g_vfs_afp_reply_read_afp_name at h
  simp only [if_true, Option.bind_eq_some] at h
  obtain ⟨e, he, l, hl, d, hd, hn⟩ := h
  obtain ⟨_, _, he3⟩ := read_map_some be_value he
  obtain ⟨_, _, hl3⟩ := read_map_some be_value hl
  obtain ⟨hd1, _, hd3⟩ := get_data_some hd
  simp only [Option.some.injEq, Prod.mk.injEq] at hn
  obtain ⟨_, rfl⟩ := hn
  rw [hd3, hl3, he3] at *
  exact ⟨rfl, rfl, by simpa using hd1⟩

theorem fill_info_name_of_read (directory : Bool) (start_pos bitmap : Nat)
    (s : GFileInfo × GVfsAfpReply) (n : GVfsAfpName) (r : GVfsAfpReply)
    (hb : has_bit bitmap AFP_FILEDIR_BITMAP_UTF8_NAME_BIT = true)
    (hle : s.2.pos + 2 ≤ s.2.data.length)
    (hn : g_vfs_afp_reply_read_afp_name (name_block_cursor s.2 start_pos) true = some (n, r)) :
    fill_info_name directory start_pos bitmap s =
      some (fill_info_set_name directory s.1 (g_vfs_afp_name_get_string n),
            { s.2 with pos := s.2.pos + 2 }) := by
  unfold fill_info_name
  rw [if_pos hb]
  have hr : g_vfs_afp_reply_read_uint16 s.2 =
      some (be_value (bytes_at s.2 s.2.pos 2), { s.2 with pos := s.2.pos + 2 }) :=
    read_map_of_le be_value s.2 2 hle
  rw [hr]
  simp only [Option.some_bind]
  have hn' : g_vfs_afp_reply_read_afp_name
      ((g_vfs_afp_reply_seek { s.2 with pos := s.2.pos + 2 }
        (start_pos + be_value (bytes_at s.2 s.2.pos 2)) .G_SEEK_SET).getD
          { s.2 with pos := s.2.pos + 2 }) true = some (n, r) := hn
  rw [hn']
  simp only [Option.some_bind]
  obtain ⟨hd, hrc, _⟩ := read_afp_name_some hn
  have hd2 : r.data = s.2.data := by
    rw [hd]; unfold name_block_cursor; rw [seek_set_getD_data]
  have hrc2 : r.result_code = s.2.result_code := by
    rw [hrc]; unfold name_block_cursor g_vfs_afp_reply_seek; simp only; split <;> rfl
  have hle2 : s.2.pos + 2 ≤ r.data.length := by rw [hd2]; exact hle
  have hseek := seek_set_of_le r (s.2.pos + 2) hle2
  have : g_vfs_afp_reply_seek r
      (g_vfs_afp_reply_get_pos { s.2 with pos := s.2.pos + 2 } : Nat) .G_SEEK_SET =
        some { r with pos := s.2.pos + 2 } := hseek
  rw [this]
  simp only [Option.getD_some]
  rw [← hd2, ← hrc2]

theorem fill_info_name_some {directory : Bool} {start_pos bitmap : Nat}
    {s s' : GFileInfo × GVfsAfpReply}
    (h : fill_info_name directory start_pos bitmap s = some s') :
    s'.2 = { s.2 with pos := s.2.pos + width_name bitmap } ∧
    (has_bit bitmap AFP_FILEDIR_BITMAP_UTF8_NAME_BIT = true → s.2.pos + 2 ≤ s.2.data.length) ∧
    ∃ n r, (has_bit bitmap AFP_FILEDIR_BITMAP_UTF8_NAME_BIT = true →
        g_vfs_afp_reply_read_afp_name (name_block_cursor s.2 start_pos) true = some (n, r)) ∧
      s'.1 = (if has_bit bitmap AFP_FILEDIR_BITMAP_UTF8_NAME_BIT = true then
        fill_info_set_name directory s.1 (g_vfs_afp_name_get_string n) else s.1) := by
  by_cases hb : has_bit bitmap AFP_FILEDIR_BITMAP_UTF8_NAME_BIT = true
  · have h0 := h
    unfold fill_info_name at h
    rw [if_pos hb] at h
    simp only [Option.bind_eq_some] at h
    obtain ⟨r, hr, n, hn, _⟩ := h
    obtain ⟨h1, h2, h3⟩ := read_map_some be_value hr
    have hn' : g_vfs_afp_reply_read_afp_name (name_block_cursor s.2 start_pos) true =
        some (n.1, n.2) := by
      rw [← hn, h3, h2]; rfl
    have := fill_info_name_of_read directory start_pos bitmap s n.1 n.2 hb h1 hn'
    rw [this] at h0
    simp only [Option.some.injEq] at h0
    subst h0
    exact ⟨by simp [width_name, hb], fun _ => h1, n.1, n.2, fun _ => hn', by simp [hb]⟩
  · unfold fill_info_name at h
    rw [if_neg hb] at h
    simp only [Option.some.injEq] at h
    subst h
    exact ⟨by simp [width_name, hb], fun hb' => absurd hb' hb,
      ⟨0, []⟩, s.2, fun hb' => absurd hb' hb, by simp [hb]⟩

theorem fields_width_eq (directory : Bool) (bitmap : Nat) :
    fields_width directory bitmap =
      width_attributes bitmap + width_create_date bitmap + width_mod_date bitmap +
        width_specific directory bitmap + width_name bitmap := rfl

theorem fill_info_specific_some {directory : Bool} {bitmap : Nat}
    {s s' : GFileInfo × GVfsAfpReply} (h : fill_info_specific directory bitmap s = some s') :
    s'.2 = { s.2 with pos := s.2.pos + width_specific directory bitmap } ∧
    (width_specific directory bitmap ≠ 0 →
      s.2.pos + width_specific directory bitmap ≤ s.2.data.length) ∧
    s'.1 = (if directory = true then
      (if has_bit bitmap AFP_DIR_BITMAP_OFFSPRING_COUNT_BIT = true then
        set_children_count (be_value (bytes_at s.2 s.2.pos 4)) s.1 else s.1)
    else
      (if has_bit bitmap AFP_FILE_BITMAP_EXT_DATA_FORK_LEN_BIT = true then
        set_size (be_value (bytes_at s.2 s.2.pos 8)) s.1 else s.1)) := by
  unfold fill_info_specific at h
  cases directory
  · simp only [Bool.false_eq_true, if_false] at h
    obtain ⟨a, b, c⟩ := field_block_some (f := be_value) (u := set_size) h
    refine ⟨by simpa [width_specific] using a, ?_, by simpa using c⟩
    intro hw
    by_cases hb : has_bit bitmap AFP_FILE_BITMAP_EXT_DATA_FORK_LEN_BIT = true
    · simpa [width_specific, hb] using b hb
    · exact absurd (by simp [width_specific, hb]) hw
  · simp only [if_true] at h
    obtain ⟨a, b, c⟩ := field_block_some (f := be_value) (u := set_children_count) h
    refine ⟨by simpa [width_specific] using a, ?_, by simpa using c⟩
    intro hw
    by_cases hb : has_bit bitmap AFP_DIR_BITMAP_OFFSPRING_COUNT_BIT = true
    · simpa [width_specific, hb] using b hb
    · exact absurd (by simp [width_specific, hb]) hw

theorem width_cond (bit : Bool) (k p len : Nat) (hk : k ≠ 0) :
    (bit = true → p + k ≤ len) ↔
      ((if bit = true then k else 0) ≠ 0 → p + (if bit = true then k else 0) ≤ len) := by
  cases bit <;> simp [hk]

theorem fill_info_attributes_iff (bitmap : Nat) (s s' : GFileInfo × GVfsAfpReply) :
    fill_info_attributes bitmap s = some s' ↔
      (width_attributes bitmap ≠ 0 → s.2.pos + width_attributes bitmap ≤ s.2.data.length) ∧
        s' = attributes_result bitmap s := by
  unfold width_attributes
  rw [← width_cond _ 2 _ _ (by decide)]
  constructor
  · intro h
    obtain ⟨a, b, c⟩ := field_block_some (f := be_value) (u := set_attributes) h
    exact ⟨b, Prod.ext c a⟩
  · rintro ⟨h, rfl⟩
    exact field_block_of_le _ 2 be_value set_attributes s h

theorem fill_info_create_date_iff (time_diff : Int) (bitmap : Nat)
    (s s' : GFileInfo × GVfsAfpReply) :
    fill_info_create_date time_diff bitmap s = some s' ↔
      (width_create_date bitmap ≠ 0 →
          s.2.pos + width_create_date bitmap ≤ s.2.data.length) ∧
        s' = create_date_result time_diff bitmap s := by
  unfold width_create_date
  rw [← width_cond _ 4 _ _ (by decide)]
  constructor
  · intro h
    obtain ⟨a, b, c⟩ := field_block_some (f := int32_value) (u := set_time_created time_diff) h
    exact ⟨b, Prod.ext c a⟩
  · rintro ⟨h, rfl⟩
    exact field_block_of_le _ 4 int32_value (set_time_created time_diff) s h

theorem fill_info_mod_date_iff (time_diff : Int) (bitmap : Nat)
    (s s' : GFileInfo × GVfsAfpReply) :
    fill_info_mod_date time_diff bitmap s = some s' ↔
      (width_mod_date bitmap ≠ 0 →
          s.2.pos + width_mod_date bitmap ≤ s.2.data.length) ∧
        s' = mod_date_result time_diff bitmap s := by
  unfold width_mod_date
  rw [← width_cond _ 4 _ _ (by decide)]
  constructor
  · intro h
    obtain ⟨a, b, c⟩ := field_block_some (f := int32_value) (u := set_time_modified time_diff) h
    exact ⟨b, Prod.ext c a⟩
  · rintro ⟨h, rfl⟩
    exact field_block_of_le _ 4 int32_value (set_time_modified time_diff) s h

theorem fill_info_specific_iff (directory : Bool) (bitmap : Nat)
    (s s' : GFileInfo × GVfsAfpReply) :
    fill_info_specific directory bitmap s = some s' ↔
      (width_specific directory bitmap ≠ 0 →
          s.2.pos + width_specific directory bitmap ≤ s.2.data.length) ∧
        s' = specific_result directory bitmap s := by
  constructor
  · intro h
    obtain ⟨a, b, c⟩ := fill_info_specific_some h
    exact ⟨b, Prod.ext c a⟩
  · rintro ⟨h, rfl⟩
    unfold fill_info_specific specific_result
    cases directory
    · simp only [Bool.false_eq_true, if_false, width_specific] at h ⊢
      exact field_block_of_le _ 8 be_value set_size s
        ((width_cond _ 8 _ _ (by decide)).mpr h)
    · simp only [if_true, width_specific] at h ⊢
      exact field_block_of_le _ 4 be_value set_children_count s
        ((width_cond _ 4 _ _ (by decide)).mpr h)

theorem fixed_fields_result_reply (afp_backend : GVfsBackendAfp) (info : GFileInfo)
    (reply : GVfsAfpReply) (directory : Bool) (bitmap : Nat) :
    (fixed_fields_result afp_backend info reply directory bitmap).2 =
      { reply with pos := reply.pos + fixed_width directory bitmap } := by
  unfold fixed_width
  show _ = { reply with pos := _ }
  simp only [fixed_fields_result, specific_result, mod_date_result, create_date_result,
    attributes_result]
  congr 1
  omega

/-- `fill_info` succeeds exactly when the reply holds every selected fixed field and
a name can be read where the name block looks for it; the result is then the
decoded info, with the cursor after the fixed fields. -/
theorem fill_info_iff (afp_backend : GVfsBackendAfp) (info info' : GFileInfo)
    (reply reply' : GVfsAfpReply) (directory : Bool) (bitmap : Nat) :
    fill_info afp_backend info reply directory bitmap = some (info', reply') ↔
      (fields_width directory bitmap ≠ 0 →
        reply.pos + fields_width directory bitmap ≤ reply.data.length) ∧
      reply' = { reply with pos := reply.pos + fields_width directory bitmap } ∧
      ∃ n r, (has_bit bitmap AFP_FILEDIR_BITMAP_UTF8_NAME_BIT = true →
          g_vfs_afp_reply_read_afp_name (name_cursor reply directory bitmap) true =
            some (n, r)) ∧
        info' = decoded_info afp_backend info reply directory bitmap
          (g_vfs_afp_name_get_string n) := by
  unfold fill_info name_cursor
  rw [← fixed_fields_result_reply afp_backend info]
  simp only [Option.bind_eq_some, fill_info_attributes_iff, fill_info_create_date_iff,
    fill_info_mod_date_iff, fill_info_specific_iff, g_vfs_afp_reply_get_pos]
  rw [fields_width_eq]
  constructor
  · rintro ⟨s1, ⟨c1, rfl⟩, s2, ⟨c2, rfl⟩, s3, ⟨c3, rfl⟩, s4, ⟨c4, rfl⟩, h5⟩
    obtain ⟨a, b, n, r, hn, hi⟩ := fill_info_name_some h5
    have c1' : width_attributes bitmap ≠ 0 →
      reply.pos + width_attributes bitmap ≤ reply.data.length := c1
    have c2' : width_create_date bitmap ≠ 0 →
      reply.pos + width_attributes bitmap + width_create_date bitmap ≤ reply.data.length := c2
    have c3' : width_mod_date bitmap ≠ 0 →
      reply.pos + width_attributes bitmap + width_create_date bitmap + width_mod_date bitmap
        ≤ reply.data.length := c3
    have c4' : width_specific directory bitmap ≠ 0 →
      reply.pos + width_attributes bitmap + width_create_date bitmap + width_mod_date bitmap
        + width_specific directory bitmap ≤ reply.data.length := c4
    have c5' : width_name bitmap ≠ 0 →
      reply.pos + width_attributes bitmap + width_create_date bitmap + width_mod_date bitmap
        + width_specific directory bitmap + width_name bitmap ≤ reply.data.length := by
      intro hw
      by_cases hb : has_bit bitmap AFP_FILEDIR_BITMAP_UTF8_NAME_BIT = true
      · have := b hb
        simp only [width_name, hb, if_true]
        exact this
      · exact absurd (by simp [width_name, hb]) hw
    refine ⟨by omega, ?_, n, r, hn, ?_⟩
    · have a' : reply' = { (fixed_fields_result afp_backend info reply directory bitmap).2 with
          pos := (fixed_fields_result afp_backend info reply directory bitmap).2.pos +
            width_name bitmap } := a
      rw [a', fixed_fields_result_reply]
      simp only [fixed_width]
      congr 1
      omega
    · have hi' : info' = _ := hi
      rw [hi']
      rfl
  · rintro ⟨hfit, rfl, n, r, hn, rfl⟩
    refine ⟨_, ⟨?_, rfl⟩, _, ⟨?_, rfl⟩, _, ⟨?_, rfl⟩, _, ⟨?_, rfl⟩, ?_⟩
    · show width_attributes bitmap ≠ 0 →
        reply.pos + width_attributes bitmap ≤ reply.data.length
      omega
    · show width_create_date bitmap ≠ 0 →
        reply.pos + width_attributes bitmap + width_create_date bitmap ≤ reply.data.length
      omega
    · show width_mod_date bitmap ≠ 0 →
        reply.pos + width_attributes bitmap + width_create_date bitmap + width_mod_date bitmap
          ≤ reply.data.length
      omega
    · show width_specific directory bitmap ≠ 0 →
        reply.pos + width_attributes bitmap + width_create_date bitmap + width_mod_date bitmap
          + width_specific directory bitmap ≤ reply.data.length
      omega
    · by_cases hb : has_bit bitmap AFP_FILEDIR_BITMAP_UTF8_NAME_BIT = true
      · have hw : width_name bitmap = 2 := by simp [width_name, hb]
        have hle : (fixed_fields_result afp_backend info reply directory bitmap).2.pos + 2 ≤
            (fixed_fields_result afp_backend info reply directory bitmap).2.data.length := by
          rw [fixed_fields_result_reply]
          simp only [fixed_width]
          omega
        have := fill_info_name_of_read directory reply.pos bitmap
          (fixed_fields_result afp_backend info reply directory bitmap) n r hb hle (hn hb)
        rw [fixed_fields_result_reply] at this
        have e : fill_info_name directory reply.pos bitmap
            (specific_result directory bitmap
              (mod_date_result afp_backend.time_diff bitmap
                (create_date_result afp_backend.time_diff bitmap
                  (attributes_result bitmap (fill_info_type info directory, reply))))) = _ := this
        rw [e, decoded_info, if_pos hb]
        simp only [fixed_width]
        congr 3
        omega
      · have hw : width_name bitmap = 0 := by simp [width_name, hb]
        unfold fill_info_name
        rw [if_neg hb, decoded_info, if_neg hb]
        have e : (specific_result directory bitmap
              (mod_date_result afp_backend.time_diff bitmap
                (create_date_result afp_backend.time_diff bitmap
                  (attributes_result bitmap (fill_info_type info directory, reply))))) =
            ((fixed_fields_result afp_backend info reply directory bitmap).1,
              (fixed_fields_result afp_backend info reply directory bitmap).2) := rfl
        rw [e, fixed_fields_result_reply]
        simp only [fixed_width]
        congr 3
        omega

theorem to_gint32_to_guint32 (d : Int) (h1 : -2147483648 ≤ d) (h2 : d ≤ 2147483647) :
    to_gint32 (to_guint32 d) = d := by
  unfold to_gint32 to_guint32
  omega

theorem bytes_at_of_drop (reply : GVfsAfpReply) (p : Nat) (a b c : List Nat)
    (h : reply.data.drop p = a ++ b ++ c) : bytes_at reply (p + a.length) b.length = b := by
  unfold bytes_at
  rw [← List.drop_drop, h, List.append_assoc, List.drop_left, List.take_left]

theorem encode_record_length (directory : Bool) (bitmap : Nat) (v : RecordFields) :
    (encode_record directory bitmap v).length = fields_width directory bitmap := by
  unfold encode_record
  rw [fields_width_eq]
  simp only [List.length_append, width_attributes, width_create_date, width_mod_date,
    width_specific, width_name]
  congr 1
  congr 1
  congr 1
  congr 1
  all_goals (repeat' split) <;> simp [be_bytes_length]

theorem fill_info_type_eq (info : GFileInfo) (directory : Bool) :
    fill_info_type info directory =
      { info with
        file_type := some (if directory = true then .G_FILE_TYPE_DIRECTORY
          else .G_FILE_TYPE_REGULAR)
        content_type := if directory = true then some .inode_directory else info.content_type
        icon := if directory = true then some .themed_folder else info.icon } := by
  cases directory <;> rfl

theorem attributes_result_eq (bitmap : Nat) (s : GFileInfo × GVfsAfpReply) :
    attributes_result bitmap s =
      ({ s.1 with
          is_hidden :=
            if has_bit bitmap AFP_FILEDIR_BITMAP_ATTRIBUTE_BIT = true ∧
                has_bit (be_value (bytes_at s.2 s.2.pos 2))
                  AFP_FILEDIR_ATTRIBUTES_BITMAP_INVISIBLE_BIT = true then some true
            else s.1.is_hidden },
       { s.2 with pos := s.2.pos + width_attributes bitmap }) := by
  unfold attributes_result set_attributes
  by_cases h1 : has_bit bitmap AFP_FILEDIR_BITMAP_ATTRIBUTE_BIT = true <;>
  by_cases h2 : has_bit (be_value (bytes_at s.2 s.2.pos 2))
        AFP_FILEDIR_ATTRIBUTES_BITMAP_INVISIBLE_BIT = true <;>
  simp [h1, h2]

theorem create_date_result_eq (time_diff : Int) (bitmap : Nat) (s : GFileInfo × GVfsAfpReply) :
    create_date_result time_diff bitmap s =
      ({ s.1 with
          time_created :=
            if has_bit bitmap AFP_FILEDIR_BITMAP_CREATE_DATE_BIT = true then
              some (date_attribute (int32_value (bytes_at s.2 s.2.pos 4)) time_diff)
            else s.1.time_created },
       { s.2 with pos := s.2.pos + width_create_date bitmap }) := by
  unfold create_date_result set_time_created
  by_cases h1 : has_bit bitmap AFP_FILEDIR_BITMAP_CREATE_DATE_BIT = true <;> simp [h1]

theorem mod_date_result_eq (time_diff : Int) (bitmap : Nat) (s : GFileInfo × GVfsAfpReply) :
    mod_date_result time_diff bitmap s =
      ({ s.1 with
          time_modified :=
            if has_bit bitmap AFP_FILEDIR_BITMAP_MOD_DATE_BIT = true then
              some (date_attribute (int32_value (bytes_at s.2 s.2.pos 4)) time_diff)
            else s.1.time_modified },
       { s.2 with pos := s.2.pos + width_mod_date bitmap }) := by
  unfold mod_date_result set_time_modified
  by_cases h1 : has_bit bitmap AFP_FILEDIR_BITMAP_MOD_DATE_BIT = true <;> simp [h1]

theorem specific_result_eq (directory : Bool) (bitmap : Nat) (s : GFileInfo × GVfsAfpReply) :
    specific_result directory bitmap s =
      ({ s.1 with
          children_count :=
            if directory = true ∧ has_bit bitmap AFP_DIR_BITMAP_OFFSPRING_COUNT_BIT = true then
              some (be_value (bytes_at s.2 s.2.pos 4))
            else s.1.children_count
          size :=
            if directory = false ∧
                has_bit bitmap AFP_FILE_BITMAP_EXT_DATA_FORK_LEN_BIT = true then
              some (be_value (bytes_at s.2 s.2.pos 8))
            else s.1.size },
       { s.2 with pos := s.2.pos + width_specific directory bitmap }) := by
  unfold specific_result set_children_count set_size
  cases directory <;>
  by_cases h1 : has_bit bitmap AFP_DIR_BITMAP_OFFSPRING_COUNT_BIT = true <;>
  by_cases h2 : has_bit bitmap AFP_FILE_BITMAP_EXT_DATA_FORK_LEN_BIT = true <;>
  simp [h1, h2]

theorem fill_info_set_name_eq (directory : Bool) (info : GFileInfo) (utf8_name : List Nat) :
    fill_info_set_name directory info utf8_name =
      { info with
        name := some utf8_name
        display_name := some utf8_name
        is_hidden := if utf8_name.head? = some DOT then some true else info.is_hidden
        content_type :=
          if directory = true then info.content_type else some (.guess utf8_name)
        fast_content_type :=
          if directory = true then info.fast_content_type else some (.guess utf8_name)
        icon :=
          if directory = true then info.icon
          else some (.content_type_icon (.guess utf8_name)) } := by
  unfold fill_info_set_name
  cases directory <;> by_cases h : utf8_name.head? = some DOT <;> simp [h]

theorem decoded_info_time_created (afp_backend : GVfsBackendAfp) (info : GFileInfo)
    (reply : GVfsAfpReply) (directory : Bool) (bitmap : Nat) (utf8_name : List Nat) :
    (decoded_info afp_backend info reply directory bitmap utf8_name).time_created =
      if has_bit bitmap AFP_FILEDIR_BITMAP_CREATE_DATE_BIT = true then
        some (date_attribute
          (int32_value (bytes_at reply (reply.pos + width_attributes bitmap) 4))
          afp_backend.time_diff)
      else info.time_created := by
  unfold decoded_info fixed_fields_result
  simp only [fill_info_type_eq, attributes_result_eq, create_date_result_eq,
    mod_date_result_eq, specific_result_eq, fill_info_set_name_eq]
  split <;> rfl

theorem decoded_info_file_type (afp_backend : GVfsBackendAfp) (info : GFileInfo)
    (reply : GVfsAfpReply) (directory : Bool) (bitmap : Nat) (utf8_name : List Nat) :
    (decoded_info afp_backend info reply directory bitmap utf8_name).file_type =
      some (if directory = true then .G_FILE_TYPE_DIRECTORY else .G_FILE_TYPE_REGULAR) := by
  unfold decoded_info fixed_fields_result
  simp only [fill_info_type_eq, attributes_result_eq, create_date_result_eq,
    mod_date_result_eq, specific_result_eq, fill_info_set_name_eq]
  split <;> rfl

theorem decoded_info_time_modified (afp_backend : GVfsBackendAfp) (info : GFileInfo)
    (reply : GVfsAfpReply) (directory : Bool) (bitmap : Nat) (utf8_name : List Nat) :
    (decoded_info afp_backend info reply directory bitmap utf8_name).time_modified =
      if has_bit bitmap AFP_FILEDIR_BITMAP_MOD_DATE_BIT = true then
        some (date_attribute
          (int32_value (bytes_at reply
            (reply.pos + width_attributes bitmap + width_create_date bitmap) 4))
          afp_backend.time_diff)
      else info.time_modified := by
  unfold decoded_info fixed_fields_result
  simp only [fill_info_type_eq, attributes_result_eq, create_date_result_eq,
    mod_date_result_eq, specific_result_eq, fill_info_set_name_eq]
  split <;> rfl

theorem decoded_info_children_count (afp_backend : GVfsBackendAfp) (info : GFileInfo)
    (reply : GVfsAfpReply) (directory : Bool) (bitmap : Nat) (utf8_name : List Nat) :
    (decoded_info afp_backend info reply directory bitmap utf8_name).children_count =
      if directory = true ∧ has_bit bitmap AFP_DIR_BITMAP_OFFSPRING_COUNT_BIT = true then
        some (be_value (bytes_at reply
          (reply.pos + width_attributes bitmap + width_create_date bitmap +
            width_mod_date bitmap) 4))
      else info.children_count := by
  unfold decoded_info fixed_fields_result
  simp only [fill_info_type_eq, attributes_result_eq, create_date_result_eq,
    mod_date_result_eq, specific_result_eq, fill_info_set_name_eq]
  split <;> rfl

theorem decoded_info_size (afp_backend : GVfsBackendAfp) (info : GFileInfo)
    (reply : GVfsAfpReply) (directory : Bool) (bitmap : Nat) (utf8_name : List Nat) :
    (decoded_info afp_backend info reply directory bitmap utf8_name).size =
      if directory = false ∧ has_bit bitmap AFP_FILE_BITMAP_EXT_DATA_FORK_LEN_BIT = true then
        some (be_value (bytes_at reply
          (reply.pos + width_attributes bitmap + width_create_date bitmap +
            width_mod_date bitmap) 8))
      else info.size := by
  unfold decoded_info fixed_fields_result
  simp only [fill_info_type_eq, attributes_result_eq, create_date_result_eq,
    mod_date_result_eq, specific_result_eq, fill_info_set_name_eq]
  split <;> rfl

theorem decoded_info_name (afp_backend : GVfsBackendAfp) (info : GFileInfo)
    (reply : GVfsAfpReply) (directory : Bool) (bitmap : Nat) (utf8_name : List Nat) :
    (decoded_info afp_backend info reply directory bitmap utf8_name).name =
      if has_bit bitmap AFP_FILEDIR_BITMAP_UTF8_NAME_BIT = true then some utf8_name
      else info.name := by
  unfold decoded_info fixed_fields_result
  simp only [fill_info_type_eq, attributes_result_eq, create_date_result_eq,
    mod_date_result_eq, specific_result_eq, fill_info_set_name_eq]
  split <;> rfl

theorem decoded_info_display_name (afp_backend : GVfsBackendAfp) (info : GFileInfo)
    (reply : GVfsAfpReply) (directory : Bool) (bitmap : Nat) (utf8_name : List Nat) :
    (decoded_info afp_backend info reply directory bitmap utf8_name).display_name =
      if has_bit bitmap AFP_FILEDIR_BITMAP_UTF8_NAME_BIT = true then some utf8_name
      else info.display_name := by
  unfold decoded_info fixed_fields_result
  simp only [fill_info_type_eq, attributes_result_eq, create_date_result_eq,
    mod_date_result_eq, specific_result_eq, fill_info_set_name_eq]
  split <;> rfl

theorem decoded_info_is_hidden (afp_backend : GVfsBackendAfp) (info : GFileInfo)
    (reply : GVfsAfpReply) (directory : Bool) (bitmap : Nat) (utf8_name : List Nat) :
    (decoded_info afp_backend info reply directory bitmap utf8_name).is_hidden =
      if (has_bit bitmap AFP_FILEDIR_BITMAP_UTF8_NAME_BIT = true ∧
            utf8_name.head? = some DOT) ∨
          (has_bit bitmap AFP_FILEDIR_BITMAP_ATTRIBUTE_BIT = true ∧
            has_bit (be_value (bytes_at reply reply.pos 2))
              AFP_FILEDIR_ATTRIBUTES_BITMAP_INVISIBLE_BIT = true) then
        some true
      else info.is_hidden := by
  unfold decoded_info fixed_fields_result
  simp only [fill_info_type_eq, attributes_result_eq, create_date_result_eq,
    mod_date_result_eq, specific_result_eq, fill_info_set_name_eq]
  (repeat' split) <;> simp_all

/-- C4: `fill_info` started at cursor `p` returns with the cursor at `p` plus the
sum of the widths of the fields the bitmap selects (attributes 2, create-date 4,
mod-date 4, offspring-count 4 for a directory or extended fork length 8 for a file,
name-offset 2); a field whose bit is clear consumes nothing, and the fields are
read in that order: each one at the cursor left by those before it. It does return
whenever the reply holds that many bytes and the name it is sent to can be read. -/
theorem fill_info_cursor_advance (afp_backend : GVfsBackendAfp) (info : GFileInfo)
    (reply : GVfsAfpReply) (directory : Bool) (bitmap : Nat) :
    (∀ info' reply',
      fill_info afp_backend info reply directory bitmap = some (info', reply') →
        reply'.pos = reply.pos + fields_width directory bitmap ∧
        reply'.data = reply.data ∧
        (has_bit bitmap AFP_FILEDIR_BITMAP_CREATE_DATE_BIT = true →
          info'.time_created = some (date_attribute
            (int32_value (bytes_at reply (reply.pos + width_attributes bitmap) 4))
            afp_backend.time_diff)) ∧
        (has_bit bitmap AFP_FILEDIR_BITMAP_MOD_DATE_BIT = true →
          info'.time_modified = some (date_attribute
            (int32_value (bytes_at reply
              (reply.pos + width_attributes bitmap + width_create_date bitmap) 4))
            afp_backend.time_diff)) ∧
        (directory = true ∧ has_bit bitmap AFP_DIR_BITMAP_OFFSPRING_COUNT_BIT = true →
          info'.children_count = some (be_value (bytes_at reply
            (reply.pos + width_attributes bitmap + width_create_date bitmap +
              width_mod_date bitmap) 4))) ∧
        (directory = false ∧ has_bit bitmap AFP_FILE_BITMAP_EXT_DATA_FORK_LEN_BIT = true →
          info'.size = some (be_value (bytes_at reply
            (reply.pos + width_attributes bitmap + width_create_date bitmap +
              width_mod_date bitmap) 8)))) ∧
    (reply.pos + fields_width directory bitmap ≤ reply.data.length →
      (has_bit bitmap AFP_FILEDIR_BITMAP_UTF8_NAME_BIT = true →
        (g_vfs_afp_reply_read_afp_name (name_cursor reply directory bitmap) true).isSome) →
      (fill_info afp_backend info reply directory bitmap).isSome) := by
  constructor
  · intro info' reply' h
    obtain ⟨_, rfl, n, r, _, rfl⟩ := (fill_info_iff _ _ _ _ _ _ _).mp h
    refine ⟨rfl, rfl, ?_, ?_, ?_, ?_⟩
    · intro hb; rw [decoded_info_time_created, if_pos hb]
    · intro hb; rw [decoded_info_time_modified, if_pos hb]
    · intro hb; rw [decoded_info_children_count, if_pos hb]
    · intro hb; rw [decoded_info_size, if_pos hb]
  · intro hfit hname
    by_cases hb : has_bit bitmap AFP_FILEDIR_BITMAP_UTF8_NAME_BIT = true
    · obtain ⟨⟨n, r⟩, hn⟩ := Option.isSome_iff_exists.mp (hname hb)
      rw [(fill_info_iff afp_backend info _ reply _ directory bitmap).mpr
        ⟨fun _ => hfit, rfl, n, r, fun _ => hn, rfl⟩]
      rfl
    · rw [(fill_info_iff afp_backend info _ reply _ directory bitmap).mpr
        ⟨fun _ => hfit, rfl, ⟨0, []⟩, reply, fun h => absurd h hb, rfl⟩]
      rfl

theorem fill_info_cursor_advance_witness :
    fill_info example_backend g_file_info_new example_reply false example_bitmap =
        some (example_info, { example_reply with pos := 20 }) ∧
      ({ example_reply with pos := 20 } : GVfsAfpReply).pos =
        example_reply.pos + fields_width false example_bitmap ∧
      (fill_info example_backend g_file_info_new example_reply false example_bitmap).isSome :=
  ⟨by decide,
   ((fill_info_cursor_advance example_backend g_file_info_new example_reply false
      example_bitmap).1 example_info { example_reply with pos := 20 } (by decide)).1,
   (fill_info_cursor_advance example_backend g_file_info_new example_reply false
      example_bitmap).2 (by decide) (fun _ => by decide)⟩

theorem name_cursor_of_offset (reply : GVfsAfpReply) (directory : Bool) (bitmap k : Nat)
    (hk : be_value (bytes_at reply (reply.pos + fixed_width directory bitmap) 2) = k)
    (hin : reply.pos + k ≤ reply.data.length) :
    name_cursor reply directory bitmap = { reply with pos := reply.pos + k } := by
  unfold name_cursor name_block_cursor
  have hb : bytes_at { reply with pos := reply.pos + fixed_width directory bitmap }
      (reply.pos + fixed_width directory bitmap) 2 =
      bytes_at reply (reply.pos + fixed_width directory bitmap) 2 := rfl
  simp only [hb, hk]
  have := seek_set_of_le
    { reply with pos := reply.pos + fixed_width directory bitmap + 2 } (reply.pos + k) hin
  rw [show ((reply.pos : Int) + (k : Int)) = ((reply.pos + k : Nat) : Int) by push_cast; rfl]
  rw [this]
  rfl

/-- C3: for a record whose name bit is set and whose name-offset field holds `k`,
with `record_start + k` within the buffer, `fill_info` decodes the name found at
`record_start + k` (`record_start` is the cursor on entry) and returns with the
cursor immediately after the uint16 name-offset field, wherever the name lies and
wherever reading it stopped. -/
theorem fill_info_name_offset (afp_backend : GVfsBackendAfp) (info : GFileInfo)
    (reply : GVfsAfpReply) (directory : Bool) (bitmap k : Nat) (afp_name : GVfsAfpName)
    (after_name : GVfsAfpReply)
    (hbit : has_bit bitmap AFP_FILEDIR_BITMAP_UTF8_NAME_BIT = true)
    (hfit : reply.pos + fields_width directory bitmap ≤ reply.data.length)
    (hk : be_value (bytes_at reply (reply.pos + fixed_width directory bitmap) 2) = k)
    (hin : reply.pos + k ≤ reply.data.length)
    (hname : g_vfs_afp_reply_read_afp_name { reply with pos := reply.pos + k } true =
      some (afp_name, after_name)) :
    ∃ info', fill_info afp_backend info reply directory bitmap =
        some (info', { reply with pos := reply.pos + fixed_width directory bitmap + 2 }) ∧
      info'.name = some (g_vfs_afp_name_get_string afp_name) ∧
      info'.display_name = some (g_vfs_afp_name_get_string afp_name) := by
  have hw : fields_width directory bitmap = fixed_width directory bitmap + 2 := by
    rw [fields_width_eq]; simp [fixed_width, width_name, hbit]
  have hc := name_cursor_of_offset reply directory bitmap k hk hin
  refine ⟨decoded_info afp_backend info reply directory bitmap
    (g_vfs_afp_name_get_string afp_name), ?_, ?_, ?_⟩
  · rw [(fill_info_iff afp_backend info _ reply _ directory bitmap).mpr
      ⟨fun _ => hfit, rfl, afp_name, after_name, fun _ => by rw [hc]; exact hname, rfl⟩]
    rw [hw, Nat.add_assoc]
  · rw [decoded_info_name, if_pos hbit]
  · rw [decoded_info_display_name, if_pos hbit]

theorem fill_info_name_offset_witness :
    ∃ info', fill_info example_backend g_file_info_new example_reply false example_bitmap =
        some (info', { example_reply with
          pos := example_reply.pos + fixed_width false example_bitmap + 2 }) ∧
      info'.name = some (g_vfs_afp_name_get_string ⟨0x08000103, [97, 46, 98]⟩) ∧
      info'.display_name = some (g_vfs_afp_name_get_string ⟨0x08000103, [97, 46, 98]⟩) :=
  fill_info_name_offset example_backend g_file_info_new example_reply false example_bitmap 20
    ⟨0x08000103, [97, 46, 98]⟩ { example_reply with pos := 29 }
    (by decide) (by decide) (by decide) (by decide) (by decide)

theorem le_of_drop_eq_append (reply : GVfsAfpReply) (p : Nat) (a b : List Nat)
    (h : reply.data.drop p = a ++ b) (ha : a ≠ []) : p + a.length ≤ reply.data.length := by
  have hl := congrArg List.length h
  rw [List.length_drop, List.length_append] at hl
  have : 0 < a.length := List.length_pos.mpr ha
  omega

theorem get_data_of_drop (reply : GVfsAfpReply) (a b : List Nat)
    (h : reply.data.drop reply.pos = a ++ b) (hp : reply.pos ≤ reply.data.length) :
    g_vfs_afp_reply_get_data reply a.length =
      some (a, { reply with pos := reply.pos + a.length }) := by
  have hl := congrArg List.length h
  rw [List.length_drop, List.length_append] at hl
  rw [get_data_of_le reply a.length (by omega)]
  unfold bytes_at
  rw [h, List.take_left]

theorem read_afp_name_of_drop (reply : GVfsAfpReply) (afp_name : GVfsAfpName)
    (rest : List Nat)
    (h : reply.data.drop reply.pos = encode_afp_name afp_name ++ rest)
    (he : afp_name.text_encoding < 4294967296) (hl : afp_name.str.length < 65536) :
    g_vfs_afp_reply_read_afp_name reply true =
      some (afp_name, { reply with pos := reply.pos + (encode_afp_name afp_name).length }) := by
  unfold encode_afp_name at h ⊢
  have hp : reply.pos + 4 ≤ reply.data.length := by
    have := le_of_drop_eq_append reply reply.pos (be_bytes 4 afp_name.text_encoding)
      (be_bytes 2 afp_name.str.length ++ afp_name.str ++ rest)
      (by rw [h]; simp only [List.append_assoc]) (by simp [be_bytes])
    rwa [be_bytes_length] at this
  have h1 : g_vfs_afp_reply_get_data reply 4 =
      some (be_bytes 4 afp_name.text_encoding, { reply with pos := reply.pos + 4 }) := by
    have := get_data_of_drop reply (be_bytes 4 afp_name.text_encoding)
      (be_bytes 2 afp_name.str.length ++ afp_name.str ++ rest)
      (by rw [h]; simp only [List.append_assoc]) (by omega)
    rwa [be_bytes_length] at this
  have hd2 : reply.data.drop (reply.pos + 4) =
      be_bytes 2 afp_name.str.length ++ (afp_name.str ++ rest) := by
    rw [← List.drop_drop, h]
    simp only [List.append_assoc]
    rw [List.drop_left' (be_bytes_length 4 _)]
  have hp2 : reply.pos + 4 + 2 ≤ reply.data.length := by
    have := le_of_drop_eq_append reply (reply.pos + 4) _ _ hd2 (by simp [be_bytes])
    rwa [be_bytes_length] at this
  have h2 : g_vfs_afp_reply_get_data { reply with pos := reply.pos + 4 } 2 =
      some (be_bytes 2 afp_name.str.length, { reply with pos := reply.pos + 4 + 2 }) := by
    have := get_data_of_drop { reply with pos := reply.pos + 4 }
      (be_bytes 2 afp_name.str.length) (afp_name.str ++ rest) hd2
      (by show reply.pos + 4 ≤ reply.data.length; omega)
    rwa [be_bytes_length] at this
  have hd3 : reply.data.drop (reply.pos + 4 + 2) = afp_name.str ++ rest := by
    rw [← List.drop_drop, hd2, List.drop_left' (be_bytes_length 2 _)]
  have h3 : g_vfs_afp_reply_get_data { reply with pos := reply.pos + 4 + 2 }
      afp_name.str.length =
      some (afp_name.str, { reply with pos := reply.pos + 4 + 2 + afp_name.str.length }) :=
    get_data_of_drop { reply with pos := reply.pos + 4 + 2 } afp_name.str rest hd3 hp2
  have v1 : be_value (be_bytes 4 afp_name.text_encoding) = afp_name.text_encoding := by
    rw [be_value_be_bytes]; exact Nat.mod_eq_of_lt (by norm_num; exact he)
  have v2 : be_value (be_bytes 2 afp_name.str.length) = afp_name.str.length := by
    rw [be_value_be_bytes]; exact Nat.mod_eq_of_lt (by norm_num; exact hl)
  unfold g_vfs_afp_reply_read_afp_name g_vfs_afp_reply_read_uint32 g_vfs_afp_reply_read_uint16
  simp only [if_true, h1, Option.map_some', Option.some_bind, h2, v1, v2, h3,
    g_vfs_afp_name_new, List.length_append, be_bytes_length]
  congr 3
  omega

/-- The bytes of each field of an encoded record, at the cursor where `fill_info`
reads the field. -/
theorem encode_record_bytes (reply : GVfsAfpReply) (directory : Bool) (bitmap : Nat)
    (v : RecordFields) (rest : List Nat)
    (hrec : reply.data.drop reply.pos = encode_record directory bitmap v ++ rest) :
    (has_bit bitmap AFP_FILEDIR_BITMAP_ATTRIBUTE_BIT = true →
      bytes_at reply reply.pos 2 = be_bytes 2 v.attributes) ∧
    (has_bit bitmap AFP_FILEDIR_BITMAP_CREATE_DATE_BIT = true →
      bytes_at reply (reply.pos + width_attributes bitmap) 4 =
        be_bytes 4 (to_guint32 v.create_date)) ∧
    (has_bit bitmap AFP_FILEDIR_BITMAP_MOD_DATE_BIT = true →
      bytes_at reply (reply.pos + width_attributes bitmap + width_create_date bitmap) 4 =
        be_bytes 4 (to_guint32 v.mod_date)) ∧
    (directory = true ∧ has_bit bitmap AFP_DIR_BITMAP_OFFSPRING_COUNT_BIT = true →
      bytes_at reply (reply.pos + width_attributes bitmap + width_create_date bitmap +
        width_mod_date bitmap) 4 = be_bytes 4 v.offspring_count) ∧
    (directory = false ∧ has_bit bitmap AFP_FILE_BITMAP_EXT_DATA_FORK_LEN_BIT = true →
      bytes_at reply (reply.pos + width_attributes bitmap + width_create_date bitmap +
        width_mod_date bitmap) 8 = be_bytes 8 v.fork_len) ∧
    (has_bit bitmap AFP_FILEDIR_BITMAP_UTF8_NAME_BIT = true →
      bytes_at reply (reply.pos + fixed_width directory bitmap) 2 =
        be_bytes 2 v.name_offset) := by
  unfold encode_record at hrec
  generalize he1 : (if has_bit bitmap AFP_FILEDIR_BITMAP_ATTRIBUTE_BIT = true then
    be_bytes 2 v.attributes else []) = e1 at hrec
  generalize he2 : (if has_bit bitmap AFP_FILEDIR_BITMAP_CREATE_DATE_BIT = true then
    be_bytes 4 (to_guint32 v.create_date) else []) = e2 at hrec
  generalize he3 : (if has_bit bitmap AFP_FILEDIR_BITMAP_MOD_DATE_BIT = true then
    be_bytes 4 (to_guint32 v.mod_date) else []) = e3 at hrec
  generalize he4 : (if directory = true then
    (if has_bit bitmap AFP_DIR_BITMAP_OFFSPRING_COUNT_BIT = true then
      be_bytes 4 v.offspring_count else [])
   else
    (if has_bit bitmap AFP_FILE_BITMAP_EXT_DATA_FORK_LEN_BIT = true then
      be_bytes 8 v.fork_len else [])) = e4 at hrec
  generalize he5 : (if has_bit bitmap AFP_FILEDIR_BITMAP_UTF8_NAME_BIT = true then
    be_bytes 2 v.name_offset else []) = e5 at hrec
  have l1 : e1.length = width_attributes bitmap := by
    rw [← he1, width_attributes]; split <;> simp [be_bytes_length]
  have l2 : e2.length = width_create_date bitmap := by
    rw [← he2, width_create_date]; split <;> simp [be_bytes_length]
  have l3 : e3.length = width_mod_date bitmap := by
    rw [← he3, width_mod_date]; split <;> simp [be_bytes_length]
  have l4 : e4.length = width_specific directory bitmap := by
    rw [← he4, width_specific]; (repeat' split) <;> simp [be_bytes_length]
  have b1 := bytes_at_of_drop reply reply.pos [] e1 (e2 ++ e3 ++ e4 ++ e5 ++ rest)
    (by rw [hrec]; simp only [List.append_assoc, List.nil_append])
  have b2 := bytes_at_of_drop reply reply.pos e1 e2 (e3 ++ e4 ++ e5 ++ rest)
    (by rw [hrec]; simp only [List.append_assoc])
  have b3 := bytes_at_of_drop reply reply.pos (e1 ++ e2) e3 (e4 ++ e5 ++ rest)
    (by rw [hrec]; simp only [List.append_assoc])
  have b4 := bytes_at_of_drop reply reply.pos (e1 ++ e2 ++ e3) e4 (e5 ++ rest)
    (by rw [hrec]; simp only [List.append_assoc])
  have b5 := bytes_at_of_drop reply reply.pos (e1 ++ e2 ++ e3 ++ e4) e5 rest
    (by rw [hrec])
  simp only [List.length_append, List.length_nil, Nat.add_zero, l1, l2, l3, l4,
    ← Nat.add_assoc] at b1 b2 b3 b4 b5
  refine ⟨?_, ?_, ?_, ?_, ?_, ?_⟩
  · intro hb
    have hw : width_attributes bitmap = 2 := by simp [width_attributes, hb]
    rw [if_pos hb] at he1
    rw [← he1, hw] at b1
    exact b1
  · intro hb
    have hw : width_create_date bitmap = 4 := by simp [width_create_date, hb]
    rw [if_pos hb] at he2
    rw [← he2, hw] at b2
    exact b2
  · intro hb
    have hw : width_mod_date bitmap = 4 := by simp [width_mod_date, hb]
    rw [if_pos hb] at he3
    rw [← he3, hw] at b3
    exact b3
  · rintro ⟨hd, hb⟩
    have hw : width_specific directory bitmap = 4 := by simp [width_specific, hd, hb]
    rw [if_pos hd, if_pos hb] at he4
    rw [← he4, hw] at b4
    exact b4
  · rintro ⟨hd, hb⟩
    have hw : width_specific directory bitmap = 8 := by simp [width_specific, hd, hb]
    rw [if_neg (by simp [hd]), if_pos hb] at he4
    rw [← he4, hw] at b4
    exact b4
  · intro hb
    rw [if_pos hb] at he5
    rw [← he5, be_bytes_length] at b5
    simp only [fixed_width, ← Nat.add_assoc]
    exact b5

/-- C2: for a record that encodes, in the canonical order, exactly the fields the
bitmap selects, with the name found where the name-offset field points,
`fill_info` reports each selected field with the value that was encoded (the dates
shifted by `time_diff`, the attributes through the hidden flag) and leaves every
field the bitmap does not select as it was. -/
theorem fill_info_decodes_record (afp_backend : GVfsBackendAfp) (info : GFileInfo)
    (reply : GVfsAfpReply) (directory : Bool) (bitmap : Nat) (v : RecordFields)
    (afp_name : GVfsAfpName) (rest after_name : List Nat)
    (hv : v.in_range)
    (hrec : reply.data.drop reply.pos = encode_record directory bitmap v ++ rest)
    (hname : has_bit bitmap AFP_FILEDIR_BITMAP_UTF8_NAME_BIT = true →
      reply.data.drop (reply.pos + v.name_offset) = encode_afp_name afp_name ++ after_name ∧
      afp_name.text_encoding < 4294967296 ∧ afp_name.str.length < 65536) :
    ∃ info', fill_info afp_backend info reply directory bitmap =
        some (info',
          { reply with pos := reply.pos + (encode_record directory bitmap v).length }) ∧
      info'.file_type =
        some (if directory = true then .G_FILE_TYPE_DIRECTORY else .G_FILE_TYPE_REGULAR) ∧
      info'.is_hidden =
        (if (has_bit bitmap AFP_FILEDIR_BITMAP_UTF8_NAME_BIT = true ∧
              afp_name.str.head? = some DOT) ∨
            (has_bit bitmap AFP_FILEDIR_BITMAP_ATTRIBUTE_BIT = true ∧
              has_bit v.attributes AFP_FILEDIR_ATTRIBUTES_BITMAP_INVISIBLE_BIT = true) then
          some true
        else info.is_hidden) ∧
      info'.time_created =
        (if has_bit bitmap AFP_FILEDIR_BITMAP_CREATE_DATE_BIT = true then
          some (date_attribute v.create_date afp_backend.time_diff)
        else info.time_created) ∧
      info'.time_modified =
        (if has_bit bitmap AFP_FILEDIR_BITMAP_MOD_DATE_BIT = true then
          some (date_attribute v.mod_date afp_backend.time_diff)
        else info.time_modified) ∧
      info'.children_count =
        (if directory = true ∧ has_bit bitmap AFP_DIR_BITMAP_OFFSPRING_COUNT_BIT = true then
          some v.offspring_count
        else info.children_count) ∧
      info'.size =
        (if directory = false ∧
            has_bit bitmap AFP_FILE_BITMAP_EXT_DATA_FORK_LEN_BIT = true then
          some v.fork_len
        else info.size) ∧
      info'.name =
        (if has_bit bitmap AFP_FILEDIR_BITMAP_UTF8_NAME_BIT = true then some afp_name.str
        else info.name) ∧
      info'.display_name =
        (if has_bit bitmap AFP_FILEDIR_BITMAP_UTF8_NAME_BIT = true then some afp_name.str
        else info.display_name) := by
  obtain ⟨ha, hc, hm, ho, hf, hn⟩ := hv
  obtain ⟨bA, bC, bM, bO, bF, bN⟩ := encode_record_bytes reply directory bitmap v rest hrec
  have hfit : fields_width directory bitmap ≠ 0 →
      reply.pos + fields_width directory bitmap ≤ reply.data.length := by
    intro hw
    have := le_of_drop_eq_append reply reply.pos _ _ hrec
      (by intro h0; rw [← encode_record_length directory bitmap v, h0] at hw; exact hw rfl)
    rwa [encode_record_length] at this
  have hread : has_bit bitmap AFP_FILEDIR_BITMAP_UTF8_NAME_BIT = true →
      g_vfs_afp_reply_read_afp_name (name_cursor reply directory bitmap) true =
        some (afp_name, { reply with
          pos := reply.pos + v.name_offset + (encode_afp_name afp_name).length }) := by
    intro hb
    obtain ⟨hd, he, hl⟩ := hname hb
    have hk : be_value (bytes_at reply (reply.pos + fixed_width directory bitmap) 2) =
        v.name_offset := by
      rw [bN hb, be_value_be_bytes]; exact Nat.mod_eq_of_lt (by norm_num; exact hn)
    have hin : reply.pos + v.name_offset ≤ reply.data.length := by
      have := le_of_drop_eq_append reply (reply.pos + v.name_offset) _ _ hd
        (by simp [encode_afp_name, be_bytes])
      omega
    rw [name_cursor_of_offset reply directory bitmap v.name_offset hk hin]
    exact read_afp_name_of_drop { reply with pos := reply.pos + v.name_offset } afp_name
      after_name hd he hl
  refine ⟨decoded_info afp_backend info reply directory bitmap
    (g_vfs_afp_name_get_string afp_name), ?_, ?_, ?_, ?_, ?_, ?_, ?_, ?_, ?_⟩
  · rw [encode_record_length]
    exact (fill_info_iff afp_backend info _ reply _ directory bitmap).mpr
      ⟨hfit, rfl, afp_name, _, hread, rfl⟩
  · exact decoded_info_file_type ..
  · rw [decoded_info_is_hidden]
    by_cases hb : has_bit bitmap AFP_FILEDIR_BITMAP_ATTRIBUTE_BIT = true
    · rw [bA hb, be_value_be_bytes, Nat.mod_eq_of_lt (by norm_num; exact ha)]
      rfl
    · simp [hb, g_vfs_afp_name_get_string]
  · rw [decoded_info_time_created]
    by_cases hb : has_bit bitmap AFP_FILEDIR_BITMAP_CREATE_DATE_BIT = true
    · rw [if_pos hb, if_pos hb, bC hb, int32_value, be_value_be_bytes,
        Nat.mod_eq_of_lt (by unfold to_guint32; norm_num; omega),
        to_gint32_to_guint32 _ hc.1 hc.2]
    · rw [if_neg hb, if_neg hb]
  · rw [decoded_info_time_modified]
    by_cases hb : has_bit bitmap AFP_FILEDIR_BITMAP_MOD_DATE_BIT = true
    · rw [if_pos hb, if_pos hb, bM hb, int32_value, be_value_be_bytes,
        Nat.mod_eq_of_lt (by unfold to_guint32; norm_num; omega),
        to_gint32_to_guint32 _ hm.1 hm.2]
    · rw [if_neg hb, if_neg hb]
  · rw [decoded_info_children_count]
    by_cases hb : directory = true ∧ has_bit bitmap AFP_DIR_BITMAP_OFFSPRING_COUNT_BIT = true
    · rw [if_pos hb, if_pos hb, bO hb, be_value_be_bytes,
        Nat.mod_eq_of_lt (by norm_num; exact ho)]
    · rw [if_neg hb, if_neg hb]
  · rw [decoded_info_size]
    by_cases hb : directory = false ∧
        has_bit bitmap AFP_FILE_BITMAP_EXT_DATA_FORK_LEN_BIT = true
    · rw [if_pos hb, if_pos hb, bF hb, be_value_be_bytes,
        Nat.mod_eq_of_lt (by norm_num; exact hf)]
    · rw [if_neg hb, if_neg hb]
  · exact decoded_info_name ..
  · exact decoded_info_display_name ..

theorem fill_info_decodes_record_witness :
    ∃ info', fill_info example_backend g_file_info_new example_reply false example_bitmap =
        some (info', { example_reply with
          pos := example_reply.pos + (encode_record false example_bitmap example_fields).length }) ∧
      info'.is_hidden = some true ∧ info'.time_created = some 15 ∧
      info'.time_modified = some 25 ∧ info'.children_count = none ∧
      info'.size = some 42 ∧ info'.name = some [97, 46, 98] := by
  obtain ⟨info', h, _, h1, h2, h3, h4, h5, h6, _⟩ :=
    fill_info_decodes_record example_backend g_file_info_new example_reply false
      example_bitmap example_fields ⟨0x08000103, [97, 46, 98]⟩
      [8, 0, 1, 3, 0, 3, 97, 46, 98] []
      ⟨by decide, ⟨by decide, by decide⟩, ⟨by decide, by decide⟩, by decide, by decide,
        by decide⟩
      (by decide) (fun _ => by decide)
  exact ⟨info', h, h1, h2, h3, h4, h5, h6⟩

theorem file_info_size_of_lt (info : GFileInfo) (L : Nat) (hsize : info.size = some L)
    (hL : L < 9223372036854775808) : to_gsize (g_file_info_get_size info) = L := by
  unfold g_file_info_get_size to_gsize to_guint64 to_gint64
  rw [hsize]
  simp only [Option.getD_some]
  omega

theorem seek_new_offset_eq_clamp (seek_type : GSeekType) (o d : Int) (L : Nat)
    (hL : L < 9223372036854775808)
    (ht : -9223372036854775808 ≤ seek_target seek_type o d L ∧
      seek_target seek_type o d L < 9223372036854775808) :
    seek_new_offset seek_type o d L = clamp (seek_target seek_type o d L) 0 L := by
  unfold seek_new_offset clamp
  cases seek_type <;> simp only [seek_target] at ht ⊢ <;>
    unfold to_gint64 to_gsize to_guint64 <;> (repeat' split) <;> omega

/-- C1: for a fork handle with offset `o` (the bound `0 ≤ o` is not needed), a
freshly fetched fork length `L < 2^63` and a delta `d` whose target `t` fits a
signed 64-bit integer, a
successful seek, on the write side and on the read side alike, stores on the handle
and reports to the job `clamp(t, 0, L)`, where `t = o + d` for SeekCurrent, `d` for
SeekSet and `L + d` for SeekEnd, and the job succeeds; in particular SeekSet with
`d < 0` yields 0 and SeekCurrent with `o + d > L` yields `L`. -/
theorem seek_clamps_to_fork_length (write_job : GVfsJobSeekWrite) (read_job : GVfsJobSeekRead)
    (afp_handle : AfpHandle) (info : GFileInfo) (seek_type : GSeekType) (d : Int) (L : Nat)
    (hw : write_job.seek_type = seek_type ∧ write_job.requested_offset = d)
    (hr : read_job.seek_type = seek_type ∧ read_job.requested_offset = d)
    (hsize : info.size = some L) (hL : L < 9223372036854775808)
    (ht : -9223372036854775808 ≤ seek_target seek_type afp_handle.offset d L ∧
      seek_target seek_type afp_handle.offset d L < 9223372036854775808) :
    seek_on_write_cb (.ok info) write_job afp_handle =
      ({ write_job with
          final_offset := clamp (seek_target seek_type afp_handle.offset d L) 0 L,
          base := g_vfs_job_succeeded write_job.base },
       { afp_handle with offset := clamp (seek_target seek_type afp_handle.offset d L) 0 L }) ∧
    seek_on_read_cb (.ok info) read_job afp_handle =
      ({ read_job with
          final_offset := clamp (seek_target seek_type afp_handle.offset d L) 0 L,
          base := g_vfs_job_succeeded read_job.base },
       { afp_handle with offset := clamp (seek_target seek_type afp_handle.offset d L) 0 L }) ∧
    (seek_type = .G_SEEK_SET → d < 0 →
      clamp (seek_target seek_type afp_handle.offset d L) 0 L = 0) ∧
    (seek_type = .G_SEEK_CUR → (L : Int) < afp_handle.offset + d →
      clamp (seek_target seek_type afp_handle.offset d L) 0 L = L) := by
  have hs := file_info_size_of_lt info L hsize hL
  have hc := seek_new_offset_eq_clamp seek_type afp_handle.offset d L hL ht
  refine ⟨?_, ?_, ?_, ?_⟩
  · unfold seek_on_write_cb get_fork_parms_finish
    simp only [hs, hw.1, hw.2, hc, g_vfs_job_seek_write_set_offset]
  · unfold seek_on_read_cb get_fork_parms_finish
    simp only [hs, hr.1, hr.2, hc, g_vfs_job_seek_read_set_offset]
  · rintro rfl hd
    simp only [seek_target, clamp, hd, if_true]
  · rintro rfl hd
    simp only [seek_target, clamp]
    have : ¬ (afp_handle.offset + d < 0) := by omega
    rw [if_neg this, if_pos hd]

theorem seek_clamps_to_fork_length_witness :
    (seek_on_write_cb (.ok { size := some 100 })
        { base := { type := .G_VFS_TYPE_JOB_SEEK_WRITE }, seek_type := .G_SEEK_END,
          requested_offset := 20 } example_handle).2.offset = 100 ∧
    (seek_on_read_cb (.ok { size := some 100 })
        { base := { type := .G_VFS_TYPE_JOB_SEEK_READ }, seek_type := .G_SEEK_END,
          requested_offset := 20 } example_handle).1.final_offset = 100 := by
  have h := seek_clamps_to_fork_length
    { base := { type := .G_VFS_TYPE_JOB_SEEK_WRITE }, seek_type := .G_SEEK_END,
      requested_offset := 20 }
    { base := { type := .G_VFS_TYPE_JOB_SEEK_READ }, seek_type := .G_SEEK_END,
      requested_offset := 20 }
    example_handle { size := some 100 } .G_SEEK_END 20 100 ⟨rfl, rfl⟩ ⟨rfl, rfl⟩ rfl
    (by decide) (by decide)
  rw [h.1, h.2.1]
  decide

theorem to_gsize_to_gint64 (x : Int) : to_gsize (to_gint64 x) = to_gsize x := by
  unfold to_gsize to_guint64 to_gint64
  omega

theorem to_gint64_to_guint64 (p : Int) (h1 : -9223372036854775808 ≤ p)
    (h2 : p < 9223372036854775808) : to_gint64 (to_guint64 p) = p := by
  unfold to_gint64 to_guint64
  omega

theorem read_int64_of_drop (reply : GVfsAfpReply) (p : Int) (rest : List Nat)
    (h : reply.data.drop reply.pos = be_bytes 8 (to_guint64 p) ++ rest)
    (h1 : -9223372036854775808 ≤ p) (h2 : p < 9223372036854775808) :
    g_vfs_afp_reply_read_int64 reply = some (p, { reply with pos := reply.pos + 8 }) := by
  have hp := le_of_drop_eq_append reply reply.pos _ _ h (by simp [be_bytes])
  have hd := get_data_of_drop reply _ _ h (by omega)
  rw [be_bytes_length] at hd
  unfold g_vfs_afp_reply_read_int64
  rw [hd]
  simp only [Option.map_some', be_value_be_bytes]
  rw [Nat.mod_eq_of_lt (by unfold to_guint64; norm_num; omega), to_gint64_to_guint64 p h1 h2]

/-- C10, as amended: for a write reply with result code NoError or LockErr that
carries the end-of-write position `p`, on a handle whose offset was `o`, with
`o ≤ p`, the write job succeeds, reports the written length `p - o` and the handle's
offset becomes `p`; for every other result code the job fails and the handle is left
as it was. -/
theorem write_ext_cb_outcome (reply : GVfsAfpReply) (job : GVfsJobWrite)
    (afp_handle : AfpHandle) (p : Int) (rest : List Nat) :
    ((reply.result_code = AFP_RESULT_NO_ERROR ∨ reply.result_code = AFP_RESULT_LOCK_ERR) →
      reply.data.drop reply.pos = be_bytes 8 (to_guint64 p) ++ rest →
      (-9223372036854775808 ≤ p ∧ p < 9223372036854775808) →
      (-9223372036854775808 ≤ afp_handle.offset ∧ afp_handle.offset < 9223372036854775808) →
      afp_handle.offset ≤ p →
        write_ext_cb (.ok reply) job afp_handle =
          some ({ job with written_size := (p - afp_handle.offset).toNat,
                           base := g_vfs_job_succeeded job.base },
                { afp_handle with offset := p }) ∧
        ((p - afp_handle.offset).toNat : Int) = p - afp_handle.offset) ∧
    (¬ (reply.result_code = AFP_RESULT_NO_ERROR ∨ reply.result_code = AFP_RESULT_LOCK_ERR) →
      ∃ error, write_ext_cb (.ok reply) job afp_handle =
        some ({ job with base := { job.base with status := .failed error } }, afp_handle)) := by
  constructor
  · intro hc hd hp ho hle
    have hsize : to_gsize (p - afp_handle.offset) = (p - afp_handle.offset).toNat := by
      unfold to_gsize to_guint64
      omega
    constructor
    · unfold write_ext_cb
      simp only [g_vfs_afp_reply_get_result_code, hc, not_true_eq_false, if_false]
      rw [read_int64_of_drop reply p rest hd hp.1 hp.2]
      simp only [Option.some_bind, to_gsize_to_gint64, g_vfs_job_write_set_written_size, hsize]
    · omega
  · intro hc
    unfold write_ext_cb
    simp only [g_vfs_afp_reply_get_result_code, hc, not_false_eq_true, if_true]
    unfold g_vfs_job_failed_literal g_vfs_job_failed
    split
    · exact ⟨_, rfl⟩
    · split
      · exact ⟨_, rfl⟩
      · exact ⟨_, rfl⟩

theorem write_ext_cb_outcome_witness :
    write_ext_cb (.ok { result_code := AFP_RESULT_LOCK_ERR, data := [0, 0, 0, 0, 0, 0, 0, 30],
                        pos := 0 })
        { base := { type := .G_VFS_TYPE_JOB_WRITE }, data_size := 64 } example_handle =
      some ({ base := { type := .G_VFS_TYPE_JOB_WRITE, status := .succeeded }, data_size := 64,
              written_size := 20 },
            { example_handle with offset := 30 }) ∧
    (∃ error, write_ext_cb (.ok { result_code := AFP_RESULT_DISK_FULL, data := [], pos := 0 })
        { base := { type := .G_VFS_TYPE_JOB_WRITE }, data_size := 64 } example_handle =
      some ({ base := { type := .G_VFS_TYPE_JOB_WRITE, status := .failed error },
              data_size := 64 }, example_handle)) :=
  ⟨((write_ext_cb_outcome
      { result_code := AFP_RESULT_LOCK_ERR, data := [0, 0, 0, 0, 0, 0, 0, 30], pos := 0 }
      { base := { type := .G_VFS_TYPE_JOB_WRITE }, data_size := 64 } example_handle 30 []).1
      (by decide) (by decide) (by decide) (by decide) (by decide)).1,
   (write_ext_cb_outcome { result_code := AFP_RESULT_DISK_FULL, data := [], pos := 0 }
      { base := { type := .G_VFS_TYPE_JOB_WRITE }, data_size := 64 } example_handle 0 []).2
      (by decide)⟩

/-- C10 fails as stated: on a handle whose offset is 10, a write reply with result
code NoError that carries the end-of-write position 5 makes the job succeed with
the written length `2^64 - 5`, which is not `5 - 10`: the length is a `gsize` and
cannot hold a negative difference. -/
theorem write_ext_cb_position_before_offset :
    example_handle.offset = 10 ∧
    (write_ext_cb (.ok { result_code := AFP_RESULT_NO_ERROR,
                         data := [0, 0, 0, 0, 0, 0, 0, 5], pos := 0 })
        { base := { type := .G_VFS_TYPE_JOB_WRITE }, data_size := 64 } example_handle).map
        (fun out => (out.1.base.status, (out.1.written_size : Int))) =
      some (.succeeded, 18446744073709551611) ∧
    (18446744073709551611 : Int) ≠ 5 - example_handle.offset := by
  decide

theorem close_write_deliver_idle (afp_backend : GVfsBackendAfp) (s : CloseWriteState)
    (replies : List TransportResult) (h : s.conn.pending = []) :
    replies.foldlM (close_write_deliver afp_backend) s = some s := by
  induction replies with
  | nil => rfl
  | cons r rs ih =>
    rw [List.foldlM_cons]
    have : close_write_deliver afp_backend s r = some s := by
      unfold close_write_deliver
      rw [h]
    rw [this]
    exact ih

theorem close_write_deliver_null (afp_backend : GVfsBackendAfp) (s : CloseWriteState)
    (replies : List TransportResult) (h : s.conn.pending = [.NULL]) :
    ∃ s', replies.foldlM (close_write_deliver afp_backend) s = some s' ∧
      s'.conn.sent = s.conn.sent ∧ s'.job = s.job ∧ s'.handle = s.handle := by
  cases replies with
  | nil => exact ⟨s, rfl, rfl, rfl, rfl⟩
  | cons r rs =>
    rw [List.foldlM_cons]
    have : close_write_deliver afp_backend s r =
        some { s with conn := { s.conn with pending := [] } } := by
      unfold close_write_deliver
      rw [h]
    rw [this]
    exact ⟨_, close_write_deliver_idle afp_backend _ rs rfl, rfl, rfl, rfl⟩

theorem try_close_write_replace (afp_backend : GVfsBackendAfp) (conn : GVfsAfpConnection)
    (job : GVfsJobCloseWrite) (afp_handle : AfpHandle) (filename tmp_filename : List Nat)
    (htype : afp_handle.type = .AFP_HANDLE_TYPE_REPLACE_FILE)
    (hname : afp_handle.filename = some filename)
    (htmp : afp_handle.tmp_filename = some tmp_filename) :
    try_close_write afp_backend conn job afp_handle =
      some { conn := { sent := conn.sent ++
                        [exchange_files_command afp_backend filename tmp_filename],
                       pending := conn.pending ++ [.close_replace_exchange_files_cb] },
             job := job, handle := some afp_handle } := by
  unfold try_close_write
  rw [if_pos htype, hname, htmp]
  rfl

theorem close_write_deliver_exchange (afp_backend : GVfsBackendAfp) (s : CloseWriteState)
    (afp_handle : AfpHandle) (reply : TransportResult) (pending : List AfpReplyCallback)
    (hp : s.conn.pending = .close_replace_exchange_files_cb :: pending)
    (hh : s.handle = some afp_handle) :
    close_write_deliver afp_backend s reply =
      some (close_replace_exchange_files_cb
        { s with conn := { s.conn with pending := pending } } afp_handle reply) := by
  unfold close_write_deliver
  rw [hp]
  simp only [hh, Option.some_bind]

theorem close_write_deliver_replace_close_fork (afp_backend : GVfsBackendAfp)
    (s : CloseWriteState) (afp_handle : AfpHandle) (reply : TransportResult)
    (pending : List AfpReplyCallback)
    (hp : s.conn.pending = .close_fork_cb .close_replace_close_fork_cb :: pending)
    (hh : s.handle = some afp_handle) :
    close_write_deliver afp_backend s reply =
      close_replace_close_fork_cb afp_backend
        { s with conn := { s.conn with pending := pending } } afp_handle := by
  unfold close_write_deliver
  rw [hp]
  simp only [hh, Option.some_bind]

/-- The state of a replace close once the exchange has been answered with a reply
and the close-fork has been answered. -/
theorem close_replace_after_close_fork (afp_backend : GVfsBackendAfp)
    (job : GVfsJobCloseWrite) (afp_handle : AfpHandle) (filename tmp_filename : List Nat)
    (exchange_reply : GVfsAfpReply) (close_fork_reply : TransportResult)
    (htype : afp_handle.type = .AFP_HANDLE_TYPE_REPLACE_FILE)
    (hname : afp_handle.filename = some filename)
    (htmp : afp_handle.tmp_filename = some tmp_filename) :
    ∃ s, close_write_session afp_backend job afp_handle
        [.ok exchange_reply, close_fork_reply] = some s ∧
      s.conn.sent = [exchange_files_command afp_backend filename tmp_filename,
        close_fork_command afp_handle.fork_refnum,
        delete_command afp_backend tmp_filename] ∧
      s.conn.pending = [.NULL] ∧ s.handle = none ∧
      s.job = (close_replace_exchange_files_cb
        { conn := {}, job := job, handle := some afp_handle } afp_handle
        (.ok exchange_reply)).job := by
  unfold close_write_session
  rw [try_close_write_replace afp_backend {} job afp_handle filename tmp_filename htype
    hname htmp]
  simp only [Option.bind_eq_bind, Option.some_bind, List.foldlM_cons, List.foldlM_nil]
  rw [close_write_deliver_exchange afp_backend _ afp_handle _ [] rfl rfl]
  simp only [Option.some_bind]
  rw [close_write_deliver_replace_close_fork afp_backend _ afp_handle _ [] rfl rfl]
  unfold close_replace_close_fork_cb
  rw [htmp]
  exact ⟨_, rfl, rfl, rfl, rfl, rfl⟩

/-- C6, as amended: when the transport delivers a reply to the exchange-files
command, whatever its result code and whatever the outcome of the close-fork and of
the delete, closing a ReplaceExisting handle issues exactly three commands: the
exchange of the original and temporary paths, the close-fork for the handle's fork
reference, the delete of the temporary path, in that order. -/
theorem close_replace_issues_three_commands (afp_backend : GVfsBackendAfp)
    (job : GVfsJobCloseWrite) (afp_handle : AfpHandle) (filename tmp_filename : List Nat)
    (exchange_reply : GVfsAfpReply) (close_fork_reply : TransportResult)
    (more : List TransportResult)
    (htype : afp_handle.type = .AFP_HANDLE_TYPE_REPLACE_FILE)
    (hname : afp_handle.filename = some filename)
    (htmp : afp_handle.tmp_filename = some tmp_filename) :
    ∃ s, close_write_session afp_backend job afp_handle
        (.ok exchange_reply :: close_fork_reply :: more) = some s ∧
      s.conn.sent = [exchange_files_command afp_backend filename tmp_filename,
        close_fork_command afp_handle.fork_refnum,
        delete_command afp_backend tmp_filename] := by
  obtain ⟨s, hs, hsent, hpend, _, _⟩ := close_replace_after_close_fork afp_backend job
    afp_handle filename tmp_filename exchange_reply close_fork_reply htype hname htmp
  obtain ⟨s', hs', hsent', _, _⟩ := close_write_deliver_null afp_backend s more hpend
  refine ⟨s', ?_, by rw [hsent', hsent]⟩
  unfold close_write_session at hs ⊢
  simp only [Option.bind_eq_bind, List.foldlM_cons, List.foldlM_nil,
    Option.bind_eq_some, Option.pure_def, Option.some.injEq] at hs ⊢
  obtain ⟨s0, h0, a, ha, b, hb, hab⟩ := hs
  subst hab
  exact ⟨s0, h0, a, ha, b, hb, hs'⟩

theorem close_replace_issues_three_commands_witness :
    ∃ s, close_write_session example_backend example_close_job example_handle
        [.ok { result_code := AFP_RESULT_ACCESS_DENIED, data := [], pos := 0 },
         .error example_error, .error example_error] = some s ∧
      s.conn.sent = [exchange_files_command example_backend [97] [97, 46, 116, 109, 112],
        close_fork_command example_handle.fork_refnum,
        delete_command example_backend [97, 46, 116, 109, 112]] :=
  close_replace_issues_three_commands example_backend example_close_job example_handle [97]
    [97, 46, 116, 109, 112] { result_code := AFP_RESULT_ACCESS_DENIED, data := [], pos := 0 }
    (.error example_error) [.error example_error] rfl rfl rfl

/-- C6, counterexample: when the transport fails the exchange (no reply, an error),
the close of a ReplaceExisting handle has issued one command, the exchange, and
issues no other whatever arrives later: neither the close-fork nor the delete. -/
theorem close_replace_without_reply_one_command :
    (close_write_session example_backend example_close_job example_handle
        [.error example_error, .error example_error, .error example_error]).map
        (fun s => s.conn.sent) =
      some [exchange_files_command example_backend [97] [97, 46, 116, 109, 112]] ∧
    (close_write_session example_backend example_close_job example_handle
        [.error example_error, .error example_error, .error example_error]).map
        (fun s => s.conn.sent.length) ≠ some 3 := by
  decide

theorem enumerate_ext2_sent (afp_backend : GVfsBackendAfp) (conn : GVfsAfpConnection)
    (job : GVfsJobEnumerate) (start_index : Int) :
    enumerate_ext2 afp_backend conn job start_index =
      { sent := conn.sent ++
          [enumerate_ext2_command afp_backend job.filename job.attribute_matcher start_index],
        pending := conn.pending ++ [.enumerate_ext2_cb] } := rfl

theorem enumerate_records_length (afp_backend : GVfsBackendAfp) (file_bitmap dir_bitmap : Nat)
    (n : Nat) (reply : GVfsAfpReply) (out : List GFileInfo × GVfsAfpReply)
    (h : enumerate_ext2_cb_records afp_backend file_bitmap dir_bitmap n reply = some out) :
    out.1.length = n := by
  induction n generalizing reply out with
  | zero =>
    simp only [enumerate_ext2_cb_records, Option.some.injEq] at h
    subst h
    rfl
  | succ n ih =>
    simp only [enumerate_ext2_cb_records, Option.bind_eq_some, Option.map_eq_some'] at h
    obtain ⟨sl, _, fd, _, r, _, rest, hrest, rfl⟩ := h
    simp [ih _ _ hrest]

theorem page_entry_count_some (afp_backend : GVfsBackendAfp) (reply : GVfsAfpReply) (N : Nat)
    (h : page_entry_count afp_backend reply = some (N : Int)) :
    reply.result_code = AFP_RESULT_NO_ERROR ∧
      ∃ infos, enumerate_ext2_cb_page afp_backend reply = some ((N : Int), infos) ∧
        infos.length = N := by
  unfold page_entry_count at h
  split at h
  · rename_i hc
    refine ⟨hc, ?_⟩
    simp only [Option.map_eq_some'] at h
    obtain ⟨⟨c, infos⟩, hp, hcN⟩ := h
    simp only at hcN
    subst hcN
    refine ⟨infos, hp, ?_⟩
    unfold enumerate_ext2_cb_page at hp
    simp only [Option.bind_eq_some, Option.map_eq_some', Prod.mk.injEq] at hp
    obtain ⟨fb, _, db, _, c, _, r, hr, hc1, rfl⟩ := hp
    have := enumerate_records_length _ _ _ _ _ _ hr
    rw [this, hc1]
    simp
  · exact absurd h (by simp)

theorem to_gint32_of_range (x : Int) (h1 : -2147483648 ≤ x) (h2 : x ≤ 2147483647) :
    to_gint32 x = x := by
  unfold to_gint32
  omega

theorem enumerate_deliver_page (afp_backend : GVfsBackendAfp) (s : EnumerateState)
    (reply : GVfsAfpReply) (N : Nat)
    (hp : s.conn.pending = [.enumerate_ext2_cb])
    (hN : page_entry_count afp_backend reply = some (N : Int)) :
    ∃ infos, infos.length = N ∧
      enumerate_deliver afp_backend s (.ok reply) =
        some { conn := enumerate_ext2 afp_backend { sent := s.conn.sent, pending := [] } s.job
                 (to_gint32 (s.job.start_index + N)),
               job := { s.job with infos := s.job.infos ++ infos,
                                   start_index := to_gint32 (s.job.start_index + N) } } := by
  obtain ⟨hc, infos, hpage, hlen⟩ := page_entry_count_some afp_backend reply N hN
  refine ⟨infos, hlen, ?_⟩
  unfold enumerate_deliver
  rw [hp]
  simp only
  unfold enumerate_ext2_cb
  have hc' : reply.result_code = AFP_RESULT_NO_ERROR := hc
  simp only [g_vfs_afp_reply_get_result_code, hc', hpage, Option.some_bind,
    ne_eq, not_true_eq_false, if_false]
  rw [if_neg (by decide)]
  rfl

theorem enumerate_deliver_not_found (afp_backend : GVfsBackendAfp) (s : EnumerateState)
    (reply : GVfsAfpReply)
    (hp : s.conn.pending = [.enumerate_ext2_cb])
    (hc : reply.result_code = AFP_RESULT_OBJECT_NOT_FOUND) :
    enumerate_deliver afp_backend s (.ok reply) =
      some { conn := { sent := s.conn.sent, pending := [] },
             job := { s.job with base := g_vfs_job_succeeded s.job.base, done := true } } := by
  unfold enumerate_deliver
  rw [hp]
  simp only
  unfold enumerate_ext2_cb
  simp only [g_vfs_afp_reply_get_result_code, hc, if_true]

/-- The pages of an enumeration, from a state in which one page command is
outstanding to the page that ends it. -/
theorem enumerate_pages (afp_backend : GVfsBackendAfp) (last : GVfsAfpReply)
    (hlast : last.result_code = AFP_RESULT_OBJECT_NOT_FOUND)
    (pages : List GVfsAfpReply) (Ns : List Nat)
    (hpages : List.Forall₂
      (fun (reply : GVfsAfpReply) (N : Nat) => page_entry_count afp_backend reply = some (N : Int))
      pages Ns) :
    ∀ s : EnumerateState, s.conn.pending = [.enumerate_ext2_cb] →
      -2147483648 ≤ s.job.start_index → s.job.start_index + (Ns.sum : Nat) ≤ 2147483647 →
      ∃ s', (pages.map Except.ok ++ [Except.ok last]).foldlM (enumerate_deliver afp_backend) s =
          some s' ∧
        s'.job.infos.length = s.job.infos.length + Ns.sum ∧
        s'.job.base.status = .succeeded ∧ s'.job.done = true ∧ s'.conn.pending = [] ∧
        s'.conn.sent = s.conn.sent ++ (List.range Ns.length).map (fun j =>
          enumerate_ext2_command afp_backend s.job.filename s.job.attribute_matcher
            (s.job.start_index + ((Ns.take (j + 1)).sum : Nat))) := by
  induction hpages with
  | nil =>
    intro s hp _ _
    refine ⟨{ conn := { sent := s.conn.sent, pending := [] },
              job := { s.job with base := g_vfs_job_succeeded s.job.base, done := true } },
      ?_, ?_, ?_, ?_, ?_, ?_⟩
    · simp only [List.map_nil, List.nil_append, List.foldlM_cons, List.foldlM_nil]
      rw [enumerate_deliver_not_found afp_backend s last hp hlast]
      rfl
    · simp
    · rfl
    · rfl
    · rfl
    · simp
  | @cons reply N pages Ns hN _ ih =>
    intro s hp hlo hhi
    obtain ⟨infos, hlen, hd⟩ := enumerate_deliver_page afp_backend s reply N hp hN
    simp only [List.sum_cons, Nat.cast_add] at hhi
    have hidx : to_gint32 (s.job.start_index + N) = s.job.start_index + N :=
      to_gint32_of_range _ (by omega) (by omega)
    rw [hidx] at hd
    obtain ⟨s', hs', h1, h2, h3, h4, h5⟩ := ih
      { conn := enumerate_ext2 afp_backend { sent := s.conn.sent, pending := [] } s.job
          (s.job.start_index + N),
        job := { s.job with infos := s.job.infos ++ infos,
                            start_index := s.job.start_index + N } }
      rfl (by show -2147483648 ≤ s.job.start_index + (N : Int); omega)
      (by show s.job.start_index + (N : Int) + ((Ns.sum : Nat) : Int) ≤ 2147483647; omega)
    refine ⟨s', ?_, ?_, h2, h3, h4, ?_⟩
    · simp only [List.map_cons, List.cons_append, List.foldlM_cons]
      rw [hd]
      exact hs'
    · rw [h1]
      simp only [List.length_append, hlen, List.sum_cons]
      omega
    · rw [h5]
      simp only [enumerate_ext2_sent, List.nil_append, List.length_cons,
        List.range_succ_eq_map, List.map_cons, List.map_map, List.append_assoc,
        List.singleton_append, List.take_succ_cons, List.sum_cons, List.take_zero,
        List.sum_nil, Nat.add_zero]
      congr 2
      apply List.map_congr_left
      intro j _
      simp only [Function.comp, List.take_succ_cons, List.sum_cons, Nat.cast_add,
        Nat.succ_eq_add_one]
      congr 1
      ring

/-- C5: for a server that answers an enumeration with `k` success pages holding
`N1 … Nk` entries and then a page with result code object-not-found (the start
indexes staying within the signed 32-bit field that carries them), the job delivers
exactly `N1 + … + Nk` entries and then succeeds and is done; `k + 1` commands are
sent, the first with start index 1 and the one for page `j + 1` with start index
`1 + N1 + … + Nj`. -/
theorem enumerate_pagination (afp_backend : GVfsBackendAfp) (job : GVfsJobEnumerate)
    (pages : List GVfsAfpReply) (Ns : List Nat) (last : GVfsAfpReply)
    (hversion : AFP_VERSION_3_1 ≤ afp_backend.server.version)
    (hpages : List.Forall₂
      (fun (reply : GVfsAfpReply) (N : Nat) => page_entry_count afp_backend reply = some (N : Int))
      pages Ns)
    (hlast : last.result_code = AFP_RESULT_OBJECT_NOT_FOUND)
    (hrange : 1 + ((Ns.sum : Nat) : Int) ≤ 2147483647) :
    ∃ s, enumerate_session afp_backend job (pages.map Except.ok ++ [Except.ok last]) = some s ∧
      s.job.infos.length = job.infos.length + Ns.sum ∧
      s.job.base.status = .succeeded ∧ s.job.done = true ∧
      s.conn.sent = (List.range (Ns.length + 1)).map (fun j =>
        enumerate_ext2_command afp_backend job.filename job.attribute_matcher
          (1 + ((Ns.take j).sum : Nat))) := by
  have h0 : try_enumerate afp_backend {} job =
      { conn := enumerate_ext2 afp_backend {} { job with start_index := 1 } 1,
        job := { job with start_index := 1 } } := by
    unfold try_enumerate
    rw [if_pos hversion]
  obtain ⟨s, hs, h1, h2, h3, _, h5⟩ := enumerate_pages afp_backend last hlast pages Ns hpages
    { conn := enumerate_ext2 afp_backend {} { job with start_index := 1 } 1,
      job := { job with start_index := 1 } } rfl (by show (-2147483648 : Int) ≤ 1; omega)
    (by show (1 : Int) + ((Ns.sum : Nat) : Int) ≤ 2147483647; exact hrange)
  refine ⟨s, ?_, h1, h2, h3, ?_⟩
  · unfold enumerate_session
    rw [h0]
    exact hs
  · rw [h5]
    simp only [enumerate_ext2_sent, List.nil_append, List.range_succ_eq_map, List.map_cons,
      List.map_map, List.take_zero, List.sum_nil, List.singleton_append]
    congr 1

theorem enumerate_pagination_witness :
    ∃ s, enumerate_session example_backend example_enumerate_job
        ([example_page_two, example_page_one].map Except.ok ++ [Except.ok example_not_found]) =
          some s ∧
      s.job.infos.length = example_enumerate_job.infos.length + [2, 1].sum ∧
      s.job.base.status = .succeeded ∧ s.job.done = true ∧
      s.conn.sent = (List.range ([2, 1].length + 1)).map (fun j =>
        enumerate_ext2_command example_backend example_enumerate_job.filename
          example_enumerate_job.attribute_matcher (1 + ((([2, 1] : List Nat).take j).sum : Nat))) :=
  enumerate_pagination example_backend example_enumerate_job
    [example_page_two, example_page_one] [2, 1] example_not_found (by decide)
    (.cons (by decide) (.cons (by decide) .nil)) rfl (by decide)

/-- `got_request` with a job outstanding: the channel is unchanged except for the
record of its calls. -/
theorem got_request_outstanding (cls : GVfsChannelClass) (channel : GVfsChannel)
    (job : GVfsJob) (request : GVfsDaemonSocketProtocolRequest) (data : List Nat)
    (h : channel.current_job = some job) :
    got_request cls channel request data =
      { channel with trace := channel.trace ++ outstanding_job_effects channel job request } := by
  cases channel
  simp only at h
  subst h
  unfold got_request outstanding_job_effects channel_log
  simp only
  split
  · rfl
  · split
    · rfl
    · simp

/-- C7: while a job is outstanding, `got_request` changes nothing of the channel but
the record of its calls: the outstanding job, its sequence number, the reply
buffers and the reply stream (no reply is sent) stay as they are and the operation
handler is not invoked; a non-cancel request only logs a warning; a cancel request
cancels the outstanding job if and only if its first argument equals the job's
sequence number, and otherwise does nothing at all. -/
theorem got_request_while_job_outstanding (cls : GVfsChannelClass) (channel : GVfsChannel)
    (job : GVfsJob) (request : GVfsDaemonSocketProtocolRequest) (data : List Nat)
    (h : channel.current_job = some job) :
    got_request cls channel request data =
        { channel with trace := channel.trace ++ outstanding_job_effects channel job request } ∧
      (∀ command seq_nr arg1 arg2 payload,
        ChannelEffect.handle_request command seq_nr arg1 arg2 payload ∉
          outstanding_job_effects channel job request) ∧
      (ChannelEffect.job_cancel job ∈ outstanding_job_effects channel job request ↔
        request.command = G_VFS_DAEMON_SOCKET_PROTOCOL_REQUEST_CANCEL ∧
          request.arg1 = channel.current_job_seq_nr) ∧
      (request.command = G_VFS_DAEMON_SOCKET_PROTOCOL_REQUEST_CANCEL →
        request.arg1 ≠ channel.current_job_seq_nr →
          got_request cls channel request data = channel) := by
  refine ⟨got_request_outstanding cls channel job request data h, ?_, ?_, ?_⟩
  · intro command seq_nr arg1 arg2 payload
    unfold outstanding_job_effects
    split
    · simp
    · split <;> simp
  · unfold outstanding_job_effects
    by_cases hc : request.command = G_VFS_DAEMON_SOCKET_PROTOCOL_REQUEST_CANCEL
    · by_cases ha : request.arg1 = channel.current_job_seq_nr
      · simp [hc, ha]
      · simp [hc, ha]
    · simp [hc]
  · intro hc ha
    rw [got_request_outstanding cls channel job request data h]
    unfold outstanding_job_effects
    simp [hc, ha]

theorem got_request_while_job_outstanding_witness :
    got_request example_class example_channel
        { command := G_VFS_DAEMON_SOCKET_PROTOCOL_REQUEST_CANCEL, seq_nr := 8, arg1 := 7,
          arg2 := 0, data_len := 0 } [] =
      { example_channel with
        trace := example_channel.trace ++
          outstanding_job_effects example_channel { type := .G_VFS_TYPE_JOB_READ }
            { command := G_VFS_DAEMON_SOCKET_PROTOCOL_REQUEST_CANCEL, seq_nr := 8, arg1 := 7,
              arg2 := 0, data_len := 0 } } :=
  (got_request_while_job_outstanding example_class example_channel
    { type := .G_VFS_TYPE_JOB_READ }
    { command := G_VFS_DAEMON_SOCKET_PROTOCOL_REQUEST_CANCEL, seq_nr := 8, arg1 := 7,
      arg2 := 0, data_len := 0 } [] rfl).1

theorem jobs_outstanding_append (trace effects : List ChannelEffect) :
    jobs_outstanding (trace ++ effects) =
      effects.foldl outstanding_scan (jobs_outstanding trace) := by
  unfold jobs_outstanding
  rw [List.foldl_append]

theorem single_flight_got_request (cls : GVfsChannelClass) (channel : GVfsChannel)
    (request : GVfsDaemonSocketProtocolRequest) (data : List Nat)
    (h : single_flight channel) : single_flight (got_request cls channel request data) := by
  unfold single_flight at h ⊢
  cases hj : channel.current_job with
  | some job =>
    rw [got_request_outstanding cls channel job request data hj]
    simp only [jobs_outstanding_append, h, current_job_count, hj, Option.isSome_some, if_true]
    unfold outstanding_job_effects
    split
    · rfl
    · split <;> rfl
  | none =>
    unfold got_request
    rw [hj]
    simp only
    split
    · cases hh : cls.handle_request (channel_log channel _) request.command request.seq_nr
          request.arg1 request.arg2 data with
      | ok job =>
        simp only [channel_log, jobs_outstanding_append, h, current_job_count, hj,
          Option.isSome_none, Bool.false_eq_true, if_false, List.foldl_cons, List.foldl_nil,
          outstanding_scan, Option.isSome_some, if_true, List.append_assoc]
        rfl
      | error error =>
        simp only [g_vfs_channel_send_error, g_vfs_channel_send_reply,
          g_output_stream_write_async, channel_log, jobs_outstanding_append, h,
          current_job_count, hj, Option.isSome_none, Bool.false_eq_true, if_false,
          List.foldl_cons, List.foldl_nil, outstanding_scan]
    · exact h.trans (by simp [current_job_count, hj])

theorem single_flight_congr (channel channel' : GVfsChannel)
    (ht : channel'.trace = channel.trace) (hj : channel'.current_job = channel.current_job)
    (h : single_flight channel) : single_flight channel' := by
  unfold single_flight current_job_count at h ⊢
  rw [ht, hj]
  exact h

theorem single_flight_connection_closed (cls : GVfsChannelClass) (channel : GVfsChannel)
    (h : single_flight channel) :
    single_flight (g_vfs_channel_connection_closed cls channel) := by
  unfold g_vfs_channel_connection_closed
  split
  · exact h
  · simp only
    split
    · rename_i hc
      unfold single_flight at h ⊢
      simp only [channel_log, jobs_outstanding_append, h, current_job_count, hc.1,
        Option.isSome_none, Bool.false_eq_true, if_false, List.foldl_cons, List.foldl_nil,
        outstanding_scan, Option.isSome_some, if_true]
    · exact single_flight_congr _ _ rfl rfl h

theorem single_flight_send_reply (channel : GVfsChannel) (reply data : Option (List Nat))
    (data_len : Nat) (h : single_flight channel) :
    single_flight (g_vfs_channel_send_reply channel reply data data_len) := by
  unfold g_vfs_channel_send_reply
  cases reply <;> exact single_flight_congr _ _ rfl rfl h

theorem single_flight_error_out (cls : GVfsChannelClass) (channel : GVfsChannel)
    (h : single_flight channel) : single_flight (send_reply_cb_error_out cls channel) := by
  unfold single_flight at h ⊢
  unfold send_reply_cb_error_out
  cases hj : channel.current_job with
  | none =>
    simp only [channel_log, is_close_job, Bool.false_eq_true, if_false]
    split
    · simp only [jobs_outstanding_append, h, current_job_count, hj, Option.isSome_none,
        Bool.false_eq_true, if_false, List.append_assoc]
      rfl
    · simp only [jobs_outstanding_append, h, current_job_count, hj, Option.isSome_none,
        Bool.false_eq_true, if_false, List.append_assoc]
      rfl
  | some job =>
    simp only [channel_log]
    split
    · simp only [jobs_outstanding_append, h, current_job_count, hj, Option.isSome_some,
        if_true, List.append_assoc]
      rfl
    · split
      · simp only [jobs_outstanding_append, h, current_job_count, hj, Option.isSome_some,
          if_true, List.append_assoc]
        rfl
      · simp only [jobs_outstanding_append, h, current_job_count, hj, Option.isSome_some,
          if_true, List.append_assoc]
        rfl

theorem single_flight_send_reply_cb (cls : GVfsChannelClass) (channel : GVfsChannel)
    (bytes_written : Int) (h : single_flight channel) :
    single_flight (send_reply_cb cls channel bytes_written) := by
  have hdata : ∀ (ch : GVfsChannel) (n : Int), single_flight ch →
      single_flight (send_reply_cb_output_data cls ch n) := by
    intro ch n hch
    unfold send_reply_cb_output_data
    simp only
    split
    · exact single_flight_congr _ _ rfl rfl hch
    · exact single_flight_error_out cls _ (single_flight_congr _ _ rfl rfl hch)
  unfold send_reply_cb
  split
  · exact single_flight_error_out cls _ (single_flight_connection_closed cls _ h)
  · split
    · simp only
      split
      · exact single_flight_congr _ _ rfl rfl h
      · exact hdata _ _ (single_flight_congr _ _ rfl rfl h)
    · exact hdata _ _ h

theorem single_flight_step (cls : GVfsChannelClass) (channel : GVfsChannel)
    (input : ChannelInput) (h : single_flight channel) :
    single_flight (channel_step cls channel input) := by
  cases input with
  | request request data => exact single_flight_got_request cls channel request data h
  | connection_closed => exact single_flight_connection_closed cls channel h
  | send_reply reply data data_len => exact single_flight_send_reply channel reply data data_len h
  | send_error error => exact single_flight_send_reply channel _ _ _ h
  | write_complete bytes_written =>
    exact single_flight_send_reply_cb cls _ bytes_written (single_flight_congr _ _ rfl rfl h)
  | set_backend_handle backend_handle => exact single_flight_congr _ _ rfl rfl h

theorem single_flight_foldl (cls : GVfsChannelClass) (inputs : List ChannelInput) :
    ∀ channel, single_flight channel →
      single_flight (inputs.foldl (channel_step cls) channel) := by
  induction inputs with
  | nil => intro channel h; exact h
  | cons input inputs ih =>
    intro channel h
    exact ih _ (single_flight_step cls channel input h)

theorem got_request_installs_when_empty (cls : GVfsChannelClass) (channel : GVfsChannel)
    (request : GVfsDaemonSocketProtocolRequest) (data : List Nat)
    (h : (got_request cls channel request data).current_job ≠ channel.current_job) :
    channel.current_job = none := by
  cases hj : channel.current_job with
  | none => rfl
  | some job =>
    rw [got_request_outstanding cls channel job request data hj] at h
    exact absurd rfl h

theorem connection_closed_installs_when_empty (cls : GVfsChannelClass) (channel : GVfsChannel)
    (h : (g_vfs_channel_connection_closed cls channel).current_job ≠ channel.current_job) :
    channel.current_job = none := by
  unfold g_vfs_channel_connection_closed at h
  split at h
  · exact absurd rfl h
  · simp only at h
    split at h
    · rename_i hc
      exact hc.1
    · exact absurd rfl h

theorem error_out_finishes_first (cls : GVfsChannelClass) (channel : GVfsChannel) :
    ∃ rest, (send_reply_cb_error_out cls channel).trace =
      channel.trace ++ ChannelEffect.job_emit_finished channel.current_job :: rest := by
  unfold send_reply_cb_error_out
  simp only [channel_log]
  split
  · exact ⟨_, by simp only [List.append_assoc, List.singleton_append]; rfl⟩
  · split
    · exact ⟨_, by simp only [List.append_assoc, List.singleton_append]; rfl⟩
    · exact ⟨_, by simp only [List.append_assoc, List.singleton_append]; rfl⟩

/-- C8: in every reachable state of the channel at most one job is outstanding.
Scanning the calls the channel has made, every `g_vfs_job_source_new_job` occurs
when no announced job is still unfinished, the number of unfinished announced jobs
is 0 or 1, and it is 1 exactly when `current_job` holds a job. Each transition that
installs a job does so only when `current_job` is empty at that moment: a
dispatched request and a close job synthesized on connection-closed change
`current_job` only if it was empty, and the completion of a reply first clears
`current_job` and reports that job finished. -/
theorem channel_at_most_one_job (cls : GVfsChannelClass) (inputs : List ChannelInput) :
    jobs_outstanding (channel_run cls inputs).trace =
        some (current_job_count (channel_run cls inputs)) ∧
      current_job_count (channel_run cls inputs) ≤ 1 ∧
      (∀ channel request data,
        (got_request cls channel request data).current_job ≠ channel.current_job →
          channel.current_job = none) ∧
      (∀ channel,
        (g_vfs_channel_connection_closed cls channel).current_job ≠ channel.current_job →
          channel.current_job = none) ∧
      (∀ channel, ∃ rest, (send_reply_cb_error_out cls channel).trace =
        channel.trace ++ ChannelEffect.job_emit_finished channel.current_job :: rest) := by
  refine ⟨single_flight_foldl cls inputs g_vfs_channel_init rfl, ?_,
    got_request_installs_when_empty cls, connection_closed_installs_when_empty cls,
    error_out_finishes_first cls⟩
  unfold current_job_count
  split <;> decide

theorem channel_at_most_one_job_witness :
    jobs_outstanding (channel_run example_class
        [.set_backend_handle (some 1),
         .request { command := 0, seq_nr := 1, arg1 := 0, arg2 := 0, data_len := 0 } [],
         .request { command := 2, seq_nr := 2, arg1 := 0, arg2 := 0, data_len := 0 } [],
         .connection_closed,
         .send_reply (some (List.replicate 16 0)) none 0,
         .write_complete 16]).trace = some 1 ∧
    (got_request example_class g_vfs_channel_init
        { command := 0, seq_nr := 1, arg1 := 0, arg2 := 0, data_len := 0 } []).current_job ≠
      g_vfs_channel_init.current_job ∧
    g_vfs_channel_init.current_job = none ∧
    (g_vfs_channel_connection_closed example_class
        (g_vfs_channel_set_backend_handle g_vfs_channel_init (some 1))).current_job ≠
      (g_vfs_channel_set_backend_handle g_vfs_channel_init (some 1)).current_job ∧
    (g_vfs_channel_set_backend_handle g_vfs_channel_init (some 1)).current_job = none :=
  ⟨by decide, by decide,
   (channel_at_most_one_job example_class []).2.2.1 g_vfs_channel_init
     { command := 0, seq_nr := 1, arg1 := 0, arg2 := 0, data_len := 0 } [] (by decide),
   by decide,
   (channel_at_most_one_job example_class []).2.2.2.1
     (g_vfs_channel_set_backend_handle g_vfs_channel_init (some 1)) (by decide)⟩

theorem write_progress_start (channel : GVfsChannel) (H : List Nat)
    (data : Option (List Nat))
    (hH : H.length = G_VFS_DAEMON_SOCKET_PROTOCOL_REPLY_SIZE) :
    WriteProgress channel H data 0
      (g_vfs_channel_send_reply channel (some H) data (data.getD []).length) := by
  have h16 : 0 < H.length := by rw [hH]; decide
  unfold g_vfs_channel_send_reply g_output_stream_write_async
  refine ⟨rfl, rfl, fun _ => rfl, by simp, by omega, ?_, ?_, ?_⟩
  · intro _
    refine ⟨rfl, rfl, rfl, ?_, rfl⟩
    simp only [List.drop_zero, ← hH, List.take_length]
  · intro h; omega
  · intro h; omega

theorem take_add_header (H P : List Nat) (n w : Nat) (h : n + w ≤ H.length) :
    (H ++ P).take (n + w) = (H ++ P).take n ++ (H.drop n).take w := by
  have h1 : List.drop n (H ++ P) = List.drop n H ++ P :=
    List.drop_append_of_le_length (by omega)
  have h2 : List.take w (List.drop n H ++ P) = List.take w (List.drop n H) :=
    List.take_append_of_le_length (by rw [List.length_drop]; omega)
  rw [List.take_add, h1, h2]

theorem take_add_payload (H P : List Nat) (n w : Nat) (h : H.length ≤ n) :
    (H ++ P).take (n + w) = (H ++ P).take n ++ (P.drop (n - H.length)).take w := by
  rw [List.take_add]
  congr 1
  rw [List.drop_append_eq_append_drop, List.drop_eq_nil_of_le h, List.nil_append]

theorem to_gsize_of_lt (x : Nat) (h : x < 18446744073709551616) : to_gsize (x : Int) = x := by
  unfold to_gsize to_guint64
  omega

theorem error_out_fields (cls : GVfsChannelClass) (channel : GVfsChannel) :
    (send_reply_cb_error_out cls channel).reply_stream = channel.reply_stream ∧
    (send_reply_cb_error_out cls channel).reply_buffer = channel.reply_buffer ∧
    (send_reply_cb_error_out cls channel).output_data_size = channel.output_data_size := by
  unfold send_reply_cb_error_out
  simp only [channel_log]
  split
  · exact ⟨rfl, rfl, rfl⟩
  · split <;> exact ⟨rfl, rfl, rfl⟩

theorem getD_length_pos (data : Option (List Nat)) (h : 0 < (data.getD []).length) :
    data ≠ none := by
  intro hd
  rw [hd] at h
  exact absurd h (by simp)

/-- The end of a reply write: `error_out` on a channel whose stream has accepted
the whole reply. -/
theorem write_progress_finished (cls : GVfsChannelClass) (channel0 channel : GVfsChannel)
    (H : List Nat) (data : Option (List Nat)) (n : Nat)
    (hn : n = H.length + (data.getD []).length)
    (hbuf : channel.reply_buffer = H)
    (hsize : channel.output_data_size = (data.getD []).length)
    (hjob : channel.current_job = channel0.current_job)
    (hwritten : channel.reply_stream.written =
      channel0.reply_stream.written ++ (H ++ data.getD []).take n)
    (hpending : channel.reply_stream.pending = none)
    (htrace : channel.trace = channel0.trace) :
    WriteProgress channel0 H data n (send_reply_cb_error_out cls channel) := by
  obtain ⟨e1, e2, e3⟩ := error_out_fields cls channel
  obtain ⟨rest, hrest⟩ := error_out_finishes_first cls channel
  refine ⟨by rw [e2, hbuf], by rw [e3, hsize], fun h => by omega, by rw [e1, hwritten],
    by omega, fun h => by omega, fun _ h => by omega,
    fun _ => ⟨by rw [e1, hpending], rest, ?_⟩⟩
  rw [hrest, htrace, hjob]

theorem write_progress_step (cls : GVfsChannelClass) (channel0 channel : GVfsChannel)
    (H : List Nat) (data : Option (List Nat)) (n w : Nat) (buffer : List Nat)
    (hH : H.length = G_VFS_DAEMON_SOCKET_PROTOCOL_REPLY_SIZE)
    (hP : (data.getD []).length < 18446744073709551616)
    (hprog : WriteProgress channel0 H data n channel)
    (hw : 0 < w) (hpend : channel.reply_stream.pending = some buffer)
    (hle : w ≤ buffer.length) :
    WriteProgress channel0 H data (n + w) (reply_stream_complete cls channel (w : Int)) := by
  have hwpos : ¬ ((w : Int) ≤ 0) := by omega
  have h16 : (G_VFS_DAEMON_SOCKET_PROTOCOL_REPLY_SIZE : Int) = (H.length : Int) := by rw [hH]
  have h16n : G_VFS_DAEMON_SOCKET_PROTOCOL_REPLY_SIZE = H.length := hH.symm
  have hbuf := hprog.reply_buffer
  have hsize := hprog.output_data_size
  have hwritten := hprog.written
  by_cases hfin : n = H.length + (data.getD []).length
  · rw [(hprog.finished hfin).1] at hpend
    exact absurd hpend (by simp)
  have hlt : n < H.length + (data.getD []).length := by have := hprog.le; omega
  have hjob := hprog.current_job hlt
  by_cases hn : n < H.length
  · -- the header is being written
    obtain ⟨hpos, hdata, hdpos, hpending, htrace⟩ := hprog.header hn
    clear hprog
    obtain ⟨cc, ⟨pend, wr⟩, bh, cj, seq, rb, rbp, od, ods, odp, tr⟩ := channel
    simp only at hbuf hsize hwritten hjob hpos hdata hdpos hpending htrace hpend
    subst hbuf hsize hwritten hjob hpos hdata hdpos hpending htrace
    simp only [Option.some.injEq] at hpend
    subst hpend
    rw [List.length_drop] at hle
    unfold reply_stream_complete send_reply_cb
    simp only [hwpos, if_false, h16, Option.getD_some, Int.toNat_ofNat]
    rw [if_pos (by omega)]
    by_cases hmore : n + w < rb.length
    · rw [if_pos (by omega)]
      unfold g_output_stream_write_async
      have e1 : ((n : Int) + (w : Int)).toNat = n + w := by omega
      refine ⟨rfl, rfl, fun _ => rfl, ?_, by omega, ?_, fun h => by omega, fun h => by omega⟩
      · simp only [take_add_header rb _ n w (by omega), List.append_assoc]
      · intro _
        refine ⟨by push_cast; rfl, rfl, rfl, ?_, rfl⟩
        simp only [e1, h16n]
        rw [List.take_of_length_le (by rw [List.length_drop])]
    · rw [if_neg (by omega)]
      have hfull : n + w = rb.length := by omega
      have hz : to_gsize ((0 : Nat) + (0 : Int)) = 0 := by decide
      unfold send_reply_cb_output_data
      simp only [hz]
      by_cases hpay : od ≠ none ∧ 0 < (od.getD []).length
      · rw [if_pos hpay]
        unfold g_output_stream_write_async
        refine ⟨rfl, rfl, fun _ => rfl, ?_, by omega, fun h => by omega, ?_,
          fun h => by omega⟩
        · simp only [take_add_header rb _ n w (by omega), List.append_assoc]
        · intro _ _
          refine ⟨by simp only; omega, rfl, by simp only [hfull, Nat.sub_self], ?_, rfl⟩
          simp only [hfull, Nat.sub_self, List.drop_zero, Nat.sub_zero, List.take_length]
      · rw [if_neg hpay]
        have hP0 : (od.getD []).length = 0 := by
          by_contra hne
          exact hpay ⟨getD_length_pos od (by omega), by omega⟩
        exact write_progress_finished cls channel0 _ rb od (n + w) (by omega) rfl rfl rfl
          (by simp only [take_add_header rb _ n w (by omega), List.append_assoc]) rfl rfl
  · -- the payload is being written
    have hn' : H.length ≤ n := by omega
    obtain ⟨hpos, hdata, hdpos, hpending, htrace⟩ := hprog.payload hn' hlt
    clear hprog
    obtain ⟨cc, ⟨pend, wr⟩, bh, cj, seq, rb, rbp, od, ods, odp, tr⟩ := channel
    simp only at hbuf hsize hwritten hjob hpos hdata hdpos hpending htrace hpend
    subst hbuf hsize hwritten hjob hpos hdata hdpos hpending htrace
    simp only [Option.some.injEq] at hpend
    subst hpend
    rw [List.length_drop] at hle
    have hgs : to_gsize (((n - rb.length : Nat) : Int) + (w : Int)) = n - rb.length + w := by
      have := to_gsize_of_lt (n - rb.length + w) (by omega)
      rw [← this]
      push_cast
      rfl
    unfold reply_stream_complete send_reply_cb
    simp only [hwpos, if_false, h16, Option.getD_some, Int.toNat_ofNat]
    rw [if_neg (by omega)]
    unfold send_reply_cb_output_data
    simp only [hgs]
    by_cases hpay : od ≠ none ∧ n - rb.length + w < (od.getD []).length
    · rw [if_pos hpay]
      unfold g_output_stream_write_async
      refine ⟨rfl, rfl, fun _ => rfl, ?_, by omega, fun h => by omega, ?_,
        fun h => by omega⟩
      · simp only [take_add_payload rb _ n w hn', List.append_assoc]
      · intro _ _
        have e : n + w - rb.length = n - rb.length + w := by omega
        refine ⟨rfl, rfl, by simp only [e], ?_, rfl⟩
        simp only [e]
        rw [List.take_of_length_le (by rw [List.length_drop])]
    · rw [if_neg hpay]
      have hend : n - rb.length + w = (od.getD []).length := by
        by_contra hne
        exact hpay ⟨getD_length_pos od (by omega), by omega⟩
      exact write_progress_finished cls channel0 _ rb od (n + w) (by omega) rfl rfl rfl
        (by simp only [take_add_payload rb _ n w hn', List.append_assoc]) rfl rfl

theorem write_progress_run (cls : GVfsChannelClass) (channel0 : GVfsChannel) (H : List Nat)
    (data : Option (List Nat))
    (hH : H.length = G_VFS_DAEMON_SOCKET_PROTOCOL_REPLY_SIZE)
    (hP : (data.getD []).length < 18446744073709551616) (counts : List Nat) :
    ∀ (n : Nat) (channel : GVfsChannel), WriteProgress channel0 H data n channel →
      valid_writes cls channel counts = true →
      WriteProgress channel0 H data (n + counts.sum) (complete_writes cls channel counts) := by
  induction counts with
  | nil => intro n channel h _; exact h
  | cons w counts ih =>
    intro n channel h hv
    simp only [valid_writes, Bool.and_eq_true, decide_eq_true_eq] at hv
    obtain ⟨⟨hw, hb⟩, hrest⟩ := hv
    cases hp : channel.reply_stream.pending with
    | none => rw [hp] at hb; exact absurd hb (by simp)
    | some buffer =>
      rw [hp] at hb
      simp only [decide_eq_true_eq] at hb
      have := ih (n + w) _ (write_progress_step cls channel0 channel H data n w buffer hH hP
        h hw hp hb) hrest
      simp only [List.sum_cons, complete_writes, List.foldl_cons] at this ⊢
      rw [← Nat.add_assoc]
      exact this

/-- C9: for a reply with a fixed-size header `H` and a payload `P` (`data`, absent or
of `P.length` bytes), and for every sequence of positive partial write counts
returned by the stream, the bytes the stream has accepted are the first
`n = Σ counts` bytes of `H ++ P`: in order, none skipped or repeated. While `n` is
less than the length of `H` the write outstanding offers the rest of the header
and nothing of the payload; from then on, while the payload is not complete, it
offers the rest of the payload; and the job is reported finished (the calls of the
channel are unchanged until then) only once all of `H` and all of `P` have been
written, at which point it is reported. -/
theorem reply_written_header_then_payload (cls : GVfsChannelClass) (channel : GVfsChannel)
    (H : List Nat) (data : Option (List Nat)) (counts : List Nat)
    (hH : H.length = G_VFS_DAEMON_SOCKET_PROTOCOL_REPLY_SIZE)
    (hP : (data.getD []).length < 18446744073709551616)
    (hv : valid_writes cls
      (g_vfs_channel_send_reply channel (some H) data (data.getD []).length) counts = true) :
    (reply_write cls channel H data counts).reply_stream.written =
      channel.reply_stream.written ++ (H ++ data.getD []).take counts.sum ∧
    counts.sum ≤ H.length + (data.getD []).length ∧
    (counts.sum < H.length →
      (reply_write cls channel H data counts).reply_stream.pending = some (H.drop counts.sum) ∧
      (reply_write cls channel H data counts).trace = channel.trace) ∧
    (H.length ≤ counts.sum → counts.sum < H.length + (data.getD []).length →
      (reply_write cls channel H data counts).reply_stream.pending =
        some ((data.getD []).drop (counts.sum - H.length)) ∧
      (reply_write cls channel H data counts).trace = channel.trace) ∧
    (counts.sum = H.length + (data.getD []).length →
      (reply_write cls channel H data counts).reply_stream.pending = none ∧
      ∃ rest, (reply_write cls channel H data counts).trace =
        channel.trace ++ ChannelEffect.job_emit_finished channel.current_job :: rest) := by
  have h := write_progress_run cls channel H data hH hP counts 0 _
    (write_progress_start channel H data hH) hv
  rw [Nat.zero_add] at h
  refine ⟨h.written, h.le, ?_, ?_, ?_⟩
  · intro hn
    obtain ⟨_, _, _, hp, ht⟩ := h.header hn
    exact ⟨hp, ht⟩
  · intro h1 h2
    obtain ⟨_, _, _, hp, ht⟩ := h.payload h1 h2
    exact ⟨hp, ht⟩
  · intro hn
    exact h.finished hn

theorem reply_written_header_then_payload_witness :
    (reply_write example_class example_channel (List.range 16) (some [100, 101, 102])
        [10, 6, 2, 1]).reply_stream.written =
      example_channel.reply_stream.written ++
        (List.range 16 ++ Option.getD (some [100, 101, 102]) []).take [10, 6, 2, 1].sum ∧
    (reply_write example_class example_channel (List.range 16) (some [100, 101, 102])
        [10, 6, 2, 1]).reply_stream.pending = none :=
  ⟨(reply_written_header_then_payload example_class example_channel (List.range 16)
      (some [100, 101, 102]) [10, 6, 2, 1] (by decide) (by decide) (by decide)).1,
   ((reply_written_header_then_payload example_class example_channel (List.range 16)
      (some [100, 101, 102]) [10, 6, 2, 1] (by decide) (by decide) (by decide)).2.2.2.2
      (by decide)).1⟩

theorem to_gint64_to_gsize (x : Int) : to_gint64 (to_gsize x) = to_gint64 x := by
  unfold to_gsize to_guint64 to_gint64
  omega

theorem to_gint64_of_range (x : Int) (h1 : -9223372036854775808 ≤ x)
    (h2 : x < 9223372036854775808) : to_gint64 x = x := by
  unfold to_gint64
  omega

theorem get_data_delivered (c : Int) (data : List Nat) :
    g_vfs_afp_reply_get_data (delivered_reply c data) data.length =
      some (data, { delivered_reply c data with pos := data.length }) := by
  unfold g_vfs_afp_reply_get_data delivered_reply
  simp

/-- C11: for a read reply with result code NoError, EofErr or LockErr that carries
the `n` bytes `data` (`n` may be 0), on a handle whose offset was `o`, the read job
succeeds and reports size `n`, the first `n` bytes of the caller's buffer are `data`
(the bytes after them are left as they were; should `n` exceed the buffer, `memcpy`
records the bytes written past its end), and the handle's offset becomes `o + n`
(computed as a `gint64`: `o + n` itself whenever that fits); for every other result
code the job fails and the handle is left as it was. -/
theorem read_ext_cb_outcome (c : Int) (data : List Nat) (job : GVfsJobRead)
    (afp_handle : AfpHandle) :
    ((c = AFP_RESULT_NO_ERROR ∨ c = AFP_RESULT_EOF_ERR ∨ c = AFP_RESULT_LOCK_ERR) →
      ∃ job', read_ext_cb (.ok (delivered_reply c data)) job afp_handle =
          some (job', { afp_handle with
                          offset := to_gint64 (afp_handle.offset + data.length) }) ∧
        job'.base.status = .succeeded ∧ job'.data_count = data.length ∧
        job'.buffer.take data.length = data ∧
        job'.buffer.drop data.length = job.buffer.drop data.length ∧
        (-9223372036854775808 ≤ afp_handle.offset →
          afp_handle.offset + data.length < 9223372036854775808 →
          to_gint64 (afp_handle.offset + data.length) = afp_handle.offset + data.length)) ∧
    (¬ (c = AFP_RESULT_NO_ERROR ∨ c = AFP_RESULT_EOF_ERR ∨ c = AFP_RESULT_LOCK_ERR) →
      ∃ error, read_ext_cb (.ok (delivered_reply c data)) job afp_handle =
        some ({ job with base := { job.base with status := .failed error } }, afp_handle)) := by
  constructor
  · intro hc
    refine ⟨{ job with buffer := memcpy job.buffer data data.length,
                       data_count := data.length,
                       base := g_vfs_job_succeeded job.base }, ?_, ?_, ?_, ?_, ?_, ?_⟩
    · unfold read_ext_cb
      have hc' : (delivered_reply c data).result_code = c := rfl
      simp only [g_vfs_afp_reply_get_result_code, hc', hc, not_true_eq_false, if_false,
        g_vfs_afp_reply_get_size]
      have hl : (delivered_reply c data).data.length = data.length := rfl
      rw [hl, get_data_delivered]
      simp only [Option.some_bind, to_gint64_to_gsize, g_vfs_job_read_set_size]
    · rfl
    · rfl
    · simp [memcpy]
    · simp [memcpy]
    · intro h1 h2
      exact to_gint64_of_range _ (by omega) h2
  · intro hc
    unfold read_ext_cb
    have hc' : (delivered_reply c data).result_code = c := rfl
    simp only [g_vfs_afp_reply_get_result_code, hc', hc, not_false_eq_true, if_true]
    unfold g_vfs_job_failed_literal g_vfs_job_failed
    split
    · exact ⟨_, rfl⟩
    · exact ⟨_, rfl⟩

theorem read_ext_cb_outcome_witness :
    (∃ job', read_ext_cb (.ok (delivered_reply AFP_RESULT_EOF_ERR [7, 8, 9])) example_read_job
          example_handle =
          some (job', { example_handle with offset := to_gint64 (example_handle.offset + 3) }) ∧
        job'.base.status = .succeeded ∧ job'.data_count = 3 ∧
        job'.buffer.take 3 = [7, 8, 9]) ∧
    (∃ error, read_ext_cb (.ok (delivered_reply AFP_RESULT_ACCESS_DENIED [])) example_read_job
          example_handle =
        some ({ example_read_job with
                  base := { example_read_job.base with status := .failed error } },
              example_handle)) := by
  obtain ⟨job', h, h1, h2, h3, _, _⟩ :=
    (read_ext_cb_outcome AFP_RESULT_EOF_ERR [7, 8, 9] example_read_job example_handle).1
      (by decide)
  exact ⟨⟨job', h, h1, h2, h3⟩,
    (read_ext_cb_outcome AFP_RESULT_ACCESS_DENIED [] example_read_job example_handle).2
      (by decide)⟩

/-- C12: for every enumeration page reply, result code object-not-found makes the
job succeed and marks the enumeration done without issuing another command; a result
code other than NoError and object-not-found fails the job without issuing another
command; NoError (on a page that decodes) issues exactly one further page command,
for the start index advanced by the page's count, and leaves the job running. -/
theorem enumerate_ext2_cb_result_codes (afp_backend : GVfsBackendAfp) (s : EnumerateState)
    (reply : GVfsAfpReply) :
    (reply.result_code = AFP_RESULT_OBJECT_NOT_FOUND →
      ∃ s', enumerate_ext2_cb afp_backend s (.ok reply) = some s' ∧
        s'.job.base.status = .succeeded ∧ s'.job.done = true ∧ s'.conn = s.conn) ∧
    (reply.result_code ≠ AFP_RESULT_NO_ERROR →
      reply.result_code ≠ AFP_RESULT_OBJECT_NOT_FOUND →
      ∃ s' error, enumerate_ext2_cb afp_backend s (.ok reply) = some s' ∧
        s'.job.base.status = .failed error ∧ s'.job.done = s.job.done ∧ s'.conn = s.conn) ∧
    (reply.result_code = AFP_RESULT_NO_ERROR →
      ∀ page, enumerate_ext2_cb_page afp_backend reply = some page →
      ∃ s', enumerate_ext2_cb afp_backend s (.ok reply) = some s' ∧
        s'.conn.sent = s.conn.sent ++
          [enumerate_ext2_command afp_backend s.job.filename s.job.attribute_matcher
            (to_gint32 (s.job.start_index + page.1))] ∧
        s'.job.base = s.job.base ∧ s'.job.done = s.job.done) := by
  refine ⟨?_, ?_, ?_⟩
  · intro hc
    unfold enumerate_ext2_cb
    simp only [g_vfs_afp_reply_get_result_code, hc, if_true]
    exact ⟨_, rfl, rfl, rfl, rfl⟩
  · intro h1 h2
    unfold enumerate_ext2_cb g_vfs_job_failed_literal
    simp only [g_vfs_afp_reply_get_result_code, h1, h2, if_false, ne_eq, not_false_eq_true,
      if_true]
    exact ⟨_, _, rfl, rfl, rfl, rfl⟩
  · intro hc page hpage
    unfold enumerate_ext2_cb
    simp only [g_vfs_afp_reply_get_result_code, hc, hpage, Option.some_bind,
      ne_eq, not_true_eq_false, if_false]
    rw [if_neg (by decide)]
    exact ⟨_, rfl, by simp only [enumerate_ext2_sent], rfl, rfl⟩

theorem enumerate_ext2_cb_result_codes_witness :
    (∃ s', enumerate_ext2_cb example_backend example_enumerate_state
          (.ok (delivered_reply AFP_RESULT_OBJECT_NOT_FOUND [])) = some s' ∧
        s'.job.base.status = .succeeded ∧ s'.job.done = true ∧
        s'.conn = example_enumerate_state.conn) ∧
    (∃ s' error, enumerate_ext2_cb example_backend example_enumerate_state
          (.ok (delivered_reply AFP_RESULT_ACCESS_DENIED [])) = some s' ∧
        s'.job.base.status = .failed error ∧ s'.job.done = false ∧
        s'.conn = example_enumerate_state.conn) ∧
    (∃ s', enumerate_ext2_cb example_backend example_enumerate_state
          (.ok example_empty_page) = some s' ∧
        s'.conn.sent = [enumerate_ext2_command example_backend [47, 97] [] 1] ∧
        s'.job.base = example_enumerate_state.job.base ∧ s'.job.done = false) :=
  ⟨(enumerate_ext2_cb_result_codes example_backend example_enumerate_state
      (delivered_reply AFP_RESULT_OBJECT_NOT_FOUND [])).1 (by decide),
   (enumerate_ext2_cb_result_codes example_backend example_enumerate_state
      (delivered_reply AFP_RESULT_ACCESS_DENIED [])).2.1 (by decide) (by decide),
   (enumerate_ext2_cb_result_codes example_backend example_enumerate_state
      example_empty_page).2.2 (by decide) (0, []) (by decide)⟩

/-- C13, as amended: for open-fork, create-file, rename, make-directory, delete,
write, read, exchange, close-fork and get-fork-parameters, every non-success result
code `c` that the operation's own table does not name fails the operation with the
generic protocol error that carries the numeric code `c`; enumerate,
get-file/dir-parameters and get-volume-parameters fail with an error of the same
kind whose fixed message does not carry the code. -/
theorem unnamed_result_code_error (afp_backend : GVfsBackendAfp) (glib : GLibPath)
    (reply : GVfsAfpReply) (job : GVfsJob) (rename_job : GVfsJobSetDisplayName)
    (make_directory_job : GVfsJobMakeDirectory) (delete_job : GVfsJobDelete)
    (write_job : GVfsJobWrite) (read_job : GVfsJobRead) (afp_handle : AfpHandle)
    (close_state : CloseWriteState) (enumerate_state : EnumerateState)
    (query_job : GVfsJobQueryInfo)
    (hc : reply.result_code ≠ AFP_RESULT_NO_ERROR) :
    (reply.result_code ∉ open_fork_named →
      open_fork_cb job (.ok reply) =
        some (.failed (failed_with job (generic_protocol_error reply.result_code)))) ∧
    (reply.result_code ∉ create_file_named →
      create_file_cb (.ok reply) = .error (generic_protocol_error reply.result_code)) ∧
    (reply.result_code ∉ rename_named →
      rename_cb glib rename_job (.ok reply) =
        { rename_job with
            base := failed_with rename_job.base (generic_protocol_error reply.result_code) }) ∧
    (reply.result_code ∉ make_directory_named →
      make_directory_cb make_directory_job (.ok reply) =
        { base := failed_with make_directory_job.base
            (generic_protocol_error reply.result_code) }) ∧
    (reply.result_code ∉ delete_named →
      delete_cb delete_job (.ok reply) =
        { base := failed_with delete_job.base (generic_protocol_error reply.result_code) }) ∧
    (reply.result_code ∉ write_named →
      write_ext_cb (.ok reply) write_job afp_handle =
        some ({ write_job with
                  base := failed_with write_job.base
                    (generic_protocol_error reply.result_code) }, afp_handle)) ∧
    (reply.result_code ∉ read_named →
      read_ext_cb (.ok reply) read_job afp_handle =
        some ({ read_job with
                  base := failed_with read_job.base
                    (generic_protocol_error reply.result_code) }, afp_handle)) ∧
    (reply.result_code ∉ exchange_named →
      (close_replace_exchange_files_cb close_state afp_handle (.ok reply)).job.base =
        failed_with close_state.job.base (generic_protocol_error reply.result_code)) ∧
    close_fork_cb (.ok reply) = .error (generic_protocol_error reply.result_code) ∧
    get_fork_parms_cb afp_backend (.ok reply) =
      some (.error (generic_protocol_error reply.result_code)) ∧
    (reply.result_code ∉ not_found_named →
      (enumerate_ext2_cb afp_backend enumerate_state (.ok reply)).map
          (fun s => s.job.base) =
        some (failed_with enumerate_state.job.base enumerate_failed_error)) ∧
    (reply.result_code ∉ not_found_named →
      (get_filedir_parms_cb afp_backend query_job (.ok reply)).map (fun j => j.base) =
        some (failed_with query_job.base filedir_parms_failed_error)) ∧
    (get_vol_parms_cb afp_backend query_job (.ok reply)).map (fun j => j.base) =
      some (failed_with query_job.base vol_parms_failed_error) := by
  refine ⟨?_, ?_, ?_, ?_, ?_, ?_, ?_, ?_, ?_, ?_, ?_, ?_, ?_⟩
  · intro h
    simp only [open_fork_named, List.mem_cons, List.mem_singleton, not_or] at h
    obtain ⟨h0, h1, h2, h3, h4⟩ := h
    unfold open_fork_cb
    simp only [g_vfs_afp_reply_get_result_code, ne_eq, h0, h1, h2, h3, h4, not_false_eq_true,
      if_true, if_false]
    rfl
  · intro h
    simp only [create_file_named, List.mem_cons, List.mem_singleton, not_or] at h
    obtain ⟨h0, h1, h2, h3, h4, h5, h6⟩ := h
    unfold create_file_cb
    simp only [g_vfs_afp_reply_get_result_code, ne_eq, h0, h1, h2, h3, h4, h5, h6,
      not_false_eq_true, if_true, if_false]
    rfl
  · intro h
    simp only [rename_named, List.mem_cons, List.mem_singleton, not_or] at h
    obtain ⟨h0, h1, h2, h3, h4, h5, h6⟩ := h
    unfold rename_cb
    simp only [g_vfs_afp_reply_get_result_code, ne_eq, h0, h1, h2, h3, h4, h5, h6,
      not_false_eq_true, if_true, if_false]
    rfl
  · intro h
    simp only [make_directory_named, List.mem_cons, List.mem_singleton, not_or] at h
    obtain ⟨h0, h1, h2, h3, h4, h5, h6⟩ := h
    unfold make_directory_cb
    simp only [g_vfs_afp_reply_get_result_code, ne_eq, h0, h1, h2, h3, h4, h5, h6,
      not_false_eq_true, if_true, if_false]
    rfl
  · intro h
    simp only [delete_named, List.mem_cons, List.mem_singleton, not_or] at h
    obtain ⟨h0, h1, h2, h3, h4, h5⟩ := h
    unfold delete_cb
    simp only [g_vfs_afp_reply_get_result_code, ne_eq, h0, h1, h2, h3, h4, h5,
      not_false_eq_true, if_true, if_false]
    rfl
  · intro h
    simp only [write_named, List.mem_cons, List.mem_singleton, not_or] at h
    obtain ⟨h0, h1, h2, h3⟩ := h
    unfold write_ext_cb
    simp only [g_vfs_afp_reply_get_result_code, h0, h1, h2, h3, or_self, not_false_eq_true,
      if_true, if_false]
    rfl
  · intro h
    simp only [read_named, List.mem_cons, List.mem_singleton, not_or] at h
    obtain ⟨h0, h1, h2, h3⟩ := h
    unfold read_ext_cb
    simp only [g_vfs_afp_reply_get_result_code, h0, h1, h2, h3, or_self, not_false_eq_true,
      if_true, if_false]
    rfl
  · intro h
    simp only [exchange_named, List.mem_cons, List.mem_singleton, not_or] at h
    obtain ⟨h0, h1⟩ := h
    unfold close_replace_exchange_files_cb
    simp only [g_vfs_afp_reply_get_result_code, ne_eq, h0, h1, not_false_eq_true,
      if_true, if_false]
    rfl
  · unfold close_fork_cb
    simp only [g_vfs_afp_reply_get_result_code, ne_eq, hc, not_false_eq_true, if_true]
    rfl
  · unfold get_fork_parms_cb
    simp only [g_vfs_afp_reply_get_result_code, ne_eq, hc, not_false_eq_true, if_true]
    rfl
  · intro h
    simp only [not_found_named, List.mem_cons, List.mem_singleton, not_or] at h
    obtain ⟨h0, h1⟩ := h
    unfold enumerate_ext2_cb
    simp only [g_vfs_afp_reply_get_result_code, ne_eq, h0, h1, not_false_eq_true,
      if_true, if_false, Option.map_some']
    rfl
  · intro h
    simp only [not_found_named, List.mem_cons, List.mem_singleton, not_or] at h
    obtain ⟨h0, h1⟩ := h
    unfold get_filedir_parms_cb
    simp only [g_vfs_afp_reply_get_result_code, ne_eq, h0, h1, not_false_eq_true,
      if_true, if_false, Option.map_some']
    rfl
  · unfold get_vol_parms_cb
    simp only [g_vfs_afp_reply_get_result_code, ne_eq, hc, not_false_eq_true, if_true,
      Option.map_some']
    rfl

theorem unnamed_result_code_error_witness :
    open_fork_cb { type := .G_VFS_TYPE_JOB_OPEN_FOR_READ } (.ok (delivered_reply (-5019) [])) =
      some (.failed { type := .G_VFS_TYPE_JOB_OPEN_FOR_READ,
                      status := .failed (generic_protocol_error (-5019)) }) ∧
    create_file_cb (.ok (delivered_reply (-5019) [])) =
      .error (generic_protocol_error (-5019)) ∧
    (get_filedir_parms_cb example_backend example_query_info_job
        (.ok (delivered_reply (-5019) []))).map (fun j => j.base) =
      some (failed_with example_query_info_job.base filedir_parms_failed_error) :=
  have h := unnamed_result_code_error example_backend example_glib (delivered_reply (-5019) [])
    { type := .G_VFS_TYPE_JOB_OPEN_FOR_READ }
    { base := { type := .G_VFS_TYPE_JOB_SET_DISPLAY_NAME }, filename := [47, 97],
      display_name := [98] }
    { base := { type := .G_VFS_TYPE_JOB_MAKE_DIRECTORY } }
    { base := { type := .G_VFS_TYPE_JOB_DELETE } }
    { base := { type := .G_VFS_TYPE_JOB_WRITE }, data_size := 8 } example_read_job
    example_handle { conn := {}, job := example_close_job, handle := some example_handle }
    example_enumerate_state example_query_info_job (by decide)
  ⟨h.1 (by decide), h.2.1 (by decide), h.2.2.2.2.2.2.2.2.2.2.2.1 (by decide)⟩

/-- C13, counterexample: an enumeration page, a get-file/dir-parameters reply and a
get-volume-parameters reply with the result code -5019, which no table names, fail
their job with a fixed message; the error is not the generic protocol error that
carries -5019, and it is the same error as for the result code -5014. -/
theorem unnamed_result_code_without_code :
    (enumerate_ext2_cb example_backend example_enumerate_state
        (.ok (delivered_reply (-5019) []))).map (fun s => s.job.base.status) =
      some (.failed enumerate_failed_error) ∧
    (enumerate_ext2_cb example_backend example_enumerate_state
        (.ok (delivered_reply (-5014) []))).map (fun s => s.job.base.status) =
      some (.failed enumerate_failed_error) ∧
    (get_filedir_parms_cb example_backend example_query_info_job
        (.ok (delivered_reply (-5019) []))).map (fun j => j.base.status) =
      some (.failed filedir_parms_failed_error) ∧
    (get_vol_parms_cb example_backend example_query_info_job
        (.ok (delivered_reply (-5019) []))).map (fun j => j.base.status) =
      some (.failed vol_parms_failed_error) ∧
    enumerate_failed_error ≠ generic_protocol_error (-5019) ∧
    filedir_parms_failed_error ≠ generic_protocol_error (-5019) ∧
    vol_parms_failed_error ≠ generic_protocol_error (-5019) := by
  decide

/-- C14, as amended: for every operation of the engine whose reply callback reports
to a job, when the transport delivers no reply together with an error `e`, the job
fails with exactly `e` (same domain, code and message), including when the failing
exchange is the create-file step of create; when it is the create-file step of
replace, the job fails with the domain and code of `e` and the message of `e`
wrapped as "Couldn't create temporary file (...)". -/
theorem transport_error_verbatim (afp_backend : GVfsBackendAfp) (glib : GLibPath)
    (e : GError) (job : GVfsJob) (open_state : OpenForWriteState)
    (rename_job : GVfsJobSetDisplayName) (make_directory_job : GVfsJobMakeDirectory)
    (delete_job : GVfsJobDelete) (write_job : GVfsJobWrite) (read_job : GVfsJobRead)
    (afp_handle : AfpHandle) (close_state : CloseWriteState)
    (close_read_job : GVfsJobCloseRead) (seek_write_job : GVfsJobSeekWrite)
    (seek_read_job : GVfsJobSeekRead) (enumerate_state : EnumerateState)
    (query_job : GVfsJobQueryInfo) :
    open_fork_cb job (.error e) = some (.failed (failed_with job e)) ∧
    create_cb afp_backend open_state (create_file_cb (.error e)) =
      { open_state with
          job := { open_state.job with base := failed_with open_state.job.base e } } ∧
    replace_cb afp_backend open_state (create_file_cb (.error e)) =
      some { open_state with
              job := { open_state.job with
                         base := failed_with open_state.job.base (temporary_file_error e) } } ∧
    rename_cb glib rename_job (.error e) =
      { rename_job with base := failed_with rename_job.base e } ∧
    make_directory_cb make_directory_job (.error e) =
      { base := failed_with make_directory_job.base e } ∧
    delete_cb delete_job (.error e) = { base := failed_with delete_job.base e } ∧
    write_ext_cb (.error e) write_job afp_handle =
      some ({ write_job with base := failed_with write_job.base e }, afp_handle) ∧
    read_ext_cb (.error e) read_job afp_handle =
      some ({ read_job with base := failed_with read_job.base e }, afp_handle) ∧
    close_replace_exchange_files_cb close_state afp_handle (.error e) =
      { close_state with
          job := { close_state.job with base := failed_with close_state.job.base e } } ∧
    close_write_close_fork_cb close_state (close_fork_cb (.error e)) =
      { close_state with
          job := { close_state.job with base := failed_with close_state.job.base e } } ∧
    close_read_close_fork_cb close_read_job (close_fork_cb (.error e)) =
      { base := failed_with close_read_job.base e } ∧
    get_fork_parms_cb afp_backend (.error e) = some (.error e) ∧
    seek_on_write_cb (.error e) seek_write_job afp_handle =
      ({ seek_write_job with base := failed_with seek_write_job.base e }, afp_handle) ∧
    seek_on_read_cb (.error e) seek_read_job afp_handle =
      ({ seek_read_job with base := failed_with seek_read_job.base e }, afp_handle) ∧
    enumerate_ext2_cb afp_backend enumerate_state (.error e) =
      some { enumerate_state with
              job := { enumerate_state.job with
                         base := failed_with enumerate_state.job.base e } } ∧
    get_filedir_parms_cb afp_backend query_job (.error e) =
      some { query_job with base := failed_with query_job.base e } ∧
    get_vol_parms_cb afp_backend query_job (.error e) =
      some { query_job with base := failed_with query_job.base e } :=
  ⟨rfl, rfl, rfl, rfl, rfl, rfl, rfl, rfl, rfl, rfl, rfl, rfl, rfl, rfl, rfl, rfl, rfl⟩

/-- C14, counterexample: when the transport fails the create-file step of a replace
with the error "Connection closed", the job fails with another error: the message
is "Couldn't create temporary file (Connection closed)". -/
theorem replace_transport_error_wrapped :
    (replace_session example_backend example_open_for_write_job [47, 97] none false 0
        [.error example_error]).map (fun s => s.job.base.status) =
      some (.failed { domain := G_IO_ERROR, code := 44,
                      message := "Couldn't create temporary file (Connection closed)" }) ∧
    (replace_session example_backend example_open_for_write_job [47, 97] none false 0
        [.error example_error]).map (fun s => s.job.base.status) ≠
      some (.failed example_error) := by
  decide

/-- The state of a replace close right after the exchange has been answered. -/
theorem close_replace_after_exchange (afp_backend : GVfsBackendAfp)
    (job : GVfsJobCloseWrite) (afp_handle : AfpHandle) (filename tmp_filename : List Nat)
    (exchange : TransportResult)
    (htype : afp_handle.type = .AFP_HANDLE_TYPE_REPLACE_FILE)
    (hname : afp_handle.filename = some filename)
    (htmp : afp_handle.tmp_filename = some tmp_filename) :
    close_write_session afp_backend job afp_handle [exchange] =
      some (close_replace_exchange_files_cb
        { conn := { sent := [exchange_files_command afp_backend filename tmp_filename],
                    pending := [] },
          job := job, handle := some afp_handle } afp_handle exchange) := by
  unfold close_write_session
  rw [try_close_write_replace afp_backend {} job afp_handle filename tmp_filename htype
    hname htmp]
  simp only [Option.bind_eq_bind, Option.some_bind, List.foldlM_cons, List.foldlM_nil]
  rw [close_write_deliver_exchange afp_backend _ afp_handle _ [] rfl rfl]
  rfl

/-- The job of a replace close is the one the exchange callback left, whatever the
transport answers afterwards. -/
theorem close_replace_job_settled (afp_backend : GVfsBackendAfp)
    (job : GVfsJobCloseWrite) (afp_handle : AfpHandle) (filename tmp_filename : List Nat)
    (exchange : TransportResult) (more : List TransportResult)
    (htype : afp_handle.type = .AFP_HANDLE_TYPE_REPLACE_FILE)
    (hname : afp_handle.filename = some filename)
    (htmp : afp_handle.tmp_filename = some tmp_filename) :
    ∃ s, close_write_session afp_backend job afp_handle (exchange :: more) = some s ∧
      s.job = (close_replace_exchange_files_cb
        { conn := {}, job := job, handle := some afp_handle } afp_handle exchange).job := by
  cases exchange with
  | error e =>
    have h1 := close_replace_after_exchange afp_backend job afp_handle filename tmp_filename
      (.error e) htype hname htmp
    unfold close_write_session at h1 ⊢
    simp only [Option.bind_eq_bind, List.foldlM_cons, List.foldlM_nil, Option.bind_eq_some,
      Option.pure_def] at h1 ⊢
    obtain ⟨s0, h0, a, ha, hs⟩ := h1
    have hidle := close_write_deliver_idle afp_backend a more (by
      simp only [Option.some.injEq] at hs
      rw [hs]
      rfl)
    refine ⟨a, ⟨s0, h0, a, ha, hidle⟩, ?_⟩
    simp only [Option.some.injEq] at hs
    rw [hs]
    rfl
  | ok reply =>
    cases more with
    | nil =>
      refine ⟨_, close_replace_after_exchange afp_backend job afp_handle filename
        tmp_filename (.ok reply) htype hname htmp, rfl⟩
    | cons close_fork_reply rest =>
      obtain ⟨s, hs, _, hpend, _, hjob⟩ := close_replace_after_close_fork afp_backend job
        afp_handle filename tmp_filename reply close_fork_reply htype hname htmp
      obtain ⟨s', hs', _, hjob', _⟩ := close_write_deliver_null afp_backend s rest hpend
      refine ⟨s', ?_, by rw [hjob', hjob]⟩
      unfold close_write_session at hs ⊢
      simp only [Option.bind_eq_bind, List.foldlM_cons, List.foldlM_nil,
        Option.bind_eq_some, Option.pure_def, Option.some.injEq] at hs ⊢
      obtain ⟨s0, h0, a, ha, b, hb, hab⟩ := hs
      subst hab
      exact ⟨s0, h0, a, ha, b, hb, hs'⟩

theorem exchange_job_succeeded_iff (s : CloseWriteState) (afp_handle : AfpHandle)
    (exchange : TransportResult) :
    (close_replace_exchange_files_cb s afp_handle exchange).job.base.status = .succeeded ↔
      ∃ reply, exchange = .ok reply ∧ reply.result_code = AFP_RESULT_NO_ERROR := by
  cases exchange with
  | error e =>
    constructor
    · intro h
      simp [close_replace_exchange_files_cb, g_vfs_job_failed_from_error] at h
    · rintro ⟨reply, h, _⟩
      cases h
  | ok reply =>
    by_cases hc : reply.result_code = AFP_RESULT_NO_ERROR
    · constructor
      · intro _
        exact ⟨reply, rfl, hc⟩
      · intro _
        simp [close_replace_exchange_files_cb, g_vfs_afp_reply_get_result_code, hc,
          g_vfs_job_succeeded]
    · constructor
      · intro h
        unfold close_replace_exchange_files_cb at h
        simp only [g_vfs_afp_reply_get_result_code, ne_eq, hc, not_false_eq_true, if_true,
          g_vfs_job_failed_literal, g_vfs_job_failed] at h
        split at h <;> simp at h
      · rintro ⟨r, h, hr⟩
        cases h
        exact absurd hr hc

/-- C16: the close-write job of a ReplaceExisting handle succeeds if and only if the
exchange-files reply carries result code NoError (with no reply it fails); the job
is the one the exchange callback left, whatever the close-fork and the delete of the
temporary file are answered afterwards. -/
theorem close_replace_result_from_exchange (afp_backend : GVfsBackendAfp)
    (job : GVfsJobCloseWrite) (afp_handle : AfpHandle) (filename tmp_filename : List Nat)
    (exchange : TransportResult) (more : List TransportResult)
    (htype : afp_handle.type = .AFP_HANDLE_TYPE_REPLACE_FILE)
    (hname : afp_handle.filename = some filename)
    (htmp : afp_handle.tmp_filename = some tmp_filename) :
    ∃ s, close_write_session afp_backend job afp_handle (exchange :: more) = some s ∧
      (s.job.base.status = .succeeded ↔
        ∃ reply, exchange = .ok reply ∧ reply.result_code = AFP_RESULT_NO_ERROR) ∧
      (∃ s1, close_write_session afp_backend job afp_handle [exchange] = some s1 ∧
        s.job = s1.job) := by
  obtain ⟨s, hs, hjob⟩ := close_replace_job_settled afp_backend job afp_handle filename
    tmp_filename exchange more htype hname htmp
  refine ⟨s, hs, ?_, ?_⟩
  · rw [hjob]
    exact exchange_job_succeeded_iff _ afp_handle exchange
  · refine ⟨_, close_replace_after_exchange afp_backend job afp_handle filename tmp_filename
      exchange htype hname htmp, ?_⟩
    rw [hjob]
    cases exchange <;> rfl

theorem close_replace_result_from_exchange_witness :
    (∃ s, close_write_session example_backend example_close_job example_handle
        [.ok (delivered_reply AFP_RESULT_NO_ERROR []), .error example_error,
         .error example_error] = some s ∧ s.job.base.status = .succeeded) ∧
    (∃ s, close_write_session example_backend example_close_job example_handle
        [.ok (delivered_reply AFP_RESULT_DISK_FULL []),
         .ok (delivered_reply AFP_RESULT_NO_ERROR []),
         .ok (delivered_reply AFP_RESULT_NO_ERROR [])] = some s ∧
      s.job.base.status ≠ .succeeded) := by
  obtain ⟨s, hs, hiff, _⟩ := close_replace_result_from_exchange example_backend
    example_close_job example_handle [97] [97, 46, 116, 109, 112]
    (.ok (delivered_reply AFP_RESULT_NO_ERROR [])) [.error example_error, .error example_error]
    rfl rfl rfl
  obtain ⟨s', hs', hiff', _⟩ := close_replace_result_from_exchange example_backend
    example_close_job example_handle [97] [97, 46, 116, 109, 112]
    (.ok (delivered_reply AFP_RESULT_DISK_FULL []))
    [.ok (delivered_reply AFP_RESULT_NO_ERROR []), .ok (delivered_reply AFP_RESULT_NO_ERROR [])]
    rfl rfl rfl
  refine ⟨⟨s, hs, hiff.2 ⟨_, rfl, rfl⟩⟩, ⟨s', hs', ?_⟩⟩
  intro h
  obtain ⟨reply, hr, hc⟩ := hiff'.1 h
  cases hr
  exact absurd hc (by decide)

theorem is_root_iff (filename : List Nat) :
    is_root filename = true ↔ ∀ c ∈ filename, c = SLASH := by
  unfold is_root
  rw [List.isEmpty_iff, List.dropWhile_eq_nil_iff]
  simp

theorem is_root_append_tmp (filename : List Nat) : is_root (filename ++ DOT_TMP) = false := by
  cases h : is_root (filename ++ DOT_TMP) with
  | false => rfl
  | true =>
    have h46 := (is_root_iff _).1 h 46 (by simp [DOT_TMP])
    exact absurd h46 (by decide)

theorem create_file_sent (afp_backend : GVfsBackendAfp) (conn : GVfsAfpConnection)
    (filename : List Nat) (hard_create : Bool) (callback : CreateFileCallback) :
    create_file afp_backend conn filename hard_create callback =
      { sent := conn.sent ++ [create_file_command afp_backend filename hard_create],
        pending := conn.pending ++ [.create_file_cb callback] } := rfl

theorem open_fork_of_root (afp_backend : GVfsBackendAfp) (conn : GVfsAfpConnection)
    (job : GVfsJob) (filename : List Nat) (access_mode : Nat) (cb : OpenForkCallback)
    (h : is_root filename = true) :
    open_fork afp_backend conn job filename access_mode cb =
      (failed_with job not_regular_file_error, conn) := by
  unfold open_fork
  rw [if_pos h]
  rfl

theorem open_fork_of_not_root (afp_backend : GVfsBackendAfp) (conn : GVfsAfpConnection)
    (job : GVfsJob) (filename : List Nat) (access_mode : Nat) (cb : OpenForkCallback)
    (h : is_root filename = false) :
    open_fork afp_backend conn job filename access_mode cb =
      (job, { sent := conn.sent ++ [open_fork_command afp_backend filename access_mode],
              pending := conn.pending ++ [.open_fork_cb cb] }) := by
  unfold open_fork
  rw [if_neg (by simp [h])]
  rfl

theorem to_gint16_to_guint16 (r : Int) (h1 : -32768 ≤ r) (h2 : r ≤ 32767) :
    to_gint16 (to_guint16 r) = r := by
  unfold to_gint16 to_guint16
  omega

theorem open_fork_cb_opened (job : GVfsJob) (bitmap : Nat) (fork_refnum : Int)
    (rest : List Nat) (h1 : -32768 ≤ fork_refnum) (h2 : fork_refnum ≤ 32767) :
    open_fork_cb job (.ok (open_fork_reply bitmap fork_refnum rest)) =
      some (.opened (afp_handle_new fork_refnum)) := by
  have hb := get_data_of_drop (open_fork_reply bitmap fork_refnum rest) (be_bytes 2 bitmap)
    (be_bytes 2 (to_guint16 fork_refnum) ++ rest) rfl (Nat.zero_le _)
  rw [be_bytes_length] at hb
  have hr := get_data_of_drop
    { result_code := AFP_RESULT_NO_ERROR,
      data := (open_fork_reply bitmap fork_refnum rest).data, pos := 2 }
    (be_bytes 2 (to_guint16 fork_refnum)) rest
    (by simp [open_fork_reply, delivered_reply, be_bytes])
    (by simp [open_fork_reply, delivered_reply, be_bytes])
  rw [be_bytes_length] at hr
  unfold open_fork_cb
  have hc : (open_fork_reply bitmap fork_refnum rest).result_code = AFP_RESULT_NO_ERROR := rfl
  simp only [g_vfs_afp_reply_get_result_code, hc, ne_eq, not_true_eq_false, if_false,
    g_vfs_afp_reply_read_uint16, g_vfs_afp_reply_read_int16, hb, Option.map_some',
    Option.getD_some]
  have hp : (open_fork_reply bitmap fork_refnum rest).pos + 2 = 2 := rfl
  rw [hp, hr]
  simp only [Option.map_some', Option.some_bind, be_value_be_bytes]
  have hm : to_guint16 fork_refnum % 256 ^ 2 = to_guint16 fork_refnum := by
    apply Nat.mod_eq_of_lt
    unfold to_guint16
    omega
  rw [hm, to_gint16_to_guint16 fork_refnum h1 h2]

theorem open_for_write_deliver_idle (afp_backend : GVfsBackendAfp) (s : OpenForWriteState)
    (replies : List TransportResult) (h : s.conn.pending = []) :
    replies.foldlM (open_for_write_deliver afp_backend) s = some s := by
  induction replies with
  | nil => rfl
  | cons r rs ih =>
    rw [List.foldlM_cons]
    have : open_for_write_deliver afp_backend s r = some s := by
      unfold open_for_write_deliver
      rw [h]
    rw [this]
    exact ih

theorem replace_session_start (afp_backend : GVfsBackendAfp) (job : GVfsJobOpenForWrite)
    (f : List Nat) (etag : Option (List Nat)) (flags : Nat) (reply : TransportResult)
    (more : List TransportResult) :
    replace_session afp_backend job f etag false flags (reply :: more) =
      (replace_cb afp_backend
        { conn := { sent := [create_file_command afp_backend (f ++ DOT_TMP) true],
                    pending := [] },
          job := { job with TempFilename := some (f ++ DOT_TMP) } }
        (create_file_cb reply)).bind
        fun s => more.foldlM (open_for_write_deliver afp_backend) s := by
  unfold replace_session try_replace
  simp only [Bool.false_eq_true, if_false, create_file_sent, List.foldlM_cons]
  rfl

/-- C17: for every path `f` and a server that answers NoError to both commands,
replace without make-backup issues, in order, a create-file command with the
hard-create flag (0x80) for `f ++ ".tmp"` and an open-fork command with write access
for `f ++ ".tmp"`, and the job succeeds with a handle of kind ReplaceExisting that
carries the original path `f`, the temporary path `f ++ ".tmp"`, the fork reference
of the server's reply and offset 0. -/
theorem replace_creates_and_opens_temporary (afp_backend : GVfsBackendAfp)
    (job : GVfsJobOpenForWrite) (f : List Nat) (etag : Option (List Nat)) (flags : Nat)
    (create_data : List Nat) (bitmap : Nat) (fork_refnum : Int) (rest : List Nat)
    (hjob : job.filename = f)
    (hrefnum : -32768 ≤ fork_refnum ∧ fork_refnum ≤ 32767) :
    ∃ s, replace_session afp_backend job f etag false flags
        [.ok (delivered_reply AFP_RESULT_NO_ERROR create_data),
         .ok (open_fork_reply bitmap fork_refnum rest)] = some s ∧
      s.conn.sent = [create_file_command afp_backend (f ++ DOT_TMP) true,
        open_fork_command afp_backend (f ++ DOT_TMP) AFP_ACCESS_MODE_WRITE_BIT] ∧
      (create_file_command afp_backend (f ++ DOT_TMP) true).fields.head? = some (.byte 0x80) ∧
      s.conn.pending = [] ∧
      s.job.handle = some { type := .AFP_HANDLE_TYPE_REPLACE_FILE, fork_refnum := fork_refnum,
                            offset := 0, filename := some f,
                            tmp_filename := some (f ++ DOT_TMP) } ∧
      s.job.base.status = .succeeded ∧ s.job.can_seek = true ∧ s.job.initial_offset = 0 := by
  rw [replace_session_start]
  have hcreate : create_file_cb (.ok (delivered_reply AFP_RESULT_NO_ERROR create_data)) =
      .ok () := rfl
  rw [hcreate]
  unfold replace_cb create_file_finish
  simp only [Option.some_bind, open_fork_of_not_root _ _ _ _ _ _ (is_root_append_tmp f),
    List.foldlM_cons, List.foldlM_nil]
  unfold open_for_write_deliver
  simp only [List.nil_append, List.singleton_append,
    open_fork_cb_opened _ bitmap fork_refnum rest hrefnum.1 hrefnum.2, Option.some_bind,
    Option.pure_def]
  refine ⟨_, rfl, rfl, rfl, rfl, ?_, rfl, rfl, rfl⟩
  simp only [replace_open_fork_cb, afp_handle_new, hjob]

theorem replace_creates_and_opens_temporary_witness :
    ∃ s, replace_session example_backend example_open_for_write_job [47, 97] none false 0
        [.ok (delivered_reply AFP_RESULT_NO_ERROR []),
         .ok (open_fork_reply 0 9 [])] = some s ∧
      s.conn.sent = [create_file_command example_backend [47, 97, 46, 116, 109, 112] true,
        open_fork_command example_backend [47, 97, 46, 116, 109, 112] 2] ∧
      s.job.handle = some { type := .AFP_HANDLE_TYPE_REPLACE_FILE, fork_refnum := 9,
                            offset := 0, filename := some [47, 97],
                            tmp_filename := some [47, 97, 46, 116, 109, 112] } ∧
      s.job.base.status = .succeeded := by
  obtain ⟨s, h, h1, _, _, h2, h3, _⟩ := replace_creates_and_opens_temporary example_backend
    example_open_for_write_job [47, 97] none 0 [] 0 9 [] rfl (by decide)
  exact ⟨s, h, h1, h2, h3⟩

/-- C18: when the hard-create of the temporary file fails during replace, with the
error `err` (the transport's error, or the error of a non-success result code), the
job fails with the domain and code of `err` and the message of `err` wrapped as
"Couldn't create temporary file (...)"; the create-file command is the only command
sent: no open-fork command follows, whatever the transport answers later. -/
theorem replace_create_failure_wrapped (afp_backend : GVfsBackendAfp)
    (job : GVfsJobOpenForWrite) (f : List Nat) (etag : Option (List Nat)) (flags : Nat)
    (reply : TransportResult) (err : GError) (more : List TransportResult)
    (h : create_file_cb reply = .error err) :
    replace_session afp_backend job f etag false flags (reply :: more) =
      some { conn := { sent := [create_file_command afp_backend (f ++ DOT_TMP) true],
                       pending := [] },
             job := { job with TempFilename := some (f ++ DOT_TMP),
                               base := failed_with job.base (temporary_file_error err) } } := by
  rw [replace_session_start, h]
  unfold replace_cb create_file_finish
  simp only [Option.some_bind]
  rw [open_for_write_deliver_idle afp_backend _ more rfl]
  rfl

theorem replace_create_failure_wrapped_witness :
    replace_session example_backend example_open_for_write_job [47, 97] none false 0
        [.ok (delivered_reply AFP_RESULT_DISK_FULL []), .error example_error] =
      some { conn := { sent := [create_file_command example_backend
                                  [47, 97, 46, 116, 109, 112] true],
                       pending := [] },
             job := { example_open_for_write_job with
                        TempFilename := some [47, 97, 46, 116, 109, 112],
                        base := { type := .G_VFS_TYPE_JOB_OPEN_FOR_WRITE,
                                  status := .failed
                                    { domain := G_IO_ERROR, code := G_IO_ERROR_NO_SPACE,
                                      message := "Couldn't create temporary file " ++
                                        "(Not enough space on volume)" } } } } :=
  replace_create_failure_wrapped example_backend example_open_for_write_job [47, 97] none 0
    (.ok (delivered_reply AFP_RESULT_DISK_FULL []))
    { domain := G_IO_ERROR, code := G_IO_ERROR_NO_SPACE,
      message := "Not enough space on volume" }
    [.error example_error] rfl

/-- C19: for every path and every flags value, replace with make-backup set fails
the job at once with the cannot-create-backup error and sends no wire command,
whatever the transport delivers afterwards. -/
theorem replace_make_backup_unsupported (afp_backend : GVfsBackendAfp)
    (conn : GVfsAfpConnection) (job : GVfsJobOpenForWrite) (f : List Nat)
    (etag : Option (List Nat)) (flags : Nat) (replies : List TransportResult) :
    try_replace afp_backend conn job f etag true flags =
      { conn := conn,
        job := { job with base := failed_with job.base cant_create_backup_error } } ∧
    replace_session afp_backend job f etag true flags replies =
      some { conn := { sent := [], pending := [] },
             job := { job with base := failed_with job.base cant_create_backup_error } } := by
  refine ⟨rfl, ?_⟩
  unfold replace_session
  exact open_for_write_deliver_idle afp_backend _ replies rfl

theorem create_session_start (afp_backend : GVfsBackendAfp) (job : GVfsJobOpenForWrite)
    (f : List Nat) (flags : Nat) (reply : TransportResult) (more : List TransportResult) :
    create_session afp_backend job f flags (reply :: more) =
      more.foldlM (open_for_write_deliver afp_backend)
        (create_cb afp_backend
          { conn := { sent := [create_file_command afp_backend f false], pending := [] },
            job := job }
          (create_file_cb reply)) := by
  unfold create_session try_create
  simp only [create_file_sent, List.foldlM_cons]
  rfl

/-- C15, as amended: when the requested path denotes the root (it consists only of
`'/'` characters, or is empty), open-for-read fails the job with the
not-a-regular-file error and sends no wire command. Create and replace send their
create-file command first, create for the path itself and replace for the path with
".tmp" appended (which never denotes the root); a create whose create-file command
is answered NoError then fails with the not-a-regular-file error and sends no
open-fork command. -/
theorem root_path_not_regular_file (afp_backend : GVfsBackendAfp) (conn : GVfsAfpConnection)
    (read_job : GVfsJobOpenForRead) (write_job : GVfsJobOpenForWrite) (f : List Nat)
    (etag : Option (List Nat)) (flags : Nat) (create_data : List Nat)
    (more : List TransportResult)
    (hroot : ∀ c ∈ f, c = SLASH) (hjob : write_job.filename = f) :
    try_open_for_read afp_backend conn read_job f =
      { conn := conn,
        job := { read_job with base := failed_with read_job.base not_regular_file_error } } ∧
    try_create afp_backend conn write_job f flags =
      { conn := { sent := conn.sent ++ [create_file_command afp_backend f false],
                  pending := conn.pending ++ [.create_file_cb .create_cb] },
        job := write_job } ∧
    create_session afp_backend write_job f flags
        (.ok (delivered_reply AFP_RESULT_NO_ERROR create_data) :: more) =
      some { conn := { sent := [create_file_command afp_backend f false], pending := [] },
             job := { write_job with
                        base := failed_with write_job.base not_regular_file_error } } ∧
    try_replace afp_backend conn write_job f etag false flags =
      { conn := { sent := conn.sent ++ [create_file_command afp_backend (f ++ DOT_TMP) true],
                  pending := conn.pending ++ [.create_file_cb .replace_cb] },
        job := { write_job with TempFilename := some (f ++ DOT_TMP) } } ∧
    is_root (f ++ DOT_TMP) = false := by
  have hr : is_root f = true := (is_root_iff f).2 hroot
  refine ⟨?_, rfl, ?_, rfl, is_root_append_tmp f⟩
  · unfold try_open_for_read
    simp only [open_fork_of_root _ _ _ _ _ _ hr]
  · rw [create_session_start]
    have hcreate : create_file_cb (.ok (delivered_reply AFP_RESULT_NO_ERROR create_data)) =
        .ok () := rfl
    rw [hcreate]
    unfold create_cb create_file_finish
    simp only [hjob, open_fork_of_root _ _ _ _ _ _ hr]
    exact open_for_write_deliver_idle afp_backend _ more rfl

theorem root_path_not_regular_file_witness :
    try_open_for_read example_backend {} example_open_for_read_job [47, 47] =
      { conn := {},
        job := { base := { type := .G_VFS_TYPE_JOB_OPEN_FOR_READ,
                           status := .failed not_regular_file_error } } } ∧
    create_session example_backend { example_open_for_write_job with filename := [47, 47] }
        [47, 47] 0 [.ok (delivered_reply AFP_RESULT_NO_ERROR [])] =
      some { conn := { sent := [create_file_command example_backend [47, 47] false],
                       pending := [] },
             job := { base := { type := .G_VFS_TYPE_JOB_OPEN_FOR_WRITE,
                                status := .failed not_regular_file_error },
                      filename := [47, 47] } } := by
  have h := root_path_not_regular_file example_backend {} example_open_for_read_job
    { example_open_for_write_job with filename := [47, 47] } [47, 47] none 0 [] []
    (by decide) rfl
  exact ⟨h.1, h.2.2.1⟩

/-- C15, counterexample: create and replace of the root path `/` each put a command
on the wire, and the job has not failed when `try_create` and `try_replace` return;
the create-file command of the replace is for the path `/.tmp`, and with a server
that answers NoError the replace sends two commands and succeeds. -/
theorem create_and_replace_of_root_send_command :
    is_root [47] = true ∧
    (try_create example_backend {} { example_open_for_write_job with filename := [47] }
        [47] 0).conn.sent = [create_file_command example_backend [47] false] ∧
    (try_create example_backend {} { example_open_for_write_job with filename := [47] }
        [47] 0).job.base.status = .running ∧
    (try_replace example_backend {} { example_open_for_write_job with filename := [47] }
        [47] none false 0).conn.sent =
      [create_file_command example_backend [47, 46, 116, 109, 112] true] ∧
    (try_replace example_backend {} { example_open_for_write_job with filename := [47] }
        [47] none false 0).job.base.status = .running ∧
    (replace_session example_backend { example_open_for_write_job with filename := [47] }
        [47] none false 0
        [.ok (delivered_reply AFP_RESULT_NO_ERROR []), .ok (open_fork_reply 0 9 [])]).map
        (fun s => (s.conn.sent.length, s.job.base.status)) = some (2, .succeeded) := by
  decide

theorem set_display_name_deliver_idle (glib : GLibPath) (s : SetDisplayNameState)
    (replies : List TransportResult) (h : s.conn.pending = []) :
    replies.foldl (set_display_name_deliver glib) s = s := by
  induction replies with
  | nil => rfl
  | cons r rs ih =>
    rw [List.foldl_cons]
    have : set_display_name_deliver glib s r = s := by
      unfold set_display_name_deliver
      rw [h]
    rw [this]
    exact ih

theorem try_set_display_name_of_not_root (glib : GLibPath) (afp_backend : GVfsBackendAfp)
    (conn : GVfsAfpConnection) (job : GVfsJobSetDisplayName) (f n : List Nat)
    (h : is_root f = false) :
    try_set_display_name glib afp_backend conn job f n =
      { conn := { sent := conn.sent ++ [rename_command glib afp_backend f n],
                  pending := conn.pending ++ [.rename_cb] },
        job := job } := by
  unfold try_set_display_name
  rw [if_neg (by simp [h])]
  rfl

/-- C20: rename of a path that denotes the root fails with the invalid-filename
error and sends no command, whatever the transport delivers; for every other path
`f` and display name `n`, exactly one rename command is sent, and when its reply is
NoError the job reports the new path `g_build_filename (g_path_get_dirname f, n)`
and succeeds, and no further command is sent whatever the transport delivers
afterwards. -/
theorem rename_outcome (glib : GLibPath) (afp_backend : GVfsBackendAfp)
    (job : GVfsJobSetDisplayName) (f n : List Nat) (data : List Nat)
    (more : List TransportResult)
    (hjob : job.filename = f ∧ job.display_name = n) :
    (is_root f = true →
      set_display_name_session glib afp_backend job f n more =
        { conn := { sent := [], pending := [] },
          job := { job with base := failed_with job.base invalid_filename_error } }) ∧
    (is_root f = false →
      set_display_name_session glib afp_backend job f n [] =
        { conn := { sent := [rename_command glib afp_backend f n], pending := [.rename_cb] },
          job := job } ∧
      set_display_name_session glib afp_backend job f n
          (.ok (delivered_reply AFP_RESULT_NO_ERROR data) :: more) =
        { conn := { sent := [rename_command glib afp_backend f n], pending := [] },
          job := { job with
                     new_path := some (glib.g_build_filename (glib.g_path_get_dirname f) n),
                     base := g_vfs_job_succeeded job.base } }) := by
  constructor
  · intro hr
    unfold set_display_name_session
    have h0 : try_set_display_name glib afp_backend {} job f n =
        { conn := { sent := [], pending := [] },
          job := { job with base := failed_with job.base invalid_filename_error } } := by
      unfold try_set_display_name
      rw [if_pos hr]
      rfl
    rw [h0]
    exact set_display_name_deliver_idle glib _ more rfl
  · intro hr
    unfold set_display_name_session
    rw [try_set_display_name_of_not_root glib afp_backend {} job f n hr]
    refine ⟨rfl, ?_⟩
    rw [List.foldl_cons]
    have h1 : set_display_name_deliver glib
        { conn := { sent := ({} : GVfsAfpConnection).sent ++ [rename_command glib afp_backend f n],
                    pending := ({} : GVfsAfpConnection).pending ++ [.rename_cb] },
          job := job } (.ok (delivered_reply AFP_RESULT_NO_ERROR data)) =
        { conn := { sent := [rename_command glib afp_backend f n], pending := [] },
          job := { job with
                     new_path := some (glib.g_build_filename (glib.g_path_get_dirname f) n),
                     base := g_vfs_job_succeeded job.base } } := by
      obtain ⟨h1, h2⟩ := hjob
      subst h1 h2
      rfl
    rw [h1]
    exact set_display_name_deliver_idle glib _ more rfl

theorem rename_outcome_witness :
    set_display_name_session example_glib example_backend
        { example_rename_job with filename := [47] } [47] [99] [.error example_error] =
      { conn := { sent := [], pending := [] },
        job := { base := { type := .G_VFS_TYPE_JOB_SET_DISPLAY_NAME,
                           status := .failed invalid_filename_error },
                 filename := [47], display_name := [99] } } ∧
    set_display_name_session example_glib example_backend example_rename_job
        [47, 97, 47, 98] [99] [.ok (delivered_reply AFP_RESULT_NO_ERROR [])] =
      { conn := { sent := [rename_command example_glib example_backend [47, 97, 47, 98] [99]],
                  pending := [] },
        job := { base := { type := .G_VFS_TYPE_JOB_SET_DISPLAY_NAME, status := .succeeded },
                 filename := [47, 97, 47, 98], display_name := [99],
                 new_path := some [47, 97, 47, 99] } } :=
  ⟨(rename_outcome example_glib example_backend { example_rename_job with filename := [47] }
      [47] [99] [] [.error example_error] ⟨rfl, rfl⟩).1 (by decide),
   ((rename_outcome example_glib example_backend example_rename_job [47, 97, 47, 98] [99] []
      [] ⟨rfl, rfl⟩).2 (by decide)).2⟩

/-- The result of `fill_info` on an encoded record, with the fields that hold the
dates and the hidden flag. -/
theorem fill_info_of_record (afp_backend : GVfsBackendAfp) (info : GFileInfo)
    (reply : GVfsAfpReply) (directory : Bool) (bitmap : Nat) (v : RecordFields)
    (afp_name : GVfsAfpName) (rest after_name : List Nat)
    (hv : v.in_range)
    (hrec : reply.data.drop reply.pos = encode_record directory bitmap v ++ rest)
    (hname : has_bit bitmap AFP_FILEDIR_BITMAP_UTF8_NAME_BIT = true →
      reply.data.drop (reply.pos + v.name_offset) = encode_afp_name afp_name ++ after_name ∧
      afp_name.text_encoding < 4294967296 ∧ afp_name.str.length < 65536) :
    ∃ info', fill_info afp_backend info reply directory bitmap =
        some (info',
          { reply with pos := reply.pos + (encode_record directory bitmap v).length }) ∧
      info'.is_hidden =
        (if (has_bit bitmap AFP_FILEDIR_BITMAP_UTF8_NAME_BIT = true ∧
              afp_name.str.head? = some DOT) ∨
            (has_bit bitmap AFP_FILEDIR_BITMAP_ATTRIBUTE_BIT = true ∧
              has_bit v.attributes AFP_FILEDIR_ATTRIBUTES_BITMAP_INVISIBLE_BIT = true) then
          some true
        else info.is_hidden) ∧
      info'.time_created =
        (if has_bit bitmap AFP_FILEDIR_BITMAP_CREATE_DATE_BIT = true then
          some (date_attribute v.create_date afp_backend.time_diff)
        else info.time_created) ∧
      info'.time_modified =
        (if has_bit bitmap AFP_FILEDIR_BITMAP_MOD_DATE_BIT = true then
          some (date_attribute v.mod_date afp_backend.time_diff)
        else info.time_modified) := by
  obtain ⟨ha, hc, hm, _, _, hn⟩ := hv
  obtain ⟨bA, bC, bM, _, _, bN⟩ := encode_record_bytes reply directory bitmap v rest hrec
  have hfit : fields_width directory bitmap ≠ 0 →
      reply.pos + fields_width directory bitmap ≤ reply.data.length := by
    intro hw
    have := le_of_drop_eq_append reply reply.pos _ _ hrec
      (by intro h0; rw [← encode_record_length directory bitmap v, h0] at hw; exact hw rfl)
    rwa [encode_record_length] at this
  have hread : has_bit bitmap AFP_FILEDIR_BITMAP_UTF8_NAME_BIT = true →
      g_vfs_afp_reply_read_afp_name (name_cursor reply directory bitmap) true =
        some (afp_name, { reply with
          pos := reply.pos + v.name_offset + (encode_afp_name afp_name).length }) := by
    intro hb
    obtain ⟨hd, he, hl⟩ := hname hb
    have hk : be_value (bytes_at reply (reply.pos + fixed_width directory bitmap) 2) =
        v.name_offset := by
      rw [bN hb, be_value_be_bytes]; exact Nat.mod_eq_of_lt (by norm_num; exact hn)
    have hin : reply.pos + v.name_offset ≤ reply.data.length := by
      have := le_of_drop_eq_append reply (reply.pos + v.name_offset) _ _ hd
        (by simp [encode_afp_name, be_bytes])
      omega
    rw [name_cursor_of_offset reply directory bitmap v.name_offset hk hin]
    exact read_afp_name_of_drop { reply with pos := reply.pos + v.name_offset } afp_name
      after_name hd he hl
  refine ⟨decoded_info afp_backend info reply directory bitmap
    (g_vfs_afp_name_get_string afp_name), ?_, ?_, ?_, ?_⟩
  · rw [encode_record_length]
    exact (fill_info_iff afp_backend info _ reply _ directory bitmap).mpr
      ⟨hfit, rfl, afp_name, _, hread, rfl⟩
  · rw [decoded_info_is_hidden]
    by_cases hb : has_bit bitmap AFP_FILEDIR_BITMAP_ATTRIBUTE_BIT = true
    · rw [bA hb, be_value_be_bytes, Nat.mod_eq_of_lt (by norm_num; exact ha)]
      rfl
    · simp [hb, g_vfs_afp_name_get_string]
  · rw [decoded_info_time_created]
    by_cases hb : has_bit bitmap AFP_FILEDIR_BITMAP_CREATE_DATE_BIT = true
    · rw [if_pos hb, if_pos hb, bC hb, int32_value, be_value_be_bytes,
        Nat.mod_eq_of_lt (by unfold to_guint32; norm_num; omega),
        to_gint32_to_guint32 _ hc.1 hc.2]
    · rw [if_neg hb, if_neg hb]
  · rw [decoded_info_time_modified]
    by_cases hb : has_bit bitmap AFP_FILEDIR_BITMAP_MOD_DATE_BIT = true
    · rw [if_pos hb, if_pos hb, bM hb, int32_value, be_value_be_bytes,
        Nat.mod_eq_of_lt (by unfold to_guint32; norm_num; omega),
        to_gint32_to_guint32 _ hm.1 hm.2]
    · rw [if_neg hb, if_neg hb]

theorem do_mount_open_vol_time_diff (env : MountEnvironment) (afp_backend : GVfsBackendAfp)
    (steps : List MountStep) (m : MountResult)
    (h : do_mount_open_vol env afp_backend steps = some m) :
    m.afp_backend.time_diff = afp_backend.time_diff := by
  unfold do_mount_open_vol at h
  simp only at h
  split at h
  · simp only [Option.some.injEq] at h
    rw [← h]
  · split at h
    · simp only [Option.some.injEq] at h
      rw [← h]
    · split at h
      · simp only [Option.some.injEq] at h
        rw [← h]
      · simp only [Option.bind_eq_some, Option.some.injEq] at h
        obtain ⟨v, _, hv⟩ := h
        rw [← hv]

/-- The `time_diff` a successful mount leaves on the backend: the local real time in
seconds minus the server time of the get-server-parameters reply, as a `gint32`. -/
theorem do_mount_time_diff (env : MountEnvironment) (afp_backend : GVfsBackendAfp)
    (m : MountResult) (h : do_mount env afp_backend = some m)
    (hs : m.outcome = .succeeded) :
    ∃ reply r, env.read_srvr_parms = .ok reply ∧
      g_vfs_afp_reply_read_int32 reply = some r ∧
      m.afp_backend.time_diff = to_gint32 (Int.tdiv env.real_time G_USEC_PER_SEC - r.1) := by
  unfold do_mount at h
  simp only at h
  split at h
  · simp only [Option.some.injEq] at h
    rw [← h] at hs
    exact absurd hs (by simp)
  · split at h
    · simp only [Option.some.injEq] at h
      rw [← h] at hs
      exact absurd hs (by simp)
    · split at h
      · simp only [Option.some.injEq] at h
        rw [← h] at hs
        exact absurd hs (by simp)
      · rename_i reply hreply
        split at h
        · simp only [Option.some.injEq] at h
          rw [← h] at hs
          exact absurd hs (by simp)
        · simp only [Option.bind_eq_some] at h
          obtain ⟨r, hr, hm⟩ := h
          exact ⟨reply, r, hreply, hr, do_mount_open_vol_time_diff env _ _ m hm⟩

theorem date_attribute_of_range (s t : Int) (h0 : 0 ≤ s + t) (h1 : s + t ≤ 2147483647) :
    (date_attribute s t : Int) = s + t := by
  unfold date_attribute to_guint64 to_gint32
  omega

/-- C21, as amended: for every int32 server date `s` found in a record (create-date
or mod-date) and every int32 `time_diff` `t` such that `0 ≤ s + t ≤ 2^31 - 1`, the
creation or modification time `fill_info` reports as an unsigned 64-bit attribute
equals the integer `s + t` (the bound on `t` alone is not needed). The `time_diff` of
a mounted backend was captured by the mount as the local real time in seconds minus
the server time, converted to a `gint32` (the difference itself when it fits). -/
theorem fill_info_dates_shifted (afp_backend : GVfsBackendAfp) (info : GFileInfo)
    (reply : GVfsAfpReply) (directory : Bool) (bitmap : Nat) (v : RecordFields)
    (afp_name : GVfsAfpName) (rest after_name : List Nat)
    (env : MountEnvironment) (unmounted : GVfsBackendAfp) (m : MountResult)
    (hv : v.in_range)
    (hrec : reply.data.drop reply.pos = encode_record directory bitmap v ++ rest)
    (hname : has_bit bitmap AFP_FILEDIR_BITMAP_UTF8_NAME_BIT = true →
      reply.data.drop (reply.pos + v.name_offset) = encode_afp_name afp_name ++ after_name ∧
      afp_name.text_encoding < 4294967296 ∧ afp_name.str.length < 65536) :
    ∃ info' reply', fill_info afp_backend info reply directory bitmap = some (info', reply') ∧
      (has_bit bitmap AFP_FILEDIR_BITMAP_CREATE_DATE_BIT = true →
        0 ≤ v.create_date + afp_backend.time_diff →
        v.create_date + afp_backend.time_diff ≤ 2147483647 →
        ∃ n : Nat, info'.time_created = some n ∧
          (n : Int) = v.create_date + afp_backend.time_diff) ∧
      (has_bit bitmap AFP_FILEDIR_BITMAP_MOD_DATE_BIT = true →
        0 ≤ v.mod_date + afp_backend.time_diff →
        v.mod_date + afp_backend.time_diff ≤ 2147483647 →
        ∃ n : Nat, info'.time_modified = some n ∧
          (n : Int) = v.mod_date + afp_backend.time_diff) ∧
      (do_mount env unmounted = some m → m.outcome = .succeeded →
        ∃ server_reply server_time,
          env.read_srvr_parms = .ok server_reply ∧
          g_vfs_afp_reply_read_int32 server_reply = some server_time ∧
          m.afp_backend.time_diff =
            to_gint32 (Int.tdiv env.real_time G_USEC_PER_SEC - server_time.1) ∧
          (-2147483648 ≤ Int.tdiv env.real_time G_USEC_PER_SEC - server_time.1 →
            Int.tdiv env.real_time G_USEC_PER_SEC - server_time.1 ≤ 2147483647 →
            m.afp_backend.time_diff =
              Int.tdiv env.real_time G_USEC_PER_SEC - server_time.1)) := by
  obtain ⟨info', h, _, hc, hm⟩ := fill_info_of_record afp_backend info reply directory bitmap
    v afp_name rest after_name hv hrec hname
  refine ⟨info', _, h, ?_, ?_, ?_⟩
  · intro hb h0 h1
    rw [if_pos hb] at hc
    exact ⟨_, hc, date_attribute_of_range _ _ h0 h1⟩
  · intro hb h0 h1
    rw [if_pos hb] at hm
    exact ⟨_, hm, date_attribute_of_range _ _ h0 h1⟩
  · intro hmount hs
    obtain ⟨server_reply, r, h1, h2, h3⟩ := do_mount_time_diff env unmounted m hmount hs
    refine ⟨server_reply, r, h1, h2, h3, ?_⟩
    intro hlo hhi
    rw [h3]
    exact to_gint32_of_range _ hlo hhi

theorem fill_info_dates_shifted_witness :
    (∃ info' reply', fill_info example_backend g_file_info_new example_reply false
        example_bitmap = some (info', reply') ∧
      info'.time_created = some 15 ∧ info'.time_modified = some 25) ∧
    (∃ m, do_mount example_mount_environment example_backend = some m ∧
      m.afp_backend.time_diff = 5) := by
  have hsome : (do_mount example_mount_environment example_backend).isSome = true := by
    decide
  obtain ⟨m, hmount⟩ := Option.isSome_iff_exists.1 hsome
  have hs : m.outcome = .succeeded := by
    have h0 : (do_mount example_mount_environment example_backend).map
        (fun r => r.outcome) = some .succeeded := by decide
    rw [hmount] at h0
    simpa using h0
  obtain ⟨info', reply', h, hc, hm, ht⟩ :=
    fill_info_dates_shifted example_backend g_file_info_new example_reply false
      example_bitmap example_fields ⟨0x08000103, [97, 46, 98]⟩
      [8, 0, 1, 3, 0, 3, 97, 46, 98] [] example_mount_environment example_backend m
      ⟨by decide, ⟨by decide, by decide⟩, ⟨by decide, by decide⟩, by decide, by decide,
        by decide⟩
      (by decide) (fun _ => by decide)
  obtain ⟨n, hn, hn'⟩ := hc (by decide) (by decide) (by decide)
  obtain ⟨k, hk, hk'⟩ := hm (by decide) (by decide) (by decide)
  have e1 : n = 15 := by
    have : (n : Int) = 15 := hn'
    omega
  have e2 : k = 25 := by
    have : (k : Int) = 25 := hk'
    omega
  subst e1 e2
  refine ⟨⟨info', reply', h, hn, hk⟩, m, hmount, ?_⟩
  obtain ⟨server_reply, server_time, h1, h2, h3, _⟩ := ht hmount hs
  have e3 : server_reply = delivered_reply AFP_RESULT_NO_ERROR [0, 0, 3, 232] := by
    have : Except.ok (delivered_reply AFP_RESULT_NO_ERROR [0, 0, 3, 232]) =
        (Except.ok server_reply : Except GError GVfsAfpReply) := h1
    injection this with h'
    exact h'.symm
  subst e3
  have e4 : g_vfs_afp_reply_read_int32 (delivered_reply AFP_RESULT_NO_ERROR [0, 0, 3, 232]) =
      some (1000, { delivered_reply AFP_RESULT_NO_ERROR [0, 0, 3, 232] with pos := 4 }) := by
    decide
  rw [e4] at h2
  injection h2 with h2'
  rw [h3, ← h2']
  decide

/-- C21, counterexample: with `time_diff` 5, a file record whose create date is -10
is reported with the creation time 18446744073709551611 (2^64 - 5), which is not the
integer -10 + 5. -/
theorem fill_info_negative_date_wraps :
    example_backend.time_diff = 5 ∧
    (fill_info example_backend g_file_info_new (delivered_reply 0 [255, 255, 255, 246]) false
        AFP_FILEDIR_BITMAP_CREATE_DATE_BIT).map (fun r => r.1.time_created) =
      some (some 18446744073709551611) ∧
    ((18446744073709551611 : Nat) : Int) ≠ -10 + 5 := by
  decide

/-- C24: `fill_info` marks an entry hidden if and only if the attributes field is
present with the INVISIBLE bit set, or the name is present and its first character
is `'.'`: when either condition holds the info returned is hidden whatever the other
fields are, and otherwise the hidden attribute is left as it was on entry (unset for
a new info); an info that is hidden on entry is hidden on return. -/
theorem fill_info_hidden_iff (afp_backend : GVfsBackendAfp) (info : GFileInfo)
    (reply : GVfsAfpReply) (directory : Bool) (bitmap : Nat) (v : RecordFields)
    (afp_name : GVfsAfpName) (rest after_name : List Nat)
    (hv : v.in_range)
    (hrec : reply.data.drop reply.pos = encode_record directory bitmap v ++ rest)
    (hname : has_bit bitmap AFP_FILEDIR_BITMAP_UTF8_NAME_BIT = true →
      reply.data.drop (reply.pos + v.name_offset) = encode_afp_name afp_name ++ after_name ∧
      afp_name.text_encoding < 4294967296 ∧ afp_name.str.length < 65536) :
    ∃ info' reply', fill_info afp_backend info reply directory bitmap = some (info', reply') ∧
      (hidden_condition bitmap v afp_name → info'.is_hidden = some true) ∧
      (¬ hidden_condition bitmap v afp_name → info'.is_hidden = info.is_hidden) ∧
      (info.is_hidden = none →
        (info'.is_hidden = some true ↔ hidden_condition bitmap v afp_name)) ∧
      (info.is_hidden = some true → info'.is_hidden = some true) := by
  obtain ⟨info', h, hh, _, _⟩ := fill_info_of_record afp_backend info reply directory bitmap
    v afp_name rest after_name hv hrec hname
  have hc : ((has_bit bitmap AFP_FILEDIR_BITMAP_UTF8_NAME_BIT = true ∧
        afp_name.str.head? = some DOT) ∨
      (has_bit bitmap AFP_FILEDIR_BITMAP_ATTRIBUTE_BIT = true ∧
        has_bit v.attributes AFP_FILEDIR_ATTRIBUTES_BITMAP_INVISIBLE_BIT = true)) ↔
      hidden_condition bitmap v afp_name := by
    unfold hidden_condition
    exact Or.comm
  refine ⟨info', _, h, ?_, ?_, ?_, ?_⟩
  · intro hcond
    rw [hh, if_pos (hc.2 hcond)]
  · intro hcond
    rw [hh, if_neg (fun h' => hcond (hc.1 h'))]
  · intro hnone
    constructor
    · intro ht
      by_contra hcond
      rw [hh, if_neg (fun h' => hcond (hc.1 h')), hnone] at ht
      exact absurd ht (by simp)
    · intro hcond
      rw [hh, if_pos (hc.2 hcond)]
  · intro hset
    rw [hh]
    split
    · rfl
    · exact hset

theorem fill_info_hidden_iff_witness :
    ∃ info' reply', fill_info example_backend g_file_info_new example_reply false
        example_bitmap = some (info', reply') ∧ info'.is_hidden = some true := by
  obtain ⟨info', reply', h, hset, _⟩ :=
    fill_info_hidden_iff example_backend g_file_info_new example_reply false
      example_bitmap example_fields ⟨0x08000103, [97, 46, 98]⟩
      [8, 0, 1, 3, 0, 3, 97, 46, 98] []
      ⟨by decide, ⟨by decide, by decide⟩, ⟨by decide, by decide⟩, by decide, by decide,
        by decide⟩
      (by decide) (fun _ => by decide)
  exact ⟨info', reply', h, hset (Or.inl ⟨by decide, by decide⟩)⟩

theorem try_query_info_root (afp_backend : GVfsBackendAfp) (conn : GVfsAfpConnection)
    (job : GVfsJobQueryInfo) (f : List Nat) (flags : Nat) (matcher : GFileAttributeMatcher)
    (hroot : is_root f = true) :
    try_query_info afp_backend conn job f flags matcher =
      if requested_vol_bitmap matcher ≠ 0 then
        { conn := { sent := conn.sent ++
                      [get_vol_parms_command afp_backend (requested_vol_bitmap matcher)],
                    pending := conn.pending ++ [.get_vol_parms_cb] },
          job := { job with file_info := root_info afp_backend job.file_info } }
      else
        { conn := conn,
          job := { file_info := root_info afp_backend job.file_info,
                   base := g_vfs_job_succeeded job.base } } := by
  unfold try_query_info requested_vol_bitmap wants_created wants_modified
  rw [if_pos hroot]
  have hinfo : root_info afp_backend job.file_info =
      (match g_vfs_backend_get_icon afp_backend.parent_instance with
        | some icon =>
          { (match g_vfs_backend_get_display_name afp_backend.parent_instance with
              | some display_name =>
                { job.file_info with file_type := some .G_FILE_TYPE_DIRECTORY,
                                     name := some [SLASH],
                                     display_name := some display_name }
              | none =>
                { job.file_info with file_type := some .G_FILE_TYPE_DIRECTORY,
                                     name := some [SLASH] }) with
            content_type := some .inode_directory, icon := some icon }
        | none =>
          { (match g_vfs_backend_get_display_name afp_backend.parent_instance with
              | some display_name =>
                { job.file_info with file_type := some .G_FILE_TYPE_DIRECTORY,
                                     name := some [SLASH],
                                     display_name := some display_name }
              | none =>
                { job.file_info with file_type := some .G_FILE_TYPE_DIRECTORY,
                                     name := some [SLASH] }) with
            content_type := some .inode_directory }) := by
    unfold root_info g_vfs_backend_get_icon g_vfs_backend_get_display_name
    cases afp_backend.parent_instance.display_name <;>
      cases afp_backend.parent_instance.icon_name <;> rfl
  rw [hinfo]
  cases g_file_attribute_matcher_matches matcher G_FILE_ATTRIBUTE_TIME_CREATED <;>
    cases g_file_attribute_matcher_matches matcher G_FILE_ATTRIBUTE_TIME_MODIFIED <;> rfl

theorem requested_vol_bitmap_eq_zero (matcher : GFileAttributeMatcher) :
    requested_vol_bitmap matcher = 0 ↔
      wants_created matcher = false ∧ wants_modified matcher = false := by
  unfold requested_vol_bitmap
  cases wants_created matcher <;> cases wants_modified matcher <;> decide

/-- C23: for a query-info on a path that denotes the root: if neither the creation
time nor the modification time is requested, the job succeeds with a directory-typed
result and no command is sent; otherwise exactly one get-volume-parameters command is
sent (the job is left running) whose bitmap contains the create-date bit iff the
creation time was requested, the mod-date bit iff the modification time was
requested, and no other bit. -/
theorem query_info_root_volume_command (afp_backend : GVfsBackendAfp)
    (conn : GVfsAfpConnection) (job : GVfsJobQueryInfo) (f : List Nat) (flags : Nat)
    (matcher : GFileAttributeMatcher) (hroot : ∀ c ∈ f, c = SLASH) :
    (wants_created matcher = false ∧ wants_modified matcher = false →
      try_query_info afp_backend conn job f flags matcher =
        { conn := conn,
          job := { file_info := root_info afp_backend job.file_info,
                   base := g_vfs_job_succeeded job.base } }) ∧
    (wants_created matcher = true ∨ wants_modified matcher = true →
      try_query_info afp_backend conn job f flags matcher =
        { conn := { sent := conn.sent ++
                      [get_vol_parms_command afp_backend (requested_vol_bitmap matcher)],
                    pending := conn.pending ++ [.get_vol_parms_cb] },
          job := { job with file_info := root_info afp_backend job.file_info } }) ∧
    (root_info afp_backend job.file_info).file_type = some .G_FILE_TYPE_DIRECTORY ∧
    has_bit (requested_vol_bitmap matcher) AFP_VOLUME_BITMAP_CREATE_DATE_BIT =
      wants_created matcher ∧
    has_bit (requested_vol_bitmap matcher) AFP_VOLUME_BITMAP_MOD_DATE_BIT =
      wants_modified matcher ∧
    requested_vol_bitmap matcher &&&
        (AFP_VOLUME_BITMAP_CREATE_DATE_BIT ||| AFP_VOLUME_BITMAP_MOD_DATE_BIT) =
      requested_vol_bitmap matcher := by
  have hr : is_root f = true := (is_root_iff f).2 hroot
  have h := try_query_info_root afp_backend conn job f flags matcher hr
  refine ⟨?_, ?_, rfl, ?_, ?_, ?_⟩
  · intro hn
    rw [h, if_neg (by simp [(requested_vol_bitmap_eq_zero matcher).2 hn])]
  · intro hw
    rw [h, if_pos]
    intro h0
    have := (requested_vol_bitmap_eq_zero matcher).1 h0
    rcases hw with hw | hw
    · rw [this.1] at hw
      exact absurd hw (by decide)
    · rw [this.2] at hw
      exact absurd hw (by decide)
  · unfold requested_vol_bitmap
    cases wants_created matcher <;> cases wants_modified matcher <;> decide
  · unfold requested_vol_bitmap
    cases wants_created matcher <;> cases wants_modified matcher <;> decide
  · unfold requested_vol_bitmap
    cases wants_created matcher <;> cases wants_modified matcher <;> decide

theorem query_info_root_volume_command_witness :
    try_query_info example_backend {} example_query_info_job [47] 0 [] =
      { conn := {},
        job := { file_info := { file_type := some .G_FILE_TYPE_DIRECTORY, name := some [47],
                                content_type := some .inode_directory },
                 base := { type := .G_VFS_TYPE_JOB_QUERY_INFO, status := .succeeded } } } ∧
    (try_query_info example_backend {} example_query_info_job [47] 0
        [G_FILE_ATTRIBUTE_TIME_MODIFIED]).conn.sent =
      [get_vol_parms_command example_backend AFP_VOLUME_BITMAP_MOD_DATE_BIT] := by
  have h1 := (query_info_root_volume_command example_backend {} example_query_info_job [47] 0
    [] (by decide)).1 (by decide)
  have h2 := (query_info_root_volume_command example_backend {} example_query_info_job [47] 0
    [G_FILE_ATTRIBUTE_TIME_MODIFIED] (by decide)).2.1 (Or.inr (by decide))
  refine ⟨?_, ?_⟩
  · rw [h1]
    decide
  · rw [h2]
    decide

/-- C22, the code at the failing input: after a mount with server time 1000 and
local time 1005 (`time_diff` 5), a query-info on the root that asks for both times,
answered with create date 100 and mod date 200, succeeds with creation time 205 and
no modification time: the mod-date block stores under the creation-time attribute.
A reply that carries the create date alone gives the creation time 105. -/
theorem root_query_info_mod_date_as_created :
    (do_mount example_mount_environment example_backend).map
        (fun m => (m.outcome, m.afp_backend.time_diff)) = some (.succeeded, 5) ∧
    ((do_mount example_mount_environment example_backend).bind fun m =>
      (query_info_session m.afp_backend example_query_info_job [47] 0
        [G_FILE_ATTRIBUTE_TIME_CREATED, G_FILE_ATTRIBUTE_TIME_MODIFIED]
        [.ok example_vol_parms_reply]).map fun s =>
          (s.job.base.status, s.job.file_info.time_created, s.job.file_info.time_modified)) =
      some (.succeeded, some 205, none) ∧
    ((do_mount example_mount_environment example_backend).bind fun m =>
      (query_info_session m.afp_backend example_query_info_job [47] 0
        [G_FILE_ATTRIBUTE_TIME_CREATED]
        [.ok (delivered_reply AFP_RESULT_NO_ERROR [0, 4, 0, 0, 0, 100])]).map fun s =>
          (s.job.base.status, s.job.file_info.time_created, s.job.file_info.time_modified)) =
      some (.succeeded, some 105, none) := by
  decide

/-- C25, as amended: when the negotiated protocol version is older than AFP 3.1,
enumerate fails the job at once and sends no command; the error is of the generic
failed kind and its message says that enumeration is not supported for that
version. -/
theorem try_enumerate_old_version (afp_backend : GVfsBackendAfp) (conn : GVfsAfpConnection)
    (job : GVfsJobEnumerate) (replies : List TransportResult)
    (hversion : afp_backend.server.version < AFP_VERSION_3_1) :
    try_enumerate afp_backend conn job =
      { conn := conn,
        job := { job with base := failed_with job.base enumeration_unsupported_error } } ∧
    enumerate_session afp_backend job replies =
      some { conn := { sent := [], pending := [] },
             job := { job with base := failed_with job.base enumeration_unsupported_error } } := by
  have h : ∀ c, try_enumerate afp_backend c job =
      { conn := c,
        job := { job with base := failed_with job.base enumeration_unsupported_error } } := by
    intro c
    unfold try_enumerate
    rw [if_neg (by omega)]
    rfl
  refine ⟨h conn, ?_⟩
  unfold enumerate_session
  rw [h]
  induction replies with
  | nil => rfl
  | cons r rs ih =>
    rw [List.foldlM_cons]
    exact ih

theorem try_enumerate_old_version_witness :
    try_enumerate { example_backend with server := { version := AFP_VERSION_3_0 } } {}
        example_enumerate_request =
      { conn := {},
        job := { example_enumerate_request with
                   base := { type := .G_VFS_TYPE_JOB_ENUMERATE,
                             status := .failed enumeration_unsupported_error } } } :=
  (try_enumerate_old_version { example_backend with server := { version := AFP_VERSION_3_0 } }
    {} example_enumerate_request [] (by decide)).1

/-- C25, counterexample: with the protocol version AFP 3.0 the enumerate job fails
with an error whose code is `G_IO_ERROR_FAILED`, not `G_IO_ERROR_NOT_SUPPORTED`. -/
theorem try_enumerate_old_version_failed_kind :
    (try_enumerate { example_backend with server := { version := AFP_VERSION_3_0 } } {}
        example_enumerate_request).job.base.status =
      .failed { domain := G_IO_ERROR, code := G_IO_ERROR_FAILED,
                message := "Enumeration not supported for AFP_VERSION_3_0 yet" } ∧
    G_IO_ERROR_FAILED ≠ G_IO_ERROR_NOT_SUPPORTED ∧
    (try_enumerate { example_backend with server := { version := AFP_VERSION_3_0 } } {}
        example_enumerate_request).conn.sent = [] := by
  decide

/-- C26, the code at the failing input: when the get-server-parameters reply carries
a non-success result code (-5019) after a login, a send and a read that succeeded,
`do_mount` jumps to the label `error` with `err` still `NULL`: the job is failed
from no error at all. No later step is executed and the volume id is not recorded.
For comparison: a failed login fails the job with the error of the login and
executes no other step; a non-success result code in the open-volume reply fails the
job with the message that names the volume and the server, without recording the
volume id; a mount that succeeds records the volume id 9. -/
theorem do_mount_server_parms_result_code :
    do_mount { example_mount_environment with
                 read_srvr_parms := .ok (delivered_reply (-5019) []) } example_backend =
      some { afp_backend := { example_backend with server := example_mount_environment.server },
             outcome := .failed_from_error none,
             steps := [.g_vfs_afp_server_login,
                       .g_vfs_afp_connection_send_command_sync get_srvr_parms_command,
                       .g_vfs_afp_connection_read_reply_sync] } ∧
    do_mount { example_mount_environment with server_login := .error example_error }
        example_backend =
      some { afp_backend := { example_backend with server := example_mount_environment.server },
             outcome := .failed_from_error (some example_error),
             steps := [.g_vfs_afp_server_login] } ∧
    (do_mount { example_mount_environment with
                  read_open_vol := .ok (delivered_reply (-5019) [0, 32, 0, 9]) }
        example_backend).map (fun m => (m.outcome, m.afp_backend.volume_id, m.steps.length)) =
      some (.failed { domain := G_IO_ERROR, code := G_IO_ERROR_FAILED,
                      message := "Couldn't mount AFP volume v on s" },
            example_backend.volume_id, 5) ∧
    (do_mount example_mount_environment example_backend).map
        (fun m => (m.outcome, m.afp_backend.volume_id, m.steps)) =
      some (.succeeded, 9,
            [.g_vfs_afp_server_login,
             .g_vfs_afp_connection_send_command_sync get_srvr_parms_command,
             .g_vfs_afp_connection_read_reply_sync,
             .g_vfs_afp_connection_send_command_sync (open_vol_command example_backend.volume),
             .g_vfs_afp_connection_read_reply_sync]) := by
  decide

theorem got_request_idle (cls : GVfsChannelClass) (channel : GVfsChannel)
    (request : GVfsDaemonSocketProtocolRequest) (data : List Nat)
    (h : channel.current_job = none) :
    got_request cls channel request data =
      if request.command ≠ G_VFS_DAEMON_SOCKET_PROTOCOL_REQUEST_CANCEL then
        match handler_answer cls channel request data with
        | .ok job =>
          { channel with current_job := some job, current_job_seq_nr := request.seq_nr,
                         trace := channel.trace ++
                           [handler_call request data, .job_source_new_job job] }
        | .error error =>
          g_vfs_channel_send_error cls (channel_log channel (handler_call request data)) error
      else channel := by
  obtain ⟨c1, c2, c3, c4, c5, c6, c7, c8, c9, c10, c11⟩ := channel
  simp only at h
  subst h
  unfold got_request handler_answer handler_call channel_log
  simp only
  split
  · split <;> rename_i heq <;> simp only [heq, List.append_assoc, List.singleton_append]
  · rfl

/-- C27: when no job is outstanding, `got_request` ignores a cancel request (the
channel is left exactly as it was: the handler is not invoked and nothing is sent),
and hands every other request to the operation handler exactly once; if the handler
returns a job, that job becomes the outstanding job with the request's sequence
number and is announced; if it returns an error, that error is sent back (the
whole error reply is offered to the reply stream) and no job becomes outstanding. -/
theorem got_request_without_job (cls : GVfsChannelClass) (channel : GVfsChannel)
    (request : GVfsDaemonSocketProtocolRequest) (data : List Nat)
    (h : channel.current_job = none) :
    (request.command = G_VFS_DAEMON_SOCKET_PROTOCOL_REQUEST_CANCEL →
      got_request cls channel request data = channel) ∧
    (request.command ≠ G_VFS_DAEMON_SOCKET_PROTOCOL_REQUEST_CANCEL →
      (∀ job, handler_answer cls channel request data = .ok job →
        got_request cls channel request data =
          { channel with current_job := some job, current_job_seq_nr := request.seq_nr,
                         trace := channel.trace ++
                           [handler_call request data, .job_source_new_job job] }) ∧
      (∀ error, handler_answer cls channel request data = .error error →
        (got_request cls channel request data).current_job = none ∧
        (got_request cls channel request data).trace =
          channel.trace ++ [handler_call request data] ∧
        (got_request cls channel request data).reply_stream.pending =
          some (cls.g_error_to_daemon_reply error channel.current_job_seq_nr) ∧
        (got_request cls channel request data).reply_stream.written =
          channel.reply_stream.written)) := by
  have hg := got_request_idle cls channel request data h
  refine ⟨?_, ?_⟩
  · intro hc
    rw [hg, if_neg (by simp [hc])]
  · intro hc
    rw [if_pos hc] at hg
    refine ⟨?_, ?_⟩
    · intro job hj
      rw [hg, hj]
    · intro error he
      rw [hg, he]
      refine ⟨?_, ?_, ?_, ?_⟩
      · exact h
      · rfl
      · simp [g_vfs_channel_send_error, g_vfs_channel_send_reply, g_output_stream_write_async,
          channel_log]
      · rfl

theorem got_request_without_job_witness :
    got_request example_class g_vfs_channel_init example_accepted_request [] =
      { g_vfs_channel_init with
          current_job := some { type := .G_VFS_TYPE_JOB_READ }, current_job_seq_nr := 4,
          trace := [handler_call example_accepted_request [],
                    .job_source_new_job { type := .G_VFS_TYPE_JOB_READ }] } ∧
    got_request example_class g_vfs_channel_init
        { command := G_VFS_DAEMON_SOCKET_PROTOCOL_REQUEST_CANCEL, seq_nr := 6, arg1 := 4,
          arg2 := 0, data_len := 0 } [] = g_vfs_channel_init := by
  have h := got_request_without_job example_class g_vfs_channel_init example_accepted_request
    [] rfl
  have h' := got_request_without_job example_class g_vfs_channel_init
    { command := G_VFS_DAEMON_SOCKET_PROTOCOL_REQUEST_CANCEL, seq_nr := 6, arg1 := 4,
      arg2 := 0, data_len := 0 } [] rfl
  exact ⟨(h.2 (by decide)).1 _ rfl, h'.1 rfl⟩

/-- C28, the code at the failing input: the handler of `example_class` rejects the
request with sequence number 5 (its error reply is the list of 1, the sequence number
and the error code). On a new channel the error reply offered to the reply stream
carries the sequence number 0; after a request with sequence number 4 has been
accepted and its reply written, it carries the sequence number 4: in both cases not
the 5 of the rejected request. -/
theorem error_reply_stale_sequence_number :
    example_rejected_request.seq_nr = 5 ∧
    (got_request example_class g_vfs_channel_init example_rejected_request
        []).reply_stream.pending = some [1, 0, 13] ∧
    (channel_run example_class
        [.request example_accepted_request [],
         .send_reply (some example_reply_header) none 0,
         .write_complete 16,
         .request example_rejected_request []]).reply_stream.pending = some [1, 4, 13] ∧
    (channel_run example_class
        [.request example_accepted_request [],
         .send_reply (some example_reply_header) none 0,
         .write_complete 16]).current_job = none := by
  decide

/-- C29, as amended: when connection-closed is first detected: if no job is
outstanding and the channel holds a backend handle, a close job with sequence number
0 is synthesized, announced, and becomes the outstanding job immediately; if a job is
outstanding, no close job is created at detection (only the closed flag is set), and
one is created, with sequence number 0, when the reply of the outstanding job of the
closed channel completes, unless the finished job is itself a close-read or
close-write, in which case none is created and the backend handle is released. -/
theorem connection_closed_close_job (cls : GVfsChannelClass) (channel later : GVfsChannel)
    (hfirst : channel.connection_closed = false) :
    (channel.current_job = none → channel.backend_handle ≠ none →
      g_vfs_channel_connection_closed cls channel =
        { channel with
            connection_closed := true,
            current_job := some (cls.close { channel with connection_closed := true }),
            current_job_seq_nr := 0,
            trace := channel.trace ++
              [.job_source_new_job (cls.close { channel with connection_closed := true })] }) ∧
    (∀ job, channel.current_job = some job →
      g_vfs_channel_connection_closed cls channel =
        { channel with connection_closed := true }) ∧
    (∀ job, later.connection_closed = true → later.current_job = some job →
      (is_close_job (some job) = false →
        ∃ close_job,
          (send_reply_cb_error_out cls later).current_job = some close_job ∧
          (send_reply_cb_error_out cls later).current_job_seq_nr = 0 ∧
          (send_reply_cb_error_out cls later).trace =
            later.trace ++ [.job_emit_finished (some job), .job_source_new_job close_job,
              .print "Sent reply\n"]) ∧
      (is_close_job (some job) = true →
        (send_reply_cb_error_out cls later).current_job = none ∧
        (send_reply_cb_error_out cls later).backend_handle = none ∧
        (send_reply_cb_error_out cls later).trace =
          later.trace ++ [.job_emit_finished (some job), .job_source_closed,
            .print "Sent reply\n"])) := by
  refine ⟨?_, ?_, ?_⟩
  · obtain ⟨c1, c2, c3, c4, c5, c6, c7, c8, c9, c10, c11⟩ := channel
    simp only at hfirst
    subst hfirst
    intro hjob hhandle
    simp only at hjob hhandle
    subst hjob
    unfold g_vfs_channel_connection_closed channel_log
    simp [hhandle]
  · obtain ⟨c1, c2, c3, c4, c5, c6, c7, c8, c9, c10, c11⟩ := channel
    simp only at hfirst
    subst hfirst
    intro job hjob
    simp only at hjob
    subst hjob
    unfold g_vfs_channel_connection_closed
    simp
  · obtain ⟨c1, c2, c3, c4, c5, c6, c7, c8, c9, c10, c11⟩ := later
    intro job hclosed hjob
    simp only at hclosed hjob
    subst hclosed hjob
    refine ⟨?_, ?_⟩
    · intro hclose
      unfold send_reply_cb_error_out channel_log
      simp [hclose]
    · intro hclose
      unfold send_reply_cb_error_out channel_log
      simp [hclose]

theorem connection_closed_close_job_witness :
    g_vfs_channel_connection_closed example_class
        { g_vfs_channel_init with backend_handle := some 1 } =
      { g_vfs_channel_init with
          backend_handle := some 1, connection_closed := true,
          current_job := some { type := .G_VFS_TYPE_JOB_CLOSE_READ }, current_job_seq_nr := 0,
          trace := [.job_source_new_job { type := .G_VFS_TYPE_JOB_CLOSE_READ }] } ∧
    g_vfs_channel_connection_closed example_class example_channel =
      { example_channel with connection_closed := true } :=
  ⟨(connection_closed_close_job example_class
      { g_vfs_channel_init with backend_handle := some 1 } g_vfs_channel_init rfl).1 rfl
      (by decide),
   (connection_closed_close_job example_class example_channel g_vfs_channel_init rfl).2.1
      _ rfl⟩

/-- C29, counterexample: on a channel without an outstanding job and without a
backend handle, the detection of the closed connection synthesizes no close job: only
the closed flag is set, nothing is announced and no job is outstanding. -/
theorem connection_closed_without_handle_no_job :
    g_vfs_channel_init.current_job = none ∧
    g_vfs_channel_init.connection_closed = false ∧
    g_vfs_channel_connection_closed example_class g_vfs_channel_init =
      { g_vfs_channel_init with connection_closed := true } ∧
    (g_vfs_channel_connection_closed example_class g_vfs_channel_init).current_job = none ∧
    (g_vfs_channel_connection_closed example_class g_vfs_channel_init).trace = [] := by
  decide

/-- C30: connection-closed handling is idempotent: for every channel state, applying
`g_vfs_channel_connection_closed` twice yields the same state, and with it the same
record of synthesized jobs, as applying it once; a channel already marked closed is
left unchanged and synthesizes no job. -/
theorem connection_closed_idempotent (cls : GVfsChannelClass) (channel : GVfsChannel) :
    g_vfs_channel_connection_closed cls (g_vfs_channel_connection_closed cls channel) =
      g_vfs_channel_connection_closed cls channel ∧
    (g_vfs_channel_connection_closed cls channel).connection_closed = true ∧
    (channel.connection_closed = true →
      g_vfs_channel_connection_closed cls channel = channel) := by
  have hclosed : ∀ ch : GVfsChannel, ch.connection_closed = true →
      g_vfs_channel_connection_closed cls ch = ch := by
    intro ch h
    unfold g_vfs_channel_connection_closed
    rw [if_pos h]
  have hflag : (g_vfs_channel_connection_closed cls channel).connection_closed = true := by
    unfold g_vfs_channel_connection_closed channel_log
    by_cases h : channel.connection_closed = true
    · rw [if_pos h]
      exact h
    · rw [if_neg h]
      simp only
      split <;> rfl
  exact ⟨hclosed _ hflag, hflag, hclosed channel⟩

theorem without_leading_slashes_eq (f : List Nat) :
    f.dropWhile (fun c => c == SLASH) = without_leading_slashes f := by
  induction f with
  | nil => rfl
  | cons c rest ih =>
    by_cases h : c = SLASH
    · rw [List.dropWhile_cons]
      simp only [without_leading_slashes, h, beq_self_eq_true, if_true]
      exact ih
    · rw [List.dropWhile_cons]
      simp [without_leading_slashes, h]

/-- C32: for every filename `f`, with `f'` being `f` without its leading `'/'`
characters, `put_pathname` appends to the command the UTF-8-name path-type byte
and then a name whose length is the length of `f'` and whose byte `i` is 0 where
`f'[i]` is `'/'` and `f'[i]` otherwise; the name contains no `'/'` byte, and it is
empty exactly when `f` denotes the root. -/
theorem put_pathname_name (comm : GVfsAfpCommand) (f : List Nat) :
    ∃ name : List Nat,
      put_pathname comm f =
        { comm with fields := comm.fields ++
            [.byte AFP_PATH_TYPE_UTF8_NAME, .afp_name (g_vfs_afp_name_new 0x08000103 name)] } ∧
      name.length = (without_leading_slashes f).length ∧
      (∀ i : Nat, name[i]? =
        ((without_leading_slashes f)[i]?).map (fun c => if c = SLASH then 0 else c)) ∧
      SLASH ∉ name ∧
      (name = [] ↔ is_root f = true) := by
  refine ⟨(without_leading_slashes f).map (fun c => if c = SLASH then 0 else c), ?_, ?_, ?_,
    ?_, ?_⟩
  · simp [put_pathname, filename_to_afp_pathname, g_vfs_afp_command_put_byte,
      g_vfs_afp_command_put_afp_name, g_vfs_afp_command_put, without_leading_slashes_eq]
  · simp
  · intro i
    simp
  · intro h
    rw [List.mem_map] at h
    obtain ⟨c, _, hc⟩ := h
    by_cases hs : c = SLASH
    · rw [if_pos hs] at hc
      exact absurd hc (by decide)
    · rw [if_neg hs] at hc
      exact hs hc
  · unfold is_root
    rw [without_leading_slashes_eq]
    simp [List.isEmpty_iff]

theorem records_by_struct_length_pos (afp_backend : GVfsBackendAfp)
    (file_bitmap dir_bitmap : Nat) (reply : GVfsAfpReply) (q : Nat) (n : Nat) :
    ∀ start, records_by_struct_length afp_backend file_bitmap dir_bitmap
        { reply with pos := q } n start =
      records_by_struct_length afp_backend file_bitmap dir_bitmap reply n start := by
  induction n with
  | zero => intro start; rfl
  | succ n ih =>
    intro start
    simp only [records_by_struct_length]
    rw [ih]
    rfl

theorem records_within_pos (reply : GVfsAfpReply) (q : Nat) (n : Nat) :
    ∀ start, records_within { reply with pos := q } n start = records_within reply n start := by
  induction n with
  | zero => intro start; rfl
  | succ n ih =>
    intro start
    simp only [records_within]
    rw [ih]
    rfl

theorem enumerate_records_by_struct_length (afp_backend : GVfsBackendAfp)
    (file_bitmap dir_bitmap : Nat) (n : Nat) :
    ∀ reply : GVfsAfpReply, records_within reply n reply.pos = true →
      (enumerate_ext2_cb_records afp_backend file_bitmap dir_bitmap n reply).map
          (fun out => out.1) =
        records_by_struct_length afp_backend file_bitmap dir_bitmap reply n reply.pos := by
  induction n with
  | zero => intro reply _; rfl
  | succ n ih =>
    intro reply h
    simp only [records_within, Bool.and_eq_true, decide_eq_true_eq] at h
    obtain ⟨⟨h4, hl⟩, hrest⟩ := h
    have h1 : g_vfs_afp_reply_read_uint16 reply =
        some (record_struct_length reply reply.pos, { reply with pos := reply.pos + 2 }) :=
      read_map_of_le be_value reply 2 (by omega)
    have h2 : g_vfs_afp_reply_read_byte { reply with pos := reply.pos + 2 } =
        some (record_FileDir reply reply.pos, { reply with pos := reply.pos + 2 + 1 }) :=
      read_map_of_le be_value { reply with pos := reply.pos + 2 } 1
        (by show reply.pos + 2 + 1 ≤ reply.data.length; omega)
    have h3 : g_vfs_afp_reply_read_byte { reply with pos := reply.pos + 2 + 1 } =
        some (be_value (bytes_at reply (reply.pos + 2 + 1) 1),
          { reply with pos := reply.pos + 4 }) :=
      read_map_of_le be_value { reply with pos := reply.pos + 2 + 1 } 1
        (by show reply.pos + 2 + 1 + 1 ≤ reply.data.length; omega)
    simp only [enumerate_ext2_cb_records, records_by_struct_length, h1, h2, h3,
      Option.some_bind, Option.map_some', Option.getD_some, g_vfs_afp_reply_get_pos]
    cases hf : fill_info afp_backend g_file_info_new { reply with pos := reply.pos + 4 }
        (record_FileDir reply reply.pos &&& 0x80 != 0)
        (if (record_FileDir reply reply.pos &&& 0x80 != 0) = true then dir_bitmap
          else file_bitmap) with
    | none => simp
    | some r =>
      obtain ⟨info, reply'⟩ := r
      have hr := ((fill_info_iff afp_backend _ _ _ _ _ _).mp hf).2.1
      have hseek : g_vfs_afp_reply_seek reply'
          ((reply.pos : Int) + (record_struct_length reply reply.pos : Int)) .G_SEEK_SET =
          some { reply with pos := reply.pos + record_struct_length reply reply.pos } := by
        have := seek_set_of_le reply' (reply.pos + record_struct_length reply reply.pos)
          (by rw [hr]; exact hl)
        rw [hr] at this ⊢
        simpa using this
      have hi := ih { reply with pos := reply.pos + record_struct_length reply reply.pos }
        (by rw [records_within_pos]; exact hrest)
      rw [records_by_struct_length_pos] at hi
      simp only [Option.some_bind, hseek, Option.getD_some, Option.map_map]
      rw [← hi, Option.map_map]
      rfl

/-- C34: in an enumeration page whose `count` records lie within the reply, record
`i + 1` is decoded starting at the start position of record `i` plus the struct
length record `i` announces, for every bitmap and whatever number of bytes the
decoding of record `i` consumed, and each record is decoded with the directory
bitmap of the reply if the high bit (0x80) of its file/directory byte is set and
with the file bitmap otherwise: the infos of the page are those of
`records_by_struct_length`. -/
theorem enumerate_page_records_by_struct_length (afp_backend : GVfsBackendAfp)
    (reply : GVfsAfpReply) (h6 : reply.pos + 6 ≤ reply.data.length)
    (h : records_within reply
      (to_gint16 (be_value (bytes_at reply (reply.pos + 4) 2))).toNat (reply.pos + 6) = true) :
    enumerate_ext2_cb_page afp_backend reply =
      (records_by_struct_length afp_backend (be_value (bytes_at reply reply.pos 2))
        (be_value (bytes_at reply (reply.pos + 2) 2)) reply
        (to_gint16 (be_value (bytes_at reply (reply.pos + 4) 2))).toNat (reply.pos + 6)).map
        fun infos => (to_gint16 (be_value (bytes_at reply (reply.pos + 4) 2)), infos) := by
  have h1 : g_vfs_afp_reply_read_uint16 reply =
      some (be_value (bytes_at reply reply.pos 2), { reply with pos := reply.pos + 2 }) :=
    read_map_of_le be_value reply 2 (by omega)
  have h2 : g_vfs_afp_reply_read_uint16 { reply with pos := reply.pos + 2 } =
      some (be_value (bytes_at reply (reply.pos + 2) 2),
        { reply with pos := reply.pos + 2 + 2 }) :=
    read_map_of_le be_value { reply with pos := reply.pos + 2 } 2
      (by show reply.pos + 2 + 2 ≤ reply.data.length; omega)
  have h3 : g_vfs_afp_reply_read_int16 { reply with pos := reply.pos + 2 + 2 } =
      some (to_gint16 (be_value (bytes_at reply (reply.pos + 4) 2)),
        { reply with pos := reply.pos + 6 }) :=
    read_map_of_le (fun d => to_gint16 (be_value d)) { reply with pos := reply.pos + 2 + 2 } 2
      (by show reply.pos + 2 + 2 + 2 ≤ reply.data.length; omega)
  have hi := enumerate_records_by_struct_length afp_backend
    (be_value (bytes_at reply reply.pos 2)) (be_value (bytes_at reply (reply.pos + 2) 2))
    (to_gint16 (be_value (bytes_at reply (reply.pos + 4) 2))).toNat
    { reply with pos := reply.pos + 6 } (by rw [records_within_pos]; exact h)
  rw [records_by_struct_length_pos] at hi
  simp only [enumerate_ext2_cb_page, h1, h2, h3, Option.some_bind]
  rw [← hi, Option.map_map]
  rfl

theorem enumerate_page_records_by_struct_length_witness :
    enumerate_ext2_cb_page example_backend example_page =
      some (2, [fill_info_type g_file_info_new false, fill_info_type g_file_info_new true]) := by
  rw [enumerate_page_records_by_struct_length example_backend example_page (by decide)
    (by decide)]
  decide

/-- C35 fails on the code: after a page reply with result code NoError and count 0
the next page command carries the start index of the page just answered (1 after
the first page), and after a count of -1 a smaller one (0); the enumeration goes
on in both cases. -/
theorem enumerate_start_index_without_progress :
    (enumerate_session example_backend example_enumerate_request
        [.ok example_empty_page]).map (fun s => (s.conn.sent, s.job.start_index, s.job.base)) =
      some ([enumerate_ext2_command example_backend [47, 97] [] 1,
             enumerate_ext2_command example_backend [47, 97] [] 1], 1,
            example_enumerate_request.base) ∧
    (enumerate_session example_backend example_enumerate_request
        [.ok example_negative_page]).map
          (fun s => (s.conn.sent, s.job.start_index, s.job.base)) =
      some ([enumerate_ext2_command example_backend [47, 97] [] 1,
             enumerate_ext2_command example_backend [47, 97] [] 0], 0,
            example_enumerate_request.base) := by
  constructor <;> decide

/-- C37 fails on the code: for a read of two bytes `try_read` puts the request count
2 in the command, and when the reply carries three data bytes `read_ext_cb` copies
all three into the buffer of two bytes and reports size 3. -/
theorem read_reply_longer_than_requested :
    (try_read {} example_handle example_short_read_job.bytes_requested).sent =
      [{ type := .AFP_COMMAND_READ_EXT,
         fields := [.byte 0, .int16 example_handle.fork_refnum,
                    .int64 example_handle.offset, .int64 2] }] ∧
    read_ext_cb (.ok (delivered_reply AFP_RESULT_NO_ERROR [7, 8, 9])) example_short_read_job
        example_handle =
      some ({ base := { type := .G_VFS_TYPE_JOB_READ, status := .succeeded },
              buffer := [7, 8, 9], bytes_requested := 2, data_count := 3 },
            { example_handle with offset := example_handle.offset + 3 }) := by
  constructor <;> decide

/-- C38 fails on the code: on a handle at offset 10, a write of four bytes whose
reply carries the end-of-write position 5 reports the written size `2^64 - 5` and
moves the offset of the handle back to 5; with the position 100 the job reports 90
bytes written, more than the four of the request. -/
theorem write_reply_position_out_of_range :
    (try_write {} example_handle [1, 2, 3, 4] example_write_job.data_size).sent =
      [{ type := .AFP_COMMAND_WRITE_EXT,
         fields := [.byte 0, .int16 example_handle.fork_refnum,
                    .int64 example_handle.offset, .int64 4, .data [1, 2, 3, 4]] }] ∧
    example_handle.offset = 10 ∧
    write_ext_cb (.ok (delivered_reply AFP_RESULT_NO_ERROR [0, 0, 0, 0, 0, 0, 0, 5]))
        example_write_job example_handle =
      some ({ base := { type := .G_VFS_TYPE_JOB_WRITE, status := .succeeded },
              data_size := 4, written_size := 18446744073709551611 },
            { example_handle with offset := 5 }) ∧
    write_ext_cb (.ok (delivered_reply AFP_RESULT_NO_ERROR [0, 0, 0, 0, 0, 0, 0, 100]))
        example_write_job example_handle =
      some ({ base := { type := .G_VFS_TYPE_JOB_WRITE, status := .succeeded },
              data_size := 4, written_size := 90 },
            { example_handle with offset := 100 }) := by
  refine ⟨?_, ?_, ?_, ?_⟩ <;> decide

theorem read_ext_cb_failure (reply : TransportResult) (job : GVfsJobRead)
    (afp_handle : AfpHandle) (h : read_fails reply = true) :
    ∃ base, job_failed base = true ∧
      read_ext_cb reply job afp_handle = some ({ job with base := base }, afp_handle) := by
  cases reply with
  | error error => exact ⟨_, by rfl, rfl⟩
  | ok reply =>
    simp only [read_fails, Bool.not_eq_true', Bool.or_eq_false_iff, decide_eq_false_iff_not]
      at h
    have hc : ¬ (g_vfs_afp_reply_get_result_code reply = AFP_RESULT_NO_ERROR ∨
        g_vfs_afp_reply_get_result_code reply = AFP_RESULT_EOF_ERR ∨
        g_vfs_afp_reply_get_result_code reply = AFP_RESULT_LOCK_ERR) := by
      unfold g_vfs_afp_reply_get_result_code
      tauto
    unfold read_ext_cb
    simp only
    rw [if_pos hc]
    split
    · exact ⟨_, by rfl, rfl⟩
    · exact ⟨_, by rfl, rfl⟩

theorem read_ext_cb_success (reply : TransportResult) (job : GVfsJobRead)
    (afp_handle : AfpHandle) (h : read_fails reply = false)
    (out : GVfsJobRead × AfpHandle) (ho : read_ext_cb reply job afp_handle = some out) :
    job_failed out.1.base = false := by
  cases reply with
  | error error => exact absurd h (by simp [read_fails])
  | ok reply =>
    simp only [read_fails, Bool.not_eq_false', Bool.or_eq_true, decide_eq_true_eq] at h
    have hc : ¬ ¬ (g_vfs_afp_reply_get_result_code reply = AFP_RESULT_NO_ERROR ∨
        g_vfs_afp_reply_get_result_code reply = AFP_RESULT_EOF_ERR ∨
        g_vfs_afp_reply_get_result_code reply = AFP_RESULT_LOCK_ERR) := by
      unfold g_vfs_afp_reply_get_result_code
      tauto
    unfold read_ext_cb at ho
    simp only at ho
    rw [if_neg hc] at ho
    simp only [Option.bind_eq_some, Option.some.injEq] at ho
    obtain ⟨r, _, rfl⟩ := ho
    rfl

theorem write_ext_cb_failure (reply : TransportResult) (job : GVfsJobWrite)
    (afp_handle : AfpHandle) (h : write_fails reply = true) :
    ∃ base, job_failed base = true ∧
      write_ext_cb reply job afp_handle = some ({ job with base := base }, afp_handle) := by
  cases reply with
  | error error => exact ⟨_, by rfl, rfl⟩
  | ok reply =>
    simp only [write_fails, Bool.not_eq_true', Bool.or_eq_false_iff, decide_eq_false_iff_not]
      at h
    have hc : ¬ (g_vfs_afp_reply_get_result_code reply = AFP_RESULT_NO_ERROR ∨
        g_vfs_afp_reply_get_result_code reply = AFP_RESULT_LOCK_ERR) := by
      unfold g_vfs_afp_reply_get_result_code
      tauto
    unfold write_ext_cb
    simp only
    rw [if_pos hc]
    split
    · exact ⟨_, by rfl, rfl⟩
    · split
      · exact ⟨_, by rfl, rfl⟩
      · exact ⟨_, by rfl, rfl⟩

theorem write_ext_cb_success (reply : TransportResult) (job : GVfsJobWrite)
    (afp_handle : AfpHandle) (h : write_fails reply = false)
    (out : GVfsJobWrite × AfpHandle) (ho : write_ext_cb reply job afp_handle = some out) :
    job_failed out.1.base = false := by
  cases reply with
  | error error => exact absurd h (by simp [write_fails])
  | ok reply =>
    simp only [write_fails, Bool.not_eq_false', Bool.or_eq_true, decide_eq_true_eq] at h
    have hc : ¬ ¬ (g_vfs_afp_reply_get_result_code reply = AFP_RESULT_NO_ERROR ∨
        g_vfs_afp_reply_get_result_code reply = AFP_RESULT_LOCK_ERR) := by
      unfold g_vfs_afp_reply_get_result_code
      tauto
    unfold write_ext_cb at ho
    simp only at ho
    rw [if_neg hc] at ho
    simp only [Option.bind_eq_some, Option.some.injEq] at ho
    obtain ⟨r, _, rfl⟩ := ho
    rfl

/-- C36: a failed read, write or seek leaves the fork handle unchanged. Each of
`read_ext_cb`, `write_ext_cb`, `seek_on_read_cb` and `seek_on_write_cb` fails its
job when the transport delivers no reply, when the result code is outside the
accepted set, or when the fork-length query has failed, and then returns the
handle it was given (offset, fork reference and kind included); conversely,
whenever one of them has failed its job, the handle it returns is the one it was
given. -/
theorem failed_operation_keeps_handle (afp_handle : AfpHandle) :
    (∀ reply job, read_fails reply = true →
      ∃ base, job_failed base = true ∧
        read_ext_cb reply job afp_handle = some ({ job with base := base }, afp_handle)) ∧
    (∀ reply job out, read_ext_cb reply job afp_handle = some out →
      job_failed out.1.base = true → out.2 = afp_handle) ∧
    (∀ reply job, write_fails reply = true →
      ∃ base, job_failed base = true ∧
        write_ext_cb reply job afp_handle = some ({ job with base := base }, afp_handle)) ∧
    (∀ reply job out, write_ext_cb reply job afp_handle = some out →
      job_failed out.1.base = true → out.2 = afp_handle) ∧
    (∀ err job, job_failed (seek_on_read_cb (.error err) job afp_handle).1.base = true ∧
      (seek_on_read_cb (.error err) job afp_handle).2 = afp_handle) ∧
    (∀ res job, job_failed (seek_on_read_cb res job afp_handle).1.base = true →
      (seek_on_read_cb res job afp_handle).2 = afp_handle) ∧
    (∀ err job, job_failed (seek_on_write_cb (.error err) job afp_handle).1.base = true ∧
      (seek_on_write_cb (.error err) job afp_handle).2 = afp_handle) ∧
    (∀ res job, job_failed (seek_on_write_cb res job afp_handle).1.base = true →
      (seek_on_write_cb res job afp_handle).2 = afp_handle) := by
  refine ⟨?_, ?_, ?_, ?_, ?_, ?_, ?_, ?_⟩
  · intro reply job h
    exact read_ext_cb_failure reply job afp_handle h
  · intro reply job out ho hf
    cases h : read_fails reply with
    | true =>
      obtain ⟨base, _, hb⟩ := read_ext_cb_failure reply job afp_handle h
      rw [hb] at ho
      simp only [Option.some.injEq] at ho
      rw [← ho]
    | false =>
      rw [read_ext_cb_success reply job afp_handle h out ho] at hf
      exact absurd hf (by decide)
  · intro reply job h
    exact write_ext_cb_failure reply job afp_handle h
  · intro reply job out ho hf
    cases h : write_fails reply with
    | true =>
      obtain ⟨base, _, hb⟩ := write_ext_cb_failure reply job afp_handle h
      rw [hb] at ho
      simp only [Option.some.injEq] at ho
      rw [← ho]
    | false =>
      rw [write_ext_cb_success reply job afp_handle h out ho] at hf
      exact absurd hf (by decide)
  · intro err job
    exact ⟨rfl, rfl⟩
  · intro res job hf
    cases res with
    | error err => rfl
    | ok info => exact absurd hf (by simp [seek_on_read_cb, get_fork_parms_finish,
        g_vfs_job_succeeded, g_vfs_job_seek_read_set_offset, job_failed])
  · intro err job
    exact ⟨rfl, rfl⟩
  · intro res job hf
    cases res with
    | error err => rfl
    | ok info => exact absurd hf (by simp [seek_on_write_cb, get_fork_parms_finish,
        g_vfs_job_succeeded, g_vfs_job_seek_write_set_offset, job_failed])

theorem failed_operation_keeps_handle_witness :
    (∃ base, job_failed base = true ∧
      read_ext_cb (.ok (delivered_reply AFP_RESULT_ACCESS_DENIED [])) example_read_job
        example_handle = some ({ example_read_job with base := base }, example_handle)) ∧
    (∃ base, job_failed base = true ∧
      write_ext_cb (.error example_error) example_write_job example_handle =
        some ({ example_write_job with base := base }, example_handle)) ∧
    (seek_on_read_cb (.error example_error)
      { base := { type := .G_VFS_TYPE_JOB_SEEK_READ }, seek_type := .G_SEEK_END,
        requested_offset := 20 } example_handle).2 = example_handle :=
  ⟨(failed_operation_keeps_handle example_handle).1
      (.ok (delivered_reply AFP_RESULT_ACCESS_DENIED [])) example_read_job (by decide),
   (failed_operation_keeps_handle example_handle).2.2.1 (.error example_error)
      example_write_job (by decide),
   (failed_operation_keeps_handle example_handle).2.2.2.2.2.1 (.error example_error)
      { base := { type := .G_VFS_TYPE_JOB_SEEK_READ }, seek_type := .G_SEEK_END,
        requested_offset := 20 } (by decide)⟩

/-- C31 fails on the code: while the immediate error reply of a rejected request is
being written the channel holds its backend handle and has no job; when that write
fails, `send_reply_cb` marks the connection closed, which synthesizes a close job,
and at `error_out` takes this new job for the one whose reply has been sent: it is
reported finished and the backend handle is emptied, although no reply of a close
job has been written (the stream has accepted no byte at all). -/
theorem backend_handle_cleared_without_close_reply :
    (channel_run example_class (example_failed_error_reply.take 2)).backend_handle =
      some 1 ∧
    (channel_run example_class (example_failed_error_reply.take 2)).current_job = none ∧
    (channel_run example_class (example_failed_error_reply.take 2)).reply_stream.pending =
      some [1, 0, 13] ∧
    (channel_run example_class example_failed_error_reply).backend_handle = none ∧
    (channel_run example_class example_failed_error_reply).reply_stream.written = [] ∧
    (channel_run example_class example_failed_error_reply).trace =
      [.handle_request 1 5 0 0 [],
       .job_source_new_job { type := .G_VFS_TYPE_JOB_CLOSE_READ },
       .job_emit_finished (some { type := .G_VFS_TYPE_JOB_CLOSE_READ }),
       .job_source_closed,
       .print "Sent reply\n"] := by
  decide

theorem dispatched_read_async (trace : List ReaderEffect) (read : ReadAsync) :
    dispatched (trace ++ [ReaderEffect.read_async read]) = dispatched trace := by
  simp [dispatched, List.filterMap_append]

theorem dispatched_got_request (trace : List ReaderEffect)
    (request : GVfsDaemonSocketProtocolRequest) (data : List Nat) :
    dispatched (trace ++ [ReaderEffect.got_request request data]) =
      dispatched trace ++ [(request, data)] := by
  simp [dispatched, List.filterMap_append]

theorem store_length (buffer bytes : List Nat) (offset : Nat)
    (h : offset + bytes.length ≤ buffer.length) :
    (store buffer offset bytes).length = buffer.length := by
  unfold store
  simp only [List.length_append, List.length_take, List.length_drop]
  omega

theorem store_take (buffer source : List Nat) (k c : Nat)
    (hb : k + c ≤ buffer.length) (hs : k + c ≤ source.length)
    (h : buffer.take k = source.take k) :
    (store buffer k ((source.drop k).take c)).take (k + c) = source.take (k + c) := by
  unfold store
  have hl : ((source.drop k).take c).length = c := by
    simp only [List.length_take, List.length_drop]; omega
  have hk : (buffer.take k).length = k := by
    simp only [List.length_take]; omega
  rw [h, List.take_append_of_le_length (by
    simp only [List.length_append, List.length_take, List.length_drop]; omega)]
  rw [List.take_of_length_le (by
    simp only [List.length_append, List.length_take, List.length_drop]; omega)]
  exact (List.take_add source k c).symm

theorem start_request_reader_header (channel : GVfsChannel) (header : List Nat) :
    ReadingHeader channel header 0 (start_request_reader channel) := by
  refine ⟨rfl, ?_, rfl, {}, rfl, rfl, ?_, rfl, rfl⟩
  · simp [start_request_reader, g_input_stream_read_async, to_gsize, to_guint64,
      G_VFS_DAEMON_SOCKET_PROTOCOL_REQUEST_SIZE]
  · simp [G_VFS_DAEMON_SOCKET_PROTOCOL_REQUEST_SIZE]

theorem incoming_header (header payload : List Nat) (k c : Nat)
    (h : k + c ≤ header.length) :
    ((header ++ payload).drop k).take c = (header.drop k).take c := by
  rw [List.drop_append_of_le_length (by omega),
    List.take_append_of_le_length (by simp only [List.length_drop]; omega)]

theorem incoming_payload (header payload : List Nat) (j : Nat) :
    (header ++ payload).drop (header.length + j) = payload.drop j := by
  rw [List.drop_append]

theorem command_stream_complete_header (cls : GVfsChannelClass)
    (env : RequestReaderEnvironment) (s : ReadSide) (reader : RequestReader) (k c : Nat)
    (bytes : List Nat) (hl : bytes.length = c)
    (hp : s.pending = some { callback := .command_read_cb, offset := k, count := 20 - k })
    (hr : s.request_reader = some reader) :
    command_stream_complete cls env s bytes (c : Int) =
      command_read_cb cls env { s with pending := none }
        { reader with buffer := store reader.buffer k bytes } (c : Int) := by
  unfold command_stream_complete
  rw [hp, hr]
  simp only [Int.toNat_ofNat]
  rw [List.take_of_length_le (by omega)]

theorem command_stream_complete_payload (cls : GVfsChannelClass)
    (env : RequestReaderEnvironment) (s : ReadSide) (reader : RequestReader) (j c n : Nat)
    (bytes : List Nat) (hl : bytes.length = c)
    (hp : s.pending = some { callback := .data_read_cb, offset := j, count := n })
    (hr : s.request_reader = some reader) :
    command_stream_complete cls env s bytes (c : Int) =
      data_read_cb cls env { s with pending := none }
        { reader with data := reader.data.map (fun data => store data j bytes) } (c : Int) := by
  unfold command_stream_complete
  rw [hp, hr]
  simp only [Int.toNat_ofNat]
  rw [List.take_of_length_le (by omega)]

theorem header_read_step (cls : GVfsChannelClass) (env : RequestReaderEnvironment)
    (channel : GVfsChannel) (header payload : List Nat) (k c : Nat) (s : ReadSide)
    (hh : header.length = 20) (hn : (env.request header).data_len = payload.length)
    (hm : ∀ n, (env.g_malloc n).length = n)
    (hs : ReadingHeader channel header k s) (hc : 0 < c) (hkc : k + c ≤ 20) :
    (k + c < 20 → ReadingHeader channel header (k + c)
      (command_stream_complete cls env s (((header ++ payload).drop k).take c) (c : Int))) ∧
    (k + c = 20 → 0 < payload.length → ReadingPayload channel header payload 0
      (command_stream_complete cls env s (((header ++ payload).drop k).take c) (c : Int))) ∧
    (k + c = 20 → payload.length = 0 → RequestDispatched cls env channel header payload
      (command_stream_complete cls env s (((header ++ payload).drop k).take c) (c : Int))) := by
  obtain ⟨hch, hpend, hdisp, reader, hr, hbs, hbl, hbt, hd⟩ := hs
  rw [incoming_header header payload k c (by omega)]
  have hl : ((header.drop k).take c).length = c := by
    simp only [List.length_take, List.length_drop]; omega
  rw [command_stream_complete_header cls env s reader k c _ hl hpend hr]
  have htake := store_take reader.buffer header k c (by omega) (by omega) hbt
  have hlen := store_length reader.buffer ((header.drop k).take c) k (by omega)
  have hcz : ¬ ((c : Int) ≤ 0) := by omega
  have hsize : to_gint32 (reader.buffer_size + (c : Int)) = ((k + c : Nat) : Int) := by
    rw [hbs]; unfold to_gint32; omega
  unfold command_read_cb
  simp only [hch, if_neg hcz, hsize, G_VFS_DAEMON_SOCKET_PROTOCOL_REQUEST_SIZE]
  refine ⟨?_, ?_, ?_⟩
  · intro hlt
    have hlt' : ((k + c : Nat) : Int) < ((20 : Nat) : Int) := by omega
    rw [if_pos hlt']
    refine ⟨rfl, ?_, ?_, _, rfl, rfl, ?_, htake, hd⟩
    · simp only [g_input_stream_read_async, Int.toNat_ofNat, to_gsize, to_guint64]
      congr 2
      omega
    · simp only [g_input_stream_read_async, dispatched_read_async]
      exact hdisp
    · rw [hlen]; exact hbl
  · intro heq hpos
    have hge : ¬ ((k + c : Nat) : Int) < ((20 : Nat) : Int) := by omega
    have hfull : (store reader.buffer k ((header.drop k).take c)).take 20 = header := by
      rw [← heq, htake, heq, List.take_of_length_le (by omega)]
    rw [if_neg hge]
    simp only [hfull, hn, if_pos hpos]
    refine ⟨rfl, ?_, ?_, _, _, rfl, hfull, rfl, hm _, rfl, rfl, rfl⟩
    · simp only [g_input_stream_read_async, Nat.sub_zero]
    · simp only [g_input_stream_read_async, dispatched_read_async]
      exact hdisp
  · intro heq hzero
    have hge : ¬ ((k + c : Nat) : Int) < ((20 : Nat) : Int) := by omega
    have hfull : (store reader.buffer k ((header.drop k).take c)).take 20 = header := by
      rw [← heq, htake, heq, List.take_of_length_le (by omega)]
    have hnil : payload = [] := List.length_eq_zero.mp hzero
    rw [if_neg hge]
    simp only [hfull, hn, hzero, if_neg (Nat.lt_irrefl 0)]
    unfold finish_request
    simp only [hd, Option.getD_none, List.take_nil, hfull,
      G_VFS_DAEMON_SOCKET_PROTOCOL_REQUEST_SIZE, hnil]
    refine ⟨rfl, ?_, ?_⟩
    · simp [g_input_stream_read_async, to_gsize, to_guint64]
    · simp only [g_input_stream_read_async, dispatched_read_async, dispatched_got_request]
      rw [hdisp]
      rfl

theorem payload_read_step (cls : GVfsChannelClass) (env : RequestReaderEnvironment)
    (channel : GVfsChannel) (header payload : List Nat) (j c : Nat) (s : ReadSide)
    (hp : payload.length < 4294967296)
    (hs : ReadingPayload channel header payload j s) (hc : 0 < c)
    (hjc : j + c ≤ payload.length) :
    (j + c < payload.length → ReadingPayload channel header payload (j + c)
      (command_stream_complete cls env s ((payload.drop j).take c) (c : Int))) ∧
    (j + c = payload.length → RequestDispatched cls env channel header payload
      (command_stream_complete cls env s ((payload.drop j).take c) (c : Int))) := by
  obtain ⟨hch, hpend, hdisp, reader, data, hr, hbuf, hdata, hdl, hdt, hlen, hpos⟩ := hs
  have hl : ((payload.drop j).take c).length = c := by
    simp only [List.length_take, List.length_drop]; omega
  rw [command_stream_complete_payload cls env s reader j c _ _ hl hpend hr]
  have htake := store_take data payload j c (by omega) (by omega) hdt
  have hslen := store_length data ((payload.drop j).take c) j (by omega)
  have hcz : ¬ ((c : Int) ≤ 0) := by omega
  have hsize : to_gsize ((reader.data_pos : Int) + (c : Int)) = j + c := by
    rw [hpos]; unfold to_gsize to_guint64; omega
  unfold data_read_cb
  simp only [hch, if_neg hcz, hsize, hdata, Option.map_some', hlen]
  refine ⟨?_, ?_⟩
  · intro hlt
    rw [if_pos hlt]
    refine ⟨rfl, ?_, ?_, _, _, rfl, hbuf, rfl, ?_, htake, rfl, rfl⟩
    · simp only [g_input_stream_read_async]
    · simp only [g_input_stream_read_async, dispatched_read_async]
      exact hdisp
    · rw [hslen]; exact hdl
  · intro heq
    have hge : ¬ (j + c < payload.length) := by omega
    have hfull : (store data j ((payload.drop j).take c)).take payload.length = payload := by
      rw [← heq, htake, heq, List.take_of_length_le (by omega)]
    rw [if_neg hge]
    unfold finish_request
    simp only [Option.getD_some, hlen, hfull, hbuf, G_VFS_DAEMON_SOCKET_PROTOCOL_REQUEST_SIZE]
    refine ⟨rfl, ?_, ?_⟩
    · simp [g_input_stream_read_async, to_gsize, to_guint64]
    · simp only [g_input_stream_read_async, dispatched_read_async, dispatched_got_request]
      rw [hdisp]
      rfl

theorem read_progress_step (cls : GVfsChannelClass) (env : RequestReaderEnvironment)
    (channel : GVfsChannel) (header payload : List Nat) (k c : Nat) (s : ReadSide)
    (hh : header.length = 20) (hn : (env.request header).data_len = payload.length)
    (hp : payload.length < 4294967296) (hm : ∀ n, (env.g_malloc n).length = n)
    (hs : ReadProgress cls env channel header payload k s) (hc : 0 < c)
    (hi : c ≤ ((header ++ payload).drop k).length)
    (hv : ∀ read, s.pending = some read → c ≤ read.count) :
    ReadProgress cls env channel header payload (k + c)
      (command_stream_complete cls env s (((header ++ payload).drop k).take c) (c : Int)) := by
  simp only [List.length_drop, List.length_append, hh] at hi
  rcases hs with ⟨hk, hs⟩ | ⟨hk1, hk2, hs⟩ | ⟨hk, hs⟩
  · have hkc : k + c ≤ 20 := by
      have := hv _ hs.2.1
      simp only at this
      omega
    obtain ⟨h1, h2, h3⟩ := header_read_step cls env channel header payload k c s hh hn hm hs
      hc hkc
    by_cases hlt : k + c < 20
    · exact Or.inl ⟨hlt, h1 hlt⟩
    · have heq : k + c = 20 := by omega
      by_cases hz : payload.length = 0
      · exact Or.inr (Or.inr ⟨by omega, h3 heq hz⟩)
      · refine Or.inr (Or.inl ⟨by omega, by omega, ?_⟩)
        rw [heq]
        exact h2 heq (by omega)
  · have hjc : k - 20 + c ≤ payload.length := by
      have := hv _ hs.2.1
      simp only at this
      omega
    have hinc : (header ++ payload).drop k = payload.drop (k - 20) := by
      have := incoming_payload header payload (k - 20)
      rw [hh] at this
      rw [← this]
      congr 1
      omega
    rw [hinc]
    obtain ⟨h1, h2⟩ := payload_read_step cls env channel header payload (k - 20) c s hp hs hc
      hjc
    by_cases hlt : k - 20 + c < payload.length
    · refine Or.inr (Or.inl ⟨by omega, by omega, ?_⟩)
      have hsub : k + c - 20 = k - 20 + c := by omega
      rw [hsub]
      exact h1 hlt
    · exact Or.inr (Or.inr ⟨by omega, h2 (by omega)⟩)
  · omega

theorem read_progress_run (cls : GVfsChannelClass) (env : RequestReaderEnvironment)
    (channel : GVfsChannel) (header payload : List Nat)
    (hh : header.length = 20) (hn : (env.request header).data_len = payload.length)
    (hp : payload.length < 4294967296) (hm : ∀ n, (env.g_malloc n).length = n)
    (counts : List Nat) :
    ∀ (k : Nat) (s : ReadSide), ReadProgress cls env channel header payload k s →
      valid_reads cls env s ((header ++ payload).drop k) counts = true →
      ReadProgress cls env channel header payload (k + counts.sum)
        (complete_reads cls env s ((header ++ payload).drop k) counts) := by
  induction counts with
  | nil => intro k s h _; exact h
  | cons c counts ih =>
    intro k s h hv
    simp only [valid_reads, Bool.and_eq_true, decide_eq_true_eq] at hv
    obtain ⟨⟨⟨hc, hi⟩, hpend⟩, hrest⟩ := hv
    have hstep := read_progress_step cls env channel header payload k c s hh hn hp hm h hc hi
      (by
        intro read hr
        rw [hr] at hpend
        simpa using hpend)
    have := ih (k + c) _ hstep (by rw [← List.drop_drop]; exact hrest)
    simp only [complete_reads, List.sum_cons]
    rw [← Nat.add_assoc, List.drop_drop] at *
    exact this

theorem whole_reads_valid (cls : GVfsChannelClass) (env : RequestReaderEnvironment)
    (channel : GVfsChannel) (header payload : List Nat)
    (hh : header.length = 20) (hn : (env.request header).data_len = payload.length)
    (hp : payload.length < 4294967296) (hm : ∀ n, (env.g_malloc n).length = n) :
    valid_reads cls env (start_request_reader channel) (header ++ payload)
      (whole_reads payload) = true := by
  have h0 := start_request_reader_header channel header
  have hpend := h0.2.1
  unfold whole_reads
  split
  · simp only [valid_reads, hpend, G_VFS_DAEMON_SOCKET_PROTOCOL_REQUEST_SIZE,
      List.length_append, hh]
    simp
  · rename_i hz
    have hstep := read_progress_step cls env channel header payload 0 20
      (start_request_reader channel) hh hn hp hm (Or.inl ⟨by omega, h0⟩) (by omega)
      (by simp only [List.drop_zero, List.length_append, hh]; omega)
      (by intro read hr; rw [hpend] at hr; cases hr; exact Nat.le_refl _)
    rcases hstep with ⟨hk, _⟩ | ⟨_, _, hs⟩ | ⟨hk, _⟩
    · omega
    · have hp1 := hs.2.1
      simp only [List.drop_zero, Nat.zero_add, Nat.sub_self, Nat.sub_zero] at hp1
      simp only [valid_reads, hpend, hp1, G_VFS_DAEMON_SOCKET_PROTOCOL_REQUEST_SIZE,
        List.length_append, List.length_drop, hh]
      simp
      omega
    · omega

/-- C33: for every request made of a header of the fixed size that declares the
payload length `n` and of `n` payload bytes, and for every split of these bytes
into positive-size reads, of which `counts` are the first: the reader never asks
for more than remains (after fewer than 20 bytes the read outstanding asks for the
rest of the header, from then on and while the payload is incomplete for the rest
of the payload, and nothing has been dispatched); once all the bytes have been
read the request has been handed to `got_request` exactly once, with the fields of
the whole header and the `n` payload bytes, the channel is the one `got_request`
returns, and both are as when every read returns all it asked for. -/
theorem request_read_in_parts (cls : GVfsChannelClass) (env : RequestReaderEnvironment)
    (channel : GVfsChannel) (header payload : List Nat) (counts : List Nat)
    (hh : header.length = G_VFS_DAEMON_SOCKET_PROTOCOL_REQUEST_SIZE)
    (hn : (env.request header).data_len = payload.length)
    (hp : payload.length < 4294967296) (hm : ∀ n, (env.g_malloc n).length = n)
    (hv : valid_reads cls env (start_request_reader channel) (header ++ payload) counts =
      true) :
    counts.sum ≤ header.length + payload.length ∧
    (counts.sum < header.length →
      (request_read cls env channel (header ++ payload) counts).pending =
        some { callback := .command_read_cb, offset := counts.sum,
               count := header.length - counts.sum } ∧
      dispatched (request_read cls env channel (header ++ payload) counts).trace = [] ∧
      (request_read cls env channel (header ++ payload) counts).channel = some channel) ∧
    (header.length ≤ counts.sum → counts.sum < header.length + payload.length →
      (request_read cls env channel (header ++ payload) counts).pending =
        some { callback := .data_read_cb, offset := counts.sum - header.length,
               count := payload.length - (counts.sum - header.length) } ∧
      dispatched (request_read cls env channel (header ++ payload) counts).trace = [] ∧
      (request_read cls env channel (header ++ payload) counts).channel = some channel) ∧
    (counts.sum = header.length + payload.length →
      dispatched (request_read cls env channel (header ++ payload) counts).trace =
        [(env.request header, payload)] ∧
      (request_read cls env channel (header ++ payload) counts).channel =
        some (got_request cls channel (env.request header) payload) ∧
      (request_read cls env channel (header ++ payload) counts).pending =
        some { callback := .command_read_cb, offset := 0, count := header.length } ∧
      dispatched (request_read cls env channel (header ++ payload) counts).trace =
        dispatched (request_read cls env channel (header ++ payload)
          (whole_reads payload)).trace ∧
      (request_read cls env channel (header ++ payload) counts).channel =
        (request_read cls env channel (header ++ payload) (whole_reads payload)).channel) := by
  have hh' : header.length = 20 := hh
  have h0 : ReadProgress cls env channel header payload 0 (start_request_reader channel) :=
    Or.inl ⟨by omega, start_request_reader_header channel header⟩
  have h := read_progress_run cls env channel header payload hh' hn hp hm counts 0 _ h0 hv
  have hw := read_progress_run cls env channel header payload hh' hn hp hm
    (whole_reads payload) 0 _ h0 (whole_reads_valid cls env channel header payload hh' hn hp hm)
  have hwsum : 0 + (whole_reads payload).sum = 20 + payload.length := by
    unfold whole_reads
    split
    · simp only [List.sum_cons, List.sum_nil, G_VFS_DAEMON_SOCKET_PROTOCOL_REQUEST_SIZE]
      omega
    · simp only [List.sum_cons, List.sum_nil, G_VFS_DAEMON_SOCKET_PROTOCOL_REQUEST_SIZE]
      omega
  rw [hwsum] at hw
  rw [Nat.zero_add] at h
  simp only [List.drop_zero] at h hw
  have hwd : RequestDispatched cls env channel header payload
      (request_read cls env channel (header ++ payload) (whole_reads payload)) := by
    rcases hw with ⟨hk, _⟩ | ⟨_, hk, _⟩ | ⟨_, hd⟩
    · omega
    · omega
    · exact hd
  rw [hh']
  refine ⟨?_, ?_, ?_, ?_⟩
  · rcases h with ⟨hk, _⟩ | ⟨_, hk, _⟩ | ⟨hk, _⟩ <;> omega
  · intro hlt
    rcases h with ⟨_, hs⟩ | ⟨hk, _, _⟩ | ⟨hk, _⟩
    · exact ⟨hs.2.1, hs.2.2.1, hs.1⟩
    · omega
    · omega
  · intro h1 h2
    rcases h with ⟨hk, _⟩ | ⟨_, _, hs⟩ | ⟨hk, _⟩
    · omega
    · exact ⟨hs.2.1, hs.2.2.1, hs.1⟩
    · omega
  · intro heq
    rcases h with ⟨hk, _⟩ | ⟨_, hk, _⟩ | ⟨_, hd⟩
    · omega
    · omega
    · exact ⟨hd.2.2, hd.1, hd.2.1, by rw [hwd.2.2]; exact hd.2.2, by rw [hwd.1]; exact hd.1⟩

theorem request_read_in_parts_witness :
    dispatched (request_read example_class example_environment g_vfs_channel_init
        (example_request_header ++ [7, 8, 9]) [5, 15, 1, 2]).trace =
      [(example_environment.request example_request_header, [7, 8, 9])] ∧
    (request_read example_class example_environment g_vfs_channel_init
        (example_request_header ++ [7, 8, 9]) [5, 15, 1, 2]).channel =
      (request_read example_class example_environment g_vfs_channel_init
        (example_request_header ++ [7, 8, 9]) (whole_reads [7, 8, 9])).channel :=
  ⟨((request_read_in_parts example_class example_environment g_vfs_channel_init
      example_request_header [7, 8, 9] [5, 15, 1, 2] (by decide) (by decide) (by decide)
      (by intro n; simp [example_environment]) (by decide)).2.2.2 (by decide)).1,
   ((request_read_in_parts example_class example_environment g_vfs_channel_init
      example_request_header [7, 8, 9] [5, 15, 1, 2] (by decide) (by decide) (by decide)
      (by intro n; simp [example_environment]) (by decide)).2.2.2 (by decide)).2.2.2.2⟩

/-- C39 fails on the code: on a new channel, which holds no backend handle, an open
is outstanding when the connection is found closed (no close job is created then);
the open fails, and when its error reply completes `send_reply_cb` synthesizes a
close job although the backend handle is still empty. At connection-closed
detection the same channel state, without an outstanding job, gets no close job. -/
theorem close_job_after_reply_without_backend_handle :
    (channel_run example_open_class (example_failed_open.take 3)).current_job =
      some { type := .G_VFS_TYPE_JOB_OPEN_FOR_READ } ∧
    (channel_run example_open_class (example_failed_open.take 3)).backend_handle = none ∧
    (channel_run example_open_class example_failed_open).backend_handle = none ∧
    (channel_run example_open_class example_failed_open).current_job =
      some { type := .G_VFS_TYPE_JOB_CLOSE_READ } ∧
    (channel_run example_open_class example_failed_open).trace =
      [.handle_request 2 4 0 0 [],
       .job_source_new_job { type := .G_VFS_TYPE_JOB_OPEN_FOR_READ },
       .job_emit_finished (some { type := .G_VFS_TYPE_JOB_OPEN_FOR_READ }),
       .job_source_new_job { type := .G_VFS_TYPE_JOB_CLOSE_READ },
       .print "Sent reply\n"] ∧
    (g_vfs_channel_connection_closed example_open_class g_vfs_channel_init).current_job =
      none := by
  decide

/-- C40 fails on the code: the handler of `example_class` rejects the request, so
`got_request` sends the error reply with no outstanding job; when the write of its
three bytes completes, `send_reply_cb` has no job to mark finished and calls
`g_vfs_job_emit_finished` (and `g_object_unref`) on `NULL`. -/
theorem error_reply_completes_without_job :
    (got_request example_class g_vfs_channel_init example_rejected_request []).current_job =
      none ∧
    (got_request example_class g_vfs_channel_init example_rejected_request
      []).reply_stream.pending = some [1, 0, 13] ∧
    (channel_run example_class
        [.request example_rejected_request [], .write_complete 3]).trace =
      [.handle_request 1 5 0 0 [], .job_emit_finished none, .print "Sent reply\n"] := by
  decide

end Gvfs
